import Mathlib

/-! Snapshot lifecycle and merge orchestration (`fs_mgr/libsnapshot/snapshot.cpp`).

A shallow embedding of `SnapshotManager`.  The persisted files under the
metadata directory and the manager's cached fields form an explicit `World`
that every operation threads through.  The collaborators the manager only
talks to (device-mapper, the image manager, the snapuserd daemon, the super
metadata reader, the boot-control HAL, the file system's success or failure
on writes and removals) are an `Env` of answer tables indexed by a tick
counter: each external call reads the table at the current tick and advances
the tick, so the same call may be answered differently at different moments.
A `trace` of events records, in program order, the writes and the external
actions the temporal properties talk about.
-/

namespace Snapshot

/-! ## Data model -/

/-- Modelled from the spec: the `UpdateState` enumeration of the update-status
message (the `.proto` declaration is not part of the sources at hand). -/
inductive UpdateState
  | None
  | Initiated
  | Unverified
  | Merging
  | MergeNeedsReboot
  | MergeCompleted
  | MergeFailed
  | Cancelled
  deriving DecidableEq, Repr

/-- Modelled from the spec: the `MergePhase` enumeration of the update-status
message. -/
inductive MergePhase
  | NO_MERGE
  | FIRST_PHASE
  | SECOND_PHASE
  deriving DecidableEq, Repr

/-- Modelled from the spec: the per-partition `SnapshotState` enumeration. -/
inductive SnapshotState
  | NONE
  | CREATED
  | MERGING
  | MERGE_COMPLETED
  deriving DecidableEq, Repr

/-- Modelled from the spec: the `MergeFailureCode` enumeration, restricted to
the codes `snapshot.cpp` produces. -/
inductive MergeFailureCode
  | Ok
  | ReadStatus
  | GetTableInfo
  | UnknownTable
  | GetTableParams
  | ActivateNewTable
  | AcquireLock
  | ListSnapshots
  | WriteStatus
  | UnknownTargetType
  | QuerySnapshotStatus
  | ExpectedMergeTarget
  | UnmergedSectorsAfterCompletion
  | UnexpectedMergeState
  deriving DecidableEq, Repr

/-- Modelled from the spec: result of a cancellation attempt (declared in the
header, which is not part of the sources at hand). -/
inductive CancelResult
  | OK
  | ERROR
  | LIVE_SNAPSHOTS
  | NEEDS_MERGE
  deriving DecidableEq, Repr

/-- Modelled from the spec: `SnapshotManager::Slot`. -/
inductive Slot
  | Unknown
  | Source
  | Target
  deriving DecidableEq, Repr

/-- Modelled from the spec: `MetadataPartitionState` of a partition in the
super metadata. -/
inductive MetadataPartitionState
  | None
  | Flashed
  | Updated
  deriving DecidableEq, Repr

/-- Modelled from the spec: the boot-control merge status reported to the
bootloader. -/
inductive MergeStatus
  | NONE
  | UNKNOWN
  | SNAPSHOTTED
  | MERGING
  | CANCELLED
  deriving DecidableEq, Repr

/-- Modelled from the spec: device-mapper device states. -/
inductive DmDeviceState
  | INVALID
  | SUSPENDED
  | ACTIVE
  deriving DecidableEq, Repr

/-- Modelled from the spec: the persisted global status message
(`SnapshotUpdateStatus`), with the fields `snapshot.cpp` reads or writes.
Absent fields of a protobuf message read as their defaults. -/
structure SnapshotUpdateStatus where
  state : UpdateState := UpdateState.None
  using_snapuserd : Bool := false
  sectors_allocated : Nat := 0
  total_sectors : Nat := 0
  metadata_sectors : Nat := 0
  merge_phase : MergePhase := MergePhase.NO_MERGE
  merge_failure_code : MergeFailureCode := MergeFailureCode.Ok
  source_build_fingerprint : String := ""
  userspace_snapshots : Bool := false
  io_uring_enabled : Bool := false
  legacy_snapuserd : Bool := false
  o_direct : Bool := false
  skip_verification : Bool := false
  cow_op_merge_size : Nat := 0
  num_worker_threads : Nat := 0
  verify_block_size : Nat := 0
  num_verification_threads : Nat := 0
  deriving DecidableEq, Repr

/-- Modelled from the spec: the persisted per-partition message
(`SnapshotStatus`). -/
structure SnapshotStatus where
  name : String := ""
  state : SnapshotState := SnapshotState.NONE
  device_size : Nat := 0
  snapshot_size : Nat := 0
  cow_partition_size : Nat := 0
  cow_file_size : Nat := 0
  sectors_allocated : Nat := 0
  metadata_sectors : Nat := 0
  using_snapuserd : Bool := false
  compression_algorithm : String := ""
  compression_factor : Nat := 0
  read_ahead_size : Nat := 0
  enable_threading : Bool := false
  batched_writes : Bool := false
  old_partition_size : Nat := 0
  estimated_cow_size : Nat := 0
  estimated_ops_buffer_size : Nat := 0
  deriving DecidableEq, Repr

/-- The pair returned by the merge checks: `MergeResult(state, failure_code =
Ok)`. -/
structure MergeResult where
  state : UpdateState
  failure_code : MergeFailureCode := MergeFailureCode.Ok
  deriving DecidableEq, Repr

/-- Status text of a dm-snapshot target as parsed by
`DmTargetSnapshot::ParseStatusText`. -/
structure DmSnapshotStatus where
  sectors_allocated : Nat := 0
  total_sectors : Nat := 0
  metadata_sectors : Nat := 0
  error : String := ""
  deriving DecidableEq, Repr

/-- One row of a device-mapper table as the manager sees it: the target type,
the parse of its status text (`none` when `ParseStatusText` fails) and whether
`GetDevicesFromParams` can read its parameters. -/
structure TargetInfo where
  targetType : String
  status : Option DmSnapshotStatus
  paramsOk : Bool
  /-- What `IsOverflowSnapshot()` answers for the row. -/
  overflow : Bool := false
  deriving DecidableEq, Repr

/-- Modelled from the spec: the two modes of a dm-snapshot target, `Snapshot`
(persistent, read-only overlay) and `Snapshot-Merge`. -/
inductive SnapshotStorageMode
  | Persistent
  | Merge
  deriving DecidableEq, Repr

/-- Modelled from the spec: the planner output `CreateSnapshot` copies into
the status (the fields of `PartitionCowCreator` it reads; the header is not
part of the sources at hand). -/
structure PartitionCowCreator where
  using_snapuserd : Bool := false
  compression_algorithm : String := ""
  compression_factor : Nat := 0
  read_ahead_size : Nat := 0
  enable_threading : Bool := false
  batched_writes : Bool := false
  deriving DecidableEq, Repr

/-- The super metadata as far as the manager looks at it: the partitions with
their `LP_PARTITION_ATTR_UPDATED` bit. -/
abbrev LpMetadata := List (String × Bool)

/-! ## Persisted files, manager fields, environment -/

/-- Contents of `<metadata_dir>/state`. -/
inductive StateFile
  | missing
  | encoded (status : SnapshotUpdateStatus)
  | text (contents : String)
  deriving DecidableEq, Repr

/-- An entry of `<metadata_dir>/snapshots`: its name, whether `d_type` is
`DT_REG`, and what parsing the file as a `SnapshotStatus` yields. -/
structure DirEnt where
  name : String
  isReg : Bool
  content : Option SnapshotStatus
  deriving DecidableEq, Repr

/-- The files the manager persists under the metadata directory. -/
structure Files where
  stateFile : StateFile := StateFile.missing
  snapshots : List DirEnt := []
  bootIndicator : Option String := none
  rollbackIndicator : Bool := false
  forwardMergeIndicator : Bool := false
  oldPartitionMetadata : Bool := false
  bootWithoutSlotSwitch : Bool := false
  snapuserdFromSystem : Bool := false
  deriving DecidableEq, Repr

/-- The manager's fields that steer control flow. -/
structure Manager where
  is_snapshot_userspace_ : Option Bool := none
  is_legacy_snapuserd_ : Option Bool := none
  snapuserd_client_ : Bool := false
  images_ : Bool := false
  use_first_stage_snapuserd_ : Bool := false
  deriving DecidableEq, Repr

/-- Events recorded in program order. -/
inductive Event
  | setBootControlMergeStatus (status : MergeStatus) (ok : Bool)
  | writeGlobal (status : SnapshotUpdateStatus) (ok : Bool)
  | writeSnapshot (status : SnapshotStatus) (ok : Bool)
  | switchToMerge (name : String) (status : SnapshotStatus) (dir : List DirEnt)
      (ok : Bool)
  | collapse (name : String)
  | deleteSnapshot (name : String)
  | detachSnapuserd
  | createSnapshotDevice (name : String) (sectors : Nat) (base_device cow_device : String)
      (mode : SnapshotStorageMode) (ok : Bool)
  | createDmUserDevice (name misc_name : String) (sectors : Nat) (ok : Bool)
  | createLogicalPartition (device_name : String) (ok : Bool)
  | setSlotAsUnbootable (slot : Nat)
  | setActiveBootSlot (slot : Nat)
  | writeRollbackIndicator (ok : Bool)
  deriving DecidableEq, Repr

/-- The state every operation threads through. -/
structure World where
  fs : Files := {}
  mem : Manager := {}
  tick : Nat := 0
  trace : List Event := []
  deriving DecidableEq, Repr

/-- The collaborators.  Fields taking a `Nat` are answer tables indexed by
the tick at which the call is made. -/
structure Env where
  slotSuffix : String
  otherSlotSuffix : String
  isRecovery : Bool
  isTestDevice : Bool
  /-- Whether the build defines `LIBSNAPSHOT_USE_HAL`. -/
  useHal : Bool
  /-- `SlotNumberForSlotSuffix` of liblp. -/
  slotNumberForSlotSuffix : String → Nat
  /-- `ReadMetadata(opener, super_device, slot)`: the super metadata of a
  slot, `none` when it cannot be read. -/
  readMetadata : Nat → Nat → Option LpMetadata
  lockOk : Nat → Bool
  opendirOk : Nat → Bool
  writeFileOk : Nat → Bool
  removeFileOk : Nat → Bool
  setMergeStatusOk : Nat → Bool
  dmGetState : Nat → String → DmDeviceState
  dmGetTableStatus : Nat → String → Option (List TargetInfo)
  dmGetTableInfo : Nat → String → Option (List TargetInfo)
  dmLoadTableAndActivate : Nat → String → Bool
  dmDeleteDeviceIfExists : Nat → String → Bool
  createDmTable : Nat → String → Bool
  waitForFileDeleted : Nat → String → Bool
  openImageManager : Nat → Bool
  unmapImageIfExists : Nat → String → Bool
  backingImageExists : Nat → String → Bool
  deleteBackingImage : Nat → String → Bool
  isImageMapped : Nat → String → Bool
  removeAllImages : Nat → Bool
  disableAllImages : Nat → Bool
  snapuserdStart : Nat → Bool
  snapuserdConnect : Nat → Bool
  snapuserdInitiateMerge : Nat → String → Bool
  snapuserdQuerySnapshotStatus : Nat → String → String
  snapuserdWaitForDeviceDelete : Nat → String → Bool
  /-- The property `ro.build.fingerprint`. -/
  buildFingerprint : String
  /-- What an uninitialised `DmTargetSnapshot::Status` local happens to hold
  when a query fails before filling it in. -/
  indeterminateStatus : Nat → DmSnapshotStatus
  /-- Opening a block device and `get_block_device_size`: `none` when the
  open fails, otherwise the size in bytes (0 when it cannot be determined). -/
  blockDeviceSize : Nat → String → Option Nat := fun _ _ => none
  /-- Opening and parsing a COW file: `none` when that fails, otherwise the
  device size in bytes its header implies. -/
  cowDeviceSize : Nat → String → Option Nat := fun _ _ => none
  /-- `DeviceMapper::CreateDevice(name, table, path, timeout)`. -/
  dmCreateDevice : Nat → String → Bool := fun _ _ => true
  /-- `WaitForDevice(path, timeout)`. -/
  waitForDevice : Nat → String → Bool := fun _ _ => true
  /-- The three-argument `InitDmUserCow` of the daemon client: the number of
  base sectors, 0 on failure. -/
  snapuserdInitDmUserCowSectors : Nat → String → Nat := fun _ _ => 0
  /-- The four-argument `InitDmUserCow` of the daemon client. -/
  snapuserdInitDmUserCow : Nat → String → Bool := fun _ _ => true
  snapuserdAttachDmUser : Nat → String → Bool := fun _ _ => true
  /-- `device_->IsTempMetadata()`. -/
  isTempMetadata : Bool := false
  /-- `device_->IsFirstStageInit()`. -/
  isFirstStageInit : Bool := false
  /-- `CleanupScratchOtaMetadataIfPresent()`; it acts on the scratch partition
  only, which holds none of the files of `Files`. -/
  cleanupScratchOtaMetadata : Nat → Bool := fun _ => true
  /-- `std::chrono::steady_clock::now()`, in nanoseconds. -/
  steadyClockNow : Nat → Nat := fun _ => 0
  /-- `AutoUnmountDevice::New(device_->GetMetadataDir())`: whether a mount was
  obtained. -/
  mountMetadata : Nat → Bool := fun _ => true
  /-- `access(path, F_OK)` failing with an error other than `ENOENT`. -/
  accessError : Nat → Bool := fun _ => false
  /-- `CreateLogicalPartitionParams::InitDefaults`. -/
  initDefaults : Nat → String → Bool := fun _ _ => true
  /-- `CreateLogicalPartition(params, &path)`, by device name: the path of the
  new device, `none` on failure. -/
  createLogicalPartition : Nat → String → Option String :=
    fun _ name => some ("/dev/block/mapper/" ++ name)
  /-- `DeviceMapper::GetDeviceString`. -/
  dmGetDeviceString : Nat → String → Option String := fun _ name => some ("dm:" ++ name)
  /-- `DeviceMapper::GetDmDevicePathByName`. -/
  dmGetDmDevicePathByName : Nat → String → Option String :=
    fun _ name => some ("/dev/block/mapper/" ++ name)
  /-- `IImageManager::GetMappedImageDevice`. -/
  getMappedImageDevice : Nat → String → Option String :=
    fun _ name => some ("/dev/block/loop/" ++ name)
  /-- `IImageManager::MapImageWithDeviceMapper`. -/
  mapImageWithDeviceMapper : Nat → String → Bool := fun _ _ => true
  /-- `IImageManager::MapImageDevice`. -/
  mapImageDevice : Nat → String → Bool := fun _ _ => true
  /-- `ReadFromImageFile(GetOldPartitionMetadataPath())`, the file being
  there. -/
  readOldPartitionMetadata : Nat → Bool := fun _ => true
  /-- The name of the group a partition of the super metadata belongs to. -/
  partitionGroupName : String → String := fun _ => "default"
  /-- The field `num_extents` of a partition of the super metadata. -/
  partitionNumExtents : String → Nat := fun _ => 1
  /-- The constant `kCowGroupName`. -/
  cowGroupName : String := "cow"
  /-- The constant `Basename(kOtaMetadataMount)`. -/
  otaMetadataPartition : String := "scratch_ota_metadata_super"
  /-- `device_->SetSlotAsUnbootable`. -/
  setSlotAsUnbootable : Nat → Nat → Bool := fun _ _ => true
  /-- `device_->SetActiveBootSlot`. -/
  setActiveBootSlot : Nat → Nat → Bool := fun _ _ => true

/-- Advance the tick after an external call. -/
def World.next (w : World) : World := { w with tick := w.tick + 1 }

/-- Make an external call: read the answer table at the current tick. -/
def World.ask {α : Type} (w : World) (f : Nat → α) : α × World := (f w.tick, w.next)

/-- Append an event to the trace. -/
def World.log (w : World) (ev : Event) : World := { w with trace := w.trace ++ [ev] }

/-! ## Reading the persisted state -/

/-- `android::base::EndsWith`. -/
def EndsWith (s suffix : String) : Bool := suffix.data.isSuffixOf s.data

/-- `UpdateStateFromString` (snapshot.cpp:3134). -/
def UpdateStateFromString (contents : String) : UpdateState :=
  if decide (contents = "") || decide (contents = "none") then UpdateState.None
  else if contents = "initiated" then UpdateState.Initiated
  else if contents = "unverified" then UpdateState.Unverified
  else if contents = "merging" then UpdateState.Merging
  else if contents = "merge-completed" then UpdateState.MergeCompleted
  else if contents = "merge-needs-reboot" then UpdateState.MergeNeedsReboot
  else if contents = "merge-failed" then UpdateState.MergeFailed
  else if contents = "cancelled" then UpdateState.Cancelled
  else UpdateState.None

/-- `SnapshotManager::ReadSnapshotUpdateStatus` (snapshot.cpp:3200): a missing
file reads as state `None`; a file that does not parse as the structured
encoding falls back to the legacy text. -/
def ReadSnapshotUpdateStatus (w : World) : SnapshotUpdateStatus :=
  match w.fs.stateFile with
  | StateFile.missing => { state := UpdateState.None }
  | StateFile.encoded status => status
  | StateFile.text contents => { state := UpdateStateFromString contents }

/-- `SnapshotManager::ReadUpdateState` (snapshot.cpp:3195). -/
def ReadUpdateState (w : World) : UpdateState := (ReadSnapshotUpdateStatus w).state

/-- `SnapshotManager::ReadUpdateSourceSlotSuffix` (snapshot.cpp:308). -/
def ReadUpdateSourceSlotSuffix (w : World) : String :=
  match w.fs.bootIndicator with
  | none => ""
  | some contents => contents

/-- `SnapshotManager::GetCurrentSlot` (snapshot.cpp:317). -/
def GetCurrentSlot (e : Env) (w : World) : Slot :=
  let contents := ReadUpdateSourceSlotSuffix w
  if contents = "" then Slot.Unknown
  else if e.slotSuffix = contents then Slot.Source
  else Slot.Target

/-- `SnapshotManager::IsSnapshotWithoutSlotSwitch` (snapshot.cpp:2210). -/
def IsSnapshotWithoutSlotSwitch (w : World) : Bool := w.fs.bootWithoutSlotSwitch

/-- `SnapshotManager::IsCancelUpdateSafe(UpdateState)` (snapshot.cpp:280). -/
def IsCancelUpdateSafe (e : Env) (w : World) (state : UpdateState) : CancelResult :=
  if IsSnapshotWithoutSlotSwitch w then CancelResult.LIVE_SNAPSHOTS
  else
    match state with
    | UpdateState.Merging => CancelResult.NEEDS_MERGE
    | UpdateState.MergeNeedsReboot => CancelResult.NEEDS_MERGE
    | UpdateState.MergeFailed => CancelResult.NEEDS_MERGE
    | UpdateState.Unverified =>
      if GetCurrentSlot e w = Slot.Target then CancelResult.LIVE_SNAPSHOTS
      else CancelResult.OK
    | UpdateState.None => CancelResult.OK
    | UpdateState.Initiated => CancelResult.OK
    | UpdateState.Cancelled => CancelResult.OK
    | UpdateState.MergeCompleted => CancelResult.ERROR

/-- `SnapshotManager::DecideMergePhase` (snapshot.cpp:4603). -/
def DecideMergePhase (status : SnapshotStatus) : MergePhase :=
  if status.using_snapuserd && decide (status.device_size < status.old_partition_size) then
    MergePhase.FIRST_PHASE
  else MergePhase.SECOND_PHASE

/-! ## Writing the persisted state -/

/-- The boot-control merge status `WriteSnapshotUpdateStatus` derives from the
state (snapshot.cpp:3273). -/
def mergeStatusOf (state : UpdateState) : MergeStatus :=
  match state with
  | UpdateState.None => MergeStatus.NONE
  | UpdateState.MergeNeedsReboot => MergeStatus.NONE
  | UpdateState.MergeCompleted => MergeStatus.NONE
  | UpdateState.Initiated => MergeStatus.NONE
  | UpdateState.Unverified => MergeStatus.SNAPSHOTTED
  | UpdateState.Merging => MergeStatus.MERGING
  | UpdateState.MergeFailed => MergeStatus.MERGING
  | UpdateState.Cancelled => MergeStatus.UNKNOWN

/-- `device_->SetBootControlMergeStatus`. -/
def SetBootControlMergeStatus (e : Env) (ms : MergeStatus) (w : World) : Bool × World :=
  let (ok, w) := w.ask e.setMergeStatusOk
  (ok, w.log (Event.setBootControlMergeStatus ms ok))

/-- `WriteStringToFileAtomic(contents, GetStateFilePath())`: on success the
state file holds the encoding of `status`, on failure it is untouched. -/
def writeStateFile (e : Env) (status : SnapshotUpdateStatus) (w : World) : Bool × World :=
  let (ok, w) := w.ask e.writeFileOk
  let w := w.log (Event.writeGlobal status ok)
  if ok then (true, { w with fs := { w.fs with stateFile := StateFile.encoded status } })
  else (false, w)

/-- `SnapshotManager::WriteSnapshotUpdateStatus` (snapshot.cpp:3261).
Serialising the message does not fail. -/
def WriteSnapshotUpdateStatus (e : Env) (status : SnapshotUpdateStatus) (w : World) :
    Bool × World :=
  let merge_status := mergeStatusOf status.state
  let set_before_write :=
    decide (merge_status = MergeStatus.SNAPSHOTTED) || decide (merge_status = MergeStatus.MERGING)
  if e.useHal then
    if set_before_write then
      let (ok, w) := SetBootControlMergeStatus e merge_status w
      if !ok then (false, w)
      else writeStateFile e status w
    else
      let (ok, w) := writeStateFile e status w
      if !ok then (false, w)
      else
        let (ok2, w) := SetBootControlMergeStatus e merge_status w
        if !ok2 then (false, w) else (true, w)
  else writeStateFile e status w

/-- `SnapshotManager::WriteUpdateState` (snapshot.cpp:3225-3257): the status
that is handed to `WriteSnapshotUpdateStatus`. -/
def statusToWrite (e : Env) (state : UpdateState) (failure_code : MergeFailureCode)
    (w : World) : SnapshotUpdateStatus :=
  let status : SnapshotUpdateStatus := { state := state }
  let status :=
    match state with
    | UpdateState.MergeFailed => { status with merge_failure_code := failure_code }
    | UpdateState.Initiated => { status with source_build_fingerprint := e.buildFingerprint }
    | _ => status
  if !(decide (state = UpdateState.Initiated) || decide (state = UpdateState.None)) then
    let old_status := ReadSnapshotUpdateStatus w
    { status with
      using_snapuserd := old_status.using_snapuserd
      source_build_fingerprint := old_status.source_build_fingerprint
      merge_phase := old_status.merge_phase
      userspace_snapshots := old_status.userspace_snapshots
      io_uring_enabled := old_status.io_uring_enabled
      legacy_snapuserd := old_status.legacy_snapuserd
      o_direct := old_status.o_direct
      skip_verification := old_status.skip_verification
      cow_op_merge_size := old_status.cow_op_merge_size
      num_worker_threads := old_status.num_worker_threads
      verify_block_size := old_status.verify_block_size
      num_verification_threads := old_status.num_verification_threads }
  else status

/-- `SnapshotManager::WriteUpdateState` (snapshot.cpp:3223). -/
def WriteUpdateState (e : Env) (state : UpdateState) (failure_code : MergeFailureCode)
    (w : World) : Bool × World :=
  WriteSnapshotUpdateStatus e (statusToWrite e state failure_code w) w

/-- The directory entry with a given name, if any. -/
def findEnt (dir : List DirEnt) (name : String) : Option DirEnt :=
  dir.find? (fun d => d.name == name)

/-- The directory after a rename of a freshly written status file onto
`snapshots/<status.name>`. -/
def putEnt (dir : List DirEnt) (status : SnapshotStatus) : List DirEnt :=
  let ent : DirEnt := { name := status.name, isReg := true, content := some status }
  if dir.any (fun d => d.name == status.name) then
    dir.map (fun d => if d.name == status.name then ent else d)
  else dir ++ [ent]

/-- The directory after unlinking `snapshots/<name>`. -/
def removeEnt (dir : List DirEnt) (name : String) : List DirEnt :=
  dir.filter (fun d => !(d.name == name))

/-- Opening and parsing `snapshots/<name>` in a given directory: fails when
there is no such entry, when the entry is not a regular file (a directory or,
under `O_NOFOLLOW`, a symbolic link cannot be read as a message) or when its
contents do not parse; a stored name that differs from the file key is
repaired. -/
def readStatusFile (dir : List DirEnt) (name : String) : Option SnapshotStatus :=
  match findEnt dir name with
  | none => none
  | some d =>
    if !d.isReg then none
    else
      match d.content with
      | none => none
      | some status =>
        if status.name ≠ name then some { status with name := name } else some status

/-- `SnapshotManager::ReadSnapshotStatus` (snapshot.cpp:3322). -/
def ReadSnapshotStatus (w : World) (name : String) : Option SnapshotStatus :=
  readStatusFile w.fs.snapshots name

/-- `SnapshotManager::WriteSnapshotStatus` (snapshot.cpp:3346).  The
`CHECK(!status.name().empty())` aborts the process: nothing is written. -/
def WriteSnapshotStatus (e : Env) (status : SnapshotStatus) (w : World) : Bool × World :=
  if status.name = "" then (false, w)
  else
    let (ok, w) := w.ask e.writeFileOk
    let w := w.log (Event.writeSnapshot status ok)
    if ok then (true, { w with fs := { w.fs with snapshots := putEnt w.fs.snapshots status } })
    else (false, w)

/-- `SnapshotManager::ListSnapshots` (snapshot.cpp:2398), the loop over
`readdir`: system and product partitions are inserted at the front. -/
def listLoop (suffix : String) : List DirEnt → List String → List String
  | [], out => out
  | d :: rest, out =>
    if !d.isReg then listLoop suffix rest out
    else if !decide (suffix = "") && !EndsWith d.name suffix then listLoop suffix rest out
    else if d.name = "system_a" || d.name = "system_b" || d.name = "product_a" ||
        d.name = "product_b" then
      listLoop suffix rest (d.name :: out)
    else listLoop suffix rest (out ++ [d.name])

/-- `SnapshotManager::ListSnapshots` (snapshot.cpp:2398): `none` when
`opendir` fails. -/
def ListSnapshots (e : Env) (suffix : String) (out : List String) (w : World) :
    Option (List String) × World :=
  let (ok, w) := w.ask e.opendirOk
  if !ok then (none, w)
  else (some (listLoop suffix w.fs.snapshots out), w)

/-! ## Manager helpers -/

/-- `SnapshotManager::EnsureImageManager` (snapshot.cpp:3368). -/
def EnsureImageManager (e : Env) (w : World) : Bool × World :=
  if w.mem.images_ then (true, w)
  else
    let (ok, w) := w.ask e.openImageManager
    if !ok then (false, w)
    else (true, { w with mem := { w.mem with images_ := true } })

/-- `SnapshotManager::EnsureSnapuserdConnected` (snapshot.cpp:3379). -/
def EnsureSnapuserdConnected (e : Env) (w : World) : Bool × World :=
  if w.mem.snapuserd_client_ then (true, w)
  else
    let (started, w) :=
      if !w.mem.use_first_stage_snapuserd_ then w.ask e.snapuserdStart else (true, w)
    if !started then (false, w)
    else
      let (ok, w) := w.ask e.snapuserdConnect
      if !ok then (false, w)
      else (true, { w with mem := { w.mem with snapuserd_client_ := true } })

/-- `SnapshotManager::IsLegacySnapuserdPostReboot` (snapshot.cpp:2336). -/
def IsLegacySnapuserdPostReboot (e : Env) (w : World) : Bool × World :=
  if GetCurrentSlot e w = Slot.Target then
    if w.fs.snapuserdFromSystem then
      (false, { w with mem := { w.mem with is_snapshot_userspace_ := some true } })
    else if w.mem.is_legacy_snapuserd_ = some true then (true, w)
    else (false, w)
  else (false, w)

/-- `SnapshotManager::UpdateUsesUserSnapshots(LockedFile*)` (snapshot.cpp:2384). -/
def UpdateUsesUserSnapshots (e : Env) (w : World) : Bool × World :=
  let w :=
    if w.mem.is_snapshot_userspace_.isNone then
      let update_status := ReadSnapshotUpdateStatus w
      { w with mem := { w.mem with
          is_snapshot_userspace_ := some update_status.userspace_snapshots
          is_legacy_snapuserd_ := some update_status.legacy_snapuserd } }
    else w
  let (legacy, w) := IsLegacySnapuserdPostReboot e w
  if legacy then (false, w)
  else (w.mem.is_snapshot_userspace_.getD false, w)

/-- `SnapshotManager::UpdateUsesCompression(LockedFile*)` (snapshot.cpp:2220). -/
def UpdateUsesCompression (w : World) : Bool := (ReadSnapshotUpdateStatus w).using_snapuserd

/-- `GetCowName` (snapshot.cpp:147). -/
def GetCowName (snapshot_name : String) : String := snapshot_name ++ "-cow"

/-- `GetCowImageDeviceName` (snapshot.cpp:181). -/
def GetCowImageDeviceName (snapshot_name : String) : String := snapshot_name ++ "-cow-img"

/-- `GetBaseDeviceName` (snapshot.cpp:185). -/
def GetBaseDeviceName (partition_name : String) : String := partition_name ++ "-base"

/-- `GetSourceDeviceName` (snapshot.cpp:189). -/
def GetSourceDeviceName (partition_name : String) : String := partition_name ++ "-src"

/-- `GetDmUserCowName(name, GetSnapshotDriver(lock))` (snapshot.cpp:151, 159). -/
def GetDmUserCowName (e : Env) (snapshot_name : String) (w : World) : String × World :=
  let (user, w) := UpdateUsesUserSnapshots e w
  if user then (snapshot_name, w) else (snapshot_name ++ "-user-cow", w)

/-- `SnapshotManager::DeleteDeviceIfExists` (snapshot.cpp:4649): the retry
loop against the wall clock is one answer of the device-mapper. -/
def DeleteDeviceIfExists (e : Env) (name : String) (w : World) : Bool × World :=
  w.ask (fun t => e.dmDeleteDeviceIfExists t name)

/-- `RemoveFileIfExists` on one of the indicator paths or a status file: the
answer says whether the removal went through. -/
def RemoveFileIfExists (e : Env) (w : World) : Bool × World := w.ask e.removeFileOk

/-- `SnapshotManager::UnmapDmUserDevice` (snapshot.cpp:2924). -/
def UnmapDmUserDevice (e : Env) (dm_user_name : String) (w : World) : Bool × World :=
  let (st, w) := w.ask (fun t => e.dmGetState t dm_user_name)
  if st = DmDeviceState.INVALID then (true, w)
  else
    let (ok, w) := DeleteDeviceIfExists e dm_user_name w
    if !ok then (false, w)
    else
      let (conn, w) := EnsureSnapuserdConnected e w
      let (waited, w) :=
        if conn then w.ask (fun t => e.snapuserdWaitForDeviceDelete t dm_user_name)
        else (true, w)
      if !waited then (false, w)
      else
        let (gone, w) := w.ask (fun t => e.waitForFileDeleted t ("/dev/dm-user/" ++ dm_user_name))
        if !gone then (false, w) else (true, w)

/-- `SnapshotManager::UnmapCowDevices` (snapshot.cpp:2900). -/
def UnmapCowDevices (e : Env) (name : String) (w : World) : Bool × World :=
  let (img, w) := EnsureImageManager e w
  if !img then (false, w)
  else
    let (legacyDaemon, w) :=
      if UpdateUsesCompression w then
        let (user, w) := UpdateUsesUserSnapshots e w
        (!user, w)
      else (false, w)
    let (ok, w) :=
      if legacyDaemon then
        let (dm_user_name, w) := GetDmUserCowName e name w
        UnmapDmUserDevice e dm_user_name w
      else (true, w)
    if !ok then (false, w)
    else
      let (ok, w) := DeleteDeviceIfExists e (GetCowName name) w
      if !ok then (false, w)
      else
        let (ok, w) := w.ask (fun t => e.unmapImageIfExists t (GetCowImageDeviceName name))
        if !ok then (false, w) else (true, w)

/-- `SnapshotManager::DeleteSnapshot` (snapshot.cpp:801). -/
def DeleteSnapshot (e : Env) (name : String) (w : World) : Bool × World :=
  let w := w.log (Event.deleteSnapshot name)
  let (img, w) := EnsureImageManager e w
  if !img then (false, w)
  else
    let (ok, w) := UnmapCowDevices e name w
    if !ok then (false, w)
    else if e.isRecovery then (true, w)
    else
      let (exists_, w) := w.ask (fun t => e.backingImageExists t (GetCowImageDeviceName name))
      let (ok, w) :=
        if exists_ then w.ask (fun t => e.deleteBackingImage t (GetCowImageDeviceName name))
        else (true, w)
      if !ok then (false, w)
      else
        let (ok, w) := RemoveFileIfExists e w
        if !ok then (false, w)
        else
          let w := { w with fs := { w.fs with snapshots := removeEnt w.fs.snapshots name } }
          let (_, w) := RemoveFileIfExists e w
          (true, w)

/-! ## Device-mapper queries -/

/-- Which table `GetSingleTarget` asks for. -/
inductive TableQuery
  | Table
  | Status
  deriving DecidableEq, Repr

/-- `SnapshotManager::GetSingleTarget` (snapshot.cpp:1058). -/
def GetSingleTarget (e : Env) (dm_name : String) (query : TableQuery) (w : World) :
    Option TargetInfo × World :=
  let (st, w) := w.ask (fun t => e.dmGetState t dm_name)
  if st = DmDeviceState.INVALID then (none, w)
  else
    let (targets, w) :=
      match query with
      | TableQuery.Status => w.ask (fun t => e.dmGetTableStatus t dm_name)
      | TableQuery.Table => w.ask (fun t => e.dmGetTableInfo t dm_name)
    match targets with
    | none => (none, w)
    | some [target] => (some target, w)
    | some _ => (none, w)

/-- `SnapshotManager::IsSnapshotDevice` (snapshot.cpp:1083): the target when
the device is a `user`, `snapshot` or `snapshot-merge` device. -/
def IsSnapshotDevice (e : Env) (dm_name : String) (w : World) : Option TargetInfo × World :=
  let (target, w) := GetSingleTarget e dm_name TableQuery.Status w
  match target with
  | none => (none, w)
  | some snap_target =>
    if snap_target.targetType ≠ "user" ∧ snap_target.targetType ≠ "snapshot" ∧
        snap_target.targetType ≠ "snapshot-merge" then (none, w)
    else (some snap_target, w)

/-- `SnapshotManager::QuerySnapshotStatus` (snapshot.cpp:1127): success flag,
target type and the status left in the caller's out-parameter (whatever it
held when the parse did not run or failed). -/
def QuerySnapshotStatus (e : Env) (dm_name : String) (w : World) :
    (Bool × String × DmSnapshotStatus) × World :=
  let garbage := e.indeterminateStatus w.tick
  let (target, w) := IsSnapshotDevice e dm_name w
  match target with
  | none => ((false, "", garbage), w)
  | some t =>
    match t.status with
    | none => ((false, "", garbage), w)
    | some st =>
      if st.error ≠ "" then ((false, t.targetType, st), w)
      else ((true, t.targetType, st), w)

/-- `SnapshotManager::ReadCurrentMetadata` (snapshot.cpp:1930). -/
def ReadCurrentMetadata (e : Env) (w : World) : Option LpMetadata × World :=
  w.ask (fun t => e.readMetadata t (e.slotNumberForSlotSuffix e.slotSuffix))

/-- `SnapshotManager::GetMetadataPartitionState` (snapshot.cpp:1942). -/
def GetMetadataPartitionState (metadata : LpMetadata) (name : String) :
    MetadataPartitionState :=
  match metadata.find? (fun p => p.1 == name) with
  | none => MetadataPartitionState.None
  | some partition =>
    if partition.2 then MetadataPartitionState.Updated else MetadataPartitionState.Flashed

/-! ## Switching to merge targets -/

/-- `SnapshotManager::RewriteSnapshotDeviceTable` (snapshot.cpp:1030). -/
def RewriteSnapshotDeviceTable (e : Env) (name : String) (w : World) :
    MergeFailureCode × World :=
  let (old_targets, w) := w.ask (fun t => e.dmGetTableInfo t name)
  match old_targets with
  | none => (MergeFailureCode.GetTableInfo, w)
  | some [target] =>
    if target.targetType ≠ "snapshot" then (MergeFailureCode.UnknownTable, w)
    else if !target.paramsOk then (MergeFailureCode.GetTableParams, w)
    else
      let (ok, w) := w.ask (fun t => e.dmLoadTableAndActivate t name)
      if !ok then (MergeFailureCode.ActivateNewTable, w) else (MergeFailureCode.Ok, w)
  | some _ => (MergeFailureCode.UnknownTable, w)

/-- The backend half of `SwitchSnapshotToMerge` (snapshot.cpp:994-1011): tell
the daemon to merge, or rewrite the dm-snapshot table. -/
def switchBackend (e : Env) (name : String) (w : World) : MergeFailureCode × World :=
  let (user, w) := UpdateUsesUserSnapshots e w
  if user then
    let (conn, w) := EnsureSnapuserdConnected e w
    if conn then
      let (ok, w) := w.ask (fun t => e.snapuserdInitiateMerge t name)
      if !ok then (MergeFailureCode.UnknownTable, w) else (MergeFailureCode.Ok, w)
    else (MergeFailureCode.UnknownTable, w)
  else RewriteSnapshotDeviceTable e name w

/-- The accounting half of `SwitchSnapshotToMerge` (snapshot.cpp:1015-1022):
with the kernel driver the sector counts of the status are refreshed from the
device, from whatever the out-parameter holds when the query fails. -/
def refreshSectors (e : Env) (name : String) (status : SnapshotStatus) (w : World) :
    SnapshotStatus × World :=
  let (user, w) := UpdateUsesUserSnapshots e w
  if !user then
    let (q, w) := QuerySnapshotStatus e name w
    ({ status with sectors_allocated := q.2.2.sectors_allocated
                   metadata_sectors := q.2.2.metadata_sectors }, w)
  else (status, w)

/-- `SnapshotManager::SwitchSnapshotToMerge` (snapshot.cpp:984).  The event
records the status read, the directory at that moment and whether the backend
switched. -/
def SwitchSnapshotToMerge (e : Env) (name : String) (w : World) : MergeFailureCode × World :=
  match ReadSnapshotStatus w name with
  | none => (MergeFailureCode.ReadStatus, w)
  | some status =>
    let dir := w.fs.snapshots
    let (code, w) := switchBackend e name w
    let w := w.log (Event.switchToMerge name status dir (decide (code = MergeFailureCode.Ok)))
    if code ≠ MergeFailureCode.Ok then (code, w)
    else
      let status := { status with state := SnapshotState.MERGING }
      let (status, w) := refreshSectors e name status w
      let (_, w) := WriteSnapshotStatus e status w
      (MergeFailureCode.Ok, w)

/-! ## Completing a merge -/

/-- `CollapseSnapshotDevice` (snapshot.cpp:1638-1656): with the kernel driver
the device must be a single `snapshot-merge` target with readable
parameters. -/
def verifyMergeTarget (e : Env) (name : String) (w : World) : Bool × World :=
  let (user, w) := UpdateUsesUserSnapshots e w
  if !user then
    let (target, w) := GetSingleTarget e name TableQuery.Table w
    match target with
    | none => (false, w)
    | some t =>
      if t.targetType ≠ "snapshot-merge" then (false, w)
      else if !t.paramsOk then (false, w)
      else (true, w)
  else (true, w)

/-- `CollapseSnapshotDevice` (snapshot.cpp:1683-1698): with the kernel driver
and a snapuserd-backed snapshot, the dm-user device is unmapped (best
effort). -/
def unmapLegacyDmUser (e : Env) (name : String) (status : SnapshotStatus) (w : World) :
    World :=
  let (user, w) := UpdateUsesUserSnapshots e w
  if !user then
    if status.using_snapuserd then
      let (dm_user_name, w) := GetDmUserCowName e name w
      (UnmapDmUserDevice e dm_user_name w).2
    else w
  else w

/-- `CollapseSnapshotDevice` (snapshot.cpp:1700-1707): with userspace
snapshots, wait for the daemon to release the device (best effort). -/
def waitForDaemonRelease (e : Env) (name : String) (w : World) : World :=
  let (user, w) := UpdateUsesUserSnapshots e w
  if user then
    let (conn, w) := EnsureSnapuserdConnected e w
    if conn then (w.ask (fun t => e.snapuserdWaitForDeviceDelete t name)).2 else w
  else w

/-- `SnapshotManager::CollapseSnapshotDevice` (snapshot.cpp:1636). -/
def CollapseSnapshotDevice (e : Env) (name : String) (status : SnapshotStatus) (w : World) :
    Bool × World :=
  let w := w.log (Event.collapse name)
  let (ok, w) := verifyMergeTarget e name w
  if !ok then (false, w)
  else if (status.snapshot_size / 512) * 512 ≠ status.snapshot_size then (false, w)
  else
    let (ok, w) := w.ask (fun t => e.createDmTable t name)
    if !ok then (false, w)
    else
      let (ok, w) := w.ask (fun t => e.dmLoadTableAndActivate t name)
      if !ok then (false, w)
      else
        let w := unmapLegacyDmUser e name status w
        let w := waitForDaemonRelease e name w
        let (_, w) := DeleteDeviceIfExists e (GetBaseDeviceName name) w
        let (_, w) := DeleteDeviceIfExists e (GetSourceDeviceName name) w
        (true, w)

/-- `OnSnapshotMergeComplete` (snapshot.cpp:1595-1624): collapse the device;
with the kernel driver only after checking once more that it is a finished
`snapshot-merge` target, and not at all when it is no snapshot device any
more. -/
def collapseIfMerged (e : Env) (name : String) (status : SnapshotStatus) (w : World) :
    Bool × World :=
  let (user, w) := UpdateUsesUserSnapshots e w
  if !user then
    let (dev, w) := IsSnapshotDevice e name w
    if dev.isSome then
      let (q, w) := QuerySnapshotStatus e name w
      if !q.1 then (false, w)
      else if q.2.1 ≠ "snapshot-merge" then (false, w)
      else if q.2.2.sectors_allocated ≠ q.2.2.metadata_sectors then (false, w)
      else CollapseSnapshotDevice e name status w
    else (true, w)
  else CollapseSnapshotDevice e name status w

/-- `SnapshotManager::OnSnapshotMergeComplete` (snapshot.cpp:1593). -/
def OnSnapshotMergeComplete (e : Env) (name : String) (status : SnapshotStatus) (w : World) :
    Bool × World :=
  let (ok, w) := collapseIfMerged e name status w
  if !ok then (false, w)
  else
    let (ok, w) := DeleteSnapshot e name w
    if !ok then (false, w) else (true, w)

/-! ## InitiateMerge -/

/-- First loop of `InitiateMerge` (snapshot.cpp:866): every snapshot carrying
the current slot suffix must be mapped. -/
def checkMapped (e : Env) : List String → World → Bool × World
  | [], w => (true, w)
  | snapshot :: rest, w =>
    if !EndsWith snapshot e.slotSuffix then checkMapped e rest w
    else
      let (st, w) := w.ask (fun t => e.dmGetState t snapshot)
      if st = DmDeviceState.INVALID then (false, w) else checkMapped e rest w

/-- Second loop of `InitiateMerge` (snapshot.cpp:884): snapshots of absent or
re-flashed partitions are deleted (best effort) and dropped from the list. -/
def dropFlashed (e : Env) (metadata : LpMetadata) : List String → World → List String × World
  | [], w => ([], w)
  | snapshot :: rest, w =>
    match GetMetadataPartitionState metadata snapshot with
    | MetadataPartitionState.Updated =>
      let (kept, w) := dropFlashed e metadata rest w
      (snapshot :: kept, w)
    | _ =>
      let (_, w) := DeleteSnapshot e snapshot w
      dropFlashed e metadata rest w

/-- What the third loop of `InitiateMerge` accumulates. -/
structure MergePlan where
  using_snapuserd : Bool := false
  first_merge_group : List String := []
  initial_target_values : DmSnapshotStatus := {}
  deriving DecidableEq, Repr

/-- Third loop of `InitiateMerge`, the dm-snapshot accounting
(snapshot.cpp:910-918): with the kernel driver the queried sector counts are
added (64-bit) to the running totals; `none` when the query fails. -/
def addTargetValues (e : Env) (snapshot : String) (values : DmSnapshotStatus) (w : World) :
    Option DmSnapshotStatus × World :=
  let (user, w) := UpdateUsesUserSnapshots e w
  if !user then
    let (q, w) := QuerySnapshotStatus e snapshot w
    if !q.1 then (none, w)
    else
      (some { values with
        sectors_allocated := (values.sectors_allocated + q.2.2.sectors_allocated) % 2 ^ 64
        total_sectors := (values.total_sectors + q.2.2.total_sectors) % 2 ^ 64
        metadata_sectors := (values.metadata_sectors + q.2.2.metadata_sectors) % 2 ^ 64 }, w)
  else (some values, w)

/-- Third loop of `InitiateMerge` (snapshot.cpp:909): `none` when a query or a
status read fails. -/
def planMerge (e : Env) : List String → MergePlan → World → Option MergePlan × World
  | [], plan, w => (some plan, w)
  | snapshot :: rest, plan, w =>
    let (queried, w) := addTargetValues e snapshot plan.initial_target_values w
    match queried with
    | none => (none, w)
    | some values =>
      match ReadSnapshotStatus w snapshot with
      | none => (none, w)
      | some snapshot_status =>
        let plan : MergePlan :=
          { using_snapuserd := plan.using_snapuserd || snapshot_status.using_snapuserd
            first_merge_group :=
              if DecideMergePhase snapshot_status = MergePhase.FIRST_PHASE then
                plan.first_merge_group ++ [snapshot]
              else plan.first_merge_group
            initial_target_values := values }
        planMerge e rest plan w

/-- Fourth loop of `InitiateMerge` (snapshot.cpp:960), also the loop body
shape of the second-phase sweep: switch every snapshot, keep the first failure
code. -/
def switchAll (e : Env) : List String → MergeFailureCode → World → MergeFailureCode × World
  | [], reported_code, w => (reported_code, w)
  | snapshot :: rest, reported_code, w =>
    let (code, w) := SwitchSnapshotToMerge e snapshot w
    let reported_code :=
      if code ≠ MergeFailureCode.Ok then
        if reported_code = MergeFailureCode.Ok then code else reported_code
      else reported_code
    switchAll e rest reported_code w

/-- `SnapshotManager::InitiateMerge` (snapshot.cpp:842-929), the part before
the point of no return: take the lock, check state and slot, list the
snapshots, require them mapped, drop re-flashed ones, read every remaining
status.  Yields the remaining snapshots and the accumulated plan, or `none`
when a check fails.  Dereferencing the null metadata pointer when the current
metadata cannot be read ends the process: nothing further happens, modelled
as a failed check. -/
def prepareMerge (e : Env) (w : World) : Option (List String × MergePlan) × World :=
  let (locked, w) := w.ask e.lockOk
  if !locked then (none, w)
  else if ReadUpdateState w ≠ UpdateState.Unverified then (none, w)
  else if GetCurrentSlot e w ≠ Slot.Target then (none, w)
  else
    let (listed, w) := ListSnapshots e "" [] w
    match listed with
    | none => (none, w)
    | some snapshots =>
      let (mapped, w) := checkMapped e snapshots w
      if !mapped then (none, w)
      else
        let (metadata, w) := ReadCurrentMetadata e w
        match metadata with
        | none => (none, w)
        | some metadata =>
          let (snapshots, w) := dropFlashed e metadata snapshots w
          let (plan, w) := planMerge e snapshots {} w
          match plan with
          | none => (none, w)
          | some plan => (some (snapshots, plan), w)

/-- `SnapshotManager::InitiateMerge` (snapshot.cpp:931-951): the status that
is about to be written. -/
def initialStatus (e : Env) (plan : MergePlan) (w : World) : SnapshotUpdateStatus × World :=
  let initial_status := ReadSnapshotUpdateStatus w
  let initial_status :=
    { initial_status with
      state := UpdateState.Merging
      using_snapuserd := plan.using_snapuserd }
  let (user, w) := UpdateUsesUserSnapshots e w
  let initial_status :=
    if !user then
      { initial_status with
        sectors_allocated := plan.initial_target_values.sectors_allocated
        total_sectors := plan.initial_target_values.total_sectors
        metadata_sectors := plan.initial_target_values.metadata_sectors }
    else initial_status
  if plan.first_merge_group.isEmpty then
    ({ initial_status with merge_phase := MergePhase.SECOND_PHASE }, w)
  else ({ initial_status with merge_phase := MergePhase.FIRST_PHASE }, w)

/-- `SnapshotManager::InitiateMerge` (snapshot.cpp:944-951): the group that
is switched. -/
def mergeGroup (snapshots : List String) (plan : MergePlan) : List String :=
  if plan.first_merge_group.isEmpty then snapshots else plan.first_merge_group

/-- `SnapshotManager::InitiateMerge` (snapshot.cpp:842). -/
def InitiateMerge (e : Env) (w : World) : Bool × World :=
  let (prepared, w) := prepareMerge e w
  match prepared with
  | none => (false, w)
  | some (snapshots, plan) =>
    let (initial_status, w) := initialStatus e plan w
    let (written, w) := WriteSnapshotUpdateStatus e initial_status w
    if !written then (false, w)
    else
      let (reported_code, w) := switchAll e (mergeGroup snapshots plan) MergeFailureCode.Ok w
      let w :=
        if reported_code ≠ MergeFailureCode.Ok then
          (WriteUpdateState e UpdateState.MergeFailed reported_code w).2
        else w
      (true, w)

/-! ## Checking merge progress -/

/-- `SnapshotManager::CheckTargetMergeState` (snapshot.cpp:1324), the final
part (snapshot.cpp:1456): record `MERGE_COMPLETED`, then clean up. -/
def finishTargetMerge (e : Env) (name : String) (snapshot_status : SnapshotStatus)
    (w : World) : MergeResult × World :=
  let snapshot_status := { snapshot_status with state := SnapshotState.MERGE_COMPLETED }
  let (ok, w) := WriteSnapshotStatus e snapshot_status w
  if !ok then ({ state := UpdateState.MergeFailed, failure_code := MergeFailureCode.WriteStatus }, w)
  else
    let (ok, w) := OnSnapshotMergeComplete e name snapshot_status w
    if !ok then ({ state := UpdateState.MergeNeedsReboot }, w)
    else ({ state := UpdateState.MergeCompleted, failure_code := MergeFailureCode.Ok }, w)

/-- `SnapshotManager::CheckTargetMergeState` (snapshot.cpp:1324-1454), the
part before "Merging is done": either the result of an early `return`, or the
status that was read when control falls through because the backend reports
the merge complete (the daemon answers `snapshot-merge-complete`, or the
kernel target is `snapshot-merge` with `sectors_allocated ==
metadata_sectors`).  The debug-only `DCHECK` is not part of the behaviour. -/
def probeTargetMerge (e : Env) (name : String) (update_status : SnapshotUpdateStatus)
    (w : World) : (MergeResult ⊕ SnapshotStatus) × World :=
  match ReadSnapshotStatus w name with
  | none =>
    (Sum.inl { state := UpdateState.MergeFailed, failure_code := MergeFailureCode.ReadStatus },
      w)
  | some snapshot_status =>
    let (dev, w) := IsSnapshotDevice e name w
    if dev.isNone then
      let (current_metadata, w) := ReadCurrentMetadata e w
      let updated :=
        match current_metadata with
        | none => false
        | some md => decide (GetMetadataPartitionState md name = MetadataPartitionState.Updated)
      if !updated then
        let (_, w) := DeleteSnapshot e name w
        (Sum.inl { state := UpdateState.Cancelled }, w)
      else if snapshot_status.state = SnapshotState.MERGE_COMPLETED then
        let (_, w) := OnSnapshotMergeComplete e name snapshot_status w
        (Sum.inl { state := UpdateState.MergeCompleted }, w)
      else
        (Sum.inl { state := UpdateState.MergeFailed,
                   failure_code := MergeFailureCode.UnknownTargetType }, w)
    else
      let (user, w) := UpdateUsesUserSnapshots e w
      if user then
        let (conn, w) := EnsureSnapuserdConnected e w
        if !conn then
          (Sum.inl { state := UpdateState.MergeFailed,
                     failure_code := MergeFailureCode.QuerySnapshotStatus }, w)
        else
          let (merge_status, w) := w.ask (fun t => e.snapuserdQuerySnapshotStatus t name)
          if merge_status = "snapshot-merge-failed" then
            (Sum.inl { state := UpdateState.MergeFailed,
                       failure_code := MergeFailureCode.UnknownTargetType }, w)
          else if merge_status = "snapshot" ∧ snapshot_status.state = SnapshotState.MERGING then
            let (ok, w) := w.ask (fun t => e.snapuserdInitiateMerge t name)
            if !ok then
              (Sum.inl { state := UpdateState.MergeFailed,
                         failure_code := MergeFailureCode.UnknownTargetType }, w)
            else (Sum.inl { state := UpdateState.Merging }, w)
          else if merge_status = "snapshot" ∧
              DecideMergePhase snapshot_status = MergePhase.SECOND_PHASE then
            if update_status.merge_phase = MergePhase.FIRST_PHASE then
              (Sum.inl { state := UpdateState.None }, w)
            else
              let (code, w) := SwitchSnapshotToMerge e name w
              if code ≠ MergeFailureCode.Ok then
                (Sum.inl { state := UpdateState.MergeFailed,
                           failure_code := MergeFailureCode.UnknownTargetType }, w)
              else (Sum.inl { state := UpdateState.Merging }, w)
          else if merge_status = "snapshot-merge" then
            if snapshot_status.state = SnapshotState.MERGE_COMPLETED then
              (Sum.inl { state := UpdateState.MergeFailed,
                         failure_code := MergeFailureCode.UnmergedSectorsAfterCompletion }, w)
            else (Sum.inl { state := UpdateState.Merging }, w)
          else if merge_status ≠ "snapshot-merge-complete" then
            (Sum.inl { state := UpdateState.MergeFailed,
                       failure_code := MergeFailureCode.ExpectedMergeTarget }, w)
          else (Sum.inr snapshot_status, w)
      else
        let (q, w) := QuerySnapshotStatus e name w
        if !q.1 then
          (Sum.inl { state := UpdateState.MergeFailed,
                     failure_code := MergeFailureCode.QuerySnapshotStatus }, w)
        else if q.2.1 = "snapshot" ∧
            DecideMergePhase snapshot_status = MergePhase.SECOND_PHASE ∧
            update_status.merge_phase = MergePhase.FIRST_PHASE then
          (Sum.inl { state := UpdateState.None }, w)
        else if q.2.1 ≠ "snapshot-merge" then
          (Sum.inl { state := UpdateState.MergeFailed,
                     failure_code := MergeFailureCode.ExpectedMergeTarget }, w)
        else if q.2.2.sectors_allocated ≠ q.2.2.metadata_sectors then
          if snapshot_status.state = SnapshotState.MERGE_COMPLETED then
            (Sum.inl { state := UpdateState.MergeFailed,
                       failure_code := MergeFailureCode.UnmergedSectorsAfterCompletion }, w)
          else (Sum.inl { state := UpdateState.Merging }, w)
        else (Sum.inr snapshot_status, w)

/-- `SnapshotManager::CheckTargetMergeState` (snapshot.cpp:1324): the early
returns, or the completion part once the backend reports the merge done. -/
def CheckTargetMergeState (e : Env) (name : String) (update_status : SnapshotUpdateStatus)
    (w : World) : MergeResult × World :=
  match probeTargetMerge e name update_status w with
  | (Sum.inl result, w) => (result, w)
  | (Sum.inr snapshot_status, w) => finishTargetMerge e name snapshot_status w

/-- The sweep of `MergeSecondPhaseSnapshots` (snapshot.cpp:1504); a failed
status read returns `ReadStatus` at once. -/
def secondPhaseLoop (e : Env) :
    List String → MergeFailureCode → World → MergeFailureCode × World
  | [], result, w => (result, w)
  | snapshot :: rest, result, w =>
    if !EndsWith snapshot e.slotSuffix then secondPhaseLoop e rest result w
    else
      match ReadSnapshotStatus w snapshot with
      | none => (MergeFailureCode.ReadStatus, w)
      | some snapshot_status =>
        if DecideMergePhase snapshot_status ≠ MergePhase.SECOND_PHASE then
          secondPhaseLoop e rest result w
        else
          let (code, w) := SwitchSnapshotToMerge e snapshot w
          let result :=
            if code ≠ MergeFailureCode.Ok then
              if result = MergeFailureCode.Ok then code else result
            else result
          secondPhaseLoop e rest result w

/-- `SnapshotManager::MergeSecondPhaseSnapshots` (snapshot.cpp:1485).  The two
`CHECK`s end the process when they fail; modelled as returning
`UnexpectedMergeState` with nothing done. -/
def MergeSecondPhaseSnapshots (e : Env) (w : World) : MergeFailureCode × World :=
  let (listed, w) := ListSnapshots e "" [] w
  match listed with
  | none => (MergeFailureCode.ListSnapshots, w)
  | some snapshots =>
    let update_status := ReadSnapshotUpdateStatus w
    if !(decide (update_status.state = UpdateState.Merging) ||
         decide (update_status.state = UpdateState.MergeFailed)) then
      (MergeFailureCode.UnexpectedMergeState, w)
    else if update_status.merge_phase ≠ MergePhase.FIRST_PHASE then
      (MergeFailureCode.UnexpectedMergeState, w)
    else
      let update_status :=
        { update_status with
          state := UpdateState.Merging
          merge_phase := MergePhase.SECOND_PHASE }
      let (ok, w) := WriteSnapshotUpdateStatus e update_status w
      if !ok then (MergeFailureCode.WriteStatus, w)
      else secondPhaseLoop e snapshots MergeFailureCode.Ok w

/-! ## Removing update state -/

/-- `std::map::emplace` on the flashing-status map: an existing key keeps its
value. -/
def emplace (m : List (String × Bool)) (key : String) (value : Bool) : List (String × Bool) :=
  if m.any (fun p => p.1 == key) then m else m ++ [(key, value)]

/-- `SnapshotManager::GetSnapshotFlashingStatus` (snapshot.cpp:1978): `none`
when the source slot or the target metadata cannot be read. -/
def GetSnapshotFlashingStatus (e : Env) (snapshots : List String) (w : World) :
    Option (List (String × Bool)) × World :=
  let source_slot_suffix := ReadUpdateSourceSlotSuffix w
  if source_slot_suffix = "" then (none, w)
  else
    let source_slot := e.slotNumberForSlotSuffix source_slot_suffix
    let target_slot := if source_slot = 0 then 1 else 0
    let (metadata, w) := w.ask (fun t => e.readMetadata t target_slot)
    match metadata with
    | none => (none, w)
    | some metadata =>
      (some (snapshots.foldl
        (fun out snapshot_name =>
          emplace out snapshot_name
            (decide (GetMetadataPartitionState metadata snapshot_name ≠
              MetadataPartitionState.Updated)))
        []), w)

/-- `SnapshotManager::AreAllSnapshotsCancelled` (snapshot.cpp:1952). -/
def AreAllSnapshotsCancelled (e : Env) (w : World) : Bool × World :=
  let (listed, w) := ListSnapshots e "" [] w
  match listed with
  | none => (true, w)
  | some snapshots =>
    let (flashing_status, w) := GetSnapshotFlashingStatus e snapshots w
    match flashing_status with
    | none => (false, w)
    | some flashing_status => (flashing_status.all (fun p => p.2), w)

/-- `SnapshotManager::ShouldDeleteSnapshot` (snapshot.cpp:2132). -/
def ShouldDeleteSnapshot (e : Env) (flashing_status : List (String × Bool))
    (current_slot : Slot) (name : String) (w : World) : Bool × World :=
  if current_slot ≠ Slot.Target then (true, w)
  else
    match flashing_status.find? (fun p => p.1 == name) with
    | none => (true, w)
    | some it =>
      if it.2 then (true, w)
      else
        let (dev, w) := IsSnapshotDevice e name w
        (dev.isNone, w)

/-- `SnapshotManager::UnmapUserspaceSnapshotDevice` (snapshot.cpp:2950). -/
def UnmapUserspaceSnapshotDevice (e : Env) (snapshot_name : String) (w : World) :
    Bool × World :=
  let (dm_user_name, w) := GetDmUserCowName e snapshot_name w
  let (st, w) := w.ask (fun t => e.dmGetState t dm_user_name)
  if st = DmDeviceState.INVALID then (true, w)
  else
    match ReadSnapshotStatus w snapshot_name with
    | none => (false, w)
    | some snapshot_status =>
      let (ok, w) :=
        if snapshot_status.state ≠ SnapshotState.MERGE_COMPLETED then
          DeleteDeviceIfExists e dm_user_name w
        else (true, w)
      if !ok then (false, w)
      else
        let (conn, w) := EnsureSnapuserdConnected e w
        let (waited, w) :=
          if conn then w.ask (fun t => e.snapuserdWaitForDeviceDelete t dm_user_name)
          else (true, w)
        if !waited then (false, w)
        else
          let (gone, w) :=
            w.ask (fun t => e.waitForFileDeleted t ("/dev/dm-user/" ++ dm_user_name))
          if !gone then (false, w) else (true, w)

/-- `SnapshotManager::UnmapSnapshot` (snapshot.cpp:780). -/
def UnmapSnapshot (e : Env) (name : String) (w : World) : Bool × World :=
  let (user, w) := UpdateUsesUserSnapshots e w
  if user then
    let (ok, w) := UnmapUserspaceSnapshotDevice e name w
    if !ok then (false, w) else (true, w)
  else
    let (ok, w) := DeleteDeviceIfExists e name w
    if !ok then (false, w) else (true, w)

/-- `SnapshotManager::UnmapPartitionWithSnapshot` (snapshot.cpp:2801). -/
def UnmapPartitionWithSnapshot (e : Env) (target_partition_name : String) (w : World) :
    Bool × World :=
  let (ok, w) := UnmapSnapshot e target_partition_name w
  if !ok then (false, w)
  else
    let (ok, w) := UnmapCowDevices e target_partition_name w
    if !ok then (false, w)
    else
      let (ok, w) := DeleteDeviceIfExists e (GetBaseDeviceName target_partition_name) w
      if !ok then (false, w)
      else
        let (ok, w) := DeleteDeviceIfExists e (GetSourceDeviceName target_partition_name) w
        if !ok then (false, w) else (true, w)

/-- The loop body of `RemoveAllSnapshots` (snapshot.cpp:2077-2087): on the
source slot a snapshot of the current slot is only unmapped when its device is
mapped and is a snapshot device. -/
def settleUnmap (e : Env) (name : String) (should_unmap : Bool) (w : World) : Bool × World :=
  if should_unmap && EndsWith name e.slotSuffix then
    let (st, w) := w.ask (fun t => e.dmGetState t name)
    if st = DmDeviceState.INVALID then (false, w)
    else
      let (dev, w) := IsSnapshotDevice e name w
      if dev.isNone then (false, w) else (should_unmap, w)
  else (should_unmap, w)

/-- The loop body of `RemoveAllSnapshots` (snapshot.cpp:2089-2092). -/
def unmapIfWanted (e : Env) (name : String) (should_unmap : Bool) (w : World) : Bool × World :=
  if should_unmap then
    let (unmapped, w) := UnmapPartitionWithSnapshot e name w
    if !unmapped then (false, w) else (true, w)
  else (true, w)

/-- The loop body of `RemoveAllSnapshots` (snapshot.cpp:2093-2095). -/
def deleteIfWanted (e : Env) (name : String) (partition_ok should_delete : Bool) (w : World) :
    Bool × World :=
  if partition_ok && should_delete then
    let (deleted, w) := DeleteSnapshot e name w
    if !deleted then (false, w) else (partition_ok, w)
  else (partition_ok, w)

/-- The loop body of `RemoveAllSnapshots` (snapshot.cpp:2097-2101): whether
the COW image of a snapshot that could not be removed is still mapped. -/
def noteMappedImage (e : Env) (name : String) (w : World) : Bool × World :=
  let (img, w) := EnsureImageManager e w
  if img then w.ask (fun t => e.isImageMapped t (GetCowImageDeviceName name))
  else (false, w)

/-- The loop of `RemoveAllSnapshots` (snapshot.cpp:2063) over the listed
names, threading `ok` and `has_mapped_cow_images`. -/
def removeLoop (e : Env) (flashing_status : List (String × Bool)) (current_slot : Slot) :
    List String → Bool × Bool → World → (Bool × Bool) × World
  | [], acc, w => (acc, w)
  | name :: rest, (ok, has_mapped_cow_images), w =>
    let should_unmap := decide (current_slot ≠ Slot.Target)
    let (should_delete, w) := ShouldDeleteSnapshot e flashing_status current_slot name w
    let (should_unmap, w) := settleUnmap e name should_unmap w
    let (partition_ok, w) := unmapIfWanted e name should_unmap w
    let (partition_ok, w) := deleteIfWanted e name partition_ok should_delete w
    if !partition_ok then
      let (mapped, w) := noteMappedImage e name w
      removeLoop e flashing_status current_slot rest (false, has_mapped_cow_images || mapped) w
    else removeLoop e flashing_status current_slot rest (ok, has_mapped_cow_images) w

/-- `SnapshotManager::RemoveAllSnapshots` (snapshot.cpp:2048). -/
def RemoveAllSnapshots (e : Env) (w : World) : Bool × World :=
  let (listed, w) := ListSnapshots e "" [] w
  match listed with
  | none => (false, w)
  | some snapshots =>
    let (flashing, w) := GetSnapshotFlashingStatus e snapshots w
    let flashing_status := flashing.getD []
    let current_slot := GetCurrentSlot e w
    let (acc, w) := removeLoop e flashing_status current_slot snapshots (true, false) w
    if acc.1 || !acc.2 then
      let (img, w) := EnsureImageManager e w
      if !img then (false, w)
      else if e.isRecovery then
        let (ok, w) := w.ask e.disableAllImages
        if !ok then (false, w) else (acc.1, w)
      else
        let (ok, w) := w.ask e.removeAllImages
        if !ok then (false, w) else (acc.1, w)
    else (acc.1, w)

/-- The indicator files `RemoveAllUpdateState` removes (snapshot.cpp:370). -/
inductive Indicator
  | SnapshotBoot
  | Rollback
  | ForwardMerge
  | OldPartitionMetadata
  | BootSnapshotsWithoutSlotSwitch
  | SnapuserdFromSystem
  deriving DecidableEq, Repr

/-- The files after unlinking one indicator. -/
def Files.unlink (fs : Files) : Indicator → Files
  | Indicator.SnapshotBoot => { fs with bootIndicator := none }
  | Indicator.Rollback => { fs with rollbackIndicator := false }
  | Indicator.ForwardMerge => { fs with forwardMergeIndicator := false }
  | Indicator.OldPartitionMetadata => { fs with oldPartitionMetadata := false }
  | Indicator.BootSnapshotsWithoutSlotSwitch => { fs with bootWithoutSlotSwitch := false }
  | Indicator.SnapuserdFromSystem => { fs with snapuserdFromSystem := false }

/-- One `RemoveFileIfExists(file)` of the loop in `RemoveAllUpdateState`
(snapshot.cpp:375): the indicator disappears when the removal goes through;
the result is ignored. -/
def removeIndicator (e : Env) (w : World) (file : Indicator) : World :=
  let (ok, w) := RemoveFileIfExists e w
  if ok then { w with fs := w.fs.unlink file } else w

/-- The loop over the six indicator paths in `RemoveAllUpdateState`
(snapshot.cpp:370-377). -/
def removeIndicators (e : Env) (w : World) : World :=
  [Indicator.SnapshotBoot, Indicator.Rollback, Indicator.ForwardMerge,
    Indicator.OldPartitionMetadata, Indicator.BootSnapshotsWithoutSlotSwitch,
    Indicator.SnapuserdFromSystem].foldl (removeIndicator e) w

/-- `RemoveAllUpdateState` (snapshot.cpp:354-362): the snapshots are only
removed when an update is actually being cancelled. -/
def removeSnapshotsIfUpdating (e : Env) (w : World) : Bool × World :=
  if ReadUpdateState w ≠ UpdateState.None then RemoveAllSnapshots e w else (true, w)

/-- `SnapshotManager::RemoveAllUpdateState` (snapshot.cpp:346).  The prolog,
when given, is a callback answered by its own table. -/
def RemoveAllUpdateState (e : Env) (prolog : Option (Nat → Bool)) (w : World) : Bool × World :=
  let (proceed, w) :=
    match prolog with
    | none => (true, w)
    | some f => w.ask f
  if !proceed then (false, w)
  else
    let (ok, w) := removeSnapshotsIfUpdating e w
    if !ok then (false, w)
    else
      let w := removeIndicators e w
      WriteUpdateState e UpdateState.None MergeFailureCode.Ok w

/-- `SnapshotManager::HandleCancelledUpdate` (snapshot.cpp:1721). -/
def HandleCancelledUpdate (e : Env) (before_cancel : Option (Nat → Bool)) (w : World) :
    Bool × World :=
  if GetCurrentSlot e w = Slot.Unknown then (false, w)
  else
    let (all, w) := AreAllSnapshotsCancelled e w
    if all then RemoveAllUpdateState e before_cancel w
    else if GetCurrentSlot e w ≠ Slot.Source then (false, w)
    else if !w.fs.rollbackIndicator then (false, w)
    else RemoveAllUpdateState e before_cancel w

/-- `SnapshotManager::AcknowledgeMergeSuccess` (snapshot.cpp:1552). -/
def AcknowledgeMergeSuccess (e : Env) (w : World) : World :=
  if e.isRecovery then (WriteUpdateState e UpdateState.MergeCompleted MergeFailureCode.Ok w).2
  else
    let (_, w) := RemoveAllUpdateState e none w
    let (user, w) := UpdateUsesUserSnapshots e w
    if user && !e.isTestDevice then
      if w.mem.snapuserd_client_ then
        { (w.log Event.detachSnapuserd) with mem := { w.mem with snapuserd_client_ := false } }
      else w
    else w

/-! ## Aggregating the per-snapshot checks -/

/-- The flags the polling loop of `CheckMergeState` keeps
(snapshot.cpp:1242). -/
structure PollFlags where
  cancelled : Bool := false
  merging : Bool := false
  needs_reboot : Bool := false
  wrong_phase : Bool := false
  failure_code : MergeFailureCode := MergeFailureCode.Ok
  deriving DecidableEq, Repr

/-- The `switch` on one per-snapshot result (snapshot.cpp:1258). -/
def noteResult (flags : PollFlags) (result : MergeResult) : PollFlags :=
  match result.state with
  | UpdateState.MergeFailed =>
    if flags.failure_code = MergeFailureCode.Ok then
      { flags with failure_code := result.failure_code }
    else flags
  | UpdateState.Merging => { flags with merging := true }
  | UpdateState.MergeNeedsReboot => { flags with needs_reboot := true }
  | UpdateState.MergeCompleted => flags
  | UpdateState.Cancelled => { flags with cancelled := true }
  | UpdateState.None => { flags with wrong_phase := true }
  | _ =>
    if flags.failure_code = MergeFailureCode.Ok then
      { flags with failure_code := MergeFailureCode.UnexpectedMergeState }
    else flags

/-- The polling loop of `CheckMergeState` (snapshot.cpp:1247).  Besides the
flags it returns the per-snapshot results in the order they were obtained. -/
def pollLoop (e : Env) (update_status : SnapshotUpdateStatus) :
    List String → PollFlags → World → (PollFlags × List MergeResult) × World
  | [], flags, w => ((flags, []), w)
  | snapshot :: rest, flags, w =>
    if !EndsWith snapshot e.slotSuffix then pollLoop e update_status rest flags w
    else
      let (result, w) := CheckTargetMergeState e snapshot update_status w
      let (out, w) := pollLoop e update_status rest (noteResult flags result) w
      ((out.1, result :: out.2), w)

/-- The decision `CheckMergeState` takes once every snapshot was polled
(snapshot.cpp:1289). -/
def concludeMerge (e : Env) (flags : PollFlags) (w : World) : MergeResult × World :=
  if flags.merging then ({ state := UpdateState.Merging }, w)
  else if flags.failure_code ≠ MergeFailureCode.Ok then
    ({ state := UpdateState.MergeFailed, failure_code := flags.failure_code }, w)
  else if flags.wrong_phase then
    let (code, w) := MergeSecondPhaseSnapshots e w
    if code ≠ MergeFailureCode.Ok then
      ({ state := UpdateState.MergeFailed, failure_code := code }, w)
    else ({ state := UpdateState.Merging }, w)
  else if flags.needs_reboot then
    let (_, w) := WriteUpdateState e UpdateState.MergeNeedsReboot MergeFailureCode.Ok w
    ({ state := UpdateState.MergeNeedsReboot }, w)
  else if flags.cancelled then ({ state := UpdateState.Cancelled }, w)
  else ({ state := UpdateState.MergeCompleted }, w)

/-- `SnapshotManager::CheckMergeState(LockedFile*, before_cancel)`
(snapshot.cpp:1204). -/
def CheckMergeState (e : Env) (before_cancel : Option (Nat → Bool)) (w : World) :
    MergeResult × World :=
  let update_status := ReadSnapshotUpdateStatus w
  match update_status.state with
  | UpdateState.None => ({ state := update_status.state }, w)
  | UpdateState.MergeCompleted => ({ state := update_status.state }, w)
  | UpdateState.Unverified =>
    let (handled, w) := HandleCancelledUpdate e before_cancel w
    if handled then ({ state := UpdateState.Cancelled }, w)
    else ({ state := update_status.state }, w)
  | UpdateState.Initiated => ({ state := update_status.state }, w)
  | UpdateState.Cancelled => ({ state := update_status.state }, w)
  | _ =>
    let (listed, w) := ListSnapshots e "" [] w
    match listed with
    | none =>
      ({ state := UpdateState.MergeFailed, failure_code := MergeFailureCode.ListSnapshots }, w)
    | some snapshots =>
      let (out, w) := pollLoop e update_status snapshots {} w
      concludeMerge e out.1 w

/-! ## Concrete environments and worlds used by the examples -/

/-- An environment in which every collaborator answers favourably: devices
are active snapshot-merge targets whose merge is complete, the daemon reports
a completed merge, every write and removal goes through. -/
def calmEnv (slot other : String) : Env :=
  { slotSuffix := slot
    otherSlotSuffix := other
    isRecovery := false
    isTestDevice := false
    useHal := false
    slotNumberForSlotSuffix := fun suffix => if suffix = "_b" then 1 else 0
    readMetadata := fun _ _ => some [("system_b", true), ("vendor_b", true)]
    lockOk := fun _ => true
    opendirOk := fun _ => true
    writeFileOk := fun _ => true
    removeFileOk := fun _ => true
    setMergeStatusOk := fun _ => true
    dmGetState := fun _ _ => DmDeviceState.ACTIVE
    dmGetTableStatus := fun _ _ =>
      some [{ targetType := "snapshot-merge", status := some {}, paramsOk := true }]
    dmGetTableInfo := fun _ _ =>
      some [{ targetType := "snapshot", status := some {}, paramsOk := true }]
    dmLoadTableAndActivate := fun _ _ => true
    dmDeleteDeviceIfExists := fun _ _ => true
    createDmTable := fun _ _ => true
    waitForFileDeleted := fun _ _ => true
    openImageManager := fun _ => true
    unmapImageIfExists := fun _ _ => true
    backingImageExists := fun _ _ => false
    deleteBackingImage := fun _ _ => true
    isImageMapped := fun _ _ => false
    removeAllImages := fun _ => true
    disableAllImages := fun _ => true
    snapuserdStart := fun _ => true
    snapuserdConnect := fun _ => true
    snapuserdInitiateMerge := fun _ _ => true
    snapuserdQuerySnapshotStatus := fun _ _ => "snapshot-merge-complete"
    buildFingerprint := "fp"
    indeterminateStatus := fun _ => {}
    snapuserdWaitForDeviceDelete := fun _ _ => true }

/-- A world whose only persisted file is the state file. -/
def worldWithState (state : UpdateState) : World :=
  { fs := { stateFile := StateFile.encoded { state := state } } }

/-! ## Predicates, relations and example worlds used by the theorems -/

/-- The second world has the files and the trace of the first. -/
def Quiet (w w2 : World) : Prop := w2.fs = w.fs ∧ w2.trace = w.trace

/-- The files with the snapshots directory blanked out: what an operation
that only touches status files must preserve. -/
def Files.noSnapshots (fs : Files) : Files := { fs with snapshots := [] }

/-- The names of the snapshots handed to the backend for switching, in trace
order. -/
def switchedNames (t : List Event) : List String :=
  t.filterMap fun ev =>
    match ev with
    | Event.switchToMerge name _ _ _ => some name
    | _ => none

/-- The trace of `w2` is the trace of `w` followed by events among which the
switches are exactly `names`, in order. -/
def Appends (w w2 : World) (names : List String) : Prop :=
  ∃ post, w2.trace = w.trace ++ post ∧ switchedNames post = names

/-- Whether the persisted status of a snapshot is first-phase. -/
def isFirstPhase (w : World) (name : String) : Bool :=
  match ReadSnapshotStatus w name with
  | some status => decide (DecideMergePhase status = MergePhase.FIRST_PHASE)
  | none => false

/-- The spec's shrink scenario: `system_b` shrank from 1 GiB to 900 MiB,
`vendor_b` grew from 400 MiB to 512 MiB; the update is `Unverified` and the
device booted into the target slot `_b`.  The flag says whether the update
uses snapuserd (and userspace snapshots). -/
def shrinkWorld (snapuserd : Bool) : World :=
  { fs :=
      { stateFile := StateFile.encoded
          { state := UpdateState.Unverified, using_snapuserd := snapuserd,
            userspace_snapshots := snapuserd }
        bootIndicator := some "_a"
        snapshots :=
          [ { name := "system_b", isReg := true,
              content := some
                { name := "system_b", state := SnapshotState.CREATED,
                  device_size := 943718400, snapshot_size := 943718400,
                  cow_file_size := 268435456, old_partition_size := 1073741824,
                  using_snapuserd := snapuserd } },
            { name := "vendor_b", isReg := true,
              content := some
                { name := "vendor_b", state := SnapshotState.CREATED,
                  device_size := 536870912, snapshot_size := 536870912,
                  cow_file_size := 134217728, old_partition_size := 419430400,
                  using_snapuserd := snapuserd } } ] } }

/-- Some result in the list has the given state. -/
def anyState (results : List MergeResult) (state : UpdateState) : Prop :=
  ∃ r ∈ results, r.state = state

instance anyState.decidable (results : List MergeResult) (state : UpdateState) :
    Decidable (anyState results state) :=
  inferInstanceAs (Decidable (∃ r ∈ results, r.state = state))

/-- The files with the state file blanked out: what a write of the global
status must preserve. -/
def Files.noState (fs : Files) : Files := { fs with stateFile := StateFile.missing }

/-- All six indicator files are absent. -/
def Files.noIndicators (fs : Files) : Prop :=
  fs.bootIndicator = none ∧ fs.rollbackIndicator = false ∧ fs.forwardMergeIndicator = false ∧
  fs.oldPartitionMetadata = false ∧ fs.bootWithoutSlotSwitch = false ∧
  fs.snapuserdFromSystem = false

/-- A world in the middle of a second-phase userspace merge of `vendor_b`. -/
def mergingWorld : World :=
  { fs :=
      { stateFile := StateFile.encoded
          { state := UpdateState.Merging, using_snapuserd := true, userspace_snapshots := true,
            merge_phase := MergePhase.SECOND_PHASE }
        bootIndicator := some "_a"
        snapshots :=
          [ { name := "vendor_b", isReg := true,
              content := some
                { name := "vendor_b", state := SnapshotState.MERGING,
                  device_size := 536870912, snapshot_size := 536870912,
                  cow_file_size := 134217728, old_partition_size := 419430400,
                  using_snapuserd := true } } ] } }

/-- An environment like `calmEnv` in which no file can be removed. -/
def stickyEnv : Env := { calmEnv "_b" "_a" with removeFileOk := fun _ => false }

/-- An environment like `calmEnv`, in recovery. -/
def recoveryEnv : Env := { calmEnv "_b" "_a" with isRecovery := true }

/-- A world with no update in progress but a left-over boot indicator. -/
def leftoverWorld : World :=
  { fs := { stateFile := StateFile.encoded { state := UpdateState.None },
            bootIndicator := some "_a" } }

/-- The status file of `m` does not say anything but `MERGE_COMPLETED`: it
holds that state, or it is gone or unreadable. -/
def Settled (w : World) (m : String) : Prop :=
  ∀ s, ReadSnapshotStatus w m = some s → s.state = SnapshotState.MERGE_COMPLETED

/-- From `w` to `w2` the trace only grew, and a settled status of `m` stayed
settled unless `m` was handed to `SwitchSnapshotToMerge` in between. -/
def Mono (m : String) (w w2 : World) : Prop :=
  ∃ names, Appends w w2 names ∧ (Settled w m → Settled w2 m ∨ m ∈ names)

/-- The ways `probeTargetMerge` can go, with what each leaves behind:
(a) nothing is written and the result is a failure, `Merging`, the
wrong-phase answer for a second-phase snapshot, or the fall-through to the
completion part with the status that was read;
(b) the device is no snapshot device and the partition is not `Updated` in the
metadata just read (or that cannot be read): the snapshot is deleted, the
result is `Cancelled`;
(c) the device is no snapshot device and the status says `MERGE_COMPLETED`:
the cleanup is retried, the result is `MergeCompleted`;
(d) the daemon reports `snapshot` for a second-phase snapshot while the
global phase is not `FIRST_PHASE`: `SwitchSnapshotToMerge` is called. -/
def ProbeEffect (e : Env) (n : String) (us : SnapshotUpdateStatus) (w : World)
    (r : (MergeResult ⊕ SnapshotStatus) × World) : Prop :=
  (Quiet w r.2 ∧
    ((∃ res, r.1 = Sum.inl res ∧
        (res.state = UpdateState.MergeFailed ∨ res.state = UpdateState.Merging ∨
          (res.state = UpdateState.None ∧ ∃ st, ReadSnapshotStatus w n = some st ∧
            DecideMergePhase st = MergePhase.SECOND_PHASE))) ∨
      (∃ st, r.1 = Sum.inr st ∧ ReadSnapshotStatus w n = some st))) ∨
  (∃ w0 t, Quiet w w0 ∧ r.2 = (DeleteSnapshot e n w0).2 ∧
    r.1 = Sum.inl { state := UpdateState.Cancelled } ∧
    (∀ md, e.readMetadata t (e.slotNumberForSlotSuffix e.slotSuffix) = some md →
      GetMetadataPartitionState md n ≠ MetadataPartitionState.Updated)) ∨
  (∃ w0 st, Quiet w w0 ∧ r.2 = (OnSnapshotMergeComplete e n st w0).2 ∧
    r.1 = Sum.inl { state := UpdateState.MergeCompleted } ∧
    ReadSnapshotStatus w n = some st ∧ st.state = SnapshotState.MERGE_COMPLETED) ∨
  (∃ w0 st, Quiet w w0 ∧ r.2 = (SwitchSnapshotToMerge e n w0).2 ∧
    (∃ res, r.1 = Sum.inl res ∧
      (res.state = UpdateState.MergeFailed ∨ res.state = UpdateState.Merging)) ∧
    ReadSnapshotStatus w n = some st ∧
    DecideMergePhase st = MergePhase.SECOND_PHASE ∧
    us.merge_phase ≠ MergePhase.FIRST_PHASE)

/-- A second-phase merge of `vendor_b` whose status file already says
`MERGE_COMPLETED` (the cleanup did not go through). -/
def completedWorld : World :=
  { fs :=
      { stateFile := StateFile.encoded
          { state := UpdateState.MergeNeedsReboot, using_snapuserd := true,
            userspace_snapshots := true, merge_phase := MergePhase.SECOND_PHASE }
        bootIndicator := some "_a"
        snapshots :=
          [ { name := "vendor_b", isReg := true,
              content := some
                { name := "vendor_b", state := SnapshotState.MERGE_COMPLETED,
                  device_size := 536870912, snapshot_size := 536870912,
                  cow_file_size := 134217728, old_partition_size := 419430400,
                  using_snapuserd := true } } ] } }

/-- In the directory `dir`, the status file of `m` is not that of a
first-phase snapshot whose merge is outstanding: it cannot be read, or it is
second-phase, or its state is `MERGE_COMPLETED`. -/
def FirstDone (dir : List DirEnt) (m : String) : Prop :=
  ∀ s, readStatusFile dir m = some s → DecideMergePhase s = MergePhase.FIRST_PHASE →
    s.state = SnapshotState.MERGE_COMPLETED

/-- The snapshot `m` belongs to the merge: it carries the current slot suffix
and its partition is marked updated in the current metadata `md`. -/
def Tracked (e : Env) (md : LpMetadata) (m : String) : Prop :=
  EndsWith m e.slotSuffix = true ∧
  GetMetadataPartitionState md m = MetadataPartitionState.Updated

/-- No snapshot of the merge is a first-phase snapshot with an outstanding
merge. -/
def GoodDir (e : Env) (md : LpMetadata) (dir : List DirEnt) : Prop :=
  ∀ m, Tracked e md m → FirstDone dir m

/-- A call of `SwitchSnapshotToMerge` on a second-phase snapshot found the
first phase finished. -/
def OrderedEvent (e : Env) (md : LpMetadata) : Event → Prop
  | Event.switchToMerge _ status dir _ =>
    DecideMergePhase status = MergePhase.SECOND_PHASE → GoodDir e md dir
  | _ => True

/-- Every switch recorded in the trace respects the phase order. -/
def Ordered (e : Env) (md : LpMetadata) (t : List Event) : Prop :=
  ∀ ev ∈ t, OrderedEvent e md ev

/-- The update is not in the middle of a merge. -/
def NotMerging (w : World) : Prop :=
  ReadUpdateState w ≠ UpdateState.Merging ∧ ReadUpdateState w ≠ UpdateState.MergeFailed ∧
  ReadUpdateState w ≠ UpdateState.MergeNeedsReboot

/-- The worlds reachable from one that is not in the middle of a merge (and
has an empty trace) by calls of `InitiateMerge` and `CheckMergeState`, which
runs `CheckTargetMergeState` and `MergeSecondPhaseSnapshots`, and by restarts
of the process, which lose the manager fields. -/
inductive Reach (e : Env) : World → Prop
  | start (w : World) : w.trace = [] → NotMerging w → Reach e w
  | initiate (w : World) : Reach e w → Reach e (InitiateMerge e w).2
  | check (w : World) (before_cancel : Option (Nat → Bool)) :
      Reach e w → Reach e (CheckMergeState e before_cancel w).2
  | restart (w : World) (mem : Manager) : Reach e w → Reach e { w with mem := mem }

/-- From `w` to `w2` no status file appeared and none changed its phase. -/
def Keeps (w w2 : World) : Prop :=
  ∀ m s2, ReadSnapshotStatus w2 m = some s2 →
    ∃ s, ReadSnapshotStatus w m = some s ∧ DecideMergePhase s2 = DecideMergePhase s

/-- From `w` to `w2`: no status file appeared or changed its phase, no
first-phase snapshot lost `MERGE_COMPLETED`, and the events added respect the
phase order provided `g` holds or the first phase was finished at `w`. -/
def Safe (e : Env) (md : LpMetadata) (g : Prop) (w w2 : World) : Prop :=
  Keeps w w2 ∧
  (∀ m, FirstDone w.fs.snapshots m → FirstDone w2.fs.snapshots m) ∧
  ∃ evs, w2.trace = w.trace ++ evs ∧
    (g ∨ GoodDir e md w.fs.snapshots → ∀ ev ∈ evs, OrderedEvent e md ev)

/-- The invariant between calls: the update is not in the middle of a merge,
or the merge is in its first phase, or the first phase is finished. -/
def PhaseInv (e : Env) (md : LpMetadata) (w : World) : Prop :=
  NotMerging w ∨ (ReadSnapshotUpdateStatus w).merge_phase = MergePhase.FIRST_PHASE ∨
    GoodDir e md w.fs.snapshots

/-- The step leaves every file but the status files alone and switches
nothing. -/
def Calm (w w2 : World) : Prop :=
  w2.fs.noSnapshots = w.fs.noSnapshots ∧ Appends w w2 []

/-- The event records a switch of a second-phase snapshot made while the
status file of `m` was that of a first-phase snapshot whose state is not
`MERGE_COMPLETED`. -/
def switchedBefore (m : String) : Event → Bool
  | Event.switchToMerge _ status dir _ =>
    decide (DecideMergePhase status = MergePhase.SECOND_PHASE) &&
      (match readStatusFile dir m with
       | some s =>
         decide (DecideMergePhase s = MergePhase.FIRST_PHASE) &&
           decide (s.state ≠ SnapshotState.MERGE_COMPLETED)
       | none => false)
  | _ => false

/-- An environment like `calmEnv` in which `system_b` was re-flashed after the
update (its partition is no longer marked updated) and its COW device cannot
be deleted. -/
def stuckCowEnv : Env :=
  { calmEnv "_b" "_a" with
    readMetadata := fun _ _ => some [("system_b", false), ("vendor_b", true)]
    dmDeleteDeviceIfExists := fun _ _ => false }

/-- An environment like `calmEnv`, in recovery (status files are not
unlinked), whose daemon reports a completed merge for every device but
`vendor_b`, for which it reports `snapshot`. -/
def phasedEnv : Env :=
  { calmEnv "_b" "_a" with
    isRecovery := true
    snapuserdQuerySnapshotStatus := fun _ name =>
      if name = "vendor_b" then "snapshot" else "snapshot-merge-complete" }

/-! ## Printing the state, creating and mapping snapshots, finishing the writes -/

/-- `operator<<(std::ostream&, UpdateState)` (snapshot.cpp:3157): the text
printed for a state. -/
def printUpdateState : UpdateState → String
  | UpdateState.None => "none"
  | UpdateState.Initiated => "initiated"
  | UpdateState.Unverified => "unverified"
  | UpdateState.Merging => "merging"
  | UpdateState.MergeCompleted => "merge-completed"
  | UpdateState.MergeNeedsReboot => "merge-needs-reboot"
  | UpdateState.MergeFailed => "merge-failed"
  | UpdateState.Cancelled => "cancelled"

/-- `android::base::StartsWith`. -/
def StartsWith (s start : String) : Bool := start.data.isPrefixOf s.data

/-- The sector size `kSectorSize`. -/
def kSectorSize : Nat := 512

/-- `SnapshotManager::CreateSnapshot` (snapshot.cpp:466-478): the status that
is written, the caller's status with the state reset and the planner output
copied in. -/
def createdStatus (cow_creator : PartitionCowCreator) (status : SnapshotStatus) :
    SnapshotStatus :=
  let status :=
    { status with
      state := SnapshotState.CREATED
      sectors_allocated := 0
      metadata_sectors := 0
      using_snapuserd := cow_creator.using_snapuserd
      compression_algorithm := cow_creator.compression_algorithm
      compression_factor := cow_creator.compression_factor
      read_ahead_size := cow_creator.read_ahead_size }
  let status :=
    if cow_creator.enable_threading then
      { status with enable_threading := cow_creator.enable_threading }
    else status
  if cow_creator.batched_writes then { status with batched_writes := cow_creator.batched_writes }
  else status

/-- `SnapshotManager::CreateSnapshot` (snapshot.cpp:427). -/
def CreateSnapshot (e : Env) (cow_creator : PartitionCowCreator) (status : SnapshotStatus)
    (w : World) : Bool × World :=
  if status.name = "" then (false, w)
  else if status.device_size % kSectorSize ≠ 0 then (false, w)
  else if status.snapshot_size % kSectorSize ≠ 0 then (false, w)
  else if status.cow_partition_size % kSectorSize ≠ 0 then (false, w)
  else if status.cow_file_size % kSectorSize ≠ 0 then (false, w)
  else
    let (ok, w) := WriteSnapshotStatus e (createdStatus cow_creator status) w
    if !ok then (false, w) else (true, w)

/-- `SnapshotManager::MapDmUserCow` (snapshot.cpp:515-536): with userspace
snapshots, whether the snapshot may still be mapped. -/
def mayMapDmUserCow (e : Env) (name : String) (w : World) : Bool × World :=
  let (user, w) := UpdateUsesUserSnapshots e w
  if user then
    match ReadSnapshotStatus w name with
    | none => (false, w)
    | some status =>
      if status.state = SnapshotState.NONE ∨ status.state = SnapshotState.MERGE_COMPLETED then
        (false, w)
      else
        let update_status := ReadSnapshotUpdateStatus w
        if update_status.state = UpdateState.MergeCompleted ∨
            update_status.state = UpdateState.MergeNeedsReboot then (false, w)
        else (true, w)
  else (true, w)

/-- `SnapshotManager::MapDmUserCow` (snapshot.cpp:549-603): the size of the
dm-user device in sectors, `none` when it cannot be determined. -/
def dmUserBaseSectors (e : Env) (misc_name cow_file base_path_merge : String) (w : World) :
    Option Nat × World :=
  let (user, w) := UpdateUsesUserSnapshots e w
  if !user then
    let (base_sectors, w) := w.ask (fun t => e.snapuserdInitDmUserCowSectors t misc_name)
    if base_sectors = 0 then (none, w) else (some base_sectors, w)
  else if IsSnapshotWithoutSlotSwitch w then
    let (dev_sz, w) := w.ask (fun t => e.cowDeviceSize t cow_file)
    match dev_sz with
    | none => (none, w)
    | some dev_sz => (some (dev_sz / 512), w)
  else
    let (dev_sz, w) := w.ask (fun t => e.blockDeviceSize t base_path_merge)
    match dev_sz with
    | none => (none, w)
    | some dev_sz => if dev_sz = 0 then (none, w) else (some (dev_sz / 512), w)

/-- `SnapshotManager::MapDmUserCow` (snapshot.cpp:621-630): once the device
is there, initialise the daemon (userspace snapshots only) and attach. -/
def attachDmUser (e : Env) (misc_name : String) (w : World) : Bool × World :=
  let (user, w) := UpdateUsesUserSnapshots e w
  if user then
    let (ok, w) := w.ask (fun t => e.snapuserdInitDmUserCow t misc_name)
    if !ok then (false, w) else w.ask (fun t => e.snapuserdAttachDmUser t misc_name)
  else w.ask (fun t => e.snapuserdAttachDmUser t misc_name)

/-- `SnapshotManager::MapDmUserCow` (snapshot.cpp:509).  The base device is
only handed on to the daemon and is left out. -/
def MapDmUserCow (e : Env) (name cow_file base_path_merge : String) (w : World) :
    Bool × World :=
  let (go, w) := mayMapDmUserCow e name w
  if !go then (false, w)
  else
    let misc_name := if w.mem.use_first_stage_snapuserd_ then name ++ "-init" else name
    let (conn, w) := EnsureSnapuserdConnected e w
    if !conn then (false, w)
    else
      let (base, w) := dmUserBaseSectors e misc_name cow_file base_path_merge w
      match base with
      | none => (false, w)
      | some base_sectors =>
        let (ok, w) := w.ask (fun t => e.dmCreateDevice t name)
        let w := w.log (Event.createDmUserDevice name misc_name base_sectors ok)
        if !ok then (false, w)
        else
          let (ok, w) := w.ask (fun t => e.waitForDevice t name)
          if !ok then (false, w)
          else
            let (ok, w) := w.ask (fun t => e.waitForDevice t ("/dev/dm-user/" ++ misc_name))
            if !ok then (false, w) else attachDmUser e misc_name w

/-- `SnapshotManager::MapSnapshot` (snapshot.cpp:651-667): when the base
device is given by path, it must open and have the size the status records. -/
def checkBaseDevice (e : Env) (base_device : String) (status : SnapshotStatus) (w : World) :
    Bool × World :=
  if StartsWith base_device "/" then
    let (dev_size, w) := w.ask (fun t => e.blockDeviceSize t base_device)
    match dev_size with
    | none => (false, w)
    | some dev_size =>
      if dev_size = 0 then (false, w)
      else if status.device_size ≠ dev_size then (false, w)
      else (true, w)
  else (true, w)

/-- `SnapshotManager::MapSnapshot` (snapshot.cpp:688-716): the storage mode of
the new device, `none` when no device may be created. -/
def snapshotMode (status : SnapshotStatus) (update_status : SnapshotUpdateStatus) :
    Option SnapshotStorageMode :=
  let mode :=
    match update_status.state with
    | UpdateState.MergeCompleted => none
    | UpdateState.MergeNeedsReboot => none
    | UpdateState.Merging =>
      if DecideMergePhase status = update_status.merge_phase then some SnapshotStorageMode.Merge
      else some SnapshotStorageMode.Persistent
    | UpdateState.MergeFailed =>
      if DecideMergePhase status = update_status.merge_phase then some SnapshotStorageMode.Merge
      else some SnapshotStorageMode.Persistent
    | _ => some SnapshotStorageMode.Persistent
  match mode with
  | none => none
  | some mode =>
    if mode = SnapshotStorageMode.Persistent ∧ status.state = SnapshotState.MERGING then
      some SnapshotStorageMode.Merge
    else some mode

/-- `SnapshotManager::MapSnapshot` (snapshot.cpp:633). -/
def MapSnapshot (e : Env) (name base_device cow_device : String) (w : World) :
    Bool × World :=
  match ReadSnapshotStatus w name with
  | none => (false, w)
  | some status =>
    if status.state = SnapshotState.NONE ∨ status.state = SnapshotState.MERGE_COMPLETED then
      (false, w)
    else
      let (size_ok, w) := checkBaseDevice e base_device status w
      if !size_ok then (false, w)
      else if status.device_size % kSectorSize ≠ 0 then (false, w)
      else if status.snapshot_size % kSectorSize ≠ 0 ∨
          status.snapshot_size > status.device_size then (false, w)
      else if status.device_size ≠ status.snapshot_size then (false, w)
      else
        let snapshot_sectors := status.snapshot_size / kSectorSize
        match snapshotMode status (ReadSnapshotUpdateStatus w) with
        | none => (false, w)
        | some mode =>
          let (ok, w) := w.ask (fun t => e.dmCreateDevice t name)
          let w := w.log
            (Event.createSnapshotDevice name snapshot_sectors base_device cow_device mode ok)
          if !ok then (false, w) else (true, w)

/-- The loop of `EnsureNoOverflowSnapshot` (snapshot.cpp:4348). -/
def overflowLoop (e : Env) : List String → World → Bool × World
  | [], w => (true, w)
  | snapshot :: rest, w =>
    match ReadSnapshotStatus w snapshot with
    | none => (false, w)
    | some status =>
      if status.using_snapuserd then overflowLoop e rest w
      else
        let (targets, w) := w.ask (fun t => e.dmGetTableStatus t snapshot)
        match targets with
        | some [target] => if target.overflow then (false, w) else overflowLoop e rest w
        | _ => (false, w)

/-- `SnapshotManager::EnsureNoOverflowSnapshot` (snapshot.cpp:4339). -/
def EnsureNoOverflowSnapshot (e : Env) (w : World) : Bool × World :=
  let (listed, w) := ListSnapshots e "" [] w
  match listed with
  | none => (false, w)
  | some snapshots => overflowLoop e snapshots w

/-- `SnapshotManager::UpdateForwardMergeIndicator` (snapshot.cpp:4423).  A
write that fails is taken to leave the indicator as it was. -/
def UpdateForwardMergeIndicator (e : Env) (wipe : Bool) (w : World) : Bool × World :=
  if !wipe then
    let (ok, w) := RemoveFileIfExists e w
    if ok then (true, { w with fs := { w.fs with forwardMergeIndicator := false } })
    else (false, w)
  else
    let (ok, w) := w.ask e.writeFileOk
    if !ok then (false, w)
    else (true, { w with fs := { w.fs with forwardMergeIndicator := true } })

/-- `SnapshotManager::FinishedSnapshotWrites` (snapshot.cpp:408-424): remove
the rollback indicator, write the boot indicator, record `Unverified`. -/
def commitSnapshotWrites (e : Env) (w : World) : Bool × World :=
  let (ok, w) := RemoveFileIfExists e w
  if !ok then (false, w)
  else
    let w := { w with fs := { w.fs with rollbackIndicator := false } }
    let (ok, w) := w.ask e.writeFileOk
    if !ok then (false, w)
    else
      let w := { w with fs := { w.fs with bootIndicator := some e.slotSuffix } }
      WriteUpdateState e UpdateState.Unverified MergeFailureCode.Ok w

/-- `SnapshotManager::FinishedSnapshotWrites` (snapshot.cpp:384). -/
def FinishedSnapshotWrites (e : Env) (wipe : Bool) (w : World) : Bool × World :=
  let (locked, w) := w.ask e.lockOk
  if !locked then (false, w)
  else
    let update_state := ReadUpdateState w
    if update_state = UpdateState.Unverified then (true, w)
    else if update_state ≠ UpdateState.Initiated then (false, w)
    else
      let (ok, w) := EnsureNoOverflowSnapshot e w
      if !ok then (false, w)
      else
        let (ok, w) := UpdateForwardMergeIndicator e wipe w
        if !ok then (false, w) else commitSnapshotWrites e w

/-- The names `ListSnapshots` moves to the head of its list. -/
def isHeadName (name : String) : Bool :=
  name = "system_a" || name = "system_b" || name = "product_a" || name = "product_b"

/-- The entries `ListSnapshots` is to report for a suffix: regular files
whose name ends with it (all regular files when it is empty). -/
def listedEntries (suffix : String) (dir : List DirEnt) : List DirEnt :=
  dir.filter (fun d => d.isReg && (decide (suffix = "") || EndsWith d.name suffix))

/-- A merge that failed while `vendor_b`, a second-phase snapshot not yet
switched, still has state `CREATED`. -/
def stalledWorld : World :=
  { fs :=
      { stateFile := StateFile.encoded
          { state := UpdateState.MergeFailed, merge_phase := MergePhase.SECOND_PHASE }
        bootIndicator := some "_a"
        snapshots :=
          [ { name := "vendor_b", isReg := true,
              content := some
                { name := "vendor_b", state := SnapshotState.CREATED,
                  device_size := 536870912, snapshot_size := 536870912,
                  cow_file_size := 134217728, old_partition_size := 419430400 } } ] } }

/-- An update whose snapshots were just created: state `Initiated` on slot
`_a`, a stale rollback indicator, the snapshots of the shrink scenario. -/
def initiatedWorld : World :=
  { fs :=
      { (shrinkWorld true).fs with
        stateFile := StateFile.encoded
          { state := UpdateState.Initiated, using_snapuserd := true,
            userspace_snapshots := true }
        bootIndicator := none
        rollbackIndicator := true } }

/-! ## Acknowledging a failure, polling, the first-stage decision -/

/-- `SnapshotManager::AcknowledgeMergeFailure` (snapshot.cpp:1573). -/
def AcknowledgeMergeFailure (e : Env) (failure_code : MergeFailureCode) (w : World) : World :=
  let (locked, w) := w.ask e.lockOk
  if !locked then w
  else
    let state := ReadUpdateState w
    if state ≠ UpdateState.Merging ∧ state ≠ UpdateState.MergeNeedsReboot then w
    else (WriteUpdateState e UpdateState.MergeFailed failure_code w).2

/-- `SnapshotManager::CheckMergeState(before_cancel)` (snapshot.cpp:1183), the
overload that takes the lock itself. -/
def CheckMergeStateLocking (e : Env) (before_cancel : Option (Nat → Bool)) (w : World) :
    MergeResult × World :=
  let (locked, w) := w.ask e.lockOk
  if !locked then
    ({ state := UpdateState.MergeFailed, failure_code := MergeFailureCode.AcquireLock }, w)
  else
    let (result, w) := CheckMergeState e before_cancel w
    if result.state = UpdateState.MergeCompleted then (result, AcknowledgeMergeSuccess e w)
    else if result.state = UpdateState.Cancelled then
      if !e.isRecovery then (result, (RemoveAllUpdateState e before_cancel w).2)
      else (result, w)
    else (result, w)

/-- How a call ends: it returns a value, it reaches undefined behaviour, or
its polling loop is still going after the given number of rounds. -/
inductive Run (α : Type) where
  | returned (value : α)
  | undefined
  | unfinished
  deriving DecidableEq, Repr

/-- One round of `ProcessUpdateState` (snapshot.cpp:1154-1165): check, then
acknowledge a failure or clean up after a completed merge. -/
def processRound (e : Env) (before_cancel : Option (Nat → Bool)) (w : World) :
    MergeResult × World :=
  let (result, w) := CheckMergeStateLocking e before_cancel w
  let w :=
    if result.state = UpdateState.MergeFailed then
      AcknowledgeMergeFailure e result.failure_code w
    else w
  let w :=
    if result.state = UpdateState.MergeCompleted then
      if e.isTempMetadata then (w.ask e.cleanupScratchOtaMetadata).2 else w
    else w
  (result, w)

/-- `SnapshotManager::ProcessUpdateState` (snapshot.cpp:1151).  The loop runs
for at most `rounds` rounds; the sleep between two rounds is left out. -/
def ProcessUpdateState (e : Env) (callback before_cancel : Option (Nat → Bool)) :
    Nat → World → Run UpdateState × World
  | 0, w => (Run.unfinished, w)
  | rounds + 1, w =>
    let (result, w) := processRound e before_cancel w
    if result.state ≠ UpdateState.Merging then (Run.returned result.state, w)
    else
      match callback with
      | none => ProcessUpdateState e callback before_cancel rounds w
      | some f =>
        let (go, w) := w.ask f
        if !go then (Run.returned result.state, w)
        else ProcessUpdateState e callback before_cancel rounds w

/-- `NeedSnapshotsInFirstStageMount` (snapshot.cpp:2481-2490): booting into
the original slot is marked as a rollback. -/
def noteRollback (e : Env) (w : World) : World :=
  let (ok, w) := w.ask e.writeFileOk
  let w := w.log (Event.writeRollbackIndicator ok)
  if !ok then w
  else
    let w := { w with fs := { w.fs with rollbackIndicator := true } }
    if e.isTempMetadata then (w.ask e.cleanupScratchOtaMetadata).2 else w

/-- `SnapshotManager::NeedSnapshotsInFirstStageMount` (snapshot.cpp:2459).
`LOG(FATAL)` on a failed lock ends the process; modelled as answering
`false`. -/
def NeedSnapshotsInFirstStageMount (e : Env) (w : World) : Bool × World :=
  if IsSnapshotWithoutSlotSwitch w then
    if GetCurrentSlot e w ≠ Slot.Source then (false, w) else (true, w)
  else
    let slot := GetCurrentSlot e w
    if slot ≠ Slot.Target then
      if slot = Slot.Source then (false, noteRollback e w) else (false, w)
    else
      let (locked, w) := w.ask e.lockOk
      if !locked then (false, w)
      else
        match ReadUpdateState w with
        | UpdateState.Unverified => (true, w)
        | UpdateState.Merging => (true, w)
        | UpdateState.MergeFailed => (true, w)
        | _ => (false, w)

/-- `std::chrono::milliseconds::min()`, the count of a 64-bit signed
representation. -/
def millisecondsMin : Int := -(2 ^ 63)

/-- A value of a 64-bit signed count as the machine holds it. -/
def toInt64 (x : Int) : Int := (x + 2 ^ 63) % 2 ^ 64 - 2 ^ 63

/-- `GetRemainingTime` (snapshot.cpp:2564) once the clock was read:
`passed_time` is the difference of the two clock readings in nanoseconds,
`duration_cast<milliseconds>` truncates it. -/
def remainingTime (timeout : Int) (begin now : Nat) : Int :=
  if timeout = 0 then 0
  else
    let passed_time : Int := toInt64 ((now : Int) - (begin : Int))
    let remaining_time := toInt64 (timeout - Int.tdiv passed_time 1000000)
    if remaining_time ≤ 0 then millisecondsMin else remaining_time

/-- `GetRemainingTime` (snapshot.cpp:2564): all in milliseconds; the clock is
only read for a non-zero timeout. -/
def GetRemainingTime (e : Env) (timeout : Int) (begin : Nat) (w : World) : Int × World :=
  if timeout = 0 then (0, w)
  else
    let (now, w) := w.ask e.steadyClockNow
    (remainingTime timeout begin now, w)

/-! ## Mapping a partition with its snapshot -/

/-- Modelled from the spec: the fields of `CreateLogicalPartitionParams` the
manager reads or sets (the header is not part of the sources at hand).
`updated` is the bit `LP_PARTITION_ATTR_UPDATED` of the partition. -/
structure CreateLogicalPartitionParams where
  partition_name : String
  device_name : String := ""
  updated : Bool := false
  timeout_ms : Int := 0
  force_writable : Bool := false
  deriving DecidableEq, Repr

/-- `CreateLogicalPartitionParams::GetDeviceName`: the partition name unless a
device name was given. -/
def GetDeviceName (params : CreateLogicalPartitionParams) : String :=
  if params.device_name = "" then params.partition_name else params.device_name

/-- Modelled from the spec: `SnapshotManager::SnapshotContext`. -/
inductive SnapshotContext
  | Mount
  | Update
  deriving DecidableEq, Repr

/-- What the block of `MapPartitionWithSnapshot` that determines
`live_snapshot_status` (snapshot.cpp:2609-2645) ends with: the function
returns `false`, an empty optional is dereferenced, or control leaves the
block with the optional as given. -/
inductive LiveStatus
  | refused
  | undefined
  | settled (live_snapshot_status : Option SnapshotStatus)
  deriving DecidableEq, Repr

/-- `SnapshotManager::MapPartitionWithSnapshot` (snapshot.cpp:2609-2645): is
there a live snapshot for the partition?  `operator->` on an empty
`std::optional` is undefined behaviour. -/
def liveSnapshotStatus (e : Env) (params : CreateLogicalPartitionParams) (w : World) :
    LiveStatus × World :=
  if !IsSnapshotWithoutSlotSwitch w && !params.updated then (LiveStatus.settled none, w)
  else
    let (denied, w) := w.ask e.accessError
    if denied then (LiveStatus.refused, w)
    else if (findEnt w.fs.snapshots params.partition_name).isNone then
      (LiveStatus.settled none, w)
    else
      match ReadSnapshotStatus w params.partition_name with
      | none => (LiveStatus.refused, w)
      | some status =>
        let live_snapshot_status : Option SnapshotStatus := some status
        let live_snapshot_status :=
          if status.state = SnapshotState.MERGE_COMPLETED then none else live_snapshot_status
        match live_snapshot_status with
        | none => (LiveStatus.undefined, w)
        | some live =>
          if live.state = SnapshotState.NONE ∨
              (live.cow_partition_size + live.cow_file_size) % 2 ^ 64 = 0 then
            (LiveStatus.settled none, w)
          else (LiveStatus.settled (some live), w)

/-- `SnapshotManager::MapCowImage` (snapshot.cpp:728): whether the image was
mapped. -/
def MapCowImage (e : Env) (name : String) (w : World) : Bool × World :=
  let (img, w) := EnsureImageManager e w
  if !img then (false, w)
  else if e.isRecovery || e.isFirstStageInit then
    w.ask (fun t => e.mapImageWithDeviceMapper t (GetCowImageDeviceName name))
  else w.ask (fun t => e.mapImageDevice t (GetCowImageDeviceName name))

/-- `SnapshotManager::GetMappedImageDevicePath` (snapshot.cpp:4449). -/
def GetMappedImageDevicePath (e : Env) (device_name : String) (w : World) :
    Option String × World :=
  let (st, w) := w.ask (fun t => e.dmGetState t device_name)
  if st ≠ DmDeviceState.INVALID then w.ask (fun t => e.dmGetDmDevicePathByName t device_name)
  else w.ask (fun t => e.getMappedImageDevice t device_name)

/-- `SnapshotManager::GetMappedImageDeviceStringOrPath` (snapshot.cpp:4460). -/
def GetMappedImageDeviceStringOrPath (e : Env) (device_name : String) (w : World) :
    Option String × World :=
  let (st, w) := w.ask (fun t => e.dmGetState t device_name)
  if st ≠ DmDeviceState.INVALID then w.ask (fun t => e.dmGetDeviceString t device_name)
  else w.ask (fun t => e.getMappedImageDevice t device_name)

/-- `SnapshotManager::MapCowDevices` (snapshot.cpp:2842-2859), the COW image:
`none` when the function returns `false`, `some true` when it returns with
the image alone, `some false` when it goes on to the COW partition. -/
def mapCowImageIfAny (e : Env) (params : CreateLogicalPartitionParams)
    (snapshot_status : SnapshotStatus) (begin : Nat) (w : World) : Option Bool × World :=
  if snapshot_status.cow_file_size > 0 then
    let (img, w) := EnsureImageManager e w
    if !img then (none, w)
    else
      let (remaining_time, w) := GetRemainingTime e params.timeout_ms begin w
      if remaining_time < 0 then (none, w)
      else
        let (mapped, w) := MapCowImage e params.partition_name w
        if !mapped then (none, w)
        else if snapshot_status.cow_partition_size = 0 then (some true, w)
        else (some false, w)
  else (some false, w)

/-- `SnapshotManager::MapCowDevices` (snapshot.cpp:2877-2886): the COW image,
if there is one, becomes the last extent of the table. -/
def appendCowImage (e : Env) (cow_image_name : String) (snapshot_status : SnapshotStatus)
    (w : World) : Bool × World :=
  if snapshot_status.cow_file_size > 0 then
    let (cow_image_device, w) := GetMappedImageDeviceStringOrPath e cow_image_name w
    (cow_image_device.isSome, w)
  else (true, w)

/-- `SnapshotManager::MapCowDevices` (snapshot.cpp:2830): the name of the COW
device, `none` when the function returns `false`.  A failing `CHECK` ends the
process, modelled as a failure. -/
def MapCowDevices (e : Env) (params : CreateLogicalPartitionParams)
    (snapshot_status : SnapshotStatus) (w : World) : Option String × World :=
  if (snapshot_status.cow_partition_size + snapshot_status.cow_file_size) % 2 ^ 64 = 0 then
    (none, w)
  else
    let (begin, w) := w.ask e.steadyClockNow
    let cow_image_name := GetCowImageDeviceName params.partition_name
    let cow_name := GetCowName params.partition_name
    match mapCowImageIfAny e params snapshot_status begin w with
    | (none, w) => (none, w)
    | (some true, w) => (some cow_image_name, w)
    | (some false, w) =>
      let (remaining_time, w) := GetRemainingTime e params.timeout_ms begin w
      if remaining_time < 0 then (none, w)
      else if snapshot_status.cow_partition_size = 0 then (none, w)
      else
        let (ok, w) := w.ask (fun t => e.createDmTable t cow_name)
        if !ok then (none, w)
        else
          let (ok, w) := appendCowImage e cow_image_name snapshot_status w
          if !ok then (none, w)
          else
            let (ok, w) := w.ask (fun t => e.dmCreateDevice t cow_name)
            if !ok then (none, w) else (some cow_name, w)

/-- `SnapshotManager::MapSourceDevice` (snapshot.cpp:750): the path of the
source device, `none` on failure.  The old metadata is read from its file on
every call; the cached pointer only saves the re-reading. -/
def MapSourceDevice (e : Env) (name : String) (w : World) : Option String × World :=
  if !w.fs.oldPartitionMetadata then (none, w)
  else
    let (ok, w) := w.ask e.readOldPartitionMetadata
    if !ok then (none, w)
    else
      let (path, w) := w.ask (fun t => e.createLogicalPartition t (GetSourceDeviceName name))
      (path, w.log (Event.createLogicalPartition (GetSourceDeviceName name) path.isSome))

/-- `SnapshotManager::MapPartitionWithSnapshot` (snapshot.cpp:2726-2737): the
device the daemon reads the old blocks from. -/
def sourceDevicePath (e : Env) (params : CreateLogicalPartitionParams)
    (status : SnapshotStatus) (base_path : String) (w : World) : Option String × World :=
  if status.old_partition_size > 0 then MapSourceDevice e params.partition_name w
  else (some base_path, w)

/-- `SnapshotManager::MapPartitionWithSnapshot` (snapshot.cpp:2723-2762): with
snapuserd the COW device is wrapped in a dm-user device, which takes its
place; `none` when the function returns `false`.  A device-mapper device is
referred to by its name. -/
def mapUserCow (e : Env) (params : CreateLogicalPartitionParams) (status : SnapshotStatus)
    (base_path cow_name cow_device : String) (w : World) : Option String × World :=
  if status.using_snapuserd then
    let (source_device_path, w) := sourceDevicePath e params status base_path w
    match source_device_path with
    | none => (none, w)
    | some source_device_path =>
      let (ok, w) := w.ask (fun t => e.waitForDevice t source_device_path)
      if !ok then (none, w)
      else
        let (cow_path, w) := GetMappedImageDevicePath e cow_name w
        match cow_path with
        | none => (none, w)
        | some cow_path =>
          let (ok, w) := w.ask (fun t => e.waitForDevice t cow_path)
          if !ok then (none, w)
          else
            let (name, w) := GetDmUserCowName e params.partition_name w
            let (ok, w) := MapDmUserCow e name cow_path base_path w
            if !ok then (none, w) else (some name, w)
  else (some cow_device, w)

/-- `SnapshotManager::MapPartitionWithSnapshot` (snapshot.cpp:2774-2795): with
the kernel driver the snapshot device itself is created. -/
def mapSnapshotTarget (e : Env) (params : CreateLogicalPartitionParams) (begin : Nat)
    (base_device cow_device : String) (w : World) : Bool × World :=
  let (user, w) := UpdateUsesUserSnapshots e w
  if !user then
    let (remaining_time, w) := GetRemainingTime e params.timeout_ms begin w
    if remaining_time < 0 then (false, w)
    else
      let (ok, w) := MapSnapshot e params.partition_name base_device cow_device w
      if !ok then (false, w) else (true, w)
  else (true, w)

/-- `SnapshotManager::MapPartitionWithSnapshot` (snapshot.cpp:2683-2797): the
devices on top of the base device of a live snapshot. -/
def mapSnapshotStack (e : Env) (params : CreateLogicalPartitionParams)
    (context : SnapshotContext) (begin : Nat) (status : SnapshotStatus) (base_path : String)
    (w : World) : Bool × World :=
  let (base_device, w) := w.ask (fun t => e.dmGetDeviceString t (GetDeviceName params))
  match base_device with
  | none => (false, w)
  | some base_device =>
    let (remaining_time, w) := GetRemainingTime e params.timeout_ms begin w
    if remaining_time < 0 then (false, w)
    else
      let (cow_name, w) :=
        MapCowDevices e { params with timeout_ms := remaining_time } status w
      match cow_name with
      | none => (false, w)
      | some cow_name =>
        let (cow_device, w) := GetMappedImageDeviceStringOrPath e cow_name w
        match cow_device with
        | none => (false, w)
        | some cow_device =>
          let (remaining_time, w) := GetRemainingTime e params.timeout_ms begin w
          if remaining_time < 0 then (false, w)
          else if context = SnapshotContext.Update ∧ status.using_snapuserd then (true, w)
          else
            let (cow_device, w) := mapUserCow e params status base_path cow_name cow_device w
            match cow_device with
            | none => (false, w)
            | some cow_device => mapSnapshotTarget e params begin base_device cow_device w

/-- `SnapshotManager::MapPartitionWithSnapshot` (snapshot.cpp:2671-2679): the
deadline is checked, then the base device is waited for. -/
def awaitBaseDevice (e : Env) (timeout_ms : Int) (begin : Nat) (base_path : String)
    (w : World) : Bool × World :=
  let (remaining_time, w) := GetRemainingTime e timeout_ms begin w
  if remaining_time < 0 then (false, w)
  else w.ask (fun t => e.waitForDevice t base_path)

/-- `SnapshotManager::MapPartitionWithSnapshot` (snapshot.cpp:2647-2797), once
`live_snapshot_status` is determined: the base device, or the device itself
when there is no live snapshot, then the snapshot stack. -/
def mapPartitionStack (e : Env) (params : CreateLogicalPartitionParams)
    (context : SnapshotContext) (begin : Nat) (live_snapshot_status : Option SnapshotStatus)
    (w : World) : Bool × World :=
  let params :=
    if live_snapshot_status.isSome then
      { params with
        force_writable := true
        device_name := GetBaseDeviceName params.partition_name }
    else params
  let (base_path, w) := w.ask (fun t => e.createLogicalPartition t (GetDeviceName params))
  let w := w.log (Event.createLogicalPartition (GetDeviceName params) base_path.isSome)
  match base_path with
  | none => (false, w)
  | some base_path =>
    let (ok, w) := awaitBaseDevice e params.timeout_ms begin base_path w
    if !ok then (false, w)
    else
      match live_snapshot_status with
      | none => (true, w)
      | some status => mapSnapshotStack e params context begin status base_path w

/-- `SnapshotManager::MapPartitionWithSnapshot` (snapshot.cpp:2580).  The
`paths` out-parameter is not modelled.  The `AutoDeviceList` that unmaps the
devices created so far when the function fails acts on the device-mapper and
the image manager only and is left out. -/
def MapPartitionWithSnapshot (e : Env) (params : CreateLogicalPartitionParams)
    (context : SnapshotContext) (w : World) : Run Bool × World :=
  let (begin, w) := w.ask e.steadyClockNow
  if params.partition_name ≠ GetDeviceName params then (Run.returned false, w)
  else
    let (ok, w) := w.ask (fun t => e.initDefaults t params.partition_name)
    if !ok then (Run.returned false, w)
    else if e.partitionNumExtents params.partition_name = 0 then (Run.returned true, w)
    else
      match liveSnapshotStatus e params w with
      | (LiveStatus.refused, w) => (Run.returned false, w)
      | (LiveStatus.undefined, w) => (Run.undefined, w)
      | (LiveStatus.settled live_snapshot_status, w) =>
        let (ok, w) := mapPartitionStack e params context begin live_snapshot_status w
        (Run.returned ok, w)

/-- The loop of `MapAllPartitions` (snapshot.cpp:2535) over the partitions of
the metadata. -/
def mapAllLoop (e : Env) (timeout_ms : Int) : LpMetadata → World → Run Bool × World
  | [], w => (Run.returned true, w)
  | partition :: rest, w =>
    if e.partitionGroupName partition.1 = e.cowGroupName then mapAllLoop e timeout_ms rest w
    else if partition.1 = e.otaMetadataPartition then mapAllLoop e timeout_ms rest w
    else
      match MapPartitionWithSnapshot e
          { partition_name := partition.1, updated := partition.2, timeout_ms := timeout_ms }
          SnapshotContext.Mount w with
      | (Run.returned true, w) => mapAllLoop e timeout_ms rest w
      | (outcome, w) => (outcome, w)

/-- `SnapshotManager::MapAllPartitions` (snapshot.cpp:2522). -/
def MapAllPartitions (e : Env) (slot : Nat) (timeout_ms : Int) (w : World) :
    Run Bool × World :=
  let (metadata, w) := w.ask (fun t => e.readMetadata t slot)
  match metadata with
  | none => (Run.returned false, w)
  | some metadata =>
    let (img, w) := EnsureImageManager e w
    if !img then (Run.returned false, w)
    else mapAllLoop e timeout_ms metadata w

/-- `SnapshotManager::CreateLogicalAndSnapshotPartitions`
(snapshot.cpp:2511). -/
def CreateLogicalAndSnapshotPartitions (e : Env) (timeout_ms : Int) (w : World) :
    Run Bool × World :=
  let (locked, w) := w.ask e.lockOk
  if !locked then (Run.returned false, w)
  else MapAllPartitions e (e.slotNumberForSlotSuffix e.slotSuffix) timeout_ms w

/-- The loop of `UnmapAllPartitionsInRecovery` (snapshot.cpp:4053). -/
def unmapAllLoop (e : Env) : LpMetadata → Bool → World → Bool × World
  | [], ok, w => (ok, w)
  | partition :: rest, ok, w =>
    let (unmapped, w) := UnmapPartitionWithSnapshot e partition.1 w
    unmapAllLoop e rest (ok && unmapped) w

/-- `SnapshotManager::UnmapAllPartitionsInRecovery` (snapshot.cpp:4039). -/
def UnmapAllPartitionsInRecovery (e : Env) (w : World) : Bool × World :=
  let (locked, w) := w.ask e.lockOk
  if !locked then (false, w)
  else
    let (metadata, w) := ReadCurrentMetadata e w
    match metadata with
    | none => (false, w)
    | some metadata => unmapAllLoop e metadata true w

/-! ## Data wipes in recovery -/

/-- `SnapshotManager::EnsureMetadataMounted` (snapshot.cpp:4142): `none` for
a null pointer, otherwise whether the returned object `HasDevice()`. -/
def EnsureMetadataMounted (e : Env) (w : World) : Option Bool × World :=
  if !e.isRecovery then (some false, w)
  else
    let (mounted, w) := w.ask e.mountMetadata
    if !mounted then (none, w)
    else
      let (locked, w) := w.ask e.lockOk
      if !locked then (none, w) else (some true, w)

/-- `SnapshotManager::ProcessUpdateStateOnDataWipe` (snapshot.cpp:4292), for
at most `rounds` rounds of its loop, each of which lets `ProcessUpdateState`
poll for as many rounds. -/
def ProcessUpdateStateOnDataWipe (e : Env) (callback : Option (Nat → Bool)) (rounds : Nat) :
    Nat → World → Run UpdateState × World
  | 0, w => (Run.unfinished, w)
  | left + 1, w =>
    match ProcessUpdateState e callback none rounds w with
    | (Run.returned UpdateState.MergeFailed, w) => (Run.returned UpdateState.MergeFailed, w)
    | (Run.returned UpdateState.Unverified, w) =>
      let (ok, w) := InitiateMerge e w
      if !ok then (Run.returned UpdateState.MergeFailed, w)
      else ProcessUpdateStateOnDataWipe e callback rounds left w
    | (outcome, w) => (outcome, w)

/-- `SnapshotManager::HandleImminentDataWipe` (snapshot.cpp:4190-4228), the
`switch` on the state read: whether a merge is to be tried.  The answers of
the two boot-control calls are ignored. -/
def decideWipe (e : Env) (state : UpdateState) (w : World) : Bool × World :=
  match state with
  | UpdateState.Unverified =>
    if GetCurrentSlot e w ≠ Slot.Target then (false, w)
    else if !w.fs.forwardMergeIndicator then
      let slot_number := e.slotNumberForSlotSuffix e.slotSuffix
      let other_slot_number := e.slotNumberForSlotSuffix e.otherSlotSuffix
      let w := (w.ask (fun t => e.setSlotAsUnbootable t slot_number)).2
      let w := w.log (Event.setSlotAsUnbootable slot_number)
      let w := (w.ask (fun t => e.setActiveBootSlot t other_slot_number)).2
      (false, w.log (Event.setActiveBootSlot other_slot_number))
    else (true, w)
  | UpdateState.Merging => (true, w)
  | UpdateState.MergeFailed => (true, w)
  | _ => (false, w)

/-- `SnapshotManager::HandleImminentDataWipe` (snapshot.cpp:4259-4269): zap
the update state; the result of the write is ignored. -/
def zapUpdateState (e : Env) (state : UpdateState) (w : World) : Bool × World :=
  if state ≠ UpdateState.None then
    let (locked, w) := w.ask e.lockOk
    if !locked then (false, w)
    else (true, (WriteUpdateState e UpdateState.None MergeFailureCode.Ok w).2)
  else (true, w)

/-- `SnapshotManager::HandleImminentDataWipe` (snapshot.cpp:4244-4258), after
the partitions were mapped: process the update until it settles, then unmap
everything and zap the state.  The wrapper around the client's callback
always answers `true`. -/
def mergeBeforeWipe (e : Env) (rounds : Nat) (w : World) : Run Bool × World :=
  match ProcessUpdateStateOnDataWipe e (some fun _ => true) rounds rounds w with
  | (Run.returned state, w) =>
    if state = UpdateState.MergeFailed then (Run.returned false, w)
    else
      let (_, w) := UnmapAllPartitionsInRecovery e w
      let (ok, w) := zapUpdateState e state w
      (Run.returned ok, w)
  | (Run.undefined, w) => (Run.undefined, w)
  | (Run.unfinished, w) => (Run.unfinished, w)

/-- `SnapshotManager::HandleImminentDataWipe` (snapshot.cpp:4230-4258), the
block under `try_merge`. -/
def mapAndMerge (e : Env) (rounds : Nat) (w : World) : Run Bool × World :=
  match CreateLogicalAndSnapshotPartitions e 20000 w with
  | (Run.returned true, w) => mergeBeforeWipe e rounds w
  | (outcome, w) => (outcome, w)

/-- `SnapshotManager::HandleImminentDataWipe` (snapshot.cpp:4163).  `rounds`
bounds the polling loops. -/
def HandleImminentDataWipe (e : Env) (rounds : Nat) (w : World) : Run Bool × World :=
  if !e.isRecovery then (Run.returned false, w)
  else
    let (mount, w) := EnsureMetadataMounted e w
    if mount ≠ some true then (Run.returned true, w)
    else
      let (locked, w) := w.ask e.lockOk
      if !locked then (Run.returned true, w)
      else
        let state := ReadUpdateState w
        let (try_merge, w) := decideWipe e state w
        if try_merge then mapAndMerge e rounds w
        else
          let (ok, w) := zapUpdateState e state w
          (Run.returned ok, w)

/-- The shrink scenario in the first phase of its merge: `system_b` is being
merged, `vendor_b` waits for the second phase. -/
def firstPhaseWorld : World :=
  { fs :=
      { (shrinkWorld true).fs with
        stateFile := StateFile.encoded
          { state := UpdateState.Merging, using_snapuserd := true,
            userspace_snapshots := true, merge_phase := MergePhase.FIRST_PHASE } } }

/-- An environment like `calmEnv` whose clock reads five seconds. -/
def fiveSecondsEnv : Env := { calmEnv "_b" "_a" with steadyClockNow := fun _ => 5000000000 }

/-- A device that rebooted into the original slot `_a` while the update to
`_b` was still `Unverified`. -/
def rolledBackWorld : World :=
  { fs := { stateFile := StateFile.encoded { state := UpdateState.Unverified },
            bootIndicator := some "_a" } }

/-- The codes the successive calls of `SwitchSnapshotToMerge` return when the
snapshots of a list are switched one after the other, as the loops of
`InitiateMerge` and `MergeSecondPhaseSnapshots` do. -/
def switchCodes (e : Env) : List String → World → List MergeFailureCode
  | [], _ => []
  | snapshot :: rest, w =>
    (SwitchSnapshotToMerge e snapshot w).1 ::
      switchCodes e rest (SwitchSnapshotToMerge e snapshot w).2

/-- The first code of a list that is not `Ok`; `Ok` when there is none. -/
def firstFailure (codes : List MergeFailureCode) : MergeFailureCode :=
  (codes.find? (fun code => decide (code ≠ MergeFailureCode.Ok))).getD MergeFailureCode.Ok

/-- An environment like `calmEnv` whose daemon refuses every merge request and
whose file system takes no write after tick 5. -/
def refusingEnv : Env :=
  { calmEnv "_b" "_a" with
    snapuserdInitiateMerge := fun _ _ => false
    writeFileOk := fun t => decide (t ≤ 5) }

/-- Whether the persisted status of a snapshot is second-phase. -/
def isSecondPhase (w : World) (name : String) : Bool :=
  match ReadSnapshotStatus w name with
  | some status => decide (DecideMergePhase status = MergePhase.SECOND_PHASE)
  | none => false

/-- The snapshots of a list the second-phase sweep is to switch: those with
the current slot suffix whose status is second-phase. -/
def secondPhaseGroup (e : Env) (w : World) (snapshots : List String) : List String :=
  snapshots.filter (fun name => EndsWith name e.slotSuffix && isSecondPhase w name)

/-- The first phase of the shrink scenario is over, and the status file of
`odm_b`, a third snapshot listed before `vendor_b`, does not parse. -/
def tornStatusWorld : World :=
  { fs :=
      { stateFile := StateFile.encoded
          { state := UpdateState.Merging, using_snapuserd := true,
            userspace_snapshots := true, merge_phase := MergePhase.FIRST_PHASE }
        bootIndicator := some "_a"
        snapshots :=
          [ { name := "odm_b", isReg := true, content := none },
            { name := "vendor_b", isReg := true,
              content := some
                { name := "vendor_b", state := SnapshotState.CREATED,
                  device_size := 536870912, snapshot_size := 536870912,
                  cow_file_size := 134217728, old_partition_size := 419430400,
                  using_snapuserd := true } } ] } }

/-- The rolled-back device of `rolledBackWorld` after its first-stage mount:
the rollback indicator is there. -/
def rollbackNotedWorld : World :=
  { fs := { rolledBackWorld.fs with rollbackIndicator := true } }

/-- An update to slot `_b` that was written and is `Unverified`, the device
still running the original slot `_a`; the snapshots are those of the shrink
scenario. -/
def beforeRebootWorld : World :=
  { fs := { (shrinkWorld true).fs with bootIndicator := some "_a" } }

/-- An environment like `calmEnv` for first-stage init, in which block devices
can be opened. -/
def firstStageEnv : Env :=
  { calmEnv "_b" "_a" with
    isFirstStageInit := true
    blockDeviceSize := fun _ _ => some 1073741824 }

/-- A second-phase merge in which `vendor_b` is done, its status file saying
`MERGE_COMPLETED` while its cleanup is still outstanding, and `system_b` is
still merging. -/
def partlyMergedWorld : World :=
  { fs :=
      { stateFile := StateFile.encoded
          { state := UpdateState.Merging, using_snapuserd := true, userspace_snapshots := true,
            merge_phase := MergePhase.SECOND_PHASE }
        bootIndicator := some "_a"
        oldPartitionMetadata := true
        snapshots :=
          [ { name := "system_b", isReg := true,
              content := some
                { name := "system_b", state := SnapshotState.MERGING,
                  device_size := 1073741824, snapshot_size := 1073741824,
                  cow_file_size := 268435456, old_partition_size := 943718400,
                  using_snapuserd := true } },
            { name := "vendor_b", isReg := true,
              content := some
                { name := "vendor_b", state := SnapshotState.MERGE_COMPLETED,
                  device_size := 536870912, snapshot_size := 536870912,
                  cow_file_size := 134217728, old_partition_size := 419430400,
                  using_snapuserd := true } } ] } }

/-- An environment like `recoveryEnv` whose file system takes no write. -/
def readOnlyRecoveryEnv : Env := { recoveryEnv with writeFileOk := fun _ => false }

/-- An update to slot `_b` that is `Unverified`, the device having booted
into `_b`, with no forward-merge indicator. -/
def unverifiedOnTargetWorld : World :=
  { fs := { stateFile := StateFile.encoded { state := UpdateState.Unverified },
            bootIndicator := some "_a" } }

/-- The persisted conditions under which `HandleImminentDataWipe` tries to
merge: the state is `Merging` or `MergeFailed`, or it is `Unverified` on the
target slot with the forward-merge indicator present. -/
def wantsMergeBeforeWipe (e : Env) (w : World) : Prop :=
  ReadUpdateState w = UpdateState.Merging ∨ ReadUpdateState w = UpdateState.MergeFailed ∨
  (ReadUpdateState w = UpdateState.Unverified ∧ GetCurrentSlot e w = Slot.Target ∧
    w.fs.forwardMergeIndicator = true)

/-- An event of the kinds a data wipe without a merge may record: a write of
the state file, a boot-control merge status, a change of the boot slots. -/
def isWipeBookkeeping : Event → Prop
  | Event.writeGlobal _ _ => True
  | Event.setBootControlMergeStatus _ _ => True
  | Event.setSlotAsUnbootable _ => True
  | Event.setActiveBootSlot _ => True
  | _ => False

/-- An event that records a write of the state file or a boot-control merge
status. -/
def isStateWrite : Event → Prop
  | Event.writeGlobal _ _ => True
  | Event.setBootControlMergeStatus _ _ => True
  | _ => False

/-- The update of `beforeRebootWorld` after the device tried the target slot
and fell back to the original slot `_a`: the rollback indicator is there, the
snapshots are still marked updated. -/
def fellBackWorld : World :=
  { fs := { beforeRebootWorld.fs with rollbackIndicator := true } }

/-- An environment like `calmEnv` on the original slot `_a` in which the image
manager cannot remove the images. -/
def stuckImagesEnv : Env := { calmEnv "_a" "_b" with removeAllImages := fun _ => false }

/-! ## Basic facts about ticks, the trace and the readers -/

@[simp]
theorem World.next_fs (w : World) : w.next.fs = w.fs := rfl

@[simp]
theorem World.next_mem (w : World) : w.next.mem = w.mem := rfl

@[simp]
theorem World.next_trace (w : World) : w.next.trace = w.trace := rfl

@[simp]
theorem World.next_tick (w : World) : w.next.tick = w.tick + 1 := rfl

@[simp]
theorem World.log_fs (w : World) (ev : Event) : (w.log ev).fs = w.fs := rfl

@[simp]
theorem World.log_mem (w : World) (ev : Event) : (w.log ev).mem = w.mem := rfl

@[simp]
theorem World.log_tick (w : World) (ev : Event) : (w.log ev).tick = w.tick := rfl

@[simp]
theorem World.log_trace (w : World) (ev : Event) :
    (w.log ev).trace = w.trace ++ [ev] := rfl

@[simp]
theorem World.ask_fst {α : Type} (w : World) (f : Nat → α) :
    (w.ask f).1 = f w.tick := rfl

@[simp]
theorem World.ask_snd {α : Type} (w : World) (f : Nat → α) :
    (w.ask f).2 = w.next := rfl

theorem ite_snd {α β : Type} (c : Prop) [Decidable c] (a b : α × β) :
    (if c then a else b).2 = if c then a.2 else b.2 := apply_ite Prod.snd c a b

theorem ite_fst {α β : Type} (c : Prop) [Decidable c] (a b : α × β) :
    (if c then a else b).1 = if c then a.1 else b.1 := apply_ite Prod.fst c a b

theorem ite_fs (c : Prop) [Decidable c] (a b : World) :
    (if c then a else b).fs = if c then a.fs else b.fs := apply_ite World.fs c a b

theorem ite_trace (c : Prop) [Decidable c] (a b : World) :
    (if c then a else b).trace = if c then a.trace else b.trace := apply_ite World.trace c a b

/-- The global status read depends on the files only. -/
theorem ReadSnapshotUpdateStatus_congr {w1 w2 : World} (h : w1.fs = w2.fs) :
    ReadSnapshotUpdateStatus w1 = ReadSnapshotUpdateStatus w2 := by
  unfold ReadSnapshotUpdateStatus
  rw [h]

/-- The state read depends on the files only. -/
theorem ReadUpdateState_congr {w1 w2 : World} (h : w1.fs = w2.fs) :
    ReadUpdateState w1 = ReadUpdateState w2 := by
  unfold ReadUpdateState
  rw [ReadSnapshotUpdateStatus_congr h]

/-- The slot depends on the files only. -/
theorem GetCurrentSlot_congr (e : Env) {w1 w2 : World} (h : w1.fs = w2.fs) :
    GetCurrentSlot e w1 = GetCurrentSlot e w2 := by
  unfold GetCurrentSlot ReadUpdateSourceSlotSuffix
  rw [h]

/-- A snapshot status read depends on the files only. -/
theorem ReadSnapshotStatus_congr {w1 w2 : World} (h : w1.fs = w2.fs) (name : String) :
    ReadSnapshotStatus w1 name = ReadSnapshotStatus w2 name := by
  unfold ReadSnapshotStatus
  rw [h]

@[simp]
theorem ReadUpdateState_next (w : World) : ReadUpdateState w.next = ReadUpdateState w :=
  rfl

@[simp]
theorem GetCurrentSlot_next (e : Env) (w : World) :
    GetCurrentSlot e w.next = GetCurrentSlot e w := rfl

/-! ## Frame facts: helpers that touch neither the files nor the trace -/

theorem EnsureImageManager_quiet (e : Env) (w : World) :
    Quiet w (EnsureImageManager e w).2 := by
  unfold EnsureImageManager Quiet
  dsimp only
  repeat' split
  all_goals simp

@[simp]
theorem EnsureImageManager_fs (e : Env) (w : World) : (EnsureImageManager e w).2.fs = w.fs :=
  (EnsureImageManager_quiet e w).1

@[simp]
theorem EnsureImageManager_trace (e : Env) (w : World) :
    (EnsureImageManager e w).2.trace = w.trace :=
  (EnsureImageManager_quiet e w).2

theorem EnsureSnapuserdConnected_quiet (e : Env) (w : World) :
    Quiet w (EnsureSnapuserdConnected e w).2 := by
  unfold EnsureSnapuserdConnected Quiet
  dsimp only
  repeat' split
  all_goals simp

@[simp]
theorem EnsureSnapuserdConnected_fs (e : Env) (w : World) :
    (EnsureSnapuserdConnected e w).2.fs = w.fs :=
  (EnsureSnapuserdConnected_quiet e w).1

@[simp]
theorem EnsureSnapuserdConnected_trace (e : Env) (w : World) :
    (EnsureSnapuserdConnected e w).2.trace = w.trace :=
  (EnsureSnapuserdConnected_quiet e w).2

theorem IsLegacySnapuserdPostReboot_quiet (e : Env) (w : World) :
    Quiet w (IsLegacySnapuserdPostReboot e w).2 := by
  unfold IsLegacySnapuserdPostReboot Quiet
  dsimp only
  repeat' split
  all_goals simp

@[simp]
theorem IsLegacySnapuserdPostReboot_fs (e : Env) (w : World) :
    (IsLegacySnapuserdPostReboot e w).2.fs = w.fs :=
  (IsLegacySnapuserdPostReboot_quiet e w).1

@[simp]
theorem IsLegacySnapuserdPostReboot_trace (e : Env) (w : World) :
    (IsLegacySnapuserdPostReboot e w).2.trace = w.trace :=
  (IsLegacySnapuserdPostReboot_quiet e w).2

theorem UpdateUsesUserSnapshots_quiet (e : Env) (w : World) :
    Quiet w (UpdateUsesUserSnapshots e w).2 := by
  unfold UpdateUsesUserSnapshots Quiet
  dsimp only
  repeat' split
  all_goals simp

@[simp]
theorem UpdateUsesUserSnapshots_fs (e : Env) (w : World) :
    (UpdateUsesUserSnapshots e w).2.fs = w.fs :=
  (UpdateUsesUserSnapshots_quiet e w).1

@[simp]
theorem UpdateUsesUserSnapshots_trace (e : Env) (w : World) :
    (UpdateUsesUserSnapshots e w).2.trace = w.trace :=
  (UpdateUsesUserSnapshots_quiet e w).2

theorem GetDmUserCowName_quiet (e : Env) (n : String) (w : World) :
    Quiet w (GetDmUserCowName e n w).2 := by
  unfold GetDmUserCowName Quiet
  dsimp only
  repeat' split
  all_goals simp

@[simp]
theorem GetDmUserCowName_fs (e : Env) (n : String) (w : World) :
    (GetDmUserCowName e n w).2.fs = w.fs :=
  (GetDmUserCowName_quiet e n w).1

@[simp]
theorem GetDmUserCowName_trace (e : Env) (n : String) (w : World) :
    (GetDmUserCowName e n w).2.trace = w.trace :=
  (GetDmUserCowName_quiet e n w).2

@[simp]
theorem DeleteDeviceIfExists_fs (e : Env) (n : String) (w : World) :
    (DeleteDeviceIfExists e n w).2.fs = w.fs := rfl

@[simp]
theorem DeleteDeviceIfExists_trace (e : Env) (n : String) (w : World) :
    (DeleteDeviceIfExists e n w).2.trace = w.trace := rfl

@[simp]
theorem RemoveFileIfExists_fs (e : Env) (w : World) : (RemoveFileIfExists e w).2.fs = w.fs :=
  rfl

@[simp]
theorem RemoveFileIfExists_trace (e : Env) (w : World) :
    (RemoveFileIfExists e w).2.trace = w.trace := rfl

theorem UnmapDmUserDevice_quiet (e : Env) (n : String) (w : World) :
    Quiet w (UnmapDmUserDevice e n w).2 := by
  unfold UnmapDmUserDevice Quiet
  dsimp only
  repeat' split
  all_goals simp

@[simp]
theorem UnmapDmUserDevice_fs (e : Env) (n : String) (w : World) :
    (UnmapDmUserDevice e n w).2.fs = w.fs :=
  (UnmapDmUserDevice_quiet e n w).1

@[simp]
theorem UnmapDmUserDevice_trace (e : Env) (n : String) (w : World) :
    (UnmapDmUserDevice e n w).2.trace = w.trace :=
  (UnmapDmUserDevice_quiet e n w).2

theorem UnmapCowDevices_quiet (e : Env) (n : String) (w : World) :
    Quiet w (UnmapCowDevices e n w).2 := by
  unfold UnmapCowDevices Quiet
  dsimp only
  repeat' split
  all_goals simp

@[simp]
theorem UnmapCowDevices_fs (e : Env) (n : String) (w : World) :
    (UnmapCowDevices e n w).2.fs = w.fs :=
  (UnmapCowDevices_quiet e n w).1

@[simp]
theorem UnmapCowDevices_trace (e : Env) (n : String) (w : World) :
    (UnmapCowDevices e n w).2.trace = w.trace :=
  (UnmapCowDevices_quiet e n w).2

theorem GetSingleTarget_quiet (e : Env) (n : String) (q : TableQuery) (w : World) :
    Quiet w (GetSingleTarget e n q w).2 := by
  unfold GetSingleTarget Quiet
  dsimp only
  repeat' split
  all_goals simp

@[simp]
theorem GetSingleTarget_fs (e : Env) (n : String) (q : TableQuery) (w : World) :
    (GetSingleTarget e n q w).2.fs = w.fs :=
  (GetSingleTarget_quiet e n q w).1

@[simp]
theorem GetSingleTarget_trace (e : Env) (n : String) (q : TableQuery) (w : World) :
    (GetSingleTarget e n q w).2.trace = w.trace :=
  (GetSingleTarget_quiet e n q w).2

theorem IsSnapshotDevice_quiet (e : Env) (n : String) (w : World) :
    Quiet w (IsSnapshotDevice e n w).2 := by
  unfold IsSnapshotDevice Quiet
  dsimp only
  repeat' split
  all_goals simp

@[simp]
theorem IsSnapshotDevice_fs (e : Env) (n : String) (w : World) :
    (IsSnapshotDevice e n w).2.fs = w.fs :=
  (IsSnapshotDevice_quiet e n w).1

@[simp]
theorem IsSnapshotDevice_trace (e : Env) (n : String) (w : World) :
    (IsSnapshotDevice e n w).2.trace = w.trace :=
  (IsSnapshotDevice_quiet e n w).2

theorem QuerySnapshotStatus_quiet (e : Env) (n : String) (w : World) :
    Quiet w (QuerySnapshotStatus e n w).2 := by
  unfold QuerySnapshotStatus Quiet
  dsimp only
  repeat' split
  all_goals simp

@[simp]
theorem QuerySnapshotStatus_fs (e : Env) (n : String) (w : World) :
    (QuerySnapshotStatus e n w).2.fs = w.fs :=
  (QuerySnapshotStatus_quiet e n w).1

@[simp]
theorem QuerySnapshotStatus_trace (e : Env) (n : String) (w : World) :
    (QuerySnapshotStatus e n w).2.trace = w.trace :=
  (QuerySnapshotStatus_quiet e n w).2

@[simp]
theorem ReadCurrentMetadata_fs (e : Env) (w : World) : (ReadCurrentMetadata e w).2.fs = w.fs :=
  rfl

@[simp]
theorem ReadCurrentMetadata_trace (e : Env) (w : World) :
    (ReadCurrentMetadata e w).2.trace = w.trace := rfl

theorem RewriteSnapshotDeviceTable_quiet (e : Env) (n : String) (w : World) :
    Quiet w (RewriteSnapshotDeviceTable e n w).2 := by
  unfold RewriteSnapshotDeviceTable Quiet
  dsimp only
  repeat' split
  all_goals simp

@[simp]
theorem RewriteSnapshotDeviceTable_fs (e : Env) (n : String) (w : World) :
    (RewriteSnapshotDeviceTable e n w).2.fs = w.fs :=
  (RewriteSnapshotDeviceTable_quiet e n w).1

@[simp]
theorem RewriteSnapshotDeviceTable_trace (e : Env) (n : String) (w : World) :
    (RewriteSnapshotDeviceTable e n w).2.trace = w.trace :=
  (RewriteSnapshotDeviceTable_quiet e n w).2

theorem switchBackend_quiet (e : Env) (n : String) (w : World) :
    Quiet w (switchBackend e n w).2 := by
  unfold switchBackend Quiet
  dsimp only
  repeat' split
  all_goals simp

@[simp]
theorem switchBackend_fs (e : Env) (n : String) (w : World) :
    (switchBackend e n w).2.fs = w.fs :=
  (switchBackend_quiet e n w).1

@[simp]
theorem switchBackend_trace (e : Env) (n : String) (w : World) :
    (switchBackend e n w).2.trace = w.trace :=
  (switchBackend_quiet e n w).2

theorem ListSnapshots_quiet (e : Env) (suffix : String) (out : List String) (w : World) :
    Quiet w (ListSnapshots e suffix out w).2 := by
  unfold ListSnapshots Quiet
  dsimp only
  repeat' split
  all_goals simp

@[simp]
theorem ListSnapshots_fs (e : Env) (suffix : String) (out : List String) (w : World) :
    (ListSnapshots e suffix out w).2.fs = w.fs :=
  (ListSnapshots_quiet e suffix out w).1

@[simp]
theorem ListSnapshots_trace (e : Env) (suffix : String) (out : List String) (w : World) :
    (ListSnapshots e suffix out w).2.trace = w.trace :=
  (ListSnapshots_quiet e suffix out w).2

theorem checkMapped_quiet (e : Env) (l : List String) (w : World) :
    Quiet w (checkMapped e l w).2 := by
  induction l generalizing w with
  | nil => exact ⟨rfl, rfl⟩
  | cons n rest ih =>
    unfold checkMapped
    dsimp only
    repeat' split
    all_goals first
      | exact ih _
      | exact ⟨rfl, rfl⟩

@[simp]
theorem checkMapped_fs (e : Env) (l : List String) (w : World) :
    (checkMapped e l w).2.fs = w.fs :=
  (checkMapped_quiet e l w).1

@[simp]
theorem checkMapped_trace (e : Env) (l : List String) (w : World) :
    (checkMapped e l w).2.trace = w.trace :=
  (checkMapped_quiet e l w).2

theorem addTargetValues_quiet (e : Env) (n : String) (values : DmSnapshotStatus)
    (w : World) : Quiet w (addTargetValues e n values w).2 := by
  unfold addTargetValues Quiet
  dsimp only
  repeat' split
  all_goals simp

@[simp]
theorem addTargetValues_fs (e : Env) (n : String) (values : DmSnapshotStatus) (w : World) :
    (addTargetValues e n values w).2.fs = w.fs :=
  (addTargetValues_quiet e n values w).1

@[simp]
theorem addTargetValues_trace (e : Env) (n : String) (values : DmSnapshotStatus)
    (w : World) : (addTargetValues e n values w).2.trace = w.trace :=
  (addTargetValues_quiet e n values w).2

theorem planMerge_quiet (e : Env) (l : List String) (plan : MergePlan) (w : World) :
    Quiet w (planMerge e l plan w).2 := by
  induction l generalizing w plan with
  | nil => exact ⟨rfl, rfl⟩
  | cons n rest ih =>
    unfold planMerge
    dsimp only
    repeat' split
    all_goals first
      | exact ⟨by simp, by simp⟩
      | exact ⟨((ih _ _).1).trans (by simp), ((ih _ _).2).trans (by simp)⟩

@[simp]
theorem planMerge_fs (e : Env) (l : List String) (plan : MergePlan) (w : World) :
    (planMerge e l plan w).2.fs = w.fs :=
  (planMerge_quiet e l plan w).1

@[simp]
theorem planMerge_trace (e : Env) (l : List String) (plan : MergePlan) (w : World) :
    (planMerge e l plan w).2.trace = w.trace :=
  (planMerge_quiet e l plan w).2

/-! ## Directory facts -/

theorem findEnt_cons (d : DirEnt) (dir : List DirEnt) (m : String) :
    findEnt (d :: dir) m = if d.name = m then some d else findEnt dir m := by
  unfold findEnt
  by_cases h : d.name = m <;> simp [List.find?_cons, h]

theorem findEnt_removeEnt (dir : List DirEnt) (n m : String) :
    findEnt (removeEnt dir n) m = if m = n then none else findEnt dir m := by
  induction dir with
  | nil => simp [findEnt, removeEnt]
  | cons d rest ih =>
    have hstep : removeEnt (d :: rest) n
        = if d.name = n then removeEnt rest n else d :: removeEnt rest n := by
      unfold removeEnt
      by_cases hd : d.name = n <;> simp [List.filter_cons, hd]
    rw [hstep]
    by_cases hd : d.name = n
    · rw [if_pos hd, ih, findEnt_cons]
      by_cases hm : m = n
      · simp [hm]
      · have : ¬ d.name = m := by rw [hd]; exact fun h => hm h.symm
        simp [hm, this]
    · rw [if_neg hd, findEnt_cons, ih, findEnt_cons]
      by_cases hm : m = n
      · have : ¬ d.name = m := by rw [hm]; exact hd
        simp [hm, hd]
      · simp [hm]

theorem findEnt_map_replace (dir : List DirEnt) (ent : DirEnt) (m : String) :
    findEnt (dir.map (fun d => if (d.name == ent.name) = true then ent else d)) m
      = if m = ent.name then (if (findEnt dir m).isSome then some ent else none)
        else findEnt dir m := by
  induction dir with
  | nil => simp [findEnt]
  | cons d rest ih =>
    rw [List.map_cons, findEnt_cons, findEnt_cons, ih]
    by_cases hd : d.name = ent.name
    · by_cases hm : m = ent.name
      · simp [hd, hm]
      · have hdm : ¬ ent.name = m := fun h => hm h.symm
        have hdm2 : ¬ d.name = m := fun h => hm (h ▸ hd)
        simp [hd, hm, hdm, hdm2]
    · by_cases hm : m = ent.name
      · have hdm2 : ¬ d.name = m := fun h => hd (h.trans hm)
        simp [hd, hm, hdm2]
      · simp [hd, hm]

theorem findEnt_append_single (dir : List DirEnt) (ent : DirEnt) (m : String) :
    findEnt (dir ++ [ent]) m
      = if (findEnt dir m).isSome then findEnt dir m
        else if ent.name = m then some ent else none := by
  induction dir with
  | nil => simp [findEnt]
  | cons d rest ih =>
    rw [List.cons_append, findEnt_cons, findEnt_cons, ih]
    by_cases hd : d.name = m <;> simp [hd]

theorem findEnt_isSome_iff (dir : List DirEnt) (m : String) :
    (findEnt dir m).isSome = dir.any (fun d => d.name == m) := by
  induction dir with
  | nil => simp [findEnt]
  | cons d rest ih =>
    rw [findEnt_cons, List.any_cons, ← ih]
    by_cases hd : d.name = m <;> simp [hd]

/-- After a status file was written, looking it up finds the new entry, and
every other name is found as before. -/
theorem findEnt_putEnt (dir : List DirEnt) (status : SnapshotStatus) (m : String) :
    findEnt (putEnt dir status) m
      = if m = status.name then
          some { name := status.name, isReg := true, content := some status }
        else findEnt dir m := by
  unfold putEnt
  dsimp only
  by_cases hany : (dir.any fun d => d.name == status.name) = true
  · rw [if_pos hany]
    have h := findEnt_map_replace dir
      { name := status.name, isReg := true, content := some status } m
    dsimp only at h
    rw [h]
    by_cases hm : m = status.name
    · subst hm
      have : (findEnt dir status.name).isSome = true := by rw [findEnt_isSome_iff]; exact hany
      simp [this]
    · simp [hm]
  · rw [if_neg hany, findEnt_append_single]
    by_cases hm : m = status.name
    · subst hm
      have : (findEnt dir status.name).isSome = false := by
        rw [findEnt_isSome_iff]; simpa using hany
      simp [this]
    · have hne : ¬ status.name = m := fun h => hm h.symm
      cases hf : findEnt dir m with
      | none => simp [hm, hne]
      | some x => simp [hm]

/-- Reading a status file just written gives the status back when its name is
the file key; other files read as before. -/
theorem readStatusFile_putEnt (dir : List DirEnt) (status : SnapshotStatus) (m : String) :
    readStatusFile (putEnt dir status) m
      = if m = status.name then some status else readStatusFile dir m := by
  unfold readStatusFile
  rw [findEnt_putEnt]
  by_cases hm : m = status.name
  · subst hm
    simp
  · simp [hm]

/-- After an unlink the file cannot be read; other files read as before. -/
theorem readStatusFile_removeEnt (dir : List DirEnt) (n m : String) :
    readStatusFile (removeEnt dir n) m = if m = n then none else readStatusFile dir m := by
  unfold readStatusFile
  rw [findEnt_removeEnt]
  by_cases hm : m = n <;> simp [hm]

/-- A status read back from the file carries the file's name. -/
theorem readStatusFile_name (dir : List DirEnt) (n : String) (st : SnapshotStatus)
    (h : readStatusFile dir n = some st) : st.name = n := by
  unfold readStatusFile at h
  repeat' split at h
  all_goals simp at h
  all_goals (subst h; first | rfl | simp_all)

/-! ## Effects of the writes -/

theorem switchedNames_append (t1 t2 : List Event) :
    switchedNames (t1 ++ t2) = switchedNames t1 ++ switchedNames t2 := by
  unfold switchedNames
  exact List.filterMap_append _ _ _

theorem stateFile_of_noSnapshots {a b : Files} (h : a.noSnapshots = b.noSnapshots) :
    a.stateFile = b.stateFile := by
  have h2 := congrArg Files.stateFile h
  exact h2

theorem bootIndicator_of_noSnapshots {a b : Files} (h : a.noSnapshots = b.noSnapshots) :
    a.bootIndicator = b.bootIndicator := by
  have h2 := congrArg Files.bootIndicator h
  exact h2

theorem ReadSnapshotUpdateStatus_of_stateFile {w1 w2 : World}
    (h : w1.fs.stateFile = w2.fs.stateFile) :
    ReadSnapshotUpdateStatus w1 = ReadSnapshotUpdateStatus w2 := by
  unfold ReadSnapshotUpdateStatus
  rw [h]

theorem GetCurrentSlot_of_bootIndicator (e : Env) {w1 w2 : World}
    (h : w1.fs.bootIndicator = w2.fs.bootIndicator) :
    GetCurrentSlot e w1 = GetCurrentSlot e w2 := by
  unfold GetCurrentSlot ReadUpdateSourceSlotSuffix
  rw [h]

theorem ReadSnapshotStatus_of_snapshots {w1 w2 : World}
    (h : w1.fs.snapshots = w2.fs.snapshots) (name : String) :
    ReadSnapshotStatus w1 name = ReadSnapshotStatus w2 name := by
  unfold ReadSnapshotStatus
  rw [h]

theorem WriteSnapshotStatus_trace (e : Env) (status : SnapshotStatus) (w : World) :
    (WriteSnapshotStatus e status w).2.trace
      = w.trace ++ (if status.name = "" then []
          else [Event.writeSnapshot status (e.writeFileOk w.tick)]) := by
  unfold WriteSnapshotStatus
  dsimp only
  repeat' split
  all_goals simp_all

theorem WriteSnapshotStatus_snapshots (e : Env) (status : SnapshotStatus) (w : World) :
    (WriteSnapshotStatus e status w).2.fs.snapshots
      = if (WriteSnapshotStatus e status w).1 = true then putEnt w.fs.snapshots status
        else w.fs.snapshots := by
  unfold WriteSnapshotStatus
  dsimp only
  repeat' split
  all_goals simp_all

@[simp]
theorem WriteSnapshotStatus_noSnapshots (e : Env) (status : SnapshotStatus) (w : World) :
    (WriteSnapshotStatus e status w).2.fs.noSnapshots = w.fs.noSnapshots := by
  unfold WriteSnapshotStatus Files.noSnapshots
  dsimp only
  repeat' split
  all_goals simp

/-- A status stays readable across a status write, whatever the name. -/
theorem ReadSnapshotStatus_isSome_of_write (e : Env) (status : SnapshotStatus) (w : World)
    (m : String) (h : (ReadSnapshotStatus w m).isSome = true) :
    (ReadSnapshotStatus (WriteSnapshotStatus e status w).2 m).isSome = true := by
  by_cases hw : (WriteSnapshotStatus e status w).1 = true
  · unfold ReadSnapshotStatus at h ⊢
    rw [WriteSnapshotStatus_snapshots, if_pos hw, readStatusFile_putEnt]
    by_cases hm : m = status.name
    · rw [if_pos hm]
      rfl
    · rw [if_neg hm]
      exact h
  · have hs := WriteSnapshotStatus_snapshots e status w
    rw [if_neg hw] at hs
    rw [ReadSnapshotStatus_of_snapshots hs]
    exact h

theorem SetBootControlMergeStatus_fs (e : Env) (ms : MergeStatus) (w : World) :
    (SetBootControlMergeStatus e ms w).2.fs = w.fs := rfl

theorem writeStateFile_snapshots (e : Env) (status : SnapshotUpdateStatus) (w : World) :
    (writeStateFile e status w).2.fs.snapshots = w.fs.snapshots := by
  unfold writeStateFile
  dsimp only
  split <;> simp

theorem writeStateFile_switched (e : Env) (status : SnapshotUpdateStatus) (w : World) :
    (writeStateFile e status w).2.trace
      = w.trace ++ [Event.writeGlobal status (e.writeFileOk w.tick)] := by
  unfold writeStateFile
  dsimp only
  split <;> simp

theorem writeStateFile_stateFile (e : Env) (status : SnapshotUpdateStatus) (w : World)
    (h : (writeStateFile e status w).1 = true) :
    (writeStateFile e status w).2.fs.stateFile = StateFile.encoded status := by
  unfold writeStateFile at h ⊢
  dsimp only at h ⊢
  split <;> simp_all

/-- What `WriteSnapshotUpdateStatus` appends to the trace: boot-control calls
and one attempted write of the state file, never a switch. -/
theorem WriteSnapshotUpdateStatus_trace (e : Env) (status : SnapshotUpdateStatus)
    (w : World) :
    ∃ post, (WriteSnapshotUpdateStatus e status w).2.trace = w.trace ++ post ∧
      switchedNames post = [] := by
  unfold WriteSnapshotUpdateStatus SetBootControlMergeStatus
  dsimp only
  repeat' split
  all_goals simp only [World.ask_fst, World.ask_snd, World.log_trace, World.next_trace,
    writeStateFile_switched, List.append_assoc]
  all_goals exact ⟨_, rfl, rfl⟩

theorem WriteSnapshotUpdateStatus_snapshots (e : Env) (status : SnapshotUpdateStatus)
    (w : World) :
    (WriteSnapshotUpdateStatus e status w).2.fs.snapshots = w.fs.snapshots := by
  unfold WriteSnapshotUpdateStatus SetBootControlMergeStatus
  dsimp only
  repeat' split
  all_goals simp [writeStateFile_snapshots]

/-- A successful `WriteSnapshotUpdateStatus` leaves the state file holding the
status it was given. -/
theorem WriteSnapshotUpdateStatus_stateFile (e : Env) (status : SnapshotUpdateStatus)
    (w : World) (h : (WriteSnapshotUpdateStatus e status w).1 = true) :
    (WriteSnapshotUpdateStatus e status w).2.fs.stateFile = StateFile.encoded status := by
  unfold WriteSnapshotUpdateStatus SetBootControlMergeStatus at h ⊢
  dsimp only at h ⊢
  repeat' split at h
  all_goals simp_all [writeStateFile_stateFile]

/-! ## Trace extensions -/

theorem Appends.of_eq {w w2 : World} (h : w2.trace = w.trace) : Appends w w2 [] :=
  ⟨[], by simp [h], rfl⟩

theorem Appends.trans {a b c : World} {n1 n2 : List String} (h1 : Appends a b n1)
    (h2 : Appends b c n2) : Appends a c (n1 ++ n2) := by
  obtain ⟨p1, e1, s1⟩ := h1
  obtain ⟨p2, e2, s2⟩ := h2
  refine ⟨p1 ++ p2, ?_, ?_⟩
  · rw [e2, e1, List.append_assoc]
  · rw [switchedNames_append, s1, s2]

theorem Appends.trans_nil {a b c : World} {n : List String} (h1 : Appends a b [])
    (h2 : Appends b c n) : Appends a c n := by
  have h := Appends.trans h1 h2
  simpa using h

theorem Appends.nil_trans {a b c : World} {n : List String} (h1 : Appends a b n)
    (h2 : Appends b c []) : Appends a c n := by
  have h := Appends.trans h1 h2
  simpa using h

theorem WriteSnapshotStatus_appends (e : Env) (status : SnapshotStatus) (w : World) :
    Appends w (WriteSnapshotStatus e status w).2 [] := by
  refine ⟨_, WriteSnapshotStatus_trace e status w, ?_⟩
  split <;> rfl

theorem WriteSnapshotUpdateStatus_appends (e : Env) (status : SnapshotUpdateStatus)
    (w : World) : Appends w (WriteSnapshotUpdateStatus e status w).2 [] :=
  WriteSnapshotUpdateStatus_trace e status w

theorem WriteUpdateState_appends (e : Env) (state : UpdateState) (code : MergeFailureCode)
    (w : World) : Appends w (WriteUpdateState e state code w).2 [] := by
  unfold WriteUpdateState
  exact WriteSnapshotUpdateStatus_appends e _ w

theorem WriteUpdateState_snapshots (e : Env) (state : UpdateState) (code : MergeFailureCode)
    (w : World) : (WriteUpdateState e state code w).2.fs.snapshots = w.fs.snapshots := by
  unfold WriteUpdateState
  exact WriteSnapshotUpdateStatus_snapshots e _ w

theorem DeleteSnapshot_trace (e : Env) (name : String) (w : World) :
    (DeleteSnapshot e name w).2.trace = w.trace ++ [Event.deleteSnapshot name] := by
  unfold DeleteSnapshot
  dsimp only
  repeat' split
  all_goals simp

theorem DeleteSnapshot_appends (e : Env) (name : String) (w : World) :
    Appends w (DeleteSnapshot e name w).2 [] :=
  ⟨_, DeleteSnapshot_trace e name w, rfl⟩

@[simp]
theorem DeleteSnapshot_noSnapshots (e : Env) (name : String) (w : World) :
    (DeleteSnapshot e name w).2.fs.noSnapshots = w.fs.noSnapshots := by
  unfold DeleteSnapshot Files.noSnapshots
  dsimp only
  repeat' split
  all_goals simp

/-- `DeleteSnapshot` either unlinks the status file or leaves the directory as
it was; when it reports failure the directory is as it was. -/
theorem DeleteSnapshot_snapshots (e : Env) (name : String) (w : World) :
    ((DeleteSnapshot e name w).2.fs.snapshots = w.fs.snapshots) ∨
    ((DeleteSnapshot e name w).1 = true ∧
      (DeleteSnapshot e name w).2.fs.snapshots = removeEnt w.fs.snapshots name) := by
  unfold DeleteSnapshot
  dsimp only
  repeat' split
  all_goals simp

theorem dropFlashed_appends (e : Env) (metadata : LpMetadata) (l : List String) (w : World) :
    Appends w (dropFlashed e metadata l w).2 [] := by
  induction l generalizing w with
  | nil => exact Appends.of_eq rfl
  | cons n rest ih =>
    unfold dropFlashed
    split
    · exact ih w
    · exact Appends.trans_nil (DeleteSnapshot_appends e n w) (ih _)

theorem Appends.of_dropFlashed {w : World} (e : Env) (metadata : LpMetadata)
    (l : List String) (w0 c : World)
    (hc : c.trace = (dropFlashed e metadata l w0).2.trace) (h0 : w0.trace = w.trace) :
    Appends w c [] :=
  Appends.trans_nil (Appends.trans_nil (Appends.of_eq h0) (dropFlashed_appends e metadata l w0))
    (Appends.of_eq hc)

@[simp]
theorem dropFlashed_noSnapshots (e : Env) (metadata : LpMetadata) (l : List String)
    (w : World) : (dropFlashed e metadata l w).2.fs.noSnapshots = w.fs.noSnapshots := by
  induction l generalizing w with
  | nil => rfl
  | cons n rest ih =>
    unfold dropFlashed
    split
    · exact ih w
    · exact (ih _).trans (DeleteSnapshot_noSnapshots e n w)

theorem refreshSectors_quiet (e : Env) (n : String) (status : SnapshotStatus) (w : World) :
    Quiet w (refreshSectors e n status w).2 := by
  unfold refreshSectors Quiet
  dsimp only
  repeat' split
  all_goals simp

@[simp]
theorem refreshSectors_fs (e : Env) (n : String) (status : SnapshotStatus) (w : World) :
    (refreshSectors e n status w).2.fs = w.fs :=
  (refreshSectors_quiet e n status w).1

@[simp]
theorem refreshSectors_trace (e : Env) (n : String) (status : SnapshotStatus) (w : World) :
    (refreshSectors e n status w).2.trace = w.trace :=
  (refreshSectors_quiet e n status w).2

/-- `SwitchSnapshotToMerge` records one switch when the status is readable
and nothing otherwise. -/
theorem SwitchSnapshotToMerge_appends (e : Env) (n : String) (w : World) :
    Appends w (SwitchSnapshotToMerge e n w).2
      (if (ReadSnapshotStatus w n).isSome = true then [n] else []) := by
  unfold SwitchSnapshotToMerge
  cases hr : ReadSnapshotStatus w n with
  | none => exact Appends.of_eq rfl
  | some status =>
    dsimp only
    have hlog : Appends w
        ((switchBackend e n w).2.log (Event.switchToMerge n status w.fs.snapshots
          (decide ((switchBackend e n w).1 = MergeFailureCode.Ok)))) [n] :=
      ⟨[Event.switchToMerge n status w.fs.snapshots
          (decide ((switchBackend e n w).1 = MergeFailureCode.Ok))], by simp, rfl⟩
    split
    · simpa using hlog
    · refine Appends.nil_trans hlog ?_
      refine Appends.trans_nil (Appends.of_eq ?_) (WriteSnapshotStatus_appends e _ _)
      simp

/-- Readable statuses stay readable across `SwitchSnapshotToMerge`. -/
theorem SwitchSnapshotToMerge_readable (e : Env) (n : String) (w : World) (m : String)
    (h : (ReadSnapshotStatus w m).isSome = true) :
    (ReadSnapshotStatus (SwitchSnapshotToMerge e n w).2 m).isSome = true := by
  unfold SwitchSnapshotToMerge
  cases hr : ReadSnapshotStatus w n with
  | none => exact h
  | some status =>
    dsimp only
    split
    · rw [@ReadSnapshotStatus_congr _ w (by simp)]
      exact h
    · apply ReadSnapshotStatus_isSome_of_write
      rw [@ReadSnapshotStatus_congr _ w (by simp)]
      exact h

/-- `switchAll` hands every readable snapshot of its list to the backend, in
list order, whatever the individual outcomes. -/
theorem switchAll_appends (e : Env) (l : List String) (code : MergeFailureCode) (w : World)
    (h : ∀ n ∈ l, (ReadSnapshotStatus w n).isSome = true) :
    Appends w (switchAll e l code w).2 l := by
  induction l generalizing w code with
  | nil => exact Appends.of_eq rfl
  | cons n rest ih =>
    unfold switchAll
    dsimp only
    have h1 := SwitchSnapshotToMerge_appends e n w
    rw [if_pos (h n (List.mem_cons_self _ _))] at h1
    have h2 := ih (if (SwitchSnapshotToMerge e n w).1 ≠ MergeFailureCode.Ok then
        if code = MergeFailureCode.Ok then (SwitchSnapshotToMerge e n w).1 else code
      else code) (SwitchSnapshotToMerge e n w).2
      (fun m hm => SwitchSnapshotToMerge_readable e n w m (h m (List.mem_cons_of_mem _ hm)))
    exact Appends.trans h1 h2

theorem isFirstPhase_congr {w1 w2 : World} (h : w1.fs = w2.fs) (name : String) :
    isFirstPhase w1 name = isFirstPhase w2 name := by
  unfold isFirstPhase
  rw [ReadSnapshotStatus_congr h]

/-- A successful `planMerge` has read every status, and its first merge group
is the first-phase snapshots of the list, in order. -/
theorem planMerge_some (e : Env) (l : List String) (plan plan2 : MergePlan) (w : World)
    (h : (planMerge e l plan w).1 = some plan2) :
    (∀ n ∈ l, (ReadSnapshotStatus w n).isSome = true) ∧
    plan2.first_merge_group = plan.first_merge_group ++ l.filter (isFirstPhase w) := by
  induction l generalizing w plan with
  | nil =>
    unfold planMerge at h
    simp at h
    simp [h]
  | cons n rest ih =>
    unfold planMerge at h
    dsimp only at h
    have hfs : (addTargetValues e n plan.initial_target_values w).2.fs = w.fs := by simp
    cases hq : (addTargetValues e n plan.initial_target_values w).1 with
    | none => simp [hq] at h
    | some values =>
      rw [hq] at h
      dsimp only at h
      rw [ReadSnapshotStatus_congr hfs] at h
      cases hr : ReadSnapshotStatus w n with
      | none => simp [hr] at h
      | some status =>
        rw [hr] at h
        dsimp only at h
        obtain ⟨h1, h2⟩ := ih _ _ h
        constructor
        · intro m hm
          rcases List.mem_cons.mp hm with hm | hm
          · rw [hm, hr]; rfl
          · rw [← ReadSnapshotStatus_congr hfs]
            exact h1 m hm
        · rw [h2]
          have hfilter : List.filter (isFirstPhase
              (addTargetValues e n plan.initial_target_values w).2) rest
              = List.filter (isFirstPhase w) rest := by
            congr 1
            funext m
            exact isFirstPhase_congr hfs m
          rw [hfilter, List.filter_cons]
          have hn : isFirstPhase w n
              = decide (DecideMergePhase status = MergePhase.FIRST_PHASE) := by
            unfold isFirstPhase
            rw [hr]
          rw [hn]
          by_cases hp : DecideMergePhase status = MergePhase.FIRST_PHASE
          · simp [hp]
          · simp [hp]

/-- What a successful `prepareMerge` established. -/
theorem prepareMerge_some (e : Env) (w w1 : World) (snapshots : List String)
    (plan : MergePlan) (h : prepareMerge e w = (some (snapshots, plan), w1)) :
    ReadUpdateState w = UpdateState.Unverified ∧ GetCurrentSlot e w = Slot.Target ∧
    (∀ n ∈ snapshots, (ReadSnapshotStatus w1 n).isSome = true) ∧
    plan.first_merge_group = snapshots.filter (isFirstPhase w1) ∧
    w1.fs.noSnapshots = w.fs.noSnapshots ∧ Appends w w1 [] := by
  unfold prepareMerge at h
  dsimp only at h
  split at h
  · simp at h
  split at h
  · simp at h
  split at h
  · simp at h
  rename_i hstate hslot
  split at h
  · simp at h
  split at h
  · simp at h
  split at h
  · simp at h
  rename_i metadata hmd
  split at h
  · simp at h
  rename_i plan2 hplan
  simp only [Prod.mk.injEq, Option.some.injEq] at h
  obtain ⟨⟨hs, hp⟩, hw⟩ := h
  subst hs hp hw
  have hps := planMerge_some e _ _ _ _ hplan
  simp only [ne_eq, Decidable.not_not, ReadUpdateState_next, GetCurrentSlot_next] at hstate hslot
  refine ⟨hstate, hslot, ?_, ?_, ?_, ?_⟩
  · intro n hn
    rw [ReadSnapshotStatus_congr (planMerge_fs e _ _ _)]
    exact hps.1 n hn
  · rw [hps.2]
    simp only [List.nil_append]
    congr 1
    funext m
    exact (isFirstPhase_congr (planMerge_fs e _ _ _) m).symm
  · rw [planMerge_fs, dropFlashed_noSnapshots]
    simp
  · exact Appends.of_dropFlashed e metadata _ _ _ (planMerge_trace e _ _ _) (by simp)

theorem initialStatus_quiet (e : Env) (plan : MergePlan) (w : World) :
    Quiet w (initialStatus e plan w).2 := by
  unfold initialStatus Quiet
  dsimp only
  repeat' split
  all_goals simp

theorem initialStatus_state (e : Env) (plan : MergePlan) (w : World) :
    (initialStatus e plan w).1.state = UpdateState.Merging ∧
    (initialStatus e plan w).1.merge_phase
      = (if plan.first_merge_group = [] then MergePhase.SECOND_PHASE
         else MergePhase.FIRST_PHASE) := by
  unfold initialStatus
  dsimp only
  by_cases hg : plan.first_merge_group = [] <;>
    by_cases hu : (UpdateUsesUserSnapshots e w).1 = true <;> simp [hg, hu]

/-! ## Effects of the completion path -/

theorem verifyMergeTarget_quiet (e : Env) (n : String) (w : World) :
    Quiet w (verifyMergeTarget e n w).2 := by
  unfold verifyMergeTarget Quiet
  dsimp only
  repeat' split
  all_goals simp

@[simp]
theorem verifyMergeTarget_fs (e : Env) (n : String) (w : World) :
    (verifyMergeTarget e n w).2.fs = w.fs :=
  (verifyMergeTarget_quiet e n w).1

@[simp]
theorem verifyMergeTarget_trace (e : Env) (n : String) (w : World) :
    (verifyMergeTarget e n w).2.trace = w.trace :=
  (verifyMergeTarget_quiet e n w).2

theorem unmapLegacyDmUser_quiet (e : Env) (n : String) (status : SnapshotStatus) (w : World) :
    Quiet w (unmapLegacyDmUser e n status w) := by
  unfold unmapLegacyDmUser Quiet
  dsimp only
  repeat' split
  all_goals simp

@[simp]
theorem unmapLegacyDmUser_fs (e : Env) (n : String) (status : SnapshotStatus) (w : World) :
    (unmapLegacyDmUser e n status w).fs = w.fs :=
  (unmapLegacyDmUser_quiet e n status w).1

@[simp]
theorem unmapLegacyDmUser_trace (e : Env) (n : String) (status : SnapshotStatus)
    (w : World) : (unmapLegacyDmUser e n status w).trace = w.trace :=
  (unmapLegacyDmUser_quiet e n status w).2

theorem waitForDaemonRelease_quiet (e : Env) (n : String) (w : World) :
    Quiet w (waitForDaemonRelease e n w) := by
  unfold waitForDaemonRelease Quiet
  dsimp only
  repeat' split
  all_goals simp

@[simp]
theorem waitForDaemonRelease_fs (e : Env) (n : String) (w : World) :
    (waitForDaemonRelease e n w).fs = w.fs :=
  (waitForDaemonRelease_quiet e n w).1

@[simp]
theorem waitForDaemonRelease_trace (e : Env) (n : String) (w : World) :
    (waitForDaemonRelease e n w).trace = w.trace :=
  (waitForDaemonRelease_quiet e n w).2

@[simp]
theorem CollapseSnapshotDevice_fs (e : Env) (n : String) (status : SnapshotStatus)
    (w : World) : (CollapseSnapshotDevice e n status w).2.fs = w.fs := by
  unfold CollapseSnapshotDevice
  dsimp only
  repeat' split
  all_goals simp

theorem CollapseSnapshotDevice_trace (e : Env) (n : String) (status : SnapshotStatus)
    (w : World) :
    (CollapseSnapshotDevice e n status w).2.trace = w.trace ++ [Event.collapse n] := by
  unfold CollapseSnapshotDevice
  dsimp only
  repeat' split
  all_goals simp

@[simp]
theorem collapseIfMerged_fs (e : Env) (n : String) (status : SnapshotStatus) (w : World) :
    (collapseIfMerged e n status w).2.fs = w.fs := by
  unfold collapseIfMerged
  dsimp only
  repeat' split
  all_goals simp

/-- What `collapseIfMerged` appends to the trace: at most one collapse. -/
theorem collapseIfMerged_trace (e : Env) (n : String) (status : SnapshotStatus) (w : World) :
    (collapseIfMerged e n status w).2.trace = w.trace ∨
    (collapseIfMerged e n status w).2.trace = w.trace ++ [Event.collapse n] := by
  unfold collapseIfMerged
  dsimp only
  repeat' split
  all_goals simp [CollapseSnapshotDevice_trace]

theorem collapseIfMerged_appends (e : Env) (n : String) (status : SnapshotStatus)
    (w : World) : Appends w (collapseIfMerged e n status w).2 [] := by
  rcases collapseIfMerged_trace e n status w with h | h
  · exact Appends.of_eq h
  · exact ⟨_, h, rfl⟩

/-- The cleanup after a completed merge records collapses and deletions only,
never a switch. -/
theorem OnSnapshotMergeComplete_appends (e : Env) (n : String) (status : SnapshotStatus)
    (w : World) : Appends w (OnSnapshotMergeComplete e n status w).2 [] := by
  have hc := collapseIfMerged_appends e n status w
  have hd := DeleteSnapshot_appends e n (collapseIfMerged e n status w).2
  unfold OnSnapshotMergeComplete
  dsimp only
  repeat' split
  all_goals first
    | exact hc
    | exact Appends.trans_nil hc hd

@[simp]
theorem OnSnapshotMergeComplete_noSnapshots (e : Env) (n : String) (status : SnapshotStatus)
    (w : World) : (OnSnapshotMergeComplete e n status w).2.fs.noSnapshots = w.fs.noSnapshots := by
  unfold OnSnapshotMergeComplete
  dsimp only
  repeat' split
  all_goals simp

/-- When the cleanup fails, the snapshots directory is as it was; when it
succeeds, the status file is unlinked or (in recovery) left in place. -/
theorem OnSnapshotMergeComplete_snapshots (e : Env) (n : String) (status : SnapshotStatus)
    (w : World) :
    ((OnSnapshotMergeComplete e n status w).2.fs.snapshots = w.fs.snapshots) ∨
    ((OnSnapshotMergeComplete e n status w).1 = true ∧
      (OnSnapshotMergeComplete e n status w).2.fs.snapshots = removeEnt w.fs.snapshots n) := by
  have hd := DeleteSnapshot_snapshots e n (collapseIfMerged e n status w).2
  unfold OnSnapshotMergeComplete
  dsimp only
  repeat' split
  all_goals simp_all

/-! ## Shape of the per-snapshot results -/

theorem finishTargetMerge_state (e : Env) (n : String) (status : SnapshotStatus) (w : World) :
    ((finishTargetMerge e n status w).1.state = UpdateState.MergeFailed ∧
        (finishTargetMerge e n status w).1.failure_code ≠ MergeFailureCode.Ok) ∨
      (finishTargetMerge e n status w).1.state = UpdateState.MergeNeedsReboot ∨
      (finishTargetMerge e n status w).1.state = UpdateState.MergeCompleted := by
  unfold finishTargetMerge
  dsimp only
  repeat' split
  all_goals simp

/-- An early return of `CheckTargetMergeState` is `MergeFailed` (with a code
other than `Ok`), `Merging`, `None`, `Cancelled` or `MergeCompleted`. -/
theorem probeTargetMerge_state (e : Env) (n : String) (us : SnapshotUpdateStatus)
    (w : World) (r : MergeResult) (h : (probeTargetMerge e n us w).1 = Sum.inl r) :
    (r.state = UpdateState.MergeFailed ∧ r.failure_code ≠ MergeFailureCode.Ok) ∨
      r.state = UpdateState.Merging ∨ r.state = UpdateState.None ∨
      r.state = UpdateState.MergeNeedsReboot ∨ r.state = UpdateState.Cancelled ∨
      r.state = UpdateState.MergeCompleted := by
  unfold probeTargetMerge at h
  dsimp only at h
  repeat' split at h
  all_goals first
    | (simp only [Sum.inl.injEq] at h; subst h; simp)
    | (simp at h)

/-- `CheckTargetMergeState` only ever reports `MergeFailed` (with a code other
than `Ok`), `Merging`, `None`, `MergeNeedsReboot`, `Cancelled` or
`MergeCompleted`. -/
theorem CheckTargetMergeState_state (e : Env) (n : String) (us : SnapshotUpdateStatus)
    (w : World) :
    ((CheckTargetMergeState e n us w).1.state = UpdateState.MergeFailed ∧
        (CheckTargetMergeState e n us w).1.failure_code ≠ MergeFailureCode.Ok) ∨
      (CheckTargetMergeState e n us w).1.state = UpdateState.Merging ∨
      (CheckTargetMergeState e n us w).1.state = UpdateState.None ∨
      (CheckTargetMergeState e n us w).1.state = UpdateState.MergeNeedsReboot ∨
      (CheckTargetMergeState e n us w).1.state = UpdateState.Cancelled ∨
      (CheckTargetMergeState e n us w).1.state = UpdateState.MergeCompleted := by
  unfold CheckTargetMergeState
  split
  · rename_i r w2 hp
    exact probeTargetMerge_state e n us w r (by rw [hp])
  · rename_i st w2 hp
    rcases finishTargetMerge_state e n st w2 with h | h | h
    · exact Or.inl h
    · exact Or.inr (Or.inr (Or.inr (Or.inl h)))
    · exact Or.inr (Or.inr (Or.inr (Or.inr (Or.inr h))))

/-- When `CheckTargetMergeState` falls through to its completion part, the
status it carries is the one read from the file and nothing was written or
torn down on the way. -/
theorem probeTargetMerge_inr (e : Env) (n : String) (us : SnapshotUpdateStatus)
    (w w1 : World) (st : SnapshotStatus)
    (h : probeTargetMerge e n us w = (Sum.inr st, w1)) :
    ReadSnapshotStatus w n = some st ∧ w1.fs = w.fs ∧ w1.trace = w.trace := by
  unfold probeTargetMerge at h
  dsimp only at h
  repeat' split at h
  all_goals first
    | (simp at h; done)
    | (simp only [Prod.mk.injEq, Sum.inr.injEq] at h
       obtain ⟨h1, h2⟩ := h
       subst h1 h2
       simp [*])

/-- A status read back from the file carries the file's name. -/
theorem ReadSnapshotStatus_name (w : World) (n : String) (st : SnapshotStatus)
    (h : ReadSnapshotStatus w n = some st) : st.name = n :=
  readStatusFile_name w.fs.snapshots n st h

theorem anyState_cons (r : MergeResult) (results : List MergeResult) (state : UpdateState) :
    anyState (r :: results) state ↔ (r.state = state ∨ anyState results state) := by
  unfold anyState
  simp

/-- One result of the shape `CheckTargetMergeState` produces updates exactly
the flag of its kind. -/
theorem noteResult_flags (flags : PollFlags) (r : MergeResult)
    (hshape : (r.state = UpdateState.MergeFailed ∧ r.failure_code ≠ MergeFailureCode.Ok) ∨
      r.state = UpdateState.Merging ∨ r.state = UpdateState.None ∨
      r.state = UpdateState.MergeNeedsReboot ∨ r.state = UpdateState.Cancelled ∨
      r.state = UpdateState.MergeCompleted) :
    ((noteResult flags r).merging = true ↔
      (flags.merging = true ∨ r.state = UpdateState.Merging)) ∧
    ((noteResult flags r).failure_code ≠ MergeFailureCode.Ok ↔
      (flags.failure_code ≠ MergeFailureCode.Ok ∨ r.state = UpdateState.MergeFailed)) ∧
    ((noteResult flags r).wrong_phase = true ↔
      (flags.wrong_phase = true ∨ r.state = UpdateState.None)) ∧
    ((noteResult flags r).needs_reboot = true ↔
      (flags.needs_reboot = true ∨ r.state = UpdateState.MergeNeedsReboot)) ∧
    ((noteResult flags r).cancelled = true ↔
      (flags.cancelled = true ∨ r.state = UpdateState.Cancelled)) := by
  obtain ⟨st, code⟩ := r
  dsimp only at hshape
  rcases hshape with ⟨hs, hc⟩ | hs | hs | hs | hs | hs <;> subst hs <;>
    by_cases hf : flags.failure_code = MergeFailureCode.Ok <;>
    simp [noteResult, hf]
  exact hc

/-- The flags after polling say exactly which kinds of result were seen. -/
theorem pollLoop_flags (e : Env) (us : SnapshotUpdateStatus) (l : List String)
    (flags : PollFlags) (w : World) :
    ((pollLoop e us l flags w).1.1.merging = true ↔
      (flags.merging = true ∨ anyState (pollLoop e us l flags w).1.2 UpdateState.Merging)) ∧
    ((pollLoop e us l flags w).1.1.failure_code ≠ MergeFailureCode.Ok ↔
      (flags.failure_code ≠ MergeFailureCode.Ok ∨
        anyState (pollLoop e us l flags w).1.2 UpdateState.MergeFailed)) ∧
    ((pollLoop e us l flags w).1.1.wrong_phase = true ↔
      (flags.wrong_phase = true ∨ anyState (pollLoop e us l flags w).1.2 UpdateState.None)) ∧
    ((pollLoop e us l flags w).1.1.needs_reboot = true ↔
      (flags.needs_reboot = true ∨
        anyState (pollLoop e us l flags w).1.2 UpdateState.MergeNeedsReboot)) ∧
    ((pollLoop e us l flags w).1.1.cancelled = true ↔
      (flags.cancelled = true ∨
        anyState (pollLoop e us l flags w).1.2 UpdateState.Cancelled)) := by
  induction l generalizing flags w with
  | nil => simp [pollLoop, anyState]
  | cons n rest ih =>
    unfold pollLoop
    split
    · exact ih flags w
    · dsimp only
      obtain ⟨h1, h2, h3, h4, h5⟩ := ih (noteResult flags (CheckTargetMergeState e n us w).1)
        (CheckTargetMergeState e n us w).2
      obtain ⟨n1, n2, n3, n4, n5⟩ := noteResult_flags flags (CheckTargetMergeState e n us w).1
        (CheckTargetMergeState_state e n us w)
      simp only [anyState_cons]
      rw [h1, h2, h3, h4, h5, n1, n2, n3, n4, n5]
      exact ⟨or_assoc, or_assoc, or_assoc, or_assoc, or_assoc⟩

/-! ## Effects of removing the update state -/

theorem writeStateFile_noState (e : Env) (status : SnapshotUpdateStatus) (w : World) :
    (writeStateFile e status w).2.fs.noState = w.fs.noState := by
  unfold writeStateFile Files.noState
  dsimp only
  split <;> simp

theorem WriteSnapshotUpdateStatus_noState (e : Env) (status : SnapshotUpdateStatus)
    (w : World) : (WriteSnapshotUpdateStatus e status w).2.fs.noState = w.fs.noState := by
  unfold WriteSnapshotUpdateStatus SetBootControlMergeStatus
  dsimp only
  repeat' split
  all_goals simp [writeStateFile_noState]

/-- The state file after `WriteSnapshotUpdateStatus` is the old one or holds
the status given. -/
theorem WriteSnapshotUpdateStatus_stateFile_cases (e : Env) (status : SnapshotUpdateStatus)
    (w : World) :
    (WriteSnapshotUpdateStatus e status w).2.fs.stateFile = w.fs.stateFile ∨
    (WriteSnapshotUpdateStatus e status w).2.fs.stateFile = StateFile.encoded status := by
  unfold WriteSnapshotUpdateStatus SetBootControlMergeStatus writeStateFile
  dsimp only
  repeat' split
  all_goals simp

/-- With every write and boot-control call going through,
`WriteSnapshotUpdateStatus` succeeds. -/
theorem WriteSnapshotUpdateStatus_ok (e : Env) (status : SnapshotUpdateStatus) (w : World)
    (hw : ∀ t, e.writeFileOk t = true) (hs : ∀ t, e.setMergeStatusOk t = true) :
    (WriteSnapshotUpdateStatus e status w).1 = true := by
  unfold WriteSnapshotUpdateStatus SetBootControlMergeStatus writeStateFile
  dsimp only
  repeat' split
  all_goals simp_all

theorem Files.ext_of_noState {a b : Files} (h1 : a.noState = b.noState)
    (h2 : a.stateFile = b.stateFile) : a = b := by
  cases a
  cases b
  simp only [Files.noState, Files.mk.injEq] at h1 ⊢
  simp_all

theorem WriteUpdateState_None (e : Env) (code : MergeFailureCode) (w : World) :
    WriteUpdateState e UpdateState.None code w
      = WriteSnapshotUpdateStatus e { state := UpdateState.None } w := by
  unfold WriteUpdateState
  rfl

theorem removeIndicator_stateFile (e : Env) (w : World) (file : Indicator) :
    (removeIndicator e w file).fs.stateFile = w.fs.stateFile ∧
    (removeIndicator e w file).fs.snapshots = w.fs.snapshots ∧
    (removeIndicator e w file).trace = w.trace := by
  unfold removeIndicator RemoveFileIfExists
  dsimp only
  split
  · cases file <;> simp [Files.unlink]
  · simp

theorem foldl_removeIndicator_stateFile (e : Env) (files : List Indicator) (w : World) :
    (files.foldl (removeIndicator e) w).fs.stateFile = w.fs.stateFile ∧
    (files.foldl (removeIndicator e) w).fs.snapshots = w.fs.snapshots ∧
    (files.foldl (removeIndicator e) w).trace = w.trace := by
  induction files generalizing w with
  | nil => exact ⟨rfl, rfl, rfl⟩
  | cons f rest ih =>
    rw [List.foldl_cons]
    obtain ⟨h1, h2, h3⟩ := ih (removeIndicator e w f)
    obtain ⟨g1, g2, g3⟩ := removeIndicator_stateFile e w f
    exact ⟨h1.trans g1, h2.trans g2, h3.trans g3⟩

theorem removeIndicators_stateFile (e : Env) (w : World) :
    (removeIndicators e w).fs.stateFile = w.fs.stateFile ∧
    (removeIndicators e w).fs.snapshots = w.fs.snapshots ∧
    (removeIndicators e w).trace = w.trace :=
  foldl_removeIndicator_stateFile e _ w

/-- When no removal fails, `removeIndicators` leaves no indicator behind. -/
theorem removeIndicators_clears (e : Env) (w : World) (hrm : ∀ t, e.removeFileOk t = true) :
    (removeIndicators e w).fs.noIndicators := by
  unfold removeIndicators
  simp only [List.foldl_cons, List.foldl_nil]
  simp [removeIndicator, RemoveFileIfExists, hrm, Files.unlink, Files.noIndicators]

theorem unlink_of_noIndicators (fs : Files) (h : fs.noIndicators) (file : Indicator) :
    fs.unlink file = fs := by
  obtain ⟨h1, h2, h3, h4, h5, h6⟩ := h
  cases fs
  cases file <;> simp_all [Files.unlink]

/-- Indicators that are all absent stay absent, whether or not the removals
go through. -/
theorem foldl_removeIndicator_of_noIndicators (e : Env) (files : List Indicator) (w : World)
    (h : w.fs.noIndicators) : (files.foldl (removeIndicator e) w).fs = w.fs := by
  induction files generalizing w with
  | nil => rfl
  | cons f rest ih =>
    rw [List.foldl_cons]
    have hstep : (removeIndicator e w f).fs = w.fs := by
      unfold removeIndicator RemoveFileIfExists
      dsimp only
      split
      · simp [unlink_of_noIndicators w.fs h f]
      · simp
    rw [ih _ (by rw [hstep]; exact h), hstep]

theorem removeIndicators_of_noIndicators (e : Env) (w : World) (h : w.fs.noIndicators) :
    (removeIndicators e w).fs = w.fs :=
  foldl_removeIndicator_of_noIndicators e _ w h

/-! ## Cancel safety -/

/-- C1 (as stated, refuted): with the without-slot-switch marker present and
persisted state `None`, `IsCancelUpdateSafe` answers `LIVE_SNAPSHOTS` although
the slot is not `Target` and the state is not `Unverified`. -/
theorem IsCancelUpdateSafe_marker_counterexample :
    IsCancelUpdateSafe (calmEnv "_a" "_b")
        { fs := { bootWithoutSlotSwitch := true } } UpdateState.None
      = CancelResult.LIVE_SNAPSHOTS ∧
    ¬ (GetCurrentSlot (calmEnv "_a" "_b") { fs := { bootWithoutSlotSwitch := true } }
        = Slot.Target ∧ UpdateState.None = UpdateState.Unverified) := by
  decide

/-- C1 (amended): when the without-slot-switch marker is absent,
`IsCancelUpdateSafe(state)` returns `LIVE_SNAPSHOTS` exactly when the current
slot is `Target` and the state is `Unverified`, and `NEEDS_MERGE` exactly when
the state is `Merging`, `MergeFailed` or `MergeNeedsReboot`. -/
theorem IsCancelUpdateSafe_without_marker (e : Env) (w : World) (state : UpdateState)
    (hmarker : IsSnapshotWithoutSlotSwitch w = false) :
    (IsCancelUpdateSafe e w state = CancelResult.LIVE_SNAPSHOTS ↔
      (GetCurrentSlot e w = Slot.Target ∧ state = UpdateState.Unverified)) ∧
    (IsCancelUpdateSafe e w state = CancelResult.NEEDS_MERGE ↔
      (state = UpdateState.Merging ∨ state = UpdateState.MergeFailed ∨
        state = UpdateState.MergeNeedsReboot)) := by
  unfold IsCancelUpdateSafe
  rw [hmarker]
  cases state <;> by_cases hs : GetCurrentSlot e w = Slot.Target <;> simp [hs]

/-- Witness for `IsCancelUpdateSafe_without_marker`: an `Unverified` update
booted into the target slot. -/
theorem IsCancelUpdateSafe_without_marker_witness :
    IsSnapshotWithoutSlotSwitch { fs := { bootIndicator := some "_a" } } = false ∧
    (IsCancelUpdateSafe (calmEnv "_b" "_a") { fs := { bootIndicator := some "_a" } }
        UpdateState.Unverified = CancelResult.LIVE_SNAPSHOTS ↔
      (GetCurrentSlot (calmEnv "_b" "_a") { fs := { bootIndicator := some "_a" } }
        = Slot.Target ∧ UpdateState.Unverified = UpdateState.Unverified)) :=
  ⟨rfl, (IsCancelUpdateSafe_without_marker (calmEnv "_b" "_a")
    { fs := { bootIndicator := some "_a" } } UpdateState.Unverified rfl).1⟩

/-! ## Merge phase of a snapshot -/

/-- C4 (as stated, refuted): a shrunk partition (900 MiB, previously 1 GiB)
whose status does not use snapuserd is `SECOND_PHASE`. -/
theorem DecideMergePhase_shrunk_counterexample :
    DecideMergePhase
        { name := "system_b", device_size := 943718400, old_partition_size := 1073741824,
          using_snapuserd := false } = MergePhase.SECOND_PHASE ∧
    (943718400 : Nat) < 1073741824 := by
  decide

/-- C4 (amended): `DecideMergePhase` returns `FIRST_PHASE` exactly when the
status uses snapuserd and `device_size < old_partition_size`, and
`SECOND_PHASE` for all others. -/
theorem DecideMergePhase_first_iff (status : SnapshotStatus) :
    (DecideMergePhase status = MergePhase.FIRST_PHASE ↔
      (status.using_snapuserd = true ∧ status.device_size < status.old_partition_size)) ∧
    (DecideMergePhase status = MergePhase.SECOND_PHASE ↔
      ¬ (status.using_snapuserd = true ∧ status.device_size < status.old_partition_size)) := by
  unfold DecideMergePhase
  by_cases h1 : status.using_snapuserd = true <;>
    by_cases h2 : status.device_size < status.old_partition_size <;> simp [h1, h2]

/-! ## InitiateMerge: preconditions -/

/-- C2: `InitiateMerge` returns `false` and leaves every persisted file
unchanged whenever the persisted state is not `Unverified` or the current slot
is not `Target`. -/
theorem InitiateMerge_rejects (e : Env) (w : World)
    (h : ReadUpdateState w ≠ UpdateState.Unverified ∨ GetCurrentSlot e w ≠ Slot.Target) :
    (InitiateMerge e w).1 = false ∧ (InitiateMerge e w).2.fs = w.fs := by
  have hprep : prepareMerge e w = (none, w.next) := by
    unfold prepareMerge
    by_cases hl : e.lockOk w.tick = true
    · by_cases h1 : ReadUpdateState w = UpdateState.Unverified
      · have h2 : GetCurrentSlot e w ≠ Slot.Target := by
          rcases h with h | h
          · exact absurd h1 h
          · exact h
        simp [hl, h1, h2]
      · simp [hl, h1]
    · simp [hl]
  unfold InitiateMerge
  simp [hprep]

/-- Witness for `InitiateMerge_rejects`: a merge already in progress. -/
theorem InitiateMerge_rejects_witness :
    (InitiateMerge (calmEnv "_b" "_a") (worldWithState UpdateState.Merging)).1 = false ∧
    (InitiateMerge (calmEnv "_b" "_a") (worldWithState UpdateState.Merging)).2.fs
      = (worldWithState UpdateState.Merging).fs :=
  InitiateMerge_rejects (calmEnv "_b" "_a") (worldWithState UpdateState.Merging)
    (Or.inl (by decide))

/-! ## InitiateMerge: the point of no return -/

/-- C3 (as stated, refuted): in the spec's shrink scenario (`system_b`
900 MiB, previously 1 GiB; `vendor_b` 512 MiB, previously 400 MiB) with
snapshots that do not use snapuserd, `InitiateMerge` succeeds, persists
`merge_phase = SECOND_PHASE` and switches both snapshots, not only
`system_b`. -/
theorem InitiateMerge_shrink_counterexample :
    (InitiateMerge (calmEnv "_b" "_a") (shrinkWorld false)).1 = true ∧
    (ReadSnapshotUpdateStatus (InitiateMerge (calmEnv "_b" "_a") (shrinkWorld false)).2).state
      = UpdateState.Merging ∧
    (ReadSnapshotUpdateStatus
        (InitiateMerge (calmEnv "_b" "_a") (shrinkWorld false)).2).merge_phase
      = MergePhase.SECOND_PHASE ∧
    switchedNames (InitiateMerge (calmEnv "_b" "_a") (shrinkWorld false)).2.trace
      = ["system_b", "vendor_b"] := by
  decide

/-- C3 (amended): when the checks of `InitiateMerge` pass, leaving the
snapshots `snapshots` to merge, and the status write goes through, then
`InitiateMerge` returns `true`; the status it persists has `state = Merging`
and `merge_phase = FIRST_PHASE` if some remaining snapshot is first-phase
(uses snapuserd and shrank) and `SECOND_PHASE` otherwise; nothing is switched
before the state file holds that status; and afterwards exactly the
first-phase snapshots, or all remaining ones when there is none, are handed
to the backend, in list order. -/
theorem InitiateMerge_commits_before_switching (e : Env) (w : World)
    (snapshots : List String) (plan : MergePlan)
    (hprep : (prepareMerge e w).1 = some (snapshots, plan))
    (hwrite : (WriteSnapshotUpdateStatus e
        (initialStatus e plan (prepareMerge e w).2).1
        (initialStatus e plan (prepareMerge e w).2).2).1 = true) :
    (InitiateMerge e w).1 = true ∧
    (initialStatus e plan (prepareMerge e w).2).1.state = UpdateState.Merging ∧
    (initialStatus e plan (prepareMerge e w).2).1.merge_phase
      = (if snapshots.filter (isFirstPhase (prepareMerge e w).2) = [] then
           MergePhase.SECOND_PHASE
         else MergePhase.FIRST_PHASE) ∧
    (WriteSnapshotUpdateStatus e (initialStatus e plan (prepareMerge e w).2).1
        (initialStatus e plan (prepareMerge e w).2).2).2.fs.stateFile
      = StateFile.encoded (initialStatus e plan (prepareMerge e w).2).1 ∧
    Appends w
      (WriteSnapshotUpdateStatus e (initialStatus e plan (prepareMerge e w).2).1
        (initialStatus e plan (prepareMerge e w).2).2).2 [] ∧
    Appends
      (WriteSnapshotUpdateStatus e (initialStatus e plan (prepareMerge e w).2).1
        (initialStatus e plan (prepareMerge e w).2).2).2
      (InitiateMerge e w).2
      (if snapshots.filter (isFirstPhase (prepareMerge e w).2) = [] then snapshots
       else snapshots.filter (isFirstPhase (prepareMerge e w).2)) := by
  have hpair : prepareMerge e w = (some (snapshots, plan), (prepareMerge e w).2) := by
    rw [← hprep]
  obtain ⟨_, _, hread, hgroup, _, happ⟩ := prepareMerge_some e w _ snapshots plan hpair
  generalize (prepareMerge e w).2 = w1 at hpair hwrite hread hgroup happ ⊢
  have hq := initialStatus_quiet e plan w1
  have hst := initialStatus_state e plan w1
  rw [hgroup] at hst
  have hgrp : mergeGroup snapshots plan
      = (if snapshots.filter (isFirstPhase w1) = [] then snapshots
         else snapshots.filter (isFirstPhase w1)) := by
    unfold mergeGroup
    rw [hgroup]
    by_cases hnil : snapshots.filter (isFirstPhase w1) = [] <;> simp [hnil]
  have hcommit : Appends w (WriteSnapshotUpdateStatus e (initialStatus e plan w1).1
      (initialStatus e plan w1).2).2 [] :=
    Appends.trans_nil (Appends.trans_nil happ (Appends.of_eq hq.2))
      (WriteSnapshotUpdateStatus_appends e _ _)
  have hreadable : ∀ n ∈ mergeGroup snapshots plan,
      (ReadSnapshotStatus (WriteSnapshotUpdateStatus e (initialStatus e plan w1).1
        (initialStatus e plan w1).2).2 n).isSome = true := by
    intro n hn
    have hmem : n ∈ snapshots := by
      rw [hgrp] at hn
      split at hn
      · exact hn
      · exact List.mem_of_mem_filter hn
    rw [@ReadSnapshotStatus_of_snapshots _ w1
      ((WriteSnapshotUpdateStatus_snapshots e _ _).trans (congrArg Files.snapshots hq.1))]
    exact hread n hmem
  have hsw := switchAll_appends e (mergeGroup snapshots plan) MergeFailureCode.Ok _ hreadable
  refine ⟨?_, hst.1, hst.2, WriteSnapshotUpdateStatus_stateFile e _ _ hwrite, hcommit, ?_⟩
  · unfold InitiateMerge
    rw [hpair]
    simp [hwrite]
  · unfold InitiateMerge
    rw [hpair]
    simp only [hwrite, Bool.not_true, Bool.false_eq_true, if_false]
    rw [← hgrp]
    split
    · exact Appends.nil_trans hsw (WriteUpdateState_appends e _ _ _)
    · exact hsw

/-- Witness for `InitiateMerge_commits_before_switching`: the spec's shrink
scenario with snapuserd in use gives `FIRST_PHASE`. -/
theorem InitiateMerge_commits_before_switching_witness :
    (InitiateMerge (calmEnv "_b" "_a") (shrinkWorld true)).1 = true ∧
    (initialStatus (calmEnv "_b" "_a")
        { using_snapuserd := true, first_merge_group := ["system_b"] }
        (prepareMerge (calmEnv "_b" "_a") (shrinkWorld true)).2).1.merge_phase
      = (if ["system_b", "vendor_b"].filter
            (isFirstPhase (prepareMerge (calmEnv "_b" "_a") (shrinkWorld true)).2) = [] then
           MergePhase.SECOND_PHASE
         else MergePhase.FIRST_PHASE) :=
  have h := InitiateMerge_commits_before_switching (calmEnv "_b" "_a") (shrinkWorld true)
    ["system_b", "vendor_b"] { using_snapuserd := true, first_merge_group := ["system_b"] }
    (by decide) (by decide)
  ⟨h.1, h.2.2.1⟩

/-! ## CheckMergeState: aggregation by priority -/

/-- C8: when `CheckTargetMergeState` finds that the backend reports the merge
of a snapshot complete (its checks fall through with the status read), it
first writes the status with state `MERGE_COMPLETED`, with no collapse or
delete before that write.  If the write fails the result is
`MergeFailed(WriteStatus)` and the trace ends with the failed write: no
collapse or delete is attempted.  If it succeeds, the write is followed by
`OnSnapshotMergeComplete`; when that fails the result is `MergeNeedsReboot`
and the status file still holds `MERGE_COMPLETED`, and when it succeeds the
result is `MergeCompleted`. -/
theorem CheckTargetMergeState_records_before_teardown (e : Env) (name : String)
    (us : SnapshotUpdateStatus) (w : World) (st : SnapshotStatus)
    (hdone : (probeTargetMerge e name us w).1 = Sum.inr st) :
    ((WriteSnapshotStatus e { st with state := SnapshotState.MERGE_COMPLETED }
        (probeTargetMerge e name us w).2).1 = false →
      (CheckTargetMergeState e name us w).1
        = { state := UpdateState.MergeFailed, failure_code := MergeFailureCode.WriteStatus } ∧
      (CheckTargetMergeState e name us w).2.fs = w.fs ∧
      (CheckTargetMergeState e name us w).2.trace
        = w.trace ++ (if st.name = "" then []
            else [Event.writeSnapshot { st with state := SnapshotState.MERGE_COMPLETED }
              false])) ∧
    ((WriteSnapshotStatus e { st with state := SnapshotState.MERGE_COMPLETED }
        (probeTargetMerge e name us w).2).1 = true →
      (∃ post, (CheckTargetMergeState e name us w).2.trace
        = w.trace ++ [Event.writeSnapshot { st with state := SnapshotState.MERGE_COMPLETED }
            true] ++ post) ∧
      ReadSnapshotStatus
          (WriteSnapshotStatus e { st with state := SnapshotState.MERGE_COMPLETED }
            (probeTargetMerge e name us w).2).2 name
        = some { st with state := SnapshotState.MERGE_COMPLETED } ∧
      ((OnSnapshotMergeComplete e name { st with state := SnapshotState.MERGE_COMPLETED }
          (WriteSnapshotStatus e { st with state := SnapshotState.MERGE_COMPLETED }
            (probeTargetMerge e name us w).2).2).1 = false →
        (CheckTargetMergeState e name us w).1 = { state := UpdateState.MergeNeedsReboot } ∧
        ReadSnapshotStatus (CheckTargetMergeState e name us w).2 name
          = some { st with state := SnapshotState.MERGE_COMPLETED }) ∧
      ((OnSnapshotMergeComplete e name { st with state := SnapshotState.MERGE_COMPLETED }
          (WriteSnapshotStatus e { st with state := SnapshotState.MERGE_COMPLETED }
            (probeTargetMerge e name us w).2).2).1 = true →
        (CheckTargetMergeState e name us w).1 = { state := UpdateState.MergeCompleted })) := by
  have hpair : probeTargetMerge e name us w = (Sum.inr st, (probeTargetMerge e name us w).2) := by
    rw [← hdone]
  obtain ⟨hread, hfs, htr⟩ := probeTargetMerge_inr e name us w _ st hpair
  have hname := ReadSnapshotStatus_name w name st hread
  have hcheck : CheckTargetMergeState e name us w
      = finishTargetMerge e name st (probeTargetMerge e name us w).2 := by
    unfold CheckTargetMergeState
    rw [hpair]
  rw [hcheck]
  generalize (probeTargetMerge e name us w).2 = w1 at hfs htr
  have hwt := WriteSnapshotStatus_trace e { st with state := SnapshotState.MERGE_COMPLETED } w1
  have hws := WriteSnapshotStatus_snapshots e
    { st with state := SnapshotState.MERGE_COMPLETED } w1
  have hwn := WriteSnapshotStatus_noSnapshots e
    { st with state := SnapshotState.MERGE_COMPLETED } w1
  dsimp only at hwt hws hwn
  constructor
  · intro hfail
    rw [hfail] at hws
    have hw1 : (WriteSnapshotStatus e { st with state := SnapshotState.MERGE_COMPLETED } w1).2
        = if st.name = "" then w1
          else (w1.next).log
            (Event.writeSnapshot { st with state := SnapshotState.MERGE_COMPLETED } false) := by
      unfold WriteSnapshotStatus at hfail ⊢
      dsimp only at hfail ⊢
      by_cases hn : st.name = ""
      · simp [hn]
      · simp only [hn, if_false] at hfail ⊢
        by_cases hok : e.writeFileOk w1.tick = true
        · simp [hok] at hfail
        · simp [hok]
    unfold finishTargetMerge
    dsimp only
    simp only [hfail, Bool.not_false, if_true]
    refine ⟨trivial, ?_, ?_⟩
    · rw [hw1]
      split <;> simp [hfs]
    · rw [hw1]
      split <;> simp [htr]
  · intro hok
    have hne : st.name ≠ "" := by
      intro hn
      unfold WriteSnapshotStatus at hok
      simp [hn] at hok
    have hwok : e.writeFileOk w1.tick = true := by
      unfold WriteSnapshotStatus at hok
      dsimp only at hok
      simp only [hne, if_false] at hok
      by_cases hq : e.writeFileOk w1.tick = true
      · exact hq
      · simp [hq] at hok
    rw [if_neg hne, hwok, htr] at hwt
    rw [if_pos hok] at hws
    have hreadback : ReadSnapshotStatus
        (WriteSnapshotStatus e { st with state := SnapshotState.MERGE_COMPLETED } w1).2 name
        = some { st with state := SnapshotState.MERGE_COMPLETED } := by
      unfold ReadSnapshotStatus
      rw [hws, readStatusFile_putEnt]
      simp [hname]
    have happ := OnSnapshotMergeComplete_appends e name
      { st with state := SnapshotState.MERGE_COMPLETED }
      (WriteSnapshotStatus e { st with state := SnapshotState.MERGE_COMPLETED } w1).2
    have hsn := OnSnapshotMergeComplete_snapshots e name
      { st with state := SnapshotState.MERGE_COMPLETED }
      (WriteSnapshotStatus e { st with state := SnapshotState.MERGE_COMPLETED } w1).2
    unfold finishTargetMerge
    dsimp only
    simp only [hok, Bool.not_true, Bool.false_eq_true, if_false]
    refine ⟨?_, hreadback, ?_, ?_⟩
    · obtain ⟨post, hpost, _⟩ := happ
      refine ⟨post, ?_⟩
      split <;> simp [hpost, hwt]
    · intro hfail
      simp only [hfail, Bool.not_false, if_true, true_and]
      rcases hsn with hsame | ⟨htrue, _⟩
      · rw [ReadSnapshotStatus_of_snapshots hsame]
        exact hreadback
      · rw [hfail] at htrue
        exact absurd htrue (by decide)
    · intro hsucc
      simp [hsucc]

/-- Witness for `CheckTargetMergeState_records_before_teardown`: the daemon
reports `vendor_b` complete, the write and the cleanup go through. -/
theorem CheckTargetMergeState_records_before_teardown_witness :
    (CheckTargetMergeState (calmEnv "_b" "_a") "vendor_b"
        (ReadSnapshotUpdateStatus mergingWorld) mergingWorld).1
      = { state := UpdateState.MergeCompleted } :=
  ((CheckTargetMergeState_records_before_teardown (calmEnv "_b" "_a") "vendor_b"
    (ReadSnapshotUpdateStatus mergingWorld) mergingWorld
    { name := "vendor_b", state := SnapshotState.MERGING,
      device_size := 536870912, snapshot_size := 536870912,
      cow_file_size := 134217728, old_partition_size := 419430400,
      using_snapuserd := true }
    (by decide)).2 (by decide)).2.2.2 (by decide)

/-! ## RemoveAllUpdateState and AcknowledgeMergeSuccess: idempotence -/

/-- Without a prolog, `RemoveAllUpdateState` is the snapshot removal, the
indicator removals and the write of state `None`. -/
theorem RemoveAllUpdateState_none (e : Env) (w : World) :
    RemoveAllUpdateState e none w
      = if (removeSnapshotsIfUpdating e w).1 = true then
          WriteSnapshotUpdateStatus e { state := UpdateState.None }
            (removeIndicators e (removeSnapshotsIfUpdating e w).2)
        else (false, (removeSnapshotsIfUpdating e w).2) := by
  unfold RemoveAllUpdateState
  dsimp only
  by_cases h : (removeSnapshotsIfUpdating e w).1 = true
  · simp [h, WriteUpdateState_None]
  · simp [h]

/-- After a successful `RemoveAllUpdateState`, the state file holds state
`None`; with no removal failing, no indicator is left. -/
theorem RemoveAllUpdateState_result (e : Env) (w : World)
    (h1 : (RemoveAllUpdateState e none w).1 = true) :
    (RemoveAllUpdateState e none w).2.fs.stateFile
      = StateFile.encoded { state := UpdateState.None } ∧
    ((∀ t, e.removeFileOk t = true) → (RemoveAllUpdateState e none w).2.fs.noIndicators) := by
  rw [RemoveAllUpdateState_none] at h1 ⊢
  by_cases h : (removeSnapshotsIfUpdating e w).1 = true
  · rw [if_pos h] at h1 ⊢
    refine ⟨WriteSnapshotUpdateStatus_stateFile e _ _ h1, fun hrm => ?_⟩
    have hclear := removeIndicators_clears e (removeSnapshotsIfUpdating e w).2 hrm
    have hns := WriteSnapshotUpdateStatus_noState e { state := UpdateState.None }
      (removeIndicators e (removeSnapshotsIfUpdating e w).2)
    generalize (WriteSnapshotUpdateStatus e { state := UpdateState.None }
      (removeIndicators e (removeSnapshotsIfUpdating e w).2)).2.fs = fs2 at hns ⊢
    generalize (removeIndicators e (removeSnapshotsIfUpdating e w).2).fs = fs1 at hns hclear
    cases fs1
    cases fs2
    simp only [Files.noState, Files.mk.injEq] at hns
    simp only [Files.noIndicators] at hclear ⊢
    simp_all
  · rw [if_neg h] at h1
    exact absurd h1 (by simp)

/-- Once the state file holds `None` and no indicator is left,
`RemoveAllUpdateState` changes no persisted file, and it succeeds when its
write and the boot-control call go through. -/
theorem RemoveAllUpdateState_again (e : Env) (w : World)
    (hstate : w.fs.stateFile = StateFile.encoded { state := UpdateState.None })
    (hind : w.fs.noIndicators) :
    (RemoveAllUpdateState e none w).2.fs = w.fs ∧
    ((∀ t, e.writeFileOk t = true) → (∀ t, e.setMergeStatusOk t = true) →
      (RemoveAllUpdateState e none w).1 = true) := by
  have hnone : ReadUpdateState w = UpdateState.None := by
    unfold ReadUpdateState ReadSnapshotUpdateStatus
    rw [hstate]
  have hskip : removeSnapshotsIfUpdating e w = (true, w) := by
    unfold removeSnapshotsIfUpdating
    simp [hnone]
  rw [RemoveAllUpdateState_none, hskip]
  simp only [if_true]
  have hri := removeIndicators_of_noIndicators e w hind
  constructor
  · apply Files.ext_of_noState
    · rw [WriteSnapshotUpdateStatus_noState, hri]
    · rcases WriteSnapshotUpdateStatus_stateFile_cases e { state := UpdateState.None }
        (removeIndicators e w) with hc | hc
      · rw [hc, hri]
      · rw [hc, hstate]
  · intro hw hs
    exact WriteSnapshotUpdateStatus_ok e _ _ hw hs

/-- C9 (as stated, refuted): with no update in progress and a left-over boot
indicator that cannot be removed, `RemoveAllUpdateState` succeeds and the boot
indicator is still there. -/
theorem RemoveAllUpdateState_leftover_counterexample :
    (RemoveAllUpdateState stickyEnv none leftoverWorld).1 = true ∧
    (RemoveAllUpdateState stickyEnv none leftoverWorld).2.fs.bootIndicator = some "_a" := by
  decide

/-- C9 (amended): for every starting state in which a call of
`RemoveAllUpdateState` with no prolog succeeds and no indicator removal fails,
the persisted state afterwards is `None` and the boot, rollback,
forward-merge, old-metadata, without-slot-switch and snapuserd-from-system
indicators are absent; a second call leaves every persisted file exactly as
it is, and succeeds when its state-file write and boot-control call go
through. -/
theorem RemoveAllUpdateState_idempotent (e : Env) (w : World)
    (h1 : (RemoveAllUpdateState e none w).1 = true)
    (hrm : ∀ t, e.removeFileOk t = true) :
    ReadUpdateState (RemoveAllUpdateState e none w).2 = UpdateState.None ∧
    (RemoveAllUpdateState e none w).2.fs.noIndicators ∧
    (RemoveAllUpdateState e none (RemoveAllUpdateState e none w).2).2.fs
      = (RemoveAllUpdateState e none w).2.fs ∧
    ((∀ t, e.writeFileOk t = true) → (∀ t, e.setMergeStatusOk t = true) →
      (RemoveAllUpdateState e none (RemoveAllUpdateState e none w).2).1 = true) := by
  obtain ⟨hstate, hind⟩ := RemoveAllUpdateState_result e w h1
  obtain ⟨hfs, hok⟩ := RemoveAllUpdateState_again e _ hstate (hind hrm)
  refine ⟨?_, hind hrm, hfs, hok⟩
  unfold ReadUpdateState ReadSnapshotUpdateStatus
  rw [hstate]

/-- Witness for `RemoveAllUpdateState_idempotent`: cancelling the shrink
scenario's update while still booted from the source slot `_a`. -/
theorem RemoveAllUpdateState_idempotent_witness :
    ReadUpdateState (RemoveAllUpdateState (calmEnv "_a" "_b") none (shrinkWorld true)).2
      = UpdateState.None ∧
    (RemoveAllUpdateState (calmEnv "_a" "_b") none (shrinkWorld true)).2.fs.noIndicators :=
  have h := RemoveAllUpdateState_idempotent (calmEnv "_a" "_b") (shrinkWorld true) (by decide)
    (fun _ => rfl)
  ⟨h.1, h.2.1⟩

/-- C10 (as stated, refuted): in recovery `AcknowledgeMergeSuccess` records
`MergeCompleted`; the persisted state is not `None` and the boot indicator
remains. -/
theorem AcknowledgeMergeSuccess_recovery_counterexample :
    ReadUpdateState (AcknowledgeMergeSuccess recoveryEnv mergingWorld)
      = UpdateState.MergeCompleted ∧
    (AcknowledgeMergeSuccess recoveryEnv mergingWorld).fs.bootIndicator = some "_a" := by
  decide

theorem AcknowledgeMergeSuccess_fs (e : Env) (w : World) (hrec : e.isRecovery = false) :
    (AcknowledgeMergeSuccess e w).fs = (RemoveAllUpdateState e none w).2.fs := by
  unfold AcknowledgeMergeSuccess
  rw [hrec]
  simp only [Bool.false_eq_true, if_false]
  repeat' split
  all_goals simp

theorem statusToWrite_MergeCompleted (e : Env) (code : MergeFailureCode) (w : World) :
    statusToWrite e UpdateState.MergeCompleted code w
      = { state := UpdateState.MergeCompleted,
          using_snapuserd := (ReadSnapshotUpdateStatus w).using_snapuserd,
          source_build_fingerprint := (ReadSnapshotUpdateStatus w).source_build_fingerprint,
          merge_phase := (ReadSnapshotUpdateStatus w).merge_phase,
          userspace_snapshots := (ReadSnapshotUpdateStatus w).userspace_snapshots,
          io_uring_enabled := (ReadSnapshotUpdateStatus w).io_uring_enabled,
          legacy_snapuserd := (ReadSnapshotUpdateStatus w).legacy_snapuserd,
          o_direct := (ReadSnapshotUpdateStatus w).o_direct,
          skip_verification := (ReadSnapshotUpdateStatus w).skip_verification,
          cow_op_merge_size := (ReadSnapshotUpdateStatus w).cow_op_merge_size,
          num_worker_threads := (ReadSnapshotUpdateStatus w).num_worker_threads,
          verify_block_size := (ReadSnapshotUpdateStatus w).verify_block_size,
          num_verification_threads := (ReadSnapshotUpdateStatus w).num_verification_threads } :=
  rfl

/-- Rewriting `MergeCompleted` over a status written by
`WriteUpdateState(MergeCompleted)` gives the same status. -/
theorem WriteUpdateState_MergeCompleted_again (e : Env) (w : World)
    (h1 : (WriteUpdateState e UpdateState.MergeCompleted MergeFailureCode.Ok w).1 = true) :
    (WriteUpdateState e UpdateState.MergeCompleted MergeFailureCode.Ok
        (WriteUpdateState e UpdateState.MergeCompleted MergeFailureCode.Ok w).2).2.fs
      = (WriteUpdateState e UpdateState.MergeCompleted MergeFailureCode.Ok w).2.fs := by
  have hsf : (WriteUpdateState e UpdateState.MergeCompleted MergeFailureCode.Ok w).2.fs.stateFile
      = StateFile.encoded (statusToWrite e UpdateState.MergeCompleted MergeFailureCode.Ok w) :=
    WriteSnapshotUpdateStatus_stateFile e _ _ h1
  generalize (WriteUpdateState e UpdateState.MergeCompleted MergeFailureCode.Ok w).2 = w1
    at hsf ⊢
  have hread : ReadSnapshotUpdateStatus w1
      = statusToWrite e UpdateState.MergeCompleted MergeFailureCode.Ok w := by
    unfold ReadSnapshotUpdateStatus
    rw [hsf]
  have hsame : statusToWrite e UpdateState.MergeCompleted MergeFailureCode.Ok w1
      = statusToWrite e UpdateState.MergeCompleted MergeFailureCode.Ok w := by
    rw [statusToWrite_MergeCompleted, hread, statusToWrite_MergeCompleted]
  unfold WriteUpdateState
  rw [hsame]
  apply Files.ext_of_noState
  · exact WriteSnapshotUpdateStatus_noState e _ _
  · rcases WriteSnapshotUpdateStatus_stateFile_cases e
      (statusToWrite e UpdateState.MergeCompleted MergeFailureCode.Ok w) w1 with hc | hc
    · exact hc
    · rw [hc, hsf]

/-- C10 (amended): outside recovery, when the removal of the update state
succeeds and no indicator removal fails, after `AcknowledgeMergeSuccess` the
persisted state is `None` and no indicator file remains, and calling it again
leaves every persisted file unchanged.  In recovery it records
`MergeCompleted` instead (when the write goes through), removes no indicator,
and calling it again leaves every persisted file unchanged. -/
theorem AcknowledgeMergeSuccess_idempotent (e : Env) (w : World) :
    (e.isRecovery = false → (RemoveAllUpdateState e none w).1 = true →
      (∀ t, e.removeFileOk t = true) →
      ReadUpdateState (AcknowledgeMergeSuccess e w) = UpdateState.None ∧
      (AcknowledgeMergeSuccess e w).fs.noIndicators ∧
      (AcknowledgeMergeSuccess e (AcknowledgeMergeSuccess e w)).fs
        = (AcknowledgeMergeSuccess e w).fs) ∧
    (e.isRecovery = true →
      (WriteUpdateState e UpdateState.MergeCompleted MergeFailureCode.Ok w).1 = true →
      ReadUpdateState (AcknowledgeMergeSuccess e w) = UpdateState.MergeCompleted ∧
      (AcknowledgeMergeSuccess e w).fs.noState = w.fs.noState ∧
      (AcknowledgeMergeSuccess e (AcknowledgeMergeSuccess e w)).fs
        = (AcknowledgeMergeSuccess e w).fs) := by
  constructor
  · intro hrec h1 hrm
    obtain ⟨hstate, hind⟩ := RemoveAllUpdateState_result e w h1
    have hfs := AcknowledgeMergeSuccess_fs e w hrec
    have hstate2 : (AcknowledgeMergeSuccess e w).fs.stateFile
        = StateFile.encoded { state := UpdateState.None } := by rw [hfs]; exact hstate
    have hind2 : (AcknowledgeMergeSuccess e w).fs.noIndicators := by rw [hfs]; exact hind hrm
    refine ⟨?_, hind2, ?_⟩
    · unfold ReadUpdateState ReadSnapshotUpdateStatus
      rw [hstate2]
    · rw [AcknowledgeMergeSuccess_fs e _ hrec]
      exact (RemoveAllUpdateState_again e _ hstate2 hind2).1
  · intro hrec h1
    have hack : ∀ w0, AcknowledgeMergeSuccess e w0
        = (WriteUpdateState e UpdateState.MergeCompleted MergeFailureCode.Ok w0).2 := by
      intro w0
      unfold AcknowledgeMergeSuccess
      rw [hrec]
      rfl
    rw [hack (AcknowledgeMergeSuccess e w), hack w]
    refine ⟨?_, ?_, WriteUpdateState_MergeCompleted_again e w h1⟩
    · have hsf : (WriteUpdateState e UpdateState.MergeCompleted MergeFailureCode.Ok
          w).2.fs.stateFile = StateFile.encoded
            (statusToWrite e UpdateState.MergeCompleted MergeFailureCode.Ok w) :=
        WriteSnapshotUpdateStatus_stateFile e _ _ h1
      unfold ReadUpdateState ReadSnapshotUpdateStatus
      rw [hsf, statusToWrite_MergeCompleted]
    · unfold WriteUpdateState
      exact WriteSnapshotUpdateStatus_noState e _ _

/-- Witness for `AcknowledgeMergeSuccess_idempotent`: a finished second-phase
merge acknowledged outside recovery. -/
theorem AcknowledgeMergeSuccess_idempotent_witness :
    ReadUpdateState (AcknowledgeMergeSuccess (calmEnv "_b" "_a") mergingWorld)
      = UpdateState.None ∧
    (AcknowledgeMergeSuccess (calmEnv "_b" "_a") mergingWorld).fs.noIndicators :=
  have h := (AcknowledgeMergeSuccess_idempotent (calmEnv "_b" "_a") mergingWorld).1 rfl
    (by decide) (fun _ => rfl)
  ⟨h.1, h.2.1⟩

/-! ## Merge monotonicity -/

theorem Settled_congr {w w2 : World} (h : w2.fs.snapshots = w.fs.snapshots) (m : String) :
    Settled w m → Settled w2 m := by
  intro hs s hr
  rw [ReadSnapshotStatus_of_snapshots h] at hr
  exact hs s hr

theorem Mono.of_snapshots {m : String} {w w2 : World} {names : List String}
    (ha : Appends w w2 names) (h : w2.fs.snapshots = w.fs.snapshots) : Mono m w w2 :=
  ⟨names, ha, fun hs => Or.inl (Settled_congr h m hs)⟩

theorem Mono.of_quiet {m : String} {w w2 : World} (h : Quiet w w2) : Mono m w w2 :=
  Mono.of_snapshots (Appends.of_eq h.2) (congrArg Files.snapshots h.1)

theorem Mono.refl (m : String) (w : World) : Mono m w w :=
  Mono.of_quiet ⟨rfl, rfl⟩

theorem Mono.chain {m : String} {a b c : World} (h1 : Mono m a b) (h2 : Mono m b c) :
    Mono m a c := by
  obtain ⟨n1, a1, k1⟩ := h1
  obtain ⟨n2, a2, k2⟩ := h2
  refine ⟨n1 ++ n2, Appends.trans a1 a2, fun hs => ?_⟩
  rcases k1 hs with hb | hb
  · rcases k2 hb with hc | hc
    · exact Or.inl hc
    · exact Or.inr (List.mem_append_right _ hc)
  · exact Or.inr (List.mem_append_left _ hb)

/-- Writing a status keeps `m` settled when the status written is not a
non-completed status for `m`. -/
theorem Mono_write (e : Env) (m : String) (status : SnapshotStatus) (w : World)
    (h : status.name = m → status.state = SnapshotState.MERGE_COMPLETED) :
    Mono m w (WriteSnapshotStatus e status w).2 := by
  refine ⟨[], WriteSnapshotStatus_appends e status w, fun hs => Or.inl ?_⟩
  intro s hr
  unfold ReadSnapshotStatus at hr
  rw [WriteSnapshotStatus_snapshots] at hr
  split at hr
  · rw [readStatusFile_putEnt] at hr
    split at hr
    · rename_i hm
      simp only [Option.some.injEq] at hr
      subst hr
      exact h hm.symm
    · exact hs s hr
  · exact hs s hr

theorem Mono_delete (e : Env) (m n : String) (w : World) :
    Mono m w (DeleteSnapshot e n w).2 := by
  refine ⟨[], DeleteSnapshot_appends e n w, fun hs => Or.inl ?_⟩
  intro s hr
  unfold ReadSnapshotStatus at hr
  rcases DeleteSnapshot_snapshots e n w with hsame | ⟨_, hrem⟩
  · rw [hsame] at hr
    exact hs s hr
  · rw [hrem, readStatusFile_removeEnt] at hr
    split at hr
    · simp at hr
    · exact hs s hr

theorem refreshSectors_status (e : Env) (n : String) (status : SnapshotStatus) (w : World) :
    (refreshSectors e n status w).1.name = status.name ∧
    (refreshSectors e n status w).1.state = status.state ∧
    DecideMergePhase (refreshSectors e n status w).1 = DecideMergePhase status := by
  unfold refreshSectors
  dsimp only
  split <;> simp [DecideMergePhase]

/-- `SwitchSnapshotToMerge` on `n` leaves every other status file as it is. -/
theorem SwitchSnapshotToMerge_read_other (e : Env) (n m : String) (w : World) (hne : m ≠ n) :
    ReadSnapshotStatus (SwitchSnapshotToMerge e n w).2 m = ReadSnapshotStatus w m := by
  unfold SwitchSnapshotToMerge
  cases hr : ReadSnapshotStatus w n with
  | none => rfl
  | some status =>
    dsimp only
    have hname := ReadSnapshotStatus_name w n status hr
    split
    · exact ReadSnapshotStatus_congr (by simp) m
    · unfold ReadSnapshotStatus
      rw [WriteSnapshotStatus_snapshots]
      split
      · rw [readStatusFile_putEnt, (refreshSectors_status e n _ _).1]
        dsimp only
        rw [hname, if_neg hne]
        simp
      · simp

theorem Mono_switch (e : Env) (m n : String) (w : World) :
    Mono m w (SwitchSnapshotToMerge e n w).2 := by
  refine ⟨_, SwitchSnapshotToMerge_appends e n w, fun hs => ?_⟩
  by_cases hmn : m = n
  · subst hmn
    cases hr : ReadSnapshotStatus w m with
    | none =>
      left
      have : SwitchSnapshotToMerge e m w = (MergeFailureCode.ReadStatus, w) := by
        unfold SwitchSnapshotToMerge
        rw [hr]
      rw [this]
      exact hs
    | some st =>
      right
      simp
  · left
    intro s hr
    rw [SwitchSnapshotToMerge_read_other e n m w hmn] at hr
    exact hs s hr

theorem Mono_switchAll (e : Env) (m : String) (l : List String) (code : MergeFailureCode)
    (w : World) : Mono m w (switchAll e l code w).2 := by
  induction l generalizing w code with
  | nil => exact Mono.refl m w
  | cons n rest ih =>
    unfold switchAll
    dsimp only
    exact Mono.chain (Mono_switch e m n w) (ih _ _)

theorem Mono_secondPhaseLoop (e : Env) (m : String) (l : List String)
    (code : MergeFailureCode) (w : World) : Mono m w (secondPhaseLoop e l code w).2 := by
  induction l generalizing w code with
  | nil => exact Mono.refl m w
  | cons n rest ih =>
    unfold secondPhaseLoop
    dsimp only
    repeat' split
    all_goals first
      | exact ih _ _
      | exact Mono.refl m w
      | exact Mono.chain (Mono_switch e m n w) (ih _ _)

theorem Mono_writeGlobal (e : Env) (m : String) (status : SnapshotUpdateStatus) (w : World) :
    Mono m w (WriteSnapshotUpdateStatus e status w).2 :=
  Mono.of_snapshots (WriteSnapshotUpdateStatus_appends e status w)
    (WriteSnapshotUpdateStatus_snapshots e status w)

theorem Mono_WriteUpdateState (e : Env) (m : String) (state : UpdateState)
    (code : MergeFailureCode) (w : World) : Mono m w (WriteUpdateState e state code w).2 :=
  Mono_writeGlobal e m _ w

theorem Mono_MergeSecondPhaseSnapshots (e : Env) (m : String) (w : World) :
    Mono m w (MergeSecondPhaseSnapshots e w).2 := by
  have hl : Mono m w (ListSnapshots e "" [] w).2 := Mono.of_quiet (ListSnapshots_quiet e _ _ w)
  unfold MergeSecondPhaseSnapshots
  dsimp only
  repeat' split
  all_goals first
    | exact hl
    | exact Mono.chain hl (Mono_writeGlobal e m _ _)
    | exact Mono.chain (Mono.chain hl (Mono_writeGlobal e m _ _)) (Mono_secondPhaseLoop e m _ _ _)

theorem Mono_collapseIfMerged (e : Env) (m n : String) (status : SnapshotStatus) (w : World) :
    Mono m w (collapseIfMerged e n status w).2 :=
  Mono.of_snapshots (collapseIfMerged_appends e n status w)
    (congrArg Files.snapshots (collapseIfMerged_fs e n status w))

theorem Mono_OnSnapshotMergeComplete (e : Env) (m n : String) (status : SnapshotStatus)
    (w : World) : Mono m w (OnSnapshotMergeComplete e n status w).2 := by
  have hc := Mono_collapseIfMerged e m n status w
  have hd := Mono_delete e m n (collapseIfMerged e n status w).2
  unfold OnSnapshotMergeComplete
  dsimp only
  repeat' split
  all_goals first
    | exact hc
    | exact Mono.chain hc hd

theorem Mono_finishTargetMerge (e : Env) (m n : String) (status : SnapshotStatus)
    (w : World) : Mono m w (finishTargetMerge e n status w).2 := by
  have hw := Mono_write e m { status with state := SnapshotState.MERGE_COMPLETED } w
    (fun _ => rfl)
  have ho := Mono_OnSnapshotMergeComplete e m n
    { status with state := SnapshotState.MERGE_COMPLETED }
    (WriteSnapshotStatus e { status with state := SnapshotState.MERGE_COMPLETED } w).2
  unfold finishTargetMerge
  dsimp only
  repeat' split
  all_goals first
    | exact hw
    | exact Mono.chain hw ho

theorem Mono_dropFlashed (e : Env) (m : String) (metadata : LpMetadata) (l : List String)
    (w : World) : Mono m w (dropFlashed e metadata l w).2 := by
  induction l generalizing w with
  | nil => exact Mono.refl m w
  | cons n rest ih =>
    unfold dropFlashed
    split
    · exact ih w
    · exact Mono.chain (Mono_delete e m n w) (ih _)

theorem Mono.after_quiet {m : String} {w w1 w2 : World} (hq : Quiet w w1)
    (h : Mono m w1 w2) : Mono m w w2 :=
  Mono.chain (Mono.of_quiet hq) h

theorem probeTargetMerge_effect (e : Env) (n : String) (us : SnapshotUpdateStatus)
    (w : World) : ProbeEffect e n us w (probeTargetMerge e n us w) := by
  unfold probeTargetMerge
  cases hread : ReadSnapshotStatus w n with
  | none =>
    left
    exact ⟨⟨rfl, rfl⟩, Or.inl ⟨_, rfl, Or.inl rfl⟩⟩
  | some st =>
    dsimp only
    repeat' split
    all_goals first
      | (left
         refine ⟨⟨?_, ?_⟩, Or.inl ⟨_, rfl, Or.inl rfl⟩⟩ <;> simp <;> done)
      | (left
         refine ⟨⟨?_, ?_⟩, Or.inl ⟨_, rfl, Or.inr (Or.inl rfl)⟩⟩ <;> simp <;> done)
      | (left
         refine ⟨⟨?_, ?_⟩, Or.inl ⟨_, rfl, Or.inr (Or.inr ⟨rfl, st, hread, ?_⟩)⟩⟩
         case refine_3 => simp_all
         all_goals simp)
      | (left
         refine ⟨⟨?_, ?_⟩, Or.inr ⟨_, rfl, hread⟩⟩ <;> simp)
      | (right; left
         refine ⟨_, (IsSnapshotDevice e n w).2.tick, ⟨?_, ?_⟩, by with_reducible rfl, rfl, ?_⟩
         case refine_3 =>
           intro md hmd
           simp_all [ReadCurrentMetadata]
         all_goals simp)
      | (right; right; left
         refine ⟨_, st, ⟨?_, ?_⟩, by with_reducible rfl, rfl, hread, ?_⟩
         case refine_3 => assumption
         all_goals simp)
      | (right; right; right
         refine ⟨_, st, ⟨?_, ?_⟩, by with_reducible rfl, ⟨_, rfl, Or.inl rfl⟩, hread, ?_, ?_⟩
         case refine_3 => simp_all
         case refine_4 => assumption
         all_goals simp)
      | (right; right; right
         refine ⟨_, st, ⟨?_, ?_⟩, by with_reducible rfl, ⟨_, rfl, Or.inr rfl⟩, hread, ?_, ?_⟩
         case refine_3 => simp_all
         case refine_4 => assumption
         all_goals simp)

theorem Mono_probeTargetMerge (e : Env) (m n : String) (us : SnapshotUpdateStatus)
    (w : World) : Mono m w (probeTargetMerge e n us w).2 := by
  rcases probeTargetMerge_effect e n us w with ⟨hq, _⟩ | ⟨w0, _, hq, hw, _⟩ |
    ⟨w0, st, hq, hw, _⟩ | ⟨w0, st, hq, hw, _⟩
  · exact Mono.of_quiet hq
  · rw [hw]
    exact Mono.after_quiet hq (Mono_delete e m n w0)
  · rw [hw]
    exact Mono.after_quiet hq (Mono_OnSnapshotMergeComplete e m n st w0)
  · rw [hw]
    exact Mono.after_quiet hq (Mono_switch e m n w0)

theorem Mono_CheckTargetMergeState (e : Env) (m n : String) (us : SnapshotUpdateStatus)
    (w : World) : Mono m w (CheckTargetMergeState e n us w).2 := by
  have hp := Mono_probeTargetMerge e m n us w
  unfold CheckTargetMergeState
  split
  · rename_i r w1 heq
    rw [heq] at hp
    exact hp
  · rename_i st w1 heq
    rw [heq] at hp
    exact Mono.chain hp (Mono_finishTargetMerge e m n st w1)

/-- `prepareMerge` writes nothing, except that its second loop may delete
snapshots. -/
theorem prepareMerge_effect (e : Env) (w : World) :
    Quiet w (prepareMerge e w).2 ∨
    ∃ metadata l w0, Quiet w w0 ∧ Quiet (dropFlashed e metadata l w0).2 (prepareMerge e w).2 := by
  unfold prepareMerge
  dsimp only
  repeat' split
  all_goals first
    | (left; constructor <;> simp <;> done)
    | (right
       refine ⟨_, _, _, ⟨?_, ?_⟩, ⟨by with_reducible exact planMerge_fs e _ _ _,
         by with_reducible exact planMerge_trace e _ _ _⟩⟩ <;> simp)

theorem Mono_prepareMerge (e : Env) (m : String) (w : World) :
    Mono m w (prepareMerge e w).2 := by
  rcases prepareMerge_effect e w with hq | ⟨metadata, l, w0, hq, hq2⟩
  · exact Mono.of_quiet hq
  · exact Mono.chain (Mono.after_quiet hq (Mono_dropFlashed e m metadata l w0))
      (Mono.of_quiet hq2)

theorem Mono_InitiateMerge (e : Env) (m : String) (w : World) :
    Mono m w (InitiateMerge e w).2 := by
  have hp := Mono_prepareMerge e m w
  unfold InitiateMerge
  generalize prepareMerge e w = r at hp
  obtain ⟨prepared, w1⟩ := r
  cases prepared with
  | none => exact hp
  | some sp =>
    obtain ⟨snapshots, plan⟩ := sp
    have hi : Mono m w1 (initialStatus e plan w1).2 := Mono.of_quiet (initialStatus_quiet e plan w1)
    have hw := Mono_writeGlobal e m (initialStatus e plan w1).1 (initialStatus e plan w1).2
    have hs := Mono_switchAll e m (mergeGroup snapshots plan) MergeFailureCode.Ok
      (WriteSnapshotUpdateStatus e (initialStatus e plan w1).1 (initialStatus e plan w1).2).2
    dsimp only
    repeat' split
    all_goals first
      | exact Mono.chain hp (Mono.chain hi hw)
      | exact Mono.chain hp (Mono.chain hi (Mono.chain hw hs))
      | exact Mono.chain hp (Mono.chain hi (Mono.chain hw (Mono.chain hs
          (Mono_WriteUpdateState e m _ _ _))))

/-- Where a rewrite of a completed status can come from: once the persisted
status of a snapshot `m` is `MERGE_COMPLETED`, then across
`CheckTargetMergeState` (for any snapshot), `MergeSecondPhaseSnapshots` and
`InitiateMerge` it stays `MERGE_COMPLETED` (or the file is deleted) unless the
operation handed `m` to `SwitchSnapshotToMerge`.  Here `Appends w w2 names`
says that the trace grew from `w` to `w2` by events whose switches are exactly
`names`. -/
theorem merge_completed_reverts_only_by_switch (e : Env) (m : String) (w : World)
    (st : SnapshotStatus) (hread : ReadSnapshotStatus w m = some st)
    (hdone : st.state = SnapshotState.MERGE_COMPLETED) :
    (∀ n us, ∃ names, Appends w (CheckTargetMergeState e n us w).2 names ∧
      (Settled (CheckTargetMergeState e n us w).2 m ∨ m ∈ names)) ∧
    (∃ names, Appends w (MergeSecondPhaseSnapshots e w).2 names ∧
      (Settled (MergeSecondPhaseSnapshots e w).2 m ∨ m ∈ names)) ∧
    (∃ names, Appends w (InitiateMerge e w).2 names ∧
      (Settled (InitiateMerge e w).2 m ∨ m ∈ names)) := by
  have hs : Settled w m := by
    intro s hr
    rw [hread] at hr
    simp only [Option.some.injEq] at hr
    rw [← hr]
    exact hdone
  refine ⟨fun n us => ?_, ?_, ?_⟩
  · obtain ⟨names, ha, hk⟩ := Mono_CheckTargetMergeState e m n us w
    exact ⟨names, ha, hk hs⟩
  · obtain ⟨names, ha, hk⟩ := Mono_MergeSecondPhaseSnapshots e m w
    exact ⟨names, ha, hk hs⟩
  · obtain ⟨names, ha, hk⟩ := Mono_InitiateMerge e m w
    exact ⟨names, ha, hk hs⟩

/-- Witness for `merge_completed_reverts_only_by_switch`: the completed
`vendor_b` of `completedWorld`. -/
theorem merge_completed_reverts_only_by_switch_witness :
    ∃ names, Appends completedWorld (InitiateMerge (calmEnv "_b" "_a") completedWorld).2 names ∧
      (Settled (InitiateMerge (calmEnv "_b" "_a") completedWorld).2 "vendor_b" ∨
        "vendor_b" ∈ names) :=
  (merge_completed_reverts_only_by_switch (calmEnv "_b" "_a") "vendor_b" completedWorld
    { name := "vendor_b", state := SnapshotState.MERGE_COMPLETED,
      device_size := 536870912, snapshot_size := 536870912,
      cow_file_size := 134217728, old_partition_size := 419430400,
      using_snapuserd := true } (by decide) rfl).2.2

/-! ## Phase ordering -/

theorem Keeps_refl (w : World) : Keeps w w := fun _ s2 h => ⟨s2, h, rfl⟩

theorem Keeps_chain {a b c : World} (h1 : Keeps a b) (h2 : Keeps b c) : Keeps a c := by
  intro m s3 h3
  obtain ⟨s2, r2, p2⟩ := h2 m s3 h3
  obtain ⟨s1, r1, p1⟩ := h1 m s2 r2
  exact ⟨s1, r1, p2.trans p1⟩

theorem Keeps_of_snapshots {w w2 : World} (h : w2.fs.snapshots = w.fs.snapshots) :
    Keeps w w2 := by
  intro m s2 h2
  rw [ReadSnapshotStatus_of_snapshots h] at h2
  exact ⟨s2, h2, rfl⟩

theorem Keeps_of_quiet {w w2 : World} (h : Quiet w w2) : Keeps w w2 :=
  Keeps_of_snapshots (congrArg Files.snapshots h.1)

/-- Rewriting a status file with the status read from it, whatever the changes
to fields the phase does not depend on. -/
theorem Keeps_write (e : Env) (status old : SnapshotStatus) (w : World)
    (hold : ReadSnapshotStatus w status.name = some old)
    (hphase : DecideMergePhase status = DecideMergePhase old) :
    Keeps w (WriteSnapshotStatus e status w).2 := by
  intro m s2 h2
  unfold ReadSnapshotStatus at h2
  rw [WriteSnapshotStatus_snapshots] at h2
  split at h2
  · rw [readStatusFile_putEnt] at h2
    split at h2
    · rename_i hm
      simp only [Option.some.injEq] at h2
      subst h2
      subst hm
      exact ⟨old, hold, hphase⟩
    · exact ⟨s2, h2, rfl⟩
  · exact ⟨s2, h2, rfl⟩

theorem Keeps_delete (e : Env) (n : String) (w : World) :
    Keeps w (DeleteSnapshot e n w).2 := by
  intro m s2 h2
  unfold ReadSnapshotStatus at h2
  rcases DeleteSnapshot_snapshots e n w with hsame | ⟨_, hrem⟩
  · rw [hsame] at h2
    exact ⟨s2, h2, rfl⟩
  · rw [hrem, readStatusFile_removeEnt] at h2
    split at h2
    · simp at h2
    · exact ⟨s2, h2, rfl⟩

theorem FirstDone_delete (e : Env) (n m : String) (w : World)
    (h : FirstDone w.fs.snapshots m) : FirstDone (DeleteSnapshot e n w).2.fs.snapshots m := by
  intro s hr
  rcases DeleteSnapshot_snapshots e n w with hsame | ⟨_, hrem⟩
  · rw [hsame] at hr
    exact h s hr
  · rw [hrem, readStatusFile_removeEnt] at hr
    split at hr
    · simp at hr
    · exact h s hr

/-- The directory after `SwitchSnapshotToMerge`: as before, or with the
status file of `n` rewritten from the status read, its phase unchanged. -/
theorem SwitchSnapshotToMerge_dir (e : Env) (n : String) (w : World) :
    (SwitchSnapshotToMerge e n w).2.fs.snapshots = w.fs.snapshots ∨
    ∃ st st2, ReadSnapshotStatus w n = some st ∧ st2.name = n ∧
      DecideMergePhase st2 = DecideMergePhase st ∧
      (SwitchSnapshotToMerge e n w).2.fs.snapshots = putEnt w.fs.snapshots st2 := by
  unfold SwitchSnapshotToMerge
  cases hr : ReadSnapshotStatus w n with
  | none => exact Or.inl rfl
  | some st =>
    dsimp only
    have hname := ReadSnapshotStatus_name w n st hr
    split
    · left
      simp
    · have hrs := refreshSectors_status e n { st with state := SnapshotState.MERGING }
        ((switchBackend e n w).2.log (Event.switchToMerge n st w.fs.snapshots
          (decide ((switchBackend e n w).1 = MergeFailureCode.Ok))))
      rw [WriteSnapshotStatus_snapshots]
      split
      · right
        refine ⟨st, _, rfl, hrs.1.trans hname, hrs.2.2.trans ?_, ?_⟩
        · simp [DecideMergePhase]
        · simp
      · left
        simp

/-- The events `SwitchSnapshotToMerge` adds: the switch, recorded with the
status read and the directory as it is, and possibly a status write. -/
theorem SwitchSnapshotToMerge_events (e : Env) (n : String) (w : World) :
    ∃ evs, (SwitchSnapshotToMerge e n w).2.trace = w.trace ++ evs ∧
      ∀ ev ∈ evs,
        (∃ st ok, ReadSnapshotStatus w n = some st ∧
          ev = Event.switchToMerge n st w.fs.snapshots ok) ∨
        ∃ st ok, ev = Event.writeSnapshot st ok := by
  unfold SwitchSnapshotToMerge
  cases hr : ReadSnapshotStatus w n with
  | none => exact ⟨[], by simp, by simp⟩
  | some st =>
    dsimp only
    split
    · refine ⟨[Event.switchToMerge n st w.fs.snapshots
        (decide ((switchBackend e n w).1 = MergeFailureCode.Ok))], by simp, ?_⟩
      intro ev hev
      simp only [List.mem_singleton] at hev
      exact Or.inl ⟨_, _, rfl, hev⟩
    · rw [WriteSnapshotStatus_trace]
      simp only [refreshSectors_trace, World.log_trace, switchBackend_trace,
        List.append_assoc]
      refine ⟨_, rfl, ?_⟩
      intro ev hev
      rcases List.mem_append.mp hev with h | h
      · simp only [List.mem_singleton] at h
        exact Or.inl ⟨_, _, rfl, h⟩
      · split at h
        · simp at h
        · simp only [List.mem_singleton] at h
          exact Or.inr ⟨_, _, h⟩

theorem OrderedEvent_of_noSwitch (e : Env) (md : LpMetadata) (post : List Event)
    (h : switchedNames post = []) : ∀ ev ∈ post, OrderedEvent e md ev := by
  induction post with
  | nil => simp
  | cons a rest ih =>
    have happ : switchedNames (a :: rest) = switchedNames [a] ++ switchedNames rest :=
      switchedNames_append [a] rest
    rw [happ] at h
    obtain ⟨h1, h2⟩ := List.append_eq_nil.mp h
    intro ev hev
    rcases List.mem_cons.mp hev with hev | hev
    · subst hev
      cases ev <;> trivial
    · exact ih h2 ev hev

theorem Safe_refl (e : Env) (md : LpMetadata) (g : Prop) (w : World) : Safe e md g w w :=
  ⟨Keeps_refl w, fun _ h => h, [], by simp, by simp⟩

theorem Safe_chain {e : Env} {md : LpMetadata} {g : Prop} {a b c : World}
    (h1 : Safe e md g a b) (h2 : Safe e md g b c) : Safe e md g a c := by
  obtain ⟨k1, f1, ev1, t1, o1⟩ := h1
  obtain ⟨k2, f2, ev2, t2, o2⟩ := h2
  refine ⟨Keeps_chain k1 k2, fun m h => f2 m (f1 m h), ev1 ++ ev2, ?_, ?_⟩
  · rw [t2, t1, List.append_assoc]
  · intro hg ev hev
    rcases List.mem_append.mp hev with h | h
    · exact o1 hg ev h
    · refine o2 ?_ ev h
      rcases hg with hg | hg
      · exact Or.inl hg
      · exact Or.inr (fun m hm => f1 m (hg m hm))

/-- A step that leaves the directory alone and switches nothing. -/
theorem Safe_of_snapshots {e : Env} {md : LpMetadata} {g : Prop} {w w2 : World}
    (ha : Appends w w2 []) (h : w2.fs.snapshots = w.fs.snapshots) : Safe e md g w w2 := by
  obtain ⟨post, ht, hs⟩ := ha
  refine ⟨Keeps_of_snapshots h, fun m hm => ?_, post, ht, fun _ =>
    OrderedEvent_of_noSwitch e md post hs⟩
  rw [h]
  exact hm

theorem Safe_of_quiet {e : Env} {md : LpMetadata} {g : Prop} {w w2 : World}
    (h : Quiet w w2) : Safe e md g w w2 :=
  Safe_of_snapshots (Appends.of_eq h.2) (congrArg Files.snapshots h.1)

/-- What a safe step gives: the trace stays ordered, and a finished first
phase stays finished. -/
theorem Safe.use {e : Env} {md : LpMetadata} {g : Prop} {w w2 : World}
    (h : Safe e md g w w2) (hg : g ∨ GoodDir e md w.fs.snapshots)
    (ht : Ordered e md w.trace) : Ordered e md w2.trace := by
  obtain ⟨_, _, evs, t, o⟩ := h
  intro ev hev
  rw [t] at hev
  rcases List.mem_append.mp hev with h | h
  · exact ht ev h
  · exact o hg ev h

theorem Safe.good {e : Env} {md : LpMetadata} {g : Prop} {w w2 : World}
    (h : Safe e md g w w2) (hg : GoodDir e md w.fs.snapshots) :
    GoodDir e md w2.fs.snapshots :=
  fun m hm => h.2.1 m (hg m hm)

theorem FirstDone_write (e : Env) (status : SnapshotStatus) (w : World) (m : String)
    (hdone : status.state = SnapshotState.MERGE_COMPLETED ∨
      DecideMergePhase status = MergePhase.SECOND_PHASE)
    (h : FirstDone w.fs.snapshots m) :
    FirstDone (WriteSnapshotStatus e status w).2.fs.snapshots m := by
  intro s hr hp
  rw [WriteSnapshotStatus_snapshots] at hr
  split at hr
  · rw [readStatusFile_putEnt] at hr
    split at hr
    · simp only [Option.some.injEq] at hr
      subst hr
      rcases hdone with hd | hd
      · exact hd
      · rw [hd] at hp
        exact absurd hp (by decide)
    · exact h s hr hp
  · exact h s hr hp

/-- Recording `MERGE_COMPLETED` in a status file that was read. -/
theorem Safe_write (e : Env) (md : LpMetadata) (g : Prop) (status old : SnapshotStatus)
    (w : World) (hold : ReadSnapshotStatus w status.name = some old)
    (hphase : DecideMergePhase status = DecideMergePhase old)
    (hdone : status.state = SnapshotState.MERGE_COMPLETED) :
    Safe e md g w (WriteSnapshotStatus e status w).2 := by
  obtain ⟨post, ht, hs⟩ := WriteSnapshotStatus_appends e status w
  exact ⟨Keeps_write e status old w hold hphase,
    fun m hm => FirstDone_write e status w m (Or.inl hdone) hm, post, ht,
    fun _ => OrderedEvent_of_noSwitch e md post hs⟩

theorem Safe_delete (e : Env) (md : LpMetadata) (g : Prop) (n : String) (w : World) :
    Safe e md g w (DeleteSnapshot e n w).2 := by
  obtain ⟨post, ht, hs⟩ := DeleteSnapshot_appends e n w
  exact ⟨Keeps_delete e n w, fun m hm => FirstDone_delete e n m w hm, post, ht,
    fun _ => OrderedEvent_of_noSwitch e md post hs⟩

theorem Keeps_switch (e : Env) (n : String) (w : World) :
    Keeps w (SwitchSnapshotToMerge e n w).2 := by
  rcases SwitchSnapshotToMerge_dir e n w with h | ⟨st, st2, hr, hn, hp, h⟩
  · exact Keeps_of_snapshots h
  · intro m s2 h2
    unfold ReadSnapshotStatus at h2
    rw [h, readStatusFile_putEnt] at h2
    split at h2
    · rename_i hm
      simp only [Option.some.injEq] at h2
      subst h2
      rw [hm, hn]
      exact ⟨st, hr, hp⟩
    · exact ⟨s2, h2, rfl⟩

/-- Switching a second-phase snapshot while the first phase is finished. -/
theorem Safe_switch (e : Env) (md : LpMetadata) (g : Prop) (n : String) (w : World)
    (hng : ¬g)
    (hsecond : ∀ st, ReadSnapshotStatus w n = some st →
      DecideMergePhase st = MergePhase.SECOND_PHASE) :
    Safe e md g w (SwitchSnapshotToMerge e n w).2 := by
  refine ⟨Keeps_switch e n w, ?_, ?_⟩
  · intro m hm
    rcases SwitchSnapshotToMerge_dir e n w with h | ⟨st, st2, hr, hn, hp, h⟩
    · rw [h]
      exact hm
    · intro s hs hfirst
      rw [h, readStatusFile_putEnt] at hs
      split at hs
      · simp only [Option.some.injEq] at hs
        subst hs
        rw [hp, hsecond st hr] at hfirst
        exact absurd hfirst (by decide)
      · exact hm s hs hfirst
  · obtain ⟨evs, ht, hev⟩ := SwitchSnapshotToMerge_events e n w
    refine ⟨evs, ht, fun hg ev hmem => ?_⟩
    rcases hev ev hmem with ⟨st, ok, _, h⟩ | ⟨st, ok, h⟩
    · subst h
      intro _
      rcases hg with hg | hg
      · exact absurd hg hng
      · exact hg
    · subst h
      trivial

theorem Safe_OnSnapshotMergeComplete (e : Env) (md : LpMetadata) (g : Prop) (n : String)
    (status : SnapshotStatus) (w : World) :
    Safe e md g w (OnSnapshotMergeComplete e n status w).2 := by
  have hc : Safe e md g w (collapseIfMerged e n status w).2 :=
    Safe_of_snapshots (collapseIfMerged_appends e n status w)
      (congrArg Files.snapshots (collapseIfMerged_fs e n status w))
  have hd := Safe_delete e md g n (collapseIfMerged e n status w).2
  unfold OnSnapshotMergeComplete
  dsimp only
  repeat' split
  all_goals first
    | exact hc
    | exact Safe_chain hc hd

theorem Safe_finishTargetMerge (e : Env) (md : LpMetadata) (g : Prop) (n : String)
    (status : SnapshotStatus) (w : World) (hread : ReadSnapshotStatus w n = some status) :
    Safe e md g w (finishTargetMerge e n status w).2 := by
  have hname := ReadSnapshotStatus_name w n status hread
  have hw := Safe_write e md g { status with state := SnapshotState.MERGE_COMPLETED } status w
    (by rw [← hname] at hread; exact hread) (by simp [DecideMergePhase]) rfl
  have ho := Safe_OnSnapshotMergeComplete e md g n
    { status with state := SnapshotState.MERGE_COMPLETED }
    (WriteSnapshotStatus e { status with state := SnapshotState.MERGE_COMPLETED } w).2
  unfold finishTargetMerge
  dsimp only
  repeat' split
  all_goals first
    | exact hw
    | exact Safe_chain hw ho

theorem Safe_probeTargetMerge (e : Env) (md : LpMetadata) (n : String)
    (us : SnapshotUpdateStatus) (w : World) :
    Safe e md (us.merge_phase = MergePhase.FIRST_PHASE) w (probeTargetMerge e n us w).2 := by
  rcases probeTargetMerge_effect e n us w with ⟨hq, _⟩ | ⟨w0, _, hq, hw, _⟩ |
    ⟨w0, st, hq, hw, _⟩ | ⟨w0, st, hq, hw, _, hr, hp, hph⟩
  · exact Safe_of_quiet hq
  · rw [hw]
    exact Safe_chain (Safe_of_quiet hq) (Safe_delete e md _ n w0)
  · rw [hw]
    exact Safe_chain (Safe_of_quiet hq) (Safe_OnSnapshotMergeComplete e md _ n st w0)
  · rw [hw]
    refine Safe_chain (Safe_of_quiet hq) (Safe_switch e md _ n w0 hph ?_)
    intro st2 h2
    rw [ReadSnapshotStatus_congr hq.1, hr] at h2
    simp only [Option.some.injEq] at h2
    rw [← h2]
    exact hp

theorem Safe_CheckTargetMergeState (e : Env) (md : LpMetadata) (n : String)
    (us : SnapshotUpdateStatus) (w : World) :
    Safe e md (us.merge_phase = MergePhase.FIRST_PHASE) w
      (CheckTargetMergeState e n us w).2 := by
  have hp := Safe_probeTargetMerge e md n us w
  unfold CheckTargetMergeState
  split
  · rename_i r w1 heq
    rw [heq] at hp
    exact hp
  · rename_i st w1 heq
    rw [heq] at hp
    obtain ⟨hr, hfs, _⟩ := probeTargetMerge_inr e n us w w1 st heq
    exact Safe_chain hp (Safe_finishTargetMerge e md _ n st w1
      (by rw [ReadSnapshotStatus_congr hfs]; exact hr))

theorem Safe_pollLoop (e : Env) (md : LpMetadata) (us : SnapshotUpdateStatus)
    (l : List String) (flags : PollFlags) (w : World) :
    Safe e md (us.merge_phase = MergePhase.FIRST_PHASE) w (pollLoop e us l flags w).2 := by
  induction l generalizing flags w with
  | nil => exact Safe_refl e md _ w
  | cons n rest ih =>
    unfold pollLoop
    split
    · exact ih flags w
    · dsimp only
      exact Safe_chain (Safe_CheckTargetMergeState e md n us w) (ih _ _)

theorem Safe_secondPhaseLoop (e : Env) (md : LpMetadata) (l : List String)
    (code : MergeFailureCode) (w : World) :
    Safe e md False w (secondPhaseLoop e l code w).2 := by
  induction l generalizing w code with
  | nil => exact Safe_refl e md _ w
  | cons n rest ih =>
    unfold secondPhaseLoop
    split
    · exact ih _ _
    · split
      · exact Safe_refl e md _ w
      · rename_i st hr
        split
        · exact ih _ _
        · rename_i hp
          dsimp only
          refine Safe_chain (Safe_switch e md False n w not_false ?_) (ih _ _)
          intro st2 h2
          rw [hr] at h2
          simp only [Option.some.injEq] at h2
          rw [← h2]
          simpa using hp

theorem Safe_writeGlobal (e : Env) (md : LpMetadata) (g : Prop)
    (status : SnapshotUpdateStatus) (w : World) :
    Safe e md g w (WriteSnapshotUpdateStatus e status w).2 :=
  Safe_of_snapshots (WriteSnapshotUpdateStatus_appends e status w)
    (WriteSnapshotUpdateStatus_snapshots e status w)

theorem Safe_MergeSecondPhaseSnapshots (e : Env) (md : LpMetadata) (w : World) :
    Safe e md False w (MergeSecondPhaseSnapshots e w).2 := by
  have hl : Safe e md False w (ListSnapshots e "" [] w).2 :=
    Safe_of_quiet (ListSnapshots_quiet e _ _ w)
  unfold MergeSecondPhaseSnapshots
  dsimp only
  repeat' split
  all_goals first
    | exact hl
    | exact Safe_chain hl (Safe_writeGlobal e md _ _ _)
    | exact Safe_chain (Safe_chain hl (Safe_writeGlobal e md _ _ _))
        (Safe_secondPhaseLoop e md _ _ _)

theorem Safe_concludeMerge (e : Env) (md : LpMetadata) (flags : PollFlags) (w : World) :
    Safe e md False w (concludeMerge e flags w).2 := by
  have hm := Safe_MergeSecondPhaseSnapshots e md w
  unfold concludeMerge
  dsimp only
  repeat' split
  all_goals first
    | exact Safe_refl e md _ w
    | exact hm
    | exact Safe_writeGlobal e md _ _ _

/-- Once the completion part of `CheckTargetMergeState` got past its status
write, the snapshot is done. -/
theorem finishTargetMerge_done (e : Env) (n : String) (status : SnapshotStatus) (w : World)
    (hread : ReadSnapshotStatus w n = some status)
    (hres : (finishTargetMerge e n status w).1.state ≠ UpdateState.MergeFailed) :
    FirstDone (finishTargetMerge e n status w).2.fs.snapshots n := by
  have hname := ReadSnapshotStatus_name w n status hread
  have ho := (Safe_OnSnapshotMergeComplete e [] False n
    { status with state := SnapshotState.MERGE_COMPLETED }
    (WriteSnapshotStatus e { status with state := SnapshotState.MERGE_COMPLETED } w).2).2.1 n
  have hw : (WriteSnapshotStatus e { status with state := SnapshotState.MERGE_COMPLETED } w).1
      = true →
      FirstDone (WriteSnapshotStatus e
        { status with state := SnapshotState.MERGE_COMPLETED } w).2.fs.snapshots n := by
    intro hok s hs _
    rw [WriteSnapshotStatus_snapshots, if_pos hok, readStatusFile_putEnt] at hs
    dsimp only at hs
    rw [if_pos hname.symm] at hs
    simp only [Option.some.injEq] at hs
    rw [← hs]
  unfold finishTargetMerge at hres ⊢
  dsimp only at hres ⊢
  split at hres
  · exact absurd rfl hres
  · rename_i hok
    simp only [Bool.not_eq_true, Bool.not_eq_false, Bool.not_eq_eq_eq_not, Bool.not_true,
      Bool.not_false] at hok
    rw [if_neg (by simp [hok])]
    split
    · exact ho (hw hok)
    · exact ho (hw hok)

/-- After `CheckTargetMergeState` answered anything but `Merging` or
`MergeFailed` for a snapshot of the merge, that snapshot is no first-phase
snapshot with an outstanding merge. -/
theorem CheckTargetMergeState_done (e : Env) (md : LpMetadata) (n : String)
    (us : SnapshotUpdateStatus) (w : World)
    (hmd : ∀ t, e.readMetadata t (e.slotNumberForSlotSuffix e.slotSuffix) = some md)
    (htracked : Tracked e md n)
    (h1 : (CheckTargetMergeState e n us w).1.state ≠ UpdateState.Merging)
    (h2 : (CheckTargetMergeState e n us w).1.state ≠ UpdateState.MergeFailed) :
    FirstDone (CheckTargetMergeState e n us w).2.fs.snapshots n := by
  have hp := probeTargetMerge_effect e n us w
  unfold CheckTargetMergeState at h1 h2 ⊢
  split at h1
  · rename_i r w1 heq
    rw [heq] at hp
    simp only [heq] at h2 ⊢
    rcases hp with ⟨hq, hres⟩ | ⟨w0, t, hq, hw, _, hnot⟩ | ⟨w0, st, hq, hw, _, hr, hdone⟩ |
      ⟨w0, st, hq, hw, ⟨res, hres, hst⟩, _⟩
    · rcases hres with ⟨res, hres, hst⟩ | ⟨st, hres, _⟩
      · simp only [Sum.inl.injEq] at hres
        subst hres
        rcases hst with hst | hst | ⟨_, st, hr, hp2⟩
        · exact absurd hst h2
        · exact absurd hst h1
        · intro s hs hfirst
          have hs2 : ReadSnapshotStatus w1 n = some s := hs
          rw [ReadSnapshotStatus_congr hq.1, hr] at hs2
          simp only [Option.some.injEq] at hs2
          rw [← hs2, hp2] at hfirst
          exact absurd hfirst (by decide)
      · simp at hres
    · exact absurd htracked.2 (hnot md (hmd t))
    · dsimp only at hw
      rw [hw]
      refine (Safe_OnSnapshotMergeComplete e md False n st w0).2.1 n ?_
      intro s hs _
      have hs2 : ReadSnapshotStatus w0 n = some s := hs
      rw [ReadSnapshotStatus_congr hq.1, hr] at hs2
      simp only [Option.some.injEq] at hs2
      rw [← hs2]
      exact hdone
    · simp only [Sum.inl.injEq] at hres
      subst hres
      rcases hst with hst | hst
      · exact absurd hst h2
      · exact absurd hst h1
  · rename_i st w1 heq
    simp only [heq] at h2 ⊢
    obtain ⟨hr, hfs, _⟩ := probeTargetMerge_inr e n us w w1 st heq
    exact finishTargetMerge_done e n st w1 (by rw [ReadSnapshotStatus_congr hfs]; exact hr) h2

/-- When the polling loop ends with neither `merging` nor a failure noted,
every snapshot of the merge it went over is done. -/
theorem pollLoop_done (e : Env) (md : LpMetadata) (us : SnapshotUpdateStatus)
    (hmd : ∀ t, e.readMetadata t (e.slotNumberForSlotSuffix e.slotSuffix) = some md)
    (l : List String) (flags : PollFlags) (w : World)
    (hm : (pollLoop e us l flags w).1.1.merging = false)
    (hc : (pollLoop e us l flags w).1.1.failure_code = MergeFailureCode.Ok) :
    ∀ m ∈ l, Tracked e md m → FirstDone (pollLoop e us l flags w).2.fs.snapshots m := by
  induction l generalizing flags w with
  | nil => simp
  | cons n rest ih =>
    intro m hmem htracked
    unfold pollLoop at hm hc ⊢
    split at hm
    · rename_i hsuffix
      rw [if_pos hsuffix] at hc ⊢
      rcases List.mem_cons.mp hmem with h | h
      · subst h
        rw [htracked.1] at hsuffix
        simp at hsuffix
      · exact ih flags w hm hc m h htracked
    · rename_i hsuffix
      rw [if_neg hsuffix] at hc ⊢
      dsimp only at hm hc ⊢
      have hflags := pollLoop_flags e us rest (noteResult flags (CheckTargetMergeState e n us w).1)
        (CheckTargetMergeState e n us w).2
      have hnote := noteResult_flags flags (CheckTargetMergeState e n us w).1
        (CheckTargetMergeState_state e n us w)
      rcases List.mem_cons.mp hmem with h | h
      · subst h
        have h1 : (CheckTargetMergeState e m us w).1.state ≠ UpdateState.Merging := by
          intro hs
          have := hflags.1.mpr (Or.inl (hnote.1.mpr (Or.inr hs)))
          rw [hm] at this
          exact absurd this (by decide)
        have h2 : (CheckTargetMergeState e m us w).1.state ≠ UpdateState.MergeFailed := by
          intro hs
          exact hflags.2.1.mpr (Or.inl (hnote.2.1.mpr (Or.inr hs))) hc
        exact (Safe_pollLoop e md us rest _ _).2.1 m
          (CheckTargetMergeState_done e md m us w hmd htracked h1 h2)
      · exact ih _ _ hm hc m h htracked

theorem listLoop_acc (suffix : String) (dir : List DirEnt) (out : List String) (x : String)
    (h : x ∈ out) : x ∈ listLoop suffix dir out := by
  induction dir generalizing out with
  | nil => exact h
  | cons d rest ih =>
    unfold listLoop
    repeat' split
    all_goals apply ih
    all_goals simp [h]

theorem listLoop_mem (dir : List DirEnt) (out : List String) (d : DirEnt) (hd : d ∈ dir)
    (hreg : d.isReg = true) : d.name ∈ listLoop "" dir out := by
  induction dir generalizing out with
  | nil => simp at hd
  | cons d2 rest ih =>
    unfold listLoop
    rcases List.mem_cons.mp hd with h | h
    · subst h
      rw [if_neg (by simp [hreg]), if_neg (by simp)]
      split
      · exact listLoop_acc _ _ _ _ (by simp)
      · exact listLoop_acc _ _ _ _ (by simp)
    · repeat' split
      all_goals exact ih _ h

/-- A status file that can be read is listed. -/
theorem listLoop_of_readable (dir : List DirEnt) (m : String) (s : SnapshotStatus)
    (h : readStatusFile dir m = some s) : m ∈ listLoop "" dir [] := by
  unfold readStatusFile at h
  split at h
  · simp at h
  · rename_i d hfind
    split at h
    · simp at h
    · rename_i hreg
      unfold findEnt at hfind
      have hmem := List.mem_of_find?_eq_some hfind
      have hname := List.find?_some hfind
      simp only [beq_iff_eq] at hname
      rw [← hname]
      exact listLoop_mem dir [] d hmem (by simpa using hreg)

theorem Safe_dropFlashed (e : Env) (md : LpMetadata) (g : Prop) (metadata : LpMetadata)
    (l : List String) (w : World) : Safe e md g w (dropFlashed e metadata l w).2 := by
  induction l generalizing w with
  | nil => exact Safe_refl e md g w
  | cons n rest ih =>
    unfold dropFlashed
    split
    · exact ih w
    · exact Safe_chain (Safe_delete e md g n w) (ih _)

theorem Safe_prepareMerge (e : Env) (md : LpMetadata) (g : Prop) (w : World) :
    Safe e md g w (prepareMerge e w).2 := by
  rcases prepareMerge_effect e w with hq | ⟨metadata, l, w0, hq, hq2⟩
  · exact Safe_of_quiet hq
  · exact Safe_chain (Safe_chain (Safe_of_quiet hq) (Safe_dropFlashed e md g metadata l w0))
      (Safe_of_quiet hq2)

theorem prepareMerge_noSnapshots (e : Env) (w : World) :
    (prepareMerge e w).2.fs.noSnapshots = w.fs.noSnapshots := by
  rcases prepareMerge_effect e w with hq | ⟨metadata, l, w0, hq, hq2⟩
  · rw [hq.1]
  · rw [hq2.1, dropFlashed_noSnapshots, hq.1]

/-- The names `dropFlashed` retains are those marked updated in the
metadata. -/
theorem dropFlashed_kept (e : Env) (metadata : LpMetadata) (l : List String) (w : World)
    (m : String) (hm : m ∈ l)
    (hupd : GetMetadataPartitionState metadata m = MetadataPartitionState.Updated) :
    m ∈ (dropFlashed e metadata l w).1 := by
  induction l generalizing w with
  | nil => simp at hm
  | cons n rest ih =>
    unfold dropFlashed
    rcases List.mem_cons.mp hm with h | h
    · subst h
      split
      · simp
      · rename_i hne
        exact absurd hupd (by intro h; exact hne h)
    · split
      · simp only [List.mem_cons]
        exact Or.inr (ih w h)
      · exact ih _ h

/-- After a successful `prepareMerge`, every status file that can be read and
whose partition is marked updated in the metadata is among the snapshots
retained. -/
theorem prepareMerge_retained (e : Env) (md : LpMetadata) (w w1 : World)
    (hmd : ∀ t, e.readMetadata t (e.slotNumberForSlotSuffix e.slotSuffix) = some md)
    (snapshots : List String) (plan : MergePlan)
    (h : prepareMerge e w = (some (snapshots, plan), w1)) :
    ∀ m st, ReadSnapshotStatus w1 m = some st →
      GetMetadataPartitionState md m = MetadataPartitionState.Updated → m ∈ snapshots := by
  unfold prepareMerge at h
  dsimp only at h
  split at h
  · simp at h
  split at h
  · simp at h
  split at h
  · simp at h
  split at h
  · simp at h
  rename_i listed hlisted
  split at h
  · simp at h
  split at h
  · simp at h
  rename_i metadata hmeta
  split at h
  · simp at h
  rename_i plan2 hplan
  simp only [Prod.mk.injEq, Option.some.injEq] at h
  obtain ⟨⟨hs, hp⟩, hw⟩ := h
  subst hs hp hw
  intro m st hread hupd
  have hmeq : md = metadata := by
    simpa [ReadCurrentMetadata, hmd] using hmeta
  subst hmeq
  have hl : listLoop "" w.fs.snapshots [] = listed := by
    unfold ListSnapshots at hlisted
    dsimp only at hlisted
    split at hlisted
    · simp at hlisted
    · simpa using hlisted
  rw [ReadSnapshotStatus_congr (planMerge_fs e _ _ _)] at hread
  obtain ⟨s, hs, _⟩ := (Safe_dropFlashed e md True md listed _).1 m st hread
  rw [ReadSnapshotStatus_congr (show _ = w.fs from by simp)] at hs
  refine dropFlashed_kept e md listed _ m ?_ hupd
  rw [← hl]
  exact listLoop_of_readable _ m s hs

theorem SwitchSnapshotToMerge_noSnapshots (e : Env) (n : String) (w : World) :
    (SwitchSnapshotToMerge e n w).2.fs.noSnapshots = w.fs.noSnapshots := by
  unfold SwitchSnapshotToMerge
  cases hr : ReadSnapshotStatus w n with
  | none => rfl
  | some st =>
    dsimp only
    split
    · simp
    · simp

theorem switchAll_noSnapshots (e : Env) (l : List String) (code : MergeFailureCode)
    (w : World) : (switchAll e l code w).2.fs.noSnapshots = w.fs.noSnapshots := by
  induction l generalizing w code with
  | nil => rfl
  | cons n rest ih =>
    unfold switchAll
    dsimp only
    rw [ih, SwitchSnapshotToMerge_noSnapshots]

/-- Switching a list of second-phase snapshots while the first phase is
finished. -/
theorem Safe_switchAll (e : Env) (md : LpMetadata) (l : List String) (code : MergeFailureCode)
    (w : World)
    (hsecond : ∀ n ∈ l, ∀ st, ReadSnapshotStatus w n = some st →
      DecideMergePhase st = MergePhase.SECOND_PHASE) :
    Safe e md False w (switchAll e l code w).2 := by
  induction l generalizing w code with
  | nil => exact Safe_refl e md _ w
  | cons n rest ih =>
    unfold switchAll
    dsimp only
    refine Safe_chain (Safe_switch e md False n w not_false
      (hsecond n (List.mem_cons_self n rest))) (ih _ _ ?_)
    intro n2 hn2 st2 h2
    obtain ⟨s, hs, hp⟩ := Keeps_switch e n w n2 st2 h2
    rw [hp]
    exact hsecond n2 (List.mem_cons_of_mem n hn2) s hs

/-- Switching a list of first-phase snapshots records no switch of a
second-phase snapshot. -/
theorem switchAll_first (e : Env) (md : LpMetadata) (l : List String) (code : MergeFailureCode)
    (w : World)
    (hfirst : ∀ n ∈ l, ∀ st, ReadSnapshotStatus w n = some st →
      DecideMergePhase st = MergePhase.FIRST_PHASE)
    (ht : Ordered e md w.trace) : Ordered e md (switchAll e l code w).2.trace := by
  induction l generalizing w code with
  | nil => exact ht
  | cons n rest ih =>
    unfold switchAll
    dsimp only
    refine ih _ _ ?_ ?_
    · intro n2 hn2 st2 h2
      obtain ⟨s, hs, hp⟩ := Keeps_switch e n w n2 st2 h2
      rw [hp]
      exact hfirst n2 (List.mem_cons_of_mem n hn2) s hs
    · obtain ⟨evs, htr, hev⟩ := SwitchSnapshotToMerge_events e n w
      intro ev hmem
      rw [htr] at hmem
      rcases List.mem_append.mp hmem with h | h
      · exact ht ev h
      · rcases hev ev h with ⟨st, ok, hr, h⟩ | ⟨st, ok, h⟩
        · subst h
          intro hp
          rw [hfirst n (List.mem_cons_self n rest) st hr] at hp
          exact absurd hp (by decide)
        · subst h
          trivial

theorem ReadSnapshotUpdateStatus_encoded (w : World) (s : SnapshotUpdateStatus)
    (h : w.fs.stateFile = StateFile.encoded s) : ReadSnapshotUpdateStatus w = s := by
  unfold ReadSnapshotUpdateStatus
  rw [h]

/-- `WriteUpdateState` carries the merge phase over, except for `Initiated`
and `None`. -/
theorem WriteUpdateState_phase (e : Env) (state : UpdateState) (code : MergeFailureCode)
    (w : World) (h1 : state ≠ UpdateState.Initiated) (h2 : state ≠ UpdateState.None) :
    (ReadSnapshotUpdateStatus (WriteUpdateState e state code w).2).merge_phase
      = (ReadSnapshotUpdateStatus w).merge_phase := by
  unfold WriteUpdateState
  rcases WriteSnapshotUpdateStatus_stateFile_cases e (statusToWrite e state code w) w with h | h
  · rw [ReadSnapshotUpdateStatus_of_stateFile h]
  · rw [ReadSnapshotUpdateStatus_encoded _ _ h]
    unfold statusToWrite
    simp [h1, h2]

theorem PhaseInv.of_same {e : Env} {md : LpMetadata} {w w2 : World}
    (hs : w2.fs.stateFile = w.fs.stateFile)
    (hg : GoodDir e md w.fs.snapshots → GoodDir e md w2.fs.snapshots)
    (h : PhaseInv e md w) : PhaseInv e md w2 := by
  have hr := ReadSnapshotUpdateStatus_of_stateFile hs
  unfold PhaseInv NotMerging ReadUpdateState at h ⊢
  rw [hr]
  rcases h with h | h | h
  · exact Or.inl h
  · exact Or.inr (Or.inl h)
  · exact Or.inr (Or.inr (hg h))

theorem DecideMergePhase_cases (s : SnapshotStatus) :
    DecideMergePhase s = MergePhase.FIRST_PHASE ∨
    DecideMergePhase s = MergePhase.SECOND_PHASE := by
  unfold DecideMergePhase
  split <;> simp

/-- `InitiateMerge` keeps the trace ordered and re-establishes the
invariant. -/
theorem InitiateMerge_inv (e : Env) (md : LpMetadata)
    (hmd : ∀ t, e.readMetadata t (e.slotNumberForSlotSuffix e.slotSuffix) = some md)
    (w : World) (hJ : PhaseInv e md w) (ht : Ordered e md w.trace) :
    Ordered e md (InitiateMerge e w).2.trace ∧ PhaseInv e md (InitiateMerge e w).2 := by
  have hsp := Safe_prepareMerge e md True w
  have hnp := stateFile_of_noSnapshots (prepareMerge_noSnapshots e w)
  unfold InitiateMerge
  cases hp : prepareMerge e w with
  | mk prepared w1 =>
  rw [hp] at hsp hnp
  dsimp only at hsp hnp ⊢
  have ht1 : Ordered e md w1.trace := hsp.use (Or.inl trivial) ht
  cases prepared with
  | none => exact ⟨ht1, PhaseInv.of_same hnp hsp.good hJ⟩
  | some sp =>
    obtain ⟨snapshots, plan⟩ := sp
    dsimp only
    obtain ⟨hstate, _, _, hgroup, _, _⟩ := prepareMerge_some e w w1 snapshots plan hp
    have hret := prepareMerge_retained e md w w1 hmd snapshots plan hp
    have hq := initialStatus_quiet e plan w1
    have hist := initialStatus_state e plan w1
    obtain ⟨ist, w2, his⟩ : ∃ ist w2, initialStatus e plan w1 = (ist, w2) := ⟨_, _, rfl⟩
    rw [his] at hq hist ⊢
    dsimp only at hq hist ⊢
    have hsw := Safe_writeGlobal e md True ist w2
    have hcases := WriteSnapshotUpdateStatus_stateFile_cases e ist w2
    have hok := WriteSnapshotUpdateStatus_stateFile e ist w2
    have hdir := WriteSnapshotUpdateStatus_snapshots e ist w2
    obtain ⟨written, w3, hwr⟩ : ∃ written w3, WriteSnapshotUpdateStatus e ist w2 = (written, w3) :=
      ⟨_, _, rfl⟩
    rw [hwr] at hsw hcases hok hdir ⊢
    dsimp only at hsw hcases hok hdir ⊢
    have ht3 : Ordered e md w3.trace :=
      hsw.use (Or.inl trivial) ((@Safe_of_quiet e md True _ _ hq).use (Or.inl trivial) ht1)
    have hdir3 : w3.fs.snapshots = w1.fs.snapshots := by
      rw [hdir, hq.1]
    have hread3 : ∀ n, ReadSnapshotStatus w3 n = ReadSnapshotStatus w1 n :=
      fun n => ReadSnapshotStatus_of_snapshots hdir3 n
    by_cases hgrp : plan.first_merge_group = []
    · have hgood1 : GoodDir e md w1.fs.snapshots := by
        intro m htr s hs hfirst
        have hmem := hret m s hs htr.2
        have hfp : isFirstPhase w1 m = true := by
          unfold isFirstPhase
          rw [show ReadSnapshotStatus w1 m = some s from hs]
          simp [hfirst]
        have hin : m ∈ snapshots.filter (isFirstPhase w1) := List.mem_filter.mpr ⟨hmem, hfp⟩
        rw [← hgroup, hgrp] at hin
        simp at hin
      have hgood3 : GoodDir e md w3.fs.snapshots := by
        rw [hdir3]
        exact hgood1
      have hall := Safe_switchAll e md (mergeGroup snapshots plan) MergeFailureCode.Ok w3
        (by
          intro n hn st hst
          rw [hread3] at hst
          unfold mergeGroup at hn
          rw [hgrp] at hn
          simp only [List.isEmpty_nil, if_true] at hn
          rcases DecideMergePhase_cases st with hc | hc
          · have hfp : isFirstPhase w1 n = true := by
              unfold isFirstPhase
              rw [hst]
              simp [hc]
            have hin : n ∈ snapshots.filter (isFirstPhase w1) :=
              List.mem_filter.mpr ⟨hn, hfp⟩
            rw [← hgroup, hgrp] at hin
            simp at hin
          · exact hc)
      obtain ⟨code, w4, hsa⟩ : ∃ code w4, switchAll e (mergeGroup snapshots plan)
          MergeFailureCode.Ok w3 = (code, w4) := ⟨_, _, rfl⟩
      rw [hsa] at hall ⊢
      dsimp only at hall ⊢
      have hfin := Safe_writeGlobal e md False
        (statusToWrite e UpdateState.MergeFailed code w4) w4
      repeat' split
      · exact ⟨ht3, Or.inr (Or.inr hgood3)⟩
      · exact ⟨(Safe_chain hall hfin).use (Or.inr hgood3) ht3,
          Or.inr (Or.inr ((Safe_chain hall hfin).good hgood3))⟩
      · exact ⟨hall.use (Or.inr hgood3) ht3, Or.inr (Or.inr (hall.good hgood3))⟩
    · have hphase : ist.merge_phase = MergePhase.FIRST_PHASE := by
        rw [hist.2, if_neg hgrp]
      have hfirst := switchAll_first e md (mergeGroup snapshots plan) MergeFailureCode.Ok w3
        (by
          intro n hn st hst
          rw [hread3] at hst
          unfold mergeGroup at hn
          have hne : plan.first_merge_group.isEmpty = false := by
            cases hx : plan.first_merge_group with
            | nil => exact absurd hx hgrp
            | cons a b => rfl
          rw [hne, hgroup] at hn
          simp only [Bool.false_eq_true, if_false] at hn
          have hfp := (List.mem_filter.mp hn).2
          unfold isFirstPhase at hfp
          rw [hst] at hfp
          simpa using hfp) ht3
      have hns := stateFile_of_noSnapshots
        (switchAll_noSnapshots e (mergeGroup snapshots plan) MergeFailureCode.Ok w3)
      obtain ⟨code, w4, hsa⟩ : ∃ code w4, switchAll e (mergeGroup snapshots plan)
          MergeFailureCode.Ok w3 = (code, w4) := ⟨_, _, rfl⟩
      rw [hsa] at hfirst hns ⊢
      dsimp only at hfirst hns ⊢
      have hfin := Safe_writeGlobal e md True
        (statusToWrite e UpdateState.MergeFailed code w4) w4
      have hph := WriteUpdateState_phase e UpdateState.MergeFailed code w4 (by decide) (by decide)
      repeat' split
      · refine ⟨ht3, ?_⟩
        rcases hcases with hc | hc
        · left
          have hr : ReadSnapshotUpdateStatus w3 = ReadSnapshotUpdateStatus w :=
            ReadSnapshotUpdateStatus_of_stateFile (by rw [hc, hq.1, hnp])
          unfold NotMerging ReadUpdateState
          unfold ReadUpdateState at hstate
          rw [hr, hstate]
          decide
        · right; left
          rw [ReadSnapshotUpdateStatus_encoded w3 ist hc]
          exact hphase
      · rename_i hwritten _
        have hw : written = true := by simpa using hwritten
        refine ⟨hfin.use (Or.inl trivial) hfirst, Or.inr (Or.inl ?_)⟩
        have hph2 : (ReadSnapshotUpdateStatus
            (WriteUpdateState e UpdateState.MergeFailed code w4).2).merge_phase
            = MergePhase.FIRST_PHASE := by
          rw [hph, ReadSnapshotUpdateStatus_of_stateFile hns,
            ReadSnapshotUpdateStatus_encoded w3 ist (hok hw)]
          exact hphase
        exact hph2
      · rename_i hwritten _
        have hw : written = true := by simpa using hwritten
        refine ⟨hfirst, Or.inr (Or.inl ?_)⟩
        rw [ReadSnapshotUpdateStatus_of_stateFile hns,
          ReadSnapshotUpdateStatus_encoded w3 ist (hok hw)]
        exact hphase

theorem finishTargetMerge_noSnapshots (e : Env) (n : String) (status : SnapshotStatus)
    (w : World) : (finishTargetMerge e n status w).2.fs.noSnapshots = w.fs.noSnapshots := by
  unfold finishTargetMerge
  dsimp only
  repeat' split
  all_goals simp

theorem probeTargetMerge_noSnapshots (e : Env) (n : String) (us : SnapshotUpdateStatus)
    (w : World) : (probeTargetMerge e n us w).2.fs.noSnapshots = w.fs.noSnapshots := by
  rcases probeTargetMerge_effect e n us w with ⟨hq, _⟩ | ⟨w0, _, hq, hw, _⟩ |
    ⟨w0, st, hq, hw, _⟩ | ⟨w0, st, hq, hw, _⟩
  · rw [hq.1]
  · rw [hw, DeleteSnapshot_noSnapshots, hq.1]
  · rw [hw, OnSnapshotMergeComplete_noSnapshots, hq.1]
  · rw [hw, SwitchSnapshotToMerge_noSnapshots, hq.1]

theorem CheckTargetMergeState_noSnapshots (e : Env) (n : String) (us : SnapshotUpdateStatus)
    (w : World) : (CheckTargetMergeState e n us w).2.fs.noSnapshots = w.fs.noSnapshots := by
  have hp := probeTargetMerge_noSnapshots e n us w
  unfold CheckTargetMergeState
  split
  · rename_i r w1 heq
    rw [heq] at hp
    exact hp
  · rename_i st w1 heq
    rw [heq] at hp
    rw [finishTargetMerge_noSnapshots]
    exact hp

theorem pollLoop_noSnapshots (e : Env) (us : SnapshotUpdateStatus) (l : List String)
    (flags : PollFlags) (w : World) :
    (pollLoop e us l flags w).2.fs.noSnapshots = w.fs.noSnapshots := by
  induction l generalizing flags w with
  | nil => rfl
  | cons n rest ih =>
    unfold pollLoop
    split
    · exact ih flags w
    · dsimp only
      rw [ih, CheckTargetMergeState_noSnapshots]

/-- The polling loop followed by the decision of `CheckMergeState`: the trace
stays ordered, and afterwards the merge is still in its first phase or the
first phase is finished. -/
theorem poll_then_conclude (e : Env) (md : LpMetadata)
    (hmd : ∀ t, e.readMetadata t (e.slotNumberForSlotSuffix e.slotSuffix) = some md)
    (w : World)
    (hJ : (ReadSnapshotUpdateStatus w).merge_phase = MergePhase.FIRST_PHASE ∨
      GoodDir e md w.fs.snapshots)
    (ht : Ordered e md w.trace) (flags0 : PollFlags) (us : SnapshotUpdateStatus)
    (hus : us = ReadSnapshotUpdateStatus w) :
    Ordered e md
      (concludeMerge e
        (pollLoop e us (listLoop "" w.fs.snapshots []) flags0 w).1.1
        (pollLoop e us (listLoop "" w.fs.snapshots []) flags0 w).2).2.trace ∧
    ((ReadSnapshotUpdateStatus
      (concludeMerge e
        (pollLoop e us (listLoop "" w.fs.snapshots []) flags0 w).1.1
        (pollLoop e us (listLoop "" w.fs.snapshots []) flags0 w).2).2).merge_phase
        = MergePhase.FIRST_PHASE ∨
    GoodDir e md
      (concludeMerge e
        (pollLoop e us (listLoop "" w.fs.snapshots []) flags0 w).1.1
        (pollLoop e us (listLoop "" w.fs.snapshots []) flags0 w).2).2.fs.snapshots) := by
  subst hus
  have hsafe := Safe_pollLoop e md (ReadSnapshotUpdateStatus w)
    (listLoop "" w.fs.snapshots []) flags0 w
  have hdone := pollLoop_done e md (ReadSnapshotUpdateStatus w) hmd
    (listLoop "" w.fs.snapshots []) flags0 w
  have hns := stateFile_of_noSnapshots (pollLoop_noSnapshots e (ReadSnapshotUpdateStatus w)
    (listLoop "" w.fs.snapshots []) flags0 w)
  obtain ⟨out, w1, hpl⟩ : ∃ out w1, pollLoop e (ReadSnapshotUpdateStatus w)
      (listLoop "" w.fs.snapshots []) flags0 w = (out, w1) := ⟨_, _, rfl⟩
  rw [hpl] at hsafe hdone hns ⊢
  dsimp only at hsafe hdone hns ⊢
  have ht1 : Ordered e md w1.trace := hsafe.use hJ ht
  have hus1 := ReadSnapshotUpdateStatus_of_stateFile hns
  by_cases hph : (ReadSnapshotUpdateStatus w).merge_phase = MergePhase.FIRST_PHASE
  · have hph1 : (ReadSnapshotUpdateStatus w1).merge_phase = MergePhase.FIRST_PHASE := by
      rw [hus1]
      exact hph
    have hsecond := Safe_MergeSecondPhaseSnapshots e md w1
    have hreboot := Safe_writeGlobal e md True
      (statusToWrite e UpdateState.MergeNeedsReboot MergeFailureCode.Ok w1) w1
    have hrph := WriteUpdateState_phase e UpdateState.MergeNeedsReboot MergeFailureCode.Ok w1
      (by decide) (by decide)
    unfold concludeMerge
    dsimp only
    split
    · exact ⟨ht1, Or.inl hph1⟩
    split
    · exact ⟨ht1, Or.inl hph1⟩
    rename_i hmerging hcode
    split
    · have hgood1 : GoodDir e md w1.fs.snapshots := by
        intro m htr s hs hfirst
        obtain ⟨s0, hs0, _⟩ := hsafe.1 m s hs
        have hmem := listLoop_of_readable w.fs.snapshots m s0 hs0
        exact hdone (by simpa using hmerging) (by simpa using hcode) m hmem htr s hs hfirst
      have hfinal := hsecond.use (Or.inr hgood1) ht1
      have hgood := hsecond.good hgood1
      split
      · exact ⟨hfinal, Or.inr hgood⟩
      · exact ⟨hfinal, Or.inr hgood⟩
    split
    · refine ⟨hreboot.use (Or.inl trivial) ht1, Or.inl ?_⟩
      have h2 : (ReadSnapshotUpdateStatus (WriteUpdateState e UpdateState.MergeNeedsReboot
          MergeFailureCode.Ok w1).2).merge_phase = MergePhase.FIRST_PHASE := by
        rw [hrph]
        exact hph1
      exact h2
    split
    · exact ⟨ht1, Or.inl hph1⟩
    · exact ⟨ht1, Or.inl hph1⟩
  · have hgood0 : GoodDir e md w.fs.snapshots := by
      rcases hJ with h | h
      · exact absurd h hph
      · exact h
    have hgood1 := hsafe.good hgood0
    have hc := Safe_concludeMerge e md out.1 w1
    exact ⟨hc.use (Or.inr hgood1) ht1, Or.inr (hc.good hgood1)⟩

theorem GetSnapshotFlashingStatus_quiet (e : Env) (l : List String) (w : World) :
    Quiet w (GetSnapshotFlashingStatus e l w).2 := by
  unfold GetSnapshotFlashingStatus Quiet
  dsimp only
  repeat' split
  all_goals simp

theorem AreAllSnapshotsCancelled_quiet (e : Env) (w : World) :
    Quiet w (AreAllSnapshotsCancelled e w).2 := by
  have h1 := ListSnapshots_quiet e "" [] w
  have h2 := fun l => GetSnapshotFlashingStatus_quiet e l (ListSnapshots e "" [] w).2
  unfold AreAllSnapshotsCancelled
  dsimp only
  split
  · exact h1
  · rename_i l _
    split
    · exact ⟨(h2 l).1.trans h1.1, (h2 l).2.trans h1.2⟩
    · exact ⟨(h2 l).1.trans h1.1, (h2 l).2.trans h1.2⟩

theorem ShouldDeleteSnapshot_quiet (e : Env) (flashing_status : List (String × Bool))
    (current_slot : Slot) (name : String) (w : World) :
    Quiet w (ShouldDeleteSnapshot e flashing_status current_slot name w).2 := by
  unfold ShouldDeleteSnapshot Quiet
  dsimp only
  repeat' split
  all_goals simp

theorem UnmapUserspaceSnapshotDevice_quiet (e : Env) (n : String) (w : World) :
    Quiet w (UnmapUserspaceSnapshotDevice e n w).2 := by
  unfold UnmapUserspaceSnapshotDevice Quiet
  dsimp only
  repeat' split
  all_goals simp

@[simp]
theorem UnmapUserspaceSnapshotDevice_fs (e : Env) (n : String) (w : World) :
    (UnmapUserspaceSnapshotDevice e n w).2.fs = w.fs :=
  (UnmapUserspaceSnapshotDevice_quiet e n w).1

@[simp]
theorem UnmapUserspaceSnapshotDevice_trace (e : Env) (n : String) (w : World) :
    (UnmapUserspaceSnapshotDevice e n w).2.trace = w.trace :=
  (UnmapUserspaceSnapshotDevice_quiet e n w).2

theorem UnmapSnapshot_quiet (e : Env) (n : String) (w : World) :
    Quiet w (UnmapSnapshot e n w).2 := by
  unfold UnmapSnapshot Quiet
  dsimp only
  repeat' split
  all_goals simp

@[simp]
theorem UnmapSnapshot_fs (e : Env) (n : String) (w : World) :
    (UnmapSnapshot e n w).2.fs = w.fs :=
  (UnmapSnapshot_quiet e n w).1

@[simp]
theorem UnmapSnapshot_trace (e : Env) (n : String) (w : World) :
    (UnmapSnapshot e n w).2.trace = w.trace :=
  (UnmapSnapshot_quiet e n w).2

theorem UnmapPartitionWithSnapshot_quiet (e : Env) (n : String) (w : World) :
    Quiet w (UnmapPartitionWithSnapshot e n w).2 := by
  unfold UnmapPartitionWithSnapshot Quiet
  dsimp only
  repeat' split
  all_goals simp

@[simp]
theorem UnmapPartitionWithSnapshot_fs (e : Env) (n : String) (w : World) :
    (UnmapPartitionWithSnapshot e n w).2.fs = w.fs :=
  (UnmapPartitionWithSnapshot_quiet e n w).1

@[simp]
theorem UnmapPartitionWithSnapshot_trace (e : Env) (n : String) (w : World) :
    (UnmapPartitionWithSnapshot e n w).2.trace = w.trace :=
  (UnmapPartitionWithSnapshot_quiet e n w).2

theorem Calm_refl (w : World) : Calm w w := ⟨rfl, Appends.of_eq rfl⟩

theorem Calm_chain {a b c : World} (h1 : Calm a b) (h2 : Calm b c) : Calm a c :=
  ⟨h2.1.trans h1.1, Appends.trans_nil h1.2 h2.2⟩

theorem Calm_of_quiet {w w2 : World} (h : Quiet w w2) : Calm w w2 :=
  ⟨by rw [h.1], Appends.of_eq h.2⟩

theorem Calm_delete (e : Env) (n : String) (w : World) : Calm w (DeleteSnapshot e n w).2 :=
  ⟨DeleteSnapshot_noSnapshots e n w, DeleteSnapshot_appends e n w⟩

theorem settleUnmap_quiet (e : Env) (name : String) (should_unmap : Bool) (w : World) :
    Quiet w (settleUnmap e name should_unmap w).2 := by
  unfold settleUnmap Quiet
  dsimp only
  repeat' split
  all_goals simp

theorem unmapIfWanted_quiet (e : Env) (name : String) (should_unmap : Bool) (w : World) :
    Quiet w (unmapIfWanted e name should_unmap w).2 := by
  unfold unmapIfWanted Quiet
  dsimp only
  repeat' split
  all_goals simp

theorem deleteIfWanted_calm (e : Env) (name : String) (partition_ok should_delete : Bool)
    (w : World) : Calm w (deleteIfWanted e name partition_ok should_delete w).2 := by
  unfold deleteIfWanted
  dsimp only
  repeat' split
  all_goals first
    | exact Calm_refl w
    | exact Calm_delete e name w

theorem noteMappedImage_quiet (e : Env) (name : String) (w : World) :
    Quiet w (noteMappedImage e name w).2 := by
  unfold noteMappedImage Quiet
  dsimp only
  repeat' split
  all_goals simp

theorem removeLoop_calm (e : Env) (flashing_status : List (String × Bool))
    (current_slot : Slot) (l : List String) (acc : Bool × Bool) (w : World) :
    Calm w (removeLoop e flashing_status current_slot l acc w).2 := by
  induction l generalizing acc w with
  | nil =>
    unfold removeLoop
    exact Calm_refl w
  | cons name rest ih =>
    obtain ⟨ok, has⟩ := acc
    unfold removeLoop
    dsimp only
    have h1 := Calm_of_quiet (ShouldDeleteSnapshot_quiet e flashing_status current_slot name w)
    have h2 := Calm_of_quiet (settleUnmap_quiet e name (decide (current_slot ≠ Slot.Target))
      (ShouldDeleteSnapshot e flashing_status current_slot name w).2)
    have h3 := Calm_of_quiet (unmapIfWanted_quiet e name
      (settleUnmap e name (decide (current_slot ≠ Slot.Target))
        (ShouldDeleteSnapshot e flashing_status current_slot name w).2).1
      (settleUnmap e name (decide (current_slot ≠ Slot.Target))
        (ShouldDeleteSnapshot e flashing_status current_slot name w).2).2)
    have h13 := Calm_chain h1 (Calm_chain h2 h3)
    split
    · exact Calm_chain h13 (Calm_chain (deleteIfWanted_calm e name _ _ _)
        (Calm_chain (Calm_of_quiet (noteMappedImage_quiet e name _)) (ih _ _)))
    · exact Calm_chain h13 (Calm_chain (deleteIfWanted_calm e name _ _ _) (ih _ _))

theorem RemoveAllSnapshots_calm (e : Env) (w : World) :
    Calm w (RemoveAllSnapshots e w).2 := by
  have h1 := Calm_of_quiet (ListSnapshots_quiet e "" [] w)
  unfold RemoveAllSnapshots
  dsimp only
  split
  · exact h1
  · rename_i l _
    have h2 := Calm_of_quiet (GetSnapshotFlashingStatus_quiet e l (ListSnapshots e "" [] w).2)
    have h3 := Calm_chain (Calm_chain h1 h2) (removeLoop_calm e
      ((GetSnapshotFlashingStatus e l (ListSnapshots e "" [] w).2).1.getD [])
      (GetCurrentSlot e (GetSnapshotFlashingStatus e l (ListSnapshots e "" [] w).2).2) l
      (true, false) (GetSnapshotFlashingStatus e l (ListSnapshots e "" [] w).2).2)
    repeat' split
    all_goals first
      | exact h3
      | exact Calm_chain h3 (Calm_of_quiet (EnsureImageManager_quiet e _))

theorem removeSnapshotsIfUpdating_calm (e : Env) (w : World) :
    Calm w (removeSnapshotsIfUpdating e w).2 := by
  unfold removeSnapshotsIfUpdating
  split
  · exact RemoveAllSnapshots_calm e w
  · exact Calm_refl w

/-- What `RemoveAllUpdateState` leaves behind: no switch is recorded, and the
state file is as before or holds state `None`. -/
theorem RemoveAllUpdateState_tame (e : Env) (prolog : Option (Nat → Bool)) (w : World) :
    Appends w (RemoveAllUpdateState e prolog w).2 [] ∧
    (ReadUpdateState (RemoveAllUpdateState e prolog w).2 = ReadUpdateState w ∨
      ReadUpdateState (RemoveAllUpdateState e prolog w).2 = UpdateState.None) := by
  have key : ∀ w0 : World, Quiet w w0 →
      Appends w (WriteUpdateState e UpdateState.None MergeFailureCode.Ok
        (removeIndicators e (removeSnapshotsIfUpdating e w0).2)).2 [] ∧
      (ReadUpdateState (WriteUpdateState e UpdateState.None MergeFailureCode.Ok
          (removeIndicators e (removeSnapshotsIfUpdating e w0).2)).2 = ReadUpdateState w ∨
        ReadUpdateState (WriteUpdateState e UpdateState.None MergeFailureCode.Ok
          (removeIndicators e (removeSnapshotsIfUpdating e w0).2)).2 = UpdateState.None) := by
    intro w0 hq
    have hc := Calm_chain (Calm_of_quiet hq) (removeSnapshotsIfUpdating_calm e w0)
    have hi := removeIndicators_stateFile e (removeSnapshotsIfUpdating e w0).2
    have hw := WriteUpdateState_appends e UpdateState.None MergeFailureCode.Ok
      (removeIndicators e (removeSnapshotsIfUpdating e w0).2)
    refine ⟨Appends.trans_nil (Appends.trans_nil hc.2 (Appends.of_eq hi.2.2)) hw, ?_⟩
    rw [WriteUpdateState_None]
    rcases WriteSnapshotUpdateStatus_stateFile_cases e { state := UpdateState.None }
      (removeIndicators e (removeSnapshotsIfUpdating e w0).2) with h | h
    · left
      unfold ReadUpdateState
      rw [ReadSnapshotUpdateStatus_of_stateFile
        (h.trans (hi.1.trans (stateFile_of_noSnapshots hc.1)))]
    · right
      unfold ReadUpdateState
      rw [ReadSnapshotUpdateStatus_encoded _ _ h]
  have keep : ∀ w0 : World, Quiet w w0 →
      Appends w (removeSnapshotsIfUpdating e w0).2 [] ∧
      (ReadUpdateState (removeSnapshotsIfUpdating e w0).2 = ReadUpdateState w ∨
        ReadUpdateState (removeSnapshotsIfUpdating e w0).2 = UpdateState.None) := by
    intro w0 hq
    have hc := Calm_chain (Calm_of_quiet hq) (removeSnapshotsIfUpdating_calm e w0)
    refine ⟨hc.2, Or.inl ?_⟩
    unfold ReadUpdateState
    rw [ReadSnapshotUpdateStatus_of_stateFile (stateFile_of_noSnapshots hc.1)]
  have stay : ∀ w0 : World, Quiet w w0 →
      Appends w w0 [] ∧ (ReadUpdateState w0 = ReadUpdateState w ∨
        ReadUpdateState w0 = UpdateState.None) := by
    intro w0 hq
    exact ⟨Appends.of_eq hq.2, Or.inl (ReadUpdateState_congr hq.1)⟩
  unfold RemoveAllUpdateState
  cases prolog with
  | none =>
    dsimp only
    repeat' split
    all_goals first
      | exact key w ⟨rfl, rfl⟩
      | exact keep w ⟨rfl, rfl⟩
      | exact stay w ⟨rfl, rfl⟩
  | some f =>
    dsimp only
    have hq : Quiet w (w.ask f).2 := ⟨by simp, by simp⟩
    repeat' split
    all_goals first
      | exact key _ hq
      | exact keep _ hq
      | exact stay _ hq

theorem HandleCancelledUpdate_tame (e : Env) (before_cancel : Option (Nat → Bool))
    (w : World) :
    Appends w (HandleCancelledUpdate e before_cancel w).2 [] ∧
    (ReadUpdateState (HandleCancelledUpdate e before_cancel w).2 = ReadUpdateState w ∨
      ReadUpdateState (HandleCancelledUpdate e before_cancel w).2 = UpdateState.None) := by
  have hq := AreAllSnapshotsCancelled_quiet e w
  have hr := RemoveAllUpdateState_tame e before_cancel (AreAllSnapshotsCancelled e w).2
  have hst : ReadUpdateState (AreAllSnapshotsCancelled e w).2 = ReadUpdateState w :=
    ReadUpdateState_congr hq.1
  rw [hst] at hr
  have hr2 : Appends w (RemoveAllUpdateState e before_cancel (AreAllSnapshotsCancelled e w).2).2
      [] := Appends.trans_nil (Appends.of_eq hq.2) hr.1
  unfold HandleCancelledUpdate
  dsimp only
  repeat' split
  all_goals first
    | exact ⟨Appends.of_eq rfl, Or.inl rfl⟩
    | exact ⟨hr2, hr.2⟩
    | exact ⟨Appends.of_eq hq.2, Or.inl hst⟩

theorem ListSnapshots_some (e : Env) (suffix : String) (out l : List String) (w : World)
    (h : (ListSnapshots e suffix out w).1 = some l) :
    l = listLoop suffix w.fs.snapshots out := by
  unfold ListSnapshots at h
  dsimp only at h
  split at h
  · simp at h
  · simpa using h.symm

/-- `CheckMergeState` keeps the trace ordered and the invariant. -/
theorem CheckMergeState_inv (e : Env) (md : LpMetadata)
    (hmd : ∀ t, e.readMetadata t (e.slotNumberForSlotSuffix e.slotSuffix) = some md)
    (before_cancel : Option (Nat → Bool)) (w : World) (hJ : PhaseInv e md w)
    (ht : Ordered e md w.trace) :
    Ordered e md (CheckMergeState e before_cancel w).2.trace ∧
    PhaseInv e md (CheckMergeState e before_cancel w).2 := by
  have hcancel : ReadUpdateState w = UpdateState.Unverified →
      Ordered e md (HandleCancelledUpdate e before_cancel w).2.trace ∧
      PhaseInv e md (HandleCancelledUpdate e before_cancel w).2 := by
    intro hst
    obtain ⟨⟨post, htr, hsw⟩, hs⟩ := HandleCancelledUpdate_tame e before_cancel w
    constructor
    · intro ev hev
      rw [htr] at hev
      rcases List.mem_append.mp hev with h | h
      · exact ht ev h
      · exact OrderedEvent_of_noSwitch e md post hsw ev h
    · left
      unfold NotMerging
      rcases hs with h | h
      · rw [h, hst]
        decide
      · rw [h]
        decide
  unfold CheckMergeState
  dsimp only
  split
  · exact ⟨ht, hJ⟩
  · exact ⟨ht, hJ⟩
  · rename_i hst
    have hc := hcancel hst
    split
    · exact hc
    · exact hc
  · exact ⟨ht, hJ⟩
  · exact ⟨ht, hJ⟩
  · rename_i h1 h2 h3 h4 h5
    have hnm : ¬NotMerging w := by
      intro hnm
      unfold NotMerging ReadUpdateState at hnm
      generalize (ReadSnapshotUpdateStatus w).state = st at h1 h2 h3 h4 h5 hnm
      cases st <;> simp_all
    have hq := ListSnapshots_quiet e "" [] w
    have hJ1 : (ReadSnapshotUpdateStatus (ListSnapshots e "" [] w).2).merge_phase
        = MergePhase.FIRST_PHASE ∨
        GoodDir e md (ListSnapshots e "" [] w).2.fs.snapshots := by
      rw [ReadSnapshotUpdateStatus_congr hq.1, hq.1]
      rcases hJ with h | h | h
      · exact absurd h hnm
      · exact Or.inl h
      · exact Or.inr h
    have ht1 : Ordered e md (ListSnapshots e "" [] w).2.trace := by
      rw [hq.2]
      exact ht
    split
    · exact ⟨ht1, PhaseInv.of_same (congrArg Files.stateFile hq.1)
        (by rw [hq.1]; exact id) hJ⟩
    · rename_i l hl
      have hlist := ListSnapshots_some e "" [] l w hl
      rw [← hq.1] at hlist
      rw [hlist]
      have hres := poll_then_conclude e md hmd (ListSnapshots e "" [] w).2 hJ1 ht1 {}
        (ReadSnapshotUpdateStatus w) (ReadSnapshotUpdateStatus_congr hq.1).symm
      exact ⟨hres.1, Or.inr hres.2⟩

/-- Every reachable world has an ordered trace and satisfies the invariant. -/
theorem Reach_inv (e : Env) (md : LpMetadata)
    (hmd : ∀ t, e.readMetadata t (e.slotNumberForSlotSuffix e.slotSuffix) = some md)
    (w : World) (h : Reach e w) : Ordered e md w.trace ∧ PhaseInv e md w := by
  induction h with
  | start w htr hnm =>
    refine ⟨?_, Or.inl hnm⟩
    intro ev hev
    rw [htr] at hev
    simp at hev
  | initiate w _ ih => exact InitiateMerge_inv e md hmd w ih.2 ih.1
  | check w before_cancel _ ih => exact CheckMergeState_inv e md hmd before_cancel w ih.2 ih.1
  | restart w mem _ ih => exact ⟨ih.1, PhaseInv.of_same rfl id ih.2⟩

/-- C6 (as stated, refuted): `system_b` is a first-phase snapshot whose
partition was re-flashed; `InitiateMerge` tries to delete it, fails, and skips
it; no first-phase snapshot is left among those to merge, so the second-phase
`vendor_b` is switched at once, while the status file of `system_b` still
exists with state `CREATED`. -/
theorem InitiateMerge_reflashed_counterexample :
    (InitiateMerge stuckCowEnv (shrinkWorld true)).1 = true ∧
    (InitiateMerge stuckCowEnv (shrinkWorld true)).2.trace.any (switchedBefore "system_b")
      = true ∧
    (ReadSnapshotStatus (InitiateMerge stuckCowEnv (shrinkWorld true)).2 "system_b").map
      (fun s => (DecideMergePhase s, s.state))
      = some (MergePhase.FIRST_PHASE, SnapshotState.CREATED) := by
  decide

/-- C6 (amended): let the current slot's metadata be readable and constant
(`md`).  In every world reachable from one that is not in the middle of a
merge by calls of `InitiateMerge` and `CheckMergeState` (which runs
`CheckTargetMergeState` and `MergeSecondPhaseSnapshots`) and by restarts, for
every snapshot `m` that carries the current slot suffix and whose partition is
marked updated in `md`: no recorded call of `SwitchSnapshotToMerge` on a
second-phase snapshot was made while the status file of `m` was that of a
first-phase snapshot with a state other than `MERGE_COMPLETED`. -/
theorem second_phase_switch_after_first_phase (e : Env) (md : LpMetadata)
    (hmd : ∀ t, e.readMetadata t (e.slotNumberForSlotSuffix e.slotSuffix) = some md)
    (w : World) (hreach : Reach e w) (m : String) (hm : Tracked e md m) :
    ∀ ev ∈ w.trace, switchedBefore m ev = false := by
  intro ev hev
  have hord := (Reach_inv e md hmd w hreach).1 ev hev
  cases ev with
  | switchToMerge name status dir ok =>
    unfold switchedBefore
    dsimp only
    by_cases hp : DecideMergePhase status = MergePhase.SECOND_PHASE
    · have hgood := hord hp m hm
      cases hr : readStatusFile dir m with
      | none => simp
      | some s =>
        by_cases hf : DecideMergePhase s = MergePhase.FIRST_PHASE
        · simp [hgood s hr hf]
        · simp [hf]
    · simp [hp]
  | _ => rfl

/-- Witness for `second_phase_switch_after_first_phase`: the shrink scenario in
`phasedEnv`.  `InitiateMerge` switches the first-phase `system_b`; the first
`CheckMergeState` finds it merged, records `MERGE_COMPLETED` and then switches
the second-phase `vendor_b`. -/
theorem second_phase_switch_after_first_phase_witness :
    switchedNames
      (CheckMergeState phasedEnv none (InitiateMerge phasedEnv (shrinkWorld true)).2).2.trace
      = ["system_b", "vendor_b"] ∧
    ∀ ev ∈ (CheckMergeState phasedEnv none
        (InitiateMerge phasedEnv (shrinkWorld true)).2).2.trace,
      switchedBefore "system_b" ev = false :=
  ⟨by decide,
    second_phase_switch_after_first_phase phasedEnv [("system_b", true), ("vendor_b", true)]
      (fun _ => rfl) _
      (Reach.check _ none (Reach.initiate _
        (Reach.start _ rfl ⟨by decide, by decide, by decide⟩)))
      "system_b" ⟨by decide, by decide⟩⟩

/-! ## Round trips of the persisted messages -/

/-- A status written successfully reads back under its own name. -/
theorem ReadSnapshotStatus_after_write (e : Env) (s : SnapshotStatus) (w : World)
    (h : (WriteSnapshotStatus e s w).1 = true) :
    ReadSnapshotStatus (WriteSnapshotStatus e s w).2 s.name = some s := by
  unfold ReadSnapshotStatus
  rw [WriteSnapshotStatus_snapshots, if_pos h, readStatusFile_putEnt, if_pos rfl]

/-- C11: after a successful `WriteSnapshotUpdateStatus(s)`,
`ReadSnapshotUpdateStatus` returns `s` (the legacy textual fallback is not
taken for a file written in the structured encoding); and after a successful
`WriteSnapshotStatus(s)`, `ReadSnapshotStatus(s.name)` returns `s`.  A
successful `WriteSnapshotStatus` has a non-empty name. -/
theorem status_round_trip (e : Env) (w : World) :
    (∀ s : SnapshotUpdateStatus, (WriteSnapshotUpdateStatus e s w).1 = true →
      ReadSnapshotUpdateStatus (WriteSnapshotUpdateStatus e s w).2 = s) ∧
    (∀ s : SnapshotStatus, (WriteSnapshotStatus e s w).1 = true →
      s.name ≠ "" ∧ ReadSnapshotStatus (WriteSnapshotStatus e s w).2 s.name = some s) := by
  constructor
  · intro s h
    exact ReadSnapshotUpdateStatus_encoded _ s (WriteSnapshotUpdateStatus_stateFile e s w h)
  · intro s h
    constructor
    · intro hn
      unfold WriteSnapshotStatus at h
      rw [if_pos hn] at h
      simp at h
    · exact ReadSnapshotStatus_after_write e s w h

/-- Witness for `status_round_trip`: writing over the statuses of the shrink
scenario. -/
theorem status_round_trip_witness :
    ReadSnapshotUpdateStatus
        (WriteSnapshotUpdateStatus (calmEnv "_b" "_a")
          { state := UpdateState.Merging, merge_phase := MergePhase.FIRST_PHASE }
          (shrinkWorld true)).2
      = { state := UpdateState.Merging, merge_phase := MergePhase.FIRST_PHASE } ∧
    ReadSnapshotStatus
        (WriteSnapshotStatus (calmEnv "_b" "_a")
          { name := "vendor_b", state := SnapshotState.MERGING, device_size := 4096 }
          (shrinkWorld true)).2 "vendor_b"
      = some { name := "vendor_b", state := SnapshotState.MERGING, device_size := 4096 } :=
  ⟨(status_round_trip (calmEnv "_b" "_a") (shrinkWorld true)).1 _ (by decide),
    ((status_round_trip (calmEnv "_b" "_a") (shrinkWorld true)).2 _ (by decide)).2⟩

/-! ## The legacy textual state -/

/-- C12: `UpdateStateFromString` maps the eight state names to their states
and every other string, the empty one included, to `None`; so it inverts the
text `operator<<` prints for every state. -/
theorem UpdateStateFromString_table :
    UpdateStateFromString "none" = UpdateState.None ∧
    UpdateStateFromString "initiated" = UpdateState.Initiated ∧
    UpdateStateFromString "unverified" = UpdateState.Unverified ∧
    UpdateStateFromString "merging" = UpdateState.Merging ∧
    UpdateStateFromString "merge-completed" = UpdateState.MergeCompleted ∧
    UpdateStateFromString "merge-needs-reboot" = UpdateState.MergeNeedsReboot ∧
    UpdateStateFromString "merge-failed" = UpdateState.MergeFailed ∧
    UpdateStateFromString "cancelled" = UpdateState.Cancelled ∧
    UpdateStateFromString "" = UpdateState.None ∧
    (∀ contents : String,
      contents ∉ ["none", "initiated", "unverified", "merging", "merge-completed",
        "merge-needs-reboot", "merge-failed", "cancelled"] →
      UpdateStateFromString contents = UpdateState.None) ∧
    (∀ state : UpdateState, UpdateStateFromString (printUpdateState state) = state) := by
  refine ⟨by decide, by decide, by decide, by decide, by decide, by decide, by decide,
    by decide, by decide, ?_, ?_⟩
  · intro contents h
    simp only [List.mem_cons, List.mem_singleton, List.not_mem_nil, or_false, not_or] at h
    obtain ⟨h1, h2, h3, h4, h5, h6, h7, h8⟩ := h
    unfold UpdateStateFromString
    simp [h1, h2, h3, h4, h5, h6, h7, h8]
  · intro state
    cases state <;> decide

/-! ## Fields carried across a state write -/

/-- C13: a successful `WriteUpdateState(state, code)` persists a status with
the new state; for a state other than `None` and `Initiated` its
`using_snapuserd`, `source_build_fingerprint`, `merge_phase`,
`userspace_snapshots`, `legacy_snapuserd` and tuning knobs are those of the
status persisted before; for `None` and `Initiated` the status written does
not depend on the previous one: every such field has its default, except that
`Initiated` records the fingerprint of the running build. -/
theorem WriteUpdateState_carries (e : Env) (state : UpdateState) (code : MergeFailureCode)
    (w : World) (hok : (WriteUpdateState e state code w).1 = true) :
    (ReadSnapshotUpdateStatus (WriteUpdateState e state code w).2).state = state ∧
    (state ≠ UpdateState.None → state ≠ UpdateState.Initiated →
      ReadSnapshotUpdateStatus (WriteUpdateState e state code w).2
        = { ReadSnapshotUpdateStatus w with
            state := state
            sectors_allocated := 0
            total_sectors := 0
            metadata_sectors := 0
            merge_failure_code :=
              if state = UpdateState.MergeFailed then code else MergeFailureCode.Ok }) ∧
    (state = UpdateState.None →
      ReadSnapshotUpdateStatus (WriteUpdateState e state code w).2
        = { state := UpdateState.None }) ∧
    (state = UpdateState.Initiated →
      ReadSnapshotUpdateStatus (WriteUpdateState e state code w).2
        = { state := UpdateState.Initiated, source_build_fingerprint := e.buildFingerprint }) := by
  unfold WriteUpdateState at hok ⊢
  rw [ReadSnapshotUpdateStatus_encoded _ _ (WriteSnapshotUpdateStatus_stateFile e _ w hok)]
  refine ⟨?_, ?_, ?_, ?_⟩
  · cases state <;> rfl
  · intro h1 h2
    cases state <;> first | exact absurd rfl h1 | exact absurd rfl h2 | rfl
  · intro h
    subst h
    rfl
  · intro h
    subst h
    rfl

/-- Witness for `WriteUpdateState_carries`: recording `MergeFailed` in the
shrink scenario keeps `using_snapuserd` and `userspace_snapshots`. -/
theorem WriteUpdateState_carries_witness :
    (ReadSnapshotUpdateStatus (WriteUpdateState (calmEnv "_b" "_a") UpdateState.MergeFailed
      MergeFailureCode.WriteStatus (shrinkWorld true)).2)
      = { state := UpdateState.MergeFailed, using_snapuserd := true,
          userspace_snapshots := true, merge_failure_code := MergeFailureCode.WriteStatus } :=
  ((WriteUpdateState_carries (calmEnv "_b" "_a") UpdateState.MergeFailed
    MergeFailureCode.WriteStatus (shrinkWorld true) (by decide)).2.1
      (by decide) (by decide)).trans (by decide)

/-! ## The current slot -/

/-- C20 (as stated, refuted): the boot indicator exists but is empty;
`GetCurrentSlot` answers `Unknown`, also when the device's slot suffix is
empty as well. -/
theorem GetCurrentSlot_empty_counterexample :
    ({ fs := { bootIndicator := some "" } } : World).fs.bootIndicator.isSome = true ∧
    GetCurrentSlot (calmEnv "_a" "_b") { fs := { bootIndicator := some "" } } = Slot.Unknown ∧
    GetCurrentSlot (calmEnv "" "") { fs := { bootIndicator := some "" } } = Slot.Unknown := by
  decide

/-- C20 (amended): `GetCurrentSlot` returns `Unknown` if and only if the boot
indicator is missing or empty; when it has non-empty contents, it returns
`Source` if they equal the device's slot suffix and `Target` otherwise. -/
theorem GetCurrentSlot_cases (e : Env) (w : World) :
    (GetCurrentSlot e w = Slot.Unknown ↔
      (w.fs.bootIndicator = none ∨ w.fs.bootIndicator = some "")) ∧
    (∀ contents, w.fs.bootIndicator = some contents → contents ≠ "" →
      GetCurrentSlot e w = if contents = e.slotSuffix then Slot.Source else Slot.Target) := by
  unfold GetCurrentSlot ReadUpdateSourceSlotSuffix
  cases hb : w.fs.bootIndicator with
  | none => simp
  | some c =>
    by_cases hc : c = ""
    · simp [hc]
    · by_cases hs : e.slotSuffix = c
      · simp [hc, hs]
      · have hs2 : ¬c = e.slotSuffix := fun h => hs h.symm
        simp [hc, hs, hs2]

/-- Witness for `GetCurrentSlot_cases`: after a reboot into `_b` with the
indicator naming `_a`, the slot is `Target`. -/
theorem GetCurrentSlot_cases_witness :
    GetCurrentSlot (calmEnv "_b" "_a") (shrinkWorld true) = Slot.Target :=
  ((GetCurrentSlot_cases (calmEnv "_b" "_a") (shrinkWorld true)).2 "_a" rfl (by decide)).trans
    (by decide)

/-! ## Listing the snapshots -/

theorem listLoop_step (suffix : String) (d : DirEnt) (rest : List DirEnt) (out : List String) :
    listLoop suffix (d :: rest) out
      = if (d.isReg && (decide (suffix = "") || EndsWith d.name suffix)) = true then
          if isHeadName d.name = true then listLoop suffix rest (d.name :: out)
          else listLoop suffix rest (out ++ [d.name])
        else listLoop suffix rest out := by
  rw [listLoop]
  unfold isHeadName
  generalize d.isReg = a
  generalize decide (suffix = "") = b
  generalize EndsWith d.name suffix = c
  cases a <;> cases b <;> cases c <;> rfl

theorem listedEntries_cons (suffix : String) (d : DirEnt) (rest : List DirEnt) :
    listedEntries suffix (d :: rest)
      = if (d.isReg && (decide (suffix = "") || EndsWith d.name suffix)) = true then
          d :: listedEntries suffix rest
        else listedEntries suffix rest := by
  unfold listedEntries
  rw [List.filter_cons]

/-- The loop of `ListSnapshots` adds the names of the entries to report to
the list it was given, each once, and keeps the head names in front. -/
theorem listLoop_spec (suffix : String) (dir : List DirEnt) (front back : List String)
    (hfront : ∀ n ∈ front, isHeadName n = true) (hback : ∀ n ∈ back, isHeadName n = false) :
    (listLoop suffix dir (front ++ back)).Perm
      ((front ++ back) ++ (listedEntries suffix dir).map DirEnt.name) ∧
    ∃ front2 back2, listLoop suffix dir (front ++ back) = front2 ++ back2 ∧
      (∀ n ∈ front2, isHeadName n = true) ∧ (∀ n ∈ back2, isHeadName n = false) := by
  induction dir generalizing front back with
  | nil =>
    unfold listLoop listedEntries
    exact ⟨by simp, front, back, rfl, hfront, hback⟩
  | cons d rest ih =>
    rw [listLoop_step, listedEntries_cons]
    split
    · split
      · rename_i hhead
        have h := ih (d.name :: front) back
          (by
            intro n hn
            rcases List.mem_cons.mp hn with h | h
            · rw [h]; exact hhead
            · exact hfront n h) hback
        rw [List.cons_append] at h
        refine ⟨h.1.trans ?_, h.2⟩
        rw [List.map_cons]
        exact (List.perm_middle).symm
      · rename_i hhead
        have h := ih front (back ++ [d.name]) hfront
          (by
            intro n hn
            rcases List.mem_append.mp hn with h | h
            · exact hback n h
            · simp only [List.mem_singleton] at h
              rw [h]
              simpa using hhead)
        rw [← List.append_assoc] at h
        refine ⟨h.1.trans ?_, h.2⟩
        rw [List.map_cons, List.append_assoc, List.append_assoc, List.append_assoc,
          List.singleton_append]
    · exact ih front back hfront hback

/-- C14: when the directory can be opened, `ListSnapshots` called with an
empty list returns the names of exactly the regular-file entries whose name
ends with the suffix (all regular files when the suffix is empty), one
occurrence per entry, and every name among `system_a`, `system_b`,
`product_a`, `product_b` comes before every other name. -/
theorem ListSnapshots_lists (e : Env) (suffix : String) (w : World)
    (hopen : e.opendirOk w.tick = true) :
    ∃ l, (ListSnapshots e suffix [] w).1 = some l ∧
      l.Perm ((listedEntries suffix w.fs.snapshots).map DirEnt.name) ∧
      ∃ front back, l = front ++ back ∧ (∀ n ∈ front, isHeadName n = true) ∧
        (∀ n ∈ back, isHeadName n = false) := by
  have h := listLoop_spec suffix w.fs.snapshots [] [] (by simp) (by simp)
  refine ⟨listLoop suffix w.fs.snapshots [], ?_, ?_, ?_⟩
  · unfold ListSnapshots
    simp [World.ask, hopen]
  · simpa using h.1
  · simpa using h.2

/-- Witness for `ListSnapshots_lists`: a directory holding `vendor_b`,
`system_b`, a directory entry and `product_a`, listed for suffix `_b`. -/
theorem ListSnapshots_lists_witness :
    ∃ l, (ListSnapshots (calmEnv "_b" "_a") "_b" []
        { fs := { snapshots :=
          [ { name := "vendor_b", isReg := true, content := none },
            { name := "system_b", isReg := true, content := none },
            { name := "odm_b", isReg := false, content := none },
            { name := "product_a", isReg := true, content := none } ] } }).1 = some l ∧
      l.Perm ((listedEntries "_b"
          [ { name := "vendor_b", isReg := true, content := none },
            { name := "system_b", isReg := true, content := none },
            { name := "odm_b", isReg := false, content := none },
            { name := "product_a", isReg := true, content := none } ]).map DirEnt.name) ∧
      ∃ front back, l = front ++ back ∧ (∀ n ∈ front, isHeadName n = true) ∧
        (∀ n ∈ back, isHeadName n = false) :=
  ListSnapshots_lists (calmEnv "_b" "_a") "_b"
    { fs := { snapshots :=
      [ { name := "vendor_b", isReg := true, content := none },
        { name := "system_b", isReg := true, content := none },
        { name := "odm_b", isReg := false, content := none },
        { name := "product_a", isReg := true, content := none } ] } } rfl

/-! ## CreateSnapshot -/

/-- What `createdStatus` sets and what it leaves as given. -/
theorem createdStatus_fields (cow_creator : PartitionCowCreator) (status : SnapshotStatus) :
    (createdStatus cow_creator status).name = status.name ∧
    (createdStatus cow_creator status).state = SnapshotState.CREATED ∧
    (createdStatus cow_creator status).sectors_allocated = 0 ∧
    (createdStatus cow_creator status).metadata_sectors = 0 ∧
    (createdStatus cow_creator status).device_size = status.device_size ∧
    (createdStatus cow_creator status).snapshot_size = status.snapshot_size ∧
    (createdStatus cow_creator status).cow_partition_size = status.cow_partition_size ∧
    (createdStatus cow_creator status).cow_file_size = status.cow_file_size := by
  unfold createdStatus
  dsimp only
  split <;> split <;> simp

/-- A successful `CreateSnapshot` got past the checks and its write went
through: the status file then holds `createdStatus`. -/
theorem CreateSnapshot_ok (e : Env) (cow_creator : PartitionCowCreator)
    (status : SnapshotStatus) (w : World) (hok : (CreateSnapshot e cow_creator status w).1 = true) :
    status.name ≠ "" ∧ status.device_size % 512 = 0 ∧ status.snapshot_size % 512 = 0 ∧
    status.cow_partition_size % 512 = 0 ∧ status.cow_file_size % 512 = 0 ∧
    ReadSnapshotStatus (CreateSnapshot e cow_creator status w).2 status.name
      = some (createdStatus cow_creator status) := by
  unfold CreateSnapshot kSectorSize at hok ⊢
  split at hok
  · simp at hok
  split at hok
  · simp at hok
  split at hok
  · simp at hok
  split at hok
  · simp at hok
  split at hok
  · simp at hok
  rename_i h1 h2 h3 h4 h5
  rw [if_neg h1, if_neg h2, if_neg h3, if_neg h4, if_neg h5]
  dsimp only at hok ⊢
  have hw : (WriteSnapshotStatus e (createdStatus cow_creator status) w).1 = true := by
    by_contra hne
    simp [hne] at hok
  refine ⟨h1, not_not.mp h2, not_not.mp h3, not_not.mp h4, not_not.mp h5, ?_⟩
  have hrt := ReadSnapshotStatus_after_write e (createdStatus cow_creator status) w hw
  rw [(createdStatus_fields cow_creator status).1] at hrt
  simp only [hw, Bool.not_true, Bool.false_eq_true, if_false]
  exact hrt

/-- C15 (as stated, refuted): `old_partition_size` is a persisted size that
`CreateSnapshot` does not check; a status with `old_partition_size = 1000` is
accepted and persisted as it is. -/
theorem CreateSnapshot_old_size_counterexample :
    (CreateSnapshot (calmEnv "_a" "_b") {}
      { name := "system_b", device_size := 4096, snapshot_size := 4096,
        old_partition_size := 1000 } {}).1 = true ∧
    (ReadSnapshotStatus
      (CreateSnapshot (calmEnv "_a" "_b") {}
        { name := "system_b", device_size := 4096, snapshot_size := 4096,
          old_partition_size := 1000 } {}).2 "system_b").map
        (fun s => s.old_partition_size % 512) = some 488 := by
  decide

/-- C15 (amended): `CreateSnapshot` returns false and leaves everything as it
is whenever the status name is empty or one of `device_size`, `snapshot_size`,
`cow_partition_size`, `cow_file_size` is not a multiple of 512; whenever it
returns true, the persisted status has state `CREATED`, `sectors_allocated =
0`, `metadata_sectors = 0`, and these four sizes are multiples of 512. -/
theorem CreateSnapshot_validates (e : Env) (cow_creator : PartitionCowCreator)
    (status : SnapshotStatus) (w : World) :
    ((status.name = "" ∨ status.device_size % 512 ≠ 0 ∨ status.snapshot_size % 512 ≠ 0 ∨
        status.cow_partition_size % 512 ≠ 0 ∨ status.cow_file_size % 512 ≠ 0) →
      CreateSnapshot e cow_creator status w = (false, w)) ∧
    ((CreateSnapshot e cow_creator status w).1 = true →
      ∃ s, ReadSnapshotStatus (CreateSnapshot e cow_creator status w).2 status.name = some s ∧
        s.state = SnapshotState.CREATED ∧ s.sectors_allocated = 0 ∧ s.metadata_sectors = 0 ∧
        s.device_size % 512 = 0 ∧ s.snapshot_size % 512 = 0 ∧
        s.cow_partition_size % 512 = 0 ∧ s.cow_file_size % 512 = 0) := by
  constructor
  · intro h
    unfold CreateSnapshot kSectorSize
    by_cases h1 : status.name = ""
    · rw [if_pos h1]
    by_cases h2 : status.device_size % 512 ≠ 0
    · rw [if_neg h1, if_pos h2]
    by_cases h3 : status.snapshot_size % 512 ≠ 0
    · rw [if_neg h1, if_neg h2, if_pos h3]
    by_cases h4 : status.cow_partition_size % 512 ≠ 0
    · rw [if_neg h1, if_neg h2, if_neg h3, if_pos h4]
    by_cases h5 : status.cow_file_size % 512 ≠ 0
    · rw [if_neg h1, if_neg h2, if_neg h3, if_neg h4, if_pos h5]
    rcases h with h | h | h | h | h
    · exact absurd h h1
    · exact absurd h h2
    · exact absurd h h3
    · exact absurd h h4
    · exact absurd h h5
  · intro hok
    obtain ⟨_, hd, hs, hcp, hcf, hread⟩ := CreateSnapshot_ok e cow_creator status w hok
    obtain ⟨_, f2, f3, f4, f5, f6, f7, f8⟩ := createdStatus_fields cow_creator status
    refine ⟨_, hread, f2, f3, f4, ?_, ?_, ?_, ?_⟩
    · rw [f5]; exact hd
    · rw [f6]; exact hs
    · rw [f7]; exact hcp
    · rw [f8]; exact hcf

/-- Witness for `CreateSnapshot_validates`: a status with aligned sizes is
created. -/
theorem CreateSnapshot_validates_witness :
    ∃ s, ReadSnapshotStatus
        (CreateSnapshot (calmEnv "_a" "_b") { using_snapuserd := true }
          { name := "system_b", device_size := 4096, snapshot_size := 4096,
            cow_file_size := 1024 } {}).2 "system_b" = some s ∧
      s.state = SnapshotState.CREATED ∧ s.sectors_allocated = 0 ∧ s.metadata_sectors = 0 ∧
      s.device_size % 512 = 0 ∧ s.snapshot_size % 512 = 0 ∧
      s.cow_partition_size % 512 = 0 ∧ s.cow_file_size % 512 = 0 :=
  (CreateSnapshot_validates (calmEnv "_a" "_b") { using_snapuserd := true }
    { name := "system_b", device_size := 4096, snapshot_size := 4096,
      cow_file_size := 1024 } {}).2 (by decide)

/-! ## Mapping a snapshot -/

theorem checkBaseDevice_quiet (e : Env) (base_device : String) (status : SnapshotStatus)
    (w : World) : Quiet w (checkBaseDevice e base_device status w).2 := by
  unfold checkBaseDevice Quiet
  dsimp only
  repeat' split
  all_goals simp

/-- The readers see the files only. -/
theorem checkBaseDevice_status (e : Env) (base_device : String) (status : SnapshotStatus)
    (w : World) :
    ReadSnapshotUpdateStatus (checkBaseDevice e base_device status w).2
      = ReadSnapshotUpdateStatus w :=
  ReadSnapshotUpdateStatus_congr (checkBaseDevice_quiet e base_device status w).1

/-- Every way `MapSnapshot` can go: it fails having written and created
nothing, or it got past every check and asked for the device with the mode
`snapshotMode` chose. -/
theorem MapSnapshot_effect (e : Env) (name base_device cow_device : String) (w : World) :
    ((MapSnapshot e name base_device cow_device w).1 = false ∧
      Quiet w (MapSnapshot e name base_device cow_device w).2) ∨
    ∃ status mode ok, ReadSnapshotStatus w name = some status ∧
      status.state ≠ SnapshotState.NONE ∧ status.state ≠ SnapshotState.MERGE_COMPLETED ∧
      status.device_size = status.snapshot_size ∧
      snapshotMode status (ReadSnapshotUpdateStatus w) = some mode ∧
      (MapSnapshot e name base_device cow_device w).1 = ok ∧
      (MapSnapshot e name base_device cow_device w).2.fs = w.fs ∧
      (MapSnapshot e name base_device cow_device w).2.trace
        = w.trace ++ [Event.createSnapshotDevice name (status.snapshot_size / 512)
            base_device cow_device mode ok] := by
  unfold MapSnapshot
  cases hr : ReadSnapshotStatus w name with
  | none => exact Or.inl ⟨rfl, rfl, rfl⟩
  | some status =>
    dsimp only
    have hq := checkBaseDevice_quiet e base_device status w
    have hus := checkBaseDevice_status e base_device status w
    split
    · exact Or.inl ⟨rfl, rfl, rfl⟩
    rename_i hstate
    split
    · exact Or.inl ⟨rfl, hq⟩
    split
    · exact Or.inl ⟨rfl, hq⟩
    split
    · exact Or.inl ⟨rfl, hq⟩
    split
    · exact Or.inl ⟨rfl, hq⟩
    rename_i hsize
    rw [hus]
    cases hm : snapshotMode status (ReadSnapshotUpdateStatus w) with
    | none => exact Or.inl ⟨rfl, hq⟩
    | some mode =>
      right
      dsimp only
      refine ⟨status, mode, e.dmCreateDevice (checkBaseDevice e base_device status w).2.tick name,
        rfl, ?_, ?_, not_not.mp hsize, hm, ?_, ?_, ?_⟩
      · exact fun h => hstate (Or.inl h)
      · exact fun h => hstate (Or.inr h)
      · split <;> simp_all [World.ask]
      · split <;> simp [hq.1]
      · split <;> simp [hq.2, kSectorSize, World.ask]

/-- The mode `snapshotMode` chooses. -/
theorem snapshotMode_some (status : SnapshotStatus) (us : SnapshotUpdateStatus)
    (mode : SnapshotStorageMode) (h : snapshotMode status us = some mode) :
    us.state ≠ UpdateState.MergeCompleted ∧ us.state ≠ UpdateState.MergeNeedsReboot ∧
    mode = (if ((us.state = UpdateState.Merging ∨ us.state = UpdateState.MergeFailed) ∧
        DecideMergePhase status = us.merge_phase) ∨ status.state = SnapshotState.MERGING
      then SnapshotStorageMode.Merge else SnapshotStorageMode.Persistent) := by
  unfold snapshotMode at h
  dsimp only at h
  by_cases hm : status.state = SnapshotState.MERGING <;>
    by_cases hp : DecideMergePhase status = us.merge_phase <;>
    cases hs : us.state <;> simp_all

/-- C16 (as stated, refuted): `CreateSnapshot` persists a status whose
`snapshot_size` exceeds its `device_size`. -/
theorem CreateSnapshot_oversized_counterexample :
    (CreateSnapshot (calmEnv "_a" "_b") {}
      { name := "system_b", device_size := 4096, snapshot_size := 8192 } {}).1 = true ∧
    (ReadSnapshotStatus
      (CreateSnapshot (calmEnv "_a" "_b") {}
        { name := "system_b", device_size := 4096, snapshot_size := 8192 } {}).2
      "system_b").map (fun s => (s.device_size, s.snapshot_size)) = some (4096, 8192) := by
  decide

/-- C16 (amended): the size invariant is checked when a snapshot is mapped,
not when it is created.  `CreateSnapshot` persists `device_size` and
`snapshot_size` as given; `MapSnapshot` fails, writing nothing and creating no
device, for every status whose `snapshot_size` differs from its `device_size`
(in particular when it is larger). -/
theorem size_invariant_checked_at_map (e : Env) (w : World) :
    (∀ cow_creator status, (CreateSnapshot e cow_creator status w).1 = true →
      ∃ s, ReadSnapshotStatus (CreateSnapshot e cow_creator status w).2 status.name = some s ∧
        s.device_size = status.device_size ∧ s.snapshot_size = status.snapshot_size) ∧
    (∀ name base_device cow_device st, ReadSnapshotStatus w name = some st →
      st.snapshot_size ≠ st.device_size →
      (MapSnapshot e name base_device cow_device w).1 = false ∧
      Quiet w (MapSnapshot e name base_device cow_device w).2) := by
  constructor
  · intro cow_creator status hok
    obtain ⟨_, _, _, _, _, hread⟩ := CreateSnapshot_ok e cow_creator status w hok
    obtain ⟨_, _, _, _, f5, f6, _, _⟩ := createdStatus_fields cow_creator status
    exact ⟨_, hread, f5, f6⟩
  · intro name base_device cow_device st hread hne
    rcases MapSnapshot_effect e name base_device cow_device w with h |
      ⟨status, _, _, hr, _, _, hsize, _⟩
    · exact h
    · rw [hread] at hr
      simp only [Option.some.injEq] at hr
      subst hr
      exact absurd hsize.symm hne

/-- Witness for `size_invariant_checked_at_map`: the oversized status that
`CreateSnapshot` accepted cannot be mapped. -/
theorem size_invariant_checked_at_map_witness :
    (MapSnapshot (calmEnv "_a" "_b") "system_b" "system_b-base" "system_b-cow"
      (CreateSnapshot (calmEnv "_a" "_b") {}
        { name := "system_b", device_size := 4096, snapshot_size := 8192 } {}).2).1 = false ∧
    Quiet
      (CreateSnapshot (calmEnv "_a" "_b") {}
        { name := "system_b", device_size := 4096, snapshot_size := 8192 } {}).2
      (MapSnapshot (calmEnv "_a" "_b") "system_b" "system_b-base" "system_b-cow"
        (CreateSnapshot (calmEnv "_a" "_b") {}
          { name := "system_b", device_size := 4096, snapshot_size := 8192 } {}).2).2 :=
  (size_invariant_checked_at_map (calmEnv "_a" "_b")
    (CreateSnapshot (calmEnv "_a" "_b") {}
      { name := "system_b", device_size := 4096, snapshot_size := 8192 } {}).2).2
    "system_b" "system_b-base" "system_b-cow"
    { name := "system_b", state := SnapshotState.CREATED, device_size := 4096,
      snapshot_size := 8192 } (by decide) (by decide)

theorem UpdateUsesUserSnapshots_tick (e : Env) (w : World) :
    (UpdateUsesUserSnapshots e w).2.tick = w.tick ∧
    (UpdateUsesUserSnapshots e w).2.mem.snapuserd_client_ = w.mem.snapuserd_client_ := by
  unfold UpdateUsesUserSnapshots IsLegacySnapuserdPostReboot
  dsimp only
  repeat' split
  all_goals simp

/-- C17: when the persisted global state is `MergeCompleted` or
`MergeNeedsReboot`, or the snapshot's own status cannot be read or has state
`NONE` or `MERGE_COMPLETED`, mapping fails without creating a device:
`MapSnapshot` returns false having written and recorded nothing, and with
userspace snapshots `MapDmUserCow` returns false having made no external call
at all (the tick did not move), the daemon not contacted. -/
theorem map_refused_after_merge (e : Env) (name base_device cow_device cow_file
    base_path_merge : String) (w : World)
    (h : (ReadUpdateState w = UpdateState.MergeCompleted ∨
        ReadUpdateState w = UpdateState.MergeNeedsReboot) ∨
      ReadSnapshotStatus w name = none ∨
      ∃ st, ReadSnapshotStatus w name = some st ∧
        (st.state = SnapshotState.NONE ∨ st.state = SnapshotState.MERGE_COMPLETED)) :
    ((MapSnapshot e name base_device cow_device w).1 = false ∧
      Quiet w (MapSnapshot e name base_device cow_device w).2) ∧
    ((UpdateUsesUserSnapshots e w).1 = true →
      (MapDmUserCow e name cow_file base_path_merge w).1 = false ∧
      Quiet w (MapDmUserCow e name cow_file base_path_merge w).2 ∧
      (MapDmUserCow e name cow_file base_path_merge w).2.tick = w.tick ∧
      (MapDmUserCow e name cow_file base_path_merge w).2.mem.snapuserd_client_
        = w.mem.snapuserd_client_) := by
  constructor
  · rcases MapSnapshot_effect e name base_device cow_device w with hq |
      ⟨status, mode, _, hr, hn, hc, _, hm, _⟩
    · exact hq
    · exfalso
      obtain ⟨h1, h2, _⟩ := snapshotMode_some status _ mode hm
      rcases h with h | h | ⟨st, hst, h⟩
      · unfold ReadUpdateState at h
        rcases h with h | h
        · exact h1 h
        · exact h2 h
      · rw [h] at hr
        simp at hr
      · rw [hst] at hr
        simp only [Option.some.injEq] at hr
        subst hr
        rcases h with h | h
        · exact hn h
        · exact hc h
  · intro huser
    have hq := UpdateUsesUserSnapshots_quiet e w
    have ht := UpdateUsesUserSnapshots_tick e w
    have hgo : mayMapDmUserCow e name w = (false, (UpdateUsesUserSnapshots e w).2) := by
      unfold mayMapDmUserCow
      dsimp only
      rw [if_pos huser, ReadSnapshotStatus_congr hq.1, ReadSnapshotUpdateStatus_congr hq.1]
      cases hr : ReadSnapshotStatus w name with
      | none => rfl
      | some st =>
        dsimp only
        by_cases hs : st.state = SnapshotState.NONE ∨ st.state = SnapshotState.MERGE_COMPLETED
        · rw [if_pos hs]
        · rw [if_neg hs]
          rcases h with h | h | ⟨st2, hst, h⟩
          · unfold ReadUpdateState at h
            rw [if_pos h]
          · rw [h] at hr
            simp at hr
          · rw [hst] at hr
            simp only [Option.some.injEq] at hr
            subst hr
            exact absurd h hs
    have hres : MapDmUserCow e name cow_file base_path_merge w
        = (false, (UpdateUsesUserSnapshots e w).2) := by
      unfold MapDmUserCow
      rw [hgo]
      rfl
    rw [hres]
    exact ⟨rfl, hq, ht.1, ht.2⟩

/-- Witness for `map_refused_after_merge`: `completedWorld`, where the global
state is `MergeNeedsReboot`, with userspace snapshots. -/
theorem map_refused_after_merge_witness :
    (MapSnapshot (calmEnv "_b" "_a") "vendor_b" "vendor_b-base" "vendor_b-cow"
        completedWorld).1 = false ∧
    (MapDmUserCow (calmEnv "_b" "_a") "vendor_b" "vendor_b-cow-img" "vendor_b-base"
        completedWorld).1 = false ∧
    (MapDmUserCow (calmEnv "_b" "_a") "vendor_b" "vendor_b-cow-img" "vendor_b-base"
        completedWorld).2.tick = completedWorld.tick :=
  ⟨(map_refused_after_merge (calmEnv "_b" "_a") "vendor_b" "vendor_b-base" "vendor_b-cow"
      "vendor_b-cow-img" "vendor_b-base" completedWorld (Or.inl (Or.inr (by decide)))).1.1,
    ((map_refused_after_merge (calmEnv "_b" "_a") "vendor_b" "vendor_b-base" "vendor_b-cow"
      "vendor_b-cow-img" "vendor_b-base" completedWorld (Or.inl (Or.inr (by decide)))).2
        (by decide)).1,
    ((map_refused_after_merge (calmEnv "_b" "_a") "vendor_b" "vendor_b-base" "vendor_b-cow"
      "vendor_b-cow-img" "vendor_b-base" completedWorld (Or.inl (Or.inr (by decide)))).2
        (by decide)).2.2.1⟩

/-- C18 (as stated, refuted): the global state is `MergeFailed` with phase
`SECOND_PHASE`; `vendor_b` is a second-phase snapshot in state `CREATED`.  The
update is not `Merging` and the snapshot is not `MERGING`, yet `MapSnapshot`
creates the device in `Snapshot-Merge` mode. -/
theorem MapSnapshot_stalled_counterexample :
    ReadUpdateState stalledWorld = UpdateState.MergeFailed ∧
    (ReadSnapshotStatus stalledWorld "vendor_b").map (fun s => s.state)
      = some SnapshotState.CREATED ∧
    MapSnapshot (calmEnv "_b" "_a") "vendor_b" "vendor_b-base" "vendor_b-cow" stalledWorld
      = (true, { stalledWorld with
          tick := 1
          trace := [Event.createSnapshotDevice "vendor_b" 1048576 "vendor_b-base"
            "vendor_b-cow" SnapshotStorageMode.Merge true] }) := by
  decide

/-- C18 (amended): when `MapSnapshot` creates a device, it uses the
`Snapshot-Merge` mode if the global state is `Merging` or `MergeFailed` and
the snapshot's merge phase (`DecideMergePhase`) equals the persisted global
`merge_phase`, or if the snapshot's persisted state is `MERGING`; otherwise it
uses the persistent mode. -/
theorem MapSnapshot_mode (e : Env) (name base_device cow_device : String) (w : World)
    (hok : (MapSnapshot e name base_device cow_device w).1 = true) :
    ∃ status, ReadSnapshotStatus w name = some status ∧
      (MapSnapshot e name base_device cow_device w).2.trace
        = w.trace ++ [Event.createSnapshotDevice name (status.snapshot_size / 512)
            base_device cow_device
            (if ((ReadUpdateState w = UpdateState.Merging ∨
                  ReadUpdateState w = UpdateState.MergeFailed) ∧
                DecideMergePhase status = (ReadSnapshotUpdateStatus w).merge_phase) ∨
                status.state = SnapshotState.MERGING
              then SnapshotStorageMode.Merge else SnapshotStorageMode.Persistent) true] := by
  rcases MapSnapshot_effect e name base_device cow_device w with hq |
    ⟨status, mode, ok, hr, _, _, _, hm, hres, _, htr⟩
  · rw [hq.1] at hok
    exact absurd hok (by decide)
  · rw [hok] at hres
    subst hres
    obtain ⟨_, _, hmode⟩ := snapshotMode_some status _ mode hm
    refine ⟨status, hr, ?_⟩
    rw [htr, hmode]
    rfl

/-- Witness for `MapSnapshot_mode`: in `stalledWorld` the device of `vendor_b`
is created in `Snapshot-Merge` mode. -/
theorem MapSnapshot_mode_witness :
    ∃ status, ReadSnapshotStatus stalledWorld "vendor_b" = some status ∧
      (MapSnapshot (calmEnv "_b" "_a") "vendor_b" "vendor_b-base" "vendor_b-cow"
          stalledWorld).2.trace
        = stalledWorld.trace ++ [Event.createSnapshotDevice "vendor_b"
            (status.snapshot_size / 512) "vendor_b-base" "vendor_b-cow"
            (if ((ReadUpdateState stalledWorld = UpdateState.Merging ∨
                  ReadUpdateState stalledWorld = UpdateState.MergeFailed) ∧
                DecideMergePhase status
                  = (ReadSnapshotUpdateStatus stalledWorld).merge_phase) ∨
                status.state = SnapshotState.MERGING
              then SnapshotStorageMode.Merge else SnapshotStorageMode.Persistent) true] :=
  MapSnapshot_mode (calmEnv "_b" "_a") "vendor_b" "vendor_b-base" "vendor_b-cow" stalledWorld
    (by decide)

/-! ## FinishedSnapshotWrites -/

theorem overflowLoop_quiet (e : Env) (l : List String) (w : World) :
    Quiet w (overflowLoop e l w).2 := by
  induction l generalizing w with
  | nil => exact ⟨rfl, rfl⟩
  | cons n rest ih =>
    unfold overflowLoop
    split
    · exact ⟨rfl, rfl⟩
    · split
      · exact ih w
      · dsimp only
        have hstep := ih (w.ask fun t => e.dmGetTableStatus t n).2
        have hfs : (w.ask fun t => e.dmGetTableStatus t n).2.fs = w.fs := rfl
        have htr : (w.ask fun t => e.dmGetTableStatus t n).2.trace = w.trace := rfl
        repeat' split
        all_goals first
          | exact ⟨hfs, htr⟩
          | exact ⟨hstep.1.trans hfs, hstep.2.trans htr⟩

theorem EnsureNoOverflowSnapshot_quiet (e : Env) (w : World) :
    Quiet w (EnsureNoOverflowSnapshot e w).2 := by
  have h1 := ListSnapshots_quiet e "" [] w
  unfold EnsureNoOverflowSnapshot
  dsimp only
  split
  · exact h1
  · rename_i l _
    have h2 := overflowLoop_quiet e l (ListSnapshots e "" [] w).2
    exact ⟨h2.1.trans h1.1, h2.2.trans h1.2⟩

/-- What a successful `UpdateForwardMergeIndicator` leaves behind. -/
theorem UpdateForwardMergeIndicator_ok (e : Env) (wipe : Bool) (w : World)
    (h : (UpdateForwardMergeIndicator e wipe w).1 = true) :
    (UpdateForwardMergeIndicator e wipe w).2.fs = { w.fs with forwardMergeIndicator := wipe } ∧
    (UpdateForwardMergeIndicator e wipe w).2.trace = w.trace := by
  unfold UpdateForwardMergeIndicator RemoveFileIfExists at h ⊢
  dsimp only at h ⊢
  cases wipe <;> simp only [Bool.not_false, Bool.not_true, if_true, if_false,
    Bool.false_eq_true] at h ⊢
  · split at h
    · rename_i hr
      rw [if_pos hr]
      exact ⟨rfl, rfl⟩
    · simp at h
  · split at h
    · simp at h
    · rename_i hr
      rw [if_neg hr]
      exact ⟨rfl, rfl⟩

/-- What a successful `commitSnapshotWrites` leaves behind. -/
theorem commitSnapshotWrites_ok (e : Env) (w : World)
    (h : (commitSnapshotWrites e w).1 = true) :
    ReadUpdateState (commitSnapshotWrites e w).2 = UpdateState.Unverified ∧
    (commitSnapshotWrites e w).2.fs.noState
      = ({ w.fs with rollbackIndicator := false, bootIndicator := some e.slotSuffix } :
          Files).noState := by
  unfold commitSnapshotWrites RemoveFileIfExists at h ⊢
  dsimp only at h ⊢
  split at h
  · simp at h
  rename_i h1
  rw [if_neg h1]
  split at h
  · simp at h
  rename_i h2
  rw [if_neg h2]
  constructor
  · unfold WriteUpdateState at h ⊢
    unfold ReadUpdateState
    rw [ReadSnapshotUpdateStatus_encoded _ _ (WriteSnapshotUpdateStatus_stateFile e _ _ h)]
    rfl
  · unfold WriteUpdateState
    rw [WriteSnapshotUpdateStatus_noState]
    rfl

/-- `FinishedSnapshotWrites` in terms of its parts, for an update in state
`Initiated` once the lock is taken. -/
theorem FinishedSnapshotWrites_initiated (e : Env) (wipe : Bool) (w : World)
    (hstate : ReadUpdateState w = UpdateState.Initiated) (hlock : e.lockOk w.tick = true) :
    FinishedSnapshotWrites e wipe w
      = if (EnsureNoOverflowSnapshot e w.next).1 = true then
          if (UpdateForwardMergeIndicator e wipe (EnsureNoOverflowSnapshot e w.next).2).1 = true
          then commitSnapshotWrites e
            (UpdateForwardMergeIndicator e wipe (EnsureNoOverflowSnapshot e w.next).2).2
          else (false,
            (UpdateForwardMergeIndicator e wipe (EnsureNoOverflowSnapshot e w.next).2).2)
        else (false, (EnsureNoOverflowSnapshot e w.next).2) := by
  unfold FinishedSnapshotWrites
  simp only [World.ask, hlock, Bool.not_true, Bool.false_eq_true, if_false, ReadUpdateState_next,
    hstate]
  rw [if_neg (by decide), if_neg (by simp)]
  by_cases h1 : (EnsureNoOverflowSnapshot e w.next).1 = true
  · by_cases h2 :
        (UpdateForwardMergeIndicator e wipe (EnsureNoOverflowSnapshot e w.next).2).1 = true
    · simp [h1, h2]
    · simp [h1, h2]
  · simp [h1]

/-- C19: `FinishedSnapshotWrites(wipe)` called in state `Initiated` returns
true when the lock is taken, the overflow check passes and the file
operations succeed, and whenever it returns true it leaves: persisted state
`Unverified`, the boot indicator holding exactly the device's slot suffix, no
rollback indicator, the forward-merge indicator present if and only if `wipe`,
the status files untouched.  Called in state `Unverified` (the lock taken) it
returns true and changes no file; in every other state it returns false and
changes no file. -/
theorem FinishedSnapshotWrites_transitions (e : Env) (wipe : Bool) (w : World) :
    (ReadUpdateState w = UpdateState.Initiated →
      (FinishedSnapshotWrites e wipe w).1 = true →
      ReadUpdateState (FinishedSnapshotWrites e wipe w).2 = UpdateState.Unverified ∧
      (FinishedSnapshotWrites e wipe w).2.fs.bootIndicator = some e.slotSuffix ∧
      (FinishedSnapshotWrites e wipe w).2.fs.rollbackIndicator = false ∧
      (FinishedSnapshotWrites e wipe w).2.fs.forwardMergeIndicator = wipe ∧
      (FinishedSnapshotWrites e wipe w).2.fs.snapshots = w.fs.snapshots) ∧
    (ReadUpdateState w = UpdateState.Initiated → e.lockOk w.tick = true →
      (EnsureNoOverflowSnapshot e w.next).1 = true →
      (∀ t, e.writeFileOk t = true) → (∀ t, e.removeFileOk t = true) →
      (∀ t, e.setMergeStatusOk t = true) →
      (FinishedSnapshotWrites e wipe w).1 = true) ∧
    (ReadUpdateState w = UpdateState.Unverified → e.lockOk w.tick = true →
      (FinishedSnapshotWrites e wipe w).1 = true ∧
      Quiet w (FinishedSnapshotWrites e wipe w).2) ∧
    (ReadUpdateState w ≠ UpdateState.Initiated → ReadUpdateState w ≠ UpdateState.Unverified →
      (FinishedSnapshotWrites e wipe w).1 = false ∧
      Quiet w (FinishedSnapshotWrites e wipe w).2) := by
  refine ⟨?_, ?_, ?_, ?_⟩
  · intro hstate hok
    have hlock : e.lockOk w.tick = true := by
      by_contra hl
      unfold FinishedSnapshotWrites at hok
      simp [World.ask, hl] at hok
    rw [FinishedSnapshotWrites_initiated e wipe w hstate hlock] at hok ⊢
    have hq := EnsureNoOverflowSnapshot_quiet e w.next
    split at hok
    · rename_i h1
      rw [if_pos h1]
      split at hok
      · rename_i h2
        rw [if_pos h2]
        obtain ⟨hf, _⟩ := UpdateForwardMergeIndicator_ok e wipe _ h2
        obtain ⟨hs, hfs⟩ := commitSnapshotWrites_ok e _ hok
        rw [hf, hq.1] at hfs
        refine ⟨hs, ?_, ?_, ?_, ?_⟩
        · have hx := congrArg Files.bootIndicator hfs
          exact hx
        · have hx := congrArg Files.rollbackIndicator hfs
          exact hx
        · have hx := congrArg Files.forwardMergeIndicator hfs
          exact hx
        · have hx := congrArg Files.snapshots hfs
          exact hx
      · simp at hok
    · simp at hok
  · intro hstate hlock hover hw hr hs
    rw [FinishedSnapshotWrites_initiated e wipe w hstate hlock, if_pos hover]
    have h2 : (UpdateForwardMergeIndicator e wipe (EnsureNoOverflowSnapshot e w.next).2).1
        = true := by
      unfold UpdateForwardMergeIndicator RemoveFileIfExists
      cases wipe <;> simp [World.ask, hw, hr]
    rw [if_pos h2]
    unfold commitSnapshotWrites RemoveFileIfExists WriteUpdateState
    simp only [World.ask, hw, hr, Bool.not_true, Bool.false_eq_true, if_false]
    exact WriteSnapshotUpdateStatus_ok e _ _ hw hs
  · intro hstate hlock
    have hres : FinishedSnapshotWrites e wipe w = (true, w.next) := by
      unfold FinishedSnapshotWrites
      simp [World.ask, hlock, hstate]
    rw [hres]
    exact ⟨rfl, rfl, rfl⟩
  · intro h1 h2
    have hres : FinishedSnapshotWrites e wipe w = (false, w.next) := by
      unfold FinishedSnapshotWrites
      by_cases hlock : e.lockOk w.tick = true
      · simp [World.ask, hlock, h1, h2]
      · simp [World.ask, hlock]
    rw [hres]
    exact ⟨rfl, rfl, rfl⟩

/-- Witness for `FinishedSnapshotWrites_transitions`: finishing the writes of
`initiatedWorld` on slot `_a` with a wipe requested. -/
theorem FinishedSnapshotWrites_transitions_witness :
    (FinishedSnapshotWrites (calmEnv "_a" "_b") true initiatedWorld).1 = true ∧
    ReadUpdateState (FinishedSnapshotWrites (calmEnv "_a" "_b") true initiatedWorld).2
      = UpdateState.Unverified ∧
    (FinishedSnapshotWrites (calmEnv "_a" "_b") true initiatedWorld).2.fs.bootIndicator
      = some "_a" ∧
    (FinishedSnapshotWrites (calmEnv "_a" "_b") true initiatedWorld).2.fs.rollbackIndicator
      = false ∧
    (FinishedSnapshotWrites (calmEnv "_a" "_b") true initiatedWorld).2.fs.forwardMergeIndicator
      = true :=
  have hok := (FinishedSnapshotWrites_transitions (calmEnv "_a" "_b") true initiatedWorld).2.1
    (by decide) (by decide) (by decide) (fun _ => rfl) (fun _ => rfl) (fun _ => rfl)
  have hpost := (FinishedSnapshotWrites_transitions (calmEnv "_a" "_b") true initiatedWorld).1
    (by decide) hok
  ⟨hok, hpost.1, hpost.2.1, hpost.2.2.1, hpost.2.2.2.1⟩

/-! ## AcknowledgeMergeFailure: the frame -/

theorem statusToWrite_MergeFailed (e : Env) (code : MergeFailureCode) (w : World) :
    (statusToWrite e UpdateState.MergeFailed code w).state = UpdateState.MergeFailed ∧
    (statusToWrite e UpdateState.MergeFailed code w).merge_failure_code = code := by
  unfold statusToWrite
  simp

/-- The files after `AcknowledgeMergeFailure`: as before, or with the state
file holding `MergeFailed` and the code given, which takes a persisted state
of `Merging` or `MergeNeedsReboot`. -/
theorem AcknowledgeMergeFailure_cases (e : Env) (code : MergeFailureCode) (w : World) :
    (AcknowledgeMergeFailure e code w).fs = w.fs ∨
    ((ReadUpdateState w = UpdateState.Merging ∨
        ReadUpdateState w = UpdateState.MergeNeedsReboot) ∧
      (AcknowledgeMergeFailure e code w).fs.noState = w.fs.noState ∧
      (AcknowledgeMergeFailure e code w).fs.stateFile
        = StateFile.encoded (statusToWrite e UpdateState.MergeFailed code w)) := by
  unfold AcknowledgeMergeFailure
  dsimp only
  by_cases hl : e.lockOk w.tick = true
  · have hst : ReadUpdateState (w.ask e.lockOk).2 = ReadUpdateState w :=
      ReadUpdateState_congr (by simp)
    by_cases hs : ReadUpdateState w ≠ UpdateState.Merging ∧
        ReadUpdateState w ≠ UpdateState.MergeNeedsReboot
    · left
      simp [hl, hst, hs]
    · have hs2 : ReadUpdateState w = UpdateState.Merging ∨
          ReadUpdateState w = UpdateState.MergeNeedsReboot := by
        by_cases h1 : ReadUpdateState w = UpdateState.Merging
        · exact Or.inl h1
        · by_cases h2 : ReadUpdateState w = UpdateState.MergeNeedsReboot
          · exact Or.inr h2
          · exact absurd ⟨h1, h2⟩ hs
      simp only [World.ask_fst, hl, Bool.not_true, Bool.false_eq_true, if_false, hst, hs]
      have hsw : statusToWrite e UpdateState.MergeFailed code (w.ask e.lockOk).2
          = statusToWrite e UpdateState.MergeFailed code w := by
        unfold statusToWrite
        rw [@ReadSnapshotUpdateStatus_congr (w.ask e.lockOk).2 w (by simp)]
      have hns := WriteSnapshotUpdateStatus_noState e
        (statusToWrite e UpdateState.MergeFailed code w) (w.ask e.lockOk).2
      have hns2 : (WriteSnapshotUpdateStatus e
          (statusToWrite e UpdateState.MergeFailed code w) (w.ask e.lockOk).2).2.fs.noState
          = w.fs.noState := by
        rw [hns]
        simp
      unfold WriteUpdateState
      rw [hsw]
      rcases WriteSnapshotUpdateStatus_stateFile_cases e
        (statusToWrite e UpdateState.MergeFailed code w) (w.ask e.lockOk).2 with h | h
      · left
        exact Files.ext_of_noState hns2 (by rw [h]; simp)
      · right
        exact ⟨hs2, hns2, h⟩
  · left
    simp [hl]

/-- C30: `AcknowledgeMergeFailure(code)` leaves every persisted file as it was
when the persisted state is neither `Merging` nor `MergeNeedsReboot`; whenever
a file does change, the state was one of the two, the file is the state file
and the status it then holds has `state = MergeFailed` and
`merge_failure_code = code`; and in those two states, once the lock is taken
and the write goes through, the persisted status is that one. -/
theorem AcknowledgeMergeFailure_only_when_merging (e : Env) (code : MergeFailureCode)
    (w : World) :
    (ReadUpdateState w ≠ UpdateState.Merging →
      ReadUpdateState w ≠ UpdateState.MergeNeedsReboot →
      (AcknowledgeMergeFailure e code w).fs = w.fs) ∧
    ((AcknowledgeMergeFailure e code w).fs ≠ w.fs →
      (ReadUpdateState w = UpdateState.Merging ∨
        ReadUpdateState w = UpdateState.MergeNeedsReboot) ∧
      (AcknowledgeMergeFailure e code w).fs.noState = w.fs.noState ∧
      (ReadSnapshotUpdateStatus (AcknowledgeMergeFailure e code w)).state
        = UpdateState.MergeFailed ∧
      (ReadSnapshotUpdateStatus (AcknowledgeMergeFailure e code w)).merge_failure_code
        = code) ∧
    ((ReadUpdateState w = UpdateState.Merging ∨
        ReadUpdateState w = UpdateState.MergeNeedsReboot) →
      e.lockOk w.tick = true →
      (WriteUpdateState e UpdateState.MergeFailed code w.next).1 = true →
      (ReadSnapshotUpdateStatus (AcknowledgeMergeFailure e code w)).state
        = UpdateState.MergeFailed ∧
      (ReadSnapshotUpdateStatus (AcknowledgeMergeFailure e code w)).merge_failure_code
        = code) := by
  refine ⟨?_, ?_, ?_⟩
  · intro h1 h2
    rcases AcknowledgeMergeFailure_cases e code w with h | ⟨hs, _, _⟩
    · exact h
    · rcases hs with hs | hs
      · exact absurd hs h1
      · exact absurd hs h2
  · intro hne
    rcases AcknowledgeMergeFailure_cases e code w with h | ⟨hs, hns, hf⟩
    · exact absurd h hne
    · rw [ReadSnapshotUpdateStatus_encoded _ _ hf]
      exact ⟨hs, hns, statusToWrite_MergeFailed e code w⟩
  · intro hs hl hw
    have hst : ReadUpdateState w.next = ReadUpdateState w := ReadUpdateState_congr (by simp)
    have hcond : ¬ (ReadUpdateState w ≠ UpdateState.Merging ∧
        ReadUpdateState w ≠ UpdateState.MergeNeedsReboot) := by
      rintro ⟨h1, h2⟩
      rcases hs with hs | hs
      · exact h1 hs
      · exact h2 hs
    have hrun : AcknowledgeMergeFailure e code w
        = (WriteUpdateState e UpdateState.MergeFailed code w.next).2 := by
      unfold AcknowledgeMergeFailure
      simp [World.ask, hl, hst, hcond]
    rw [hrun]
    unfold WriteUpdateState at hw ⊢
    rw [ReadSnapshotUpdateStatus_encoded _ _ (WriteSnapshotUpdateStatus_stateFile e _ _ hw)]
    exact statusToWrite_MergeFailed e code w.next

/-- Witness for `AcknowledgeMergeFailure_only_when_merging`: a merge in
progress is marked as failed with the code given. -/
theorem AcknowledgeMergeFailure_only_when_merging_witness :
    (ReadSnapshotUpdateStatus
      (AcknowledgeMergeFailure (calmEnv "_b" "_a") MergeFailureCode.QuerySnapshotStatus
        mergingWorld)).state = UpdateState.MergeFailed ∧
    (ReadSnapshotUpdateStatus
      (AcknowledgeMergeFailure (calmEnv "_b" "_a") MergeFailureCode.QuerySnapshotStatus
        mergingWorld)).merge_failure_code = MergeFailureCode.QuerySnapshotStatus :=
  (AcknowledgeMergeFailure_only_when_merging (calmEnv "_b" "_a")
    MergeFailureCode.QuerySnapshotStatus mergingWorld).2.2 (by decide) (by decide) (by decide)

/-! ## WriteSnapshotUpdateStatus: order of the boot-control call and the write -/

/-- C26 (as stated, refuted): in a build without `LIBSNAPSHOT_USE_HAL`,
`WriteSnapshotUpdateStatus` leaves the state file holding `Merging` without
any boot-control merge status having been set: the only event of the call is
the write of the file. -/
theorem WriteSnapshotUpdateStatus_no_hal_counterexample :
    (calmEnv "_b" "_a").useHal = false ∧
    (WriteSnapshotUpdateStatus (calmEnv "_b" "_a") { state := UpdateState.Merging } {}).1
      = true ∧
    (WriteSnapshotUpdateStatus (calmEnv "_b" "_a") { state := UpdateState.Merging } {}).2.fs.stateFile
      = StateFile.encoded { state := UpdateState.Merging } ∧
    (WriteSnapshotUpdateStatus (calmEnv "_b" "_a") { state := UpdateState.Merging } {}).2.trace
      = [Event.writeGlobal { state := UpdateState.Merging } true] := by
  decide

/-- C26 (amended): in a build with `LIBSNAPSHOT_USE_HAL`, a call of
`WriteSnapshotUpdateStatus` with state `Unverified`, `Merging` or
`MergeFailed` first sets the boot-control merge status `SNAPSHOTTED` (for
`Unverified`) or `MERGING`; if that fails the call fails, nothing more
happens and the files are untouched, otherwise the write of the state file
follows.  With state `None`, `Initiated`, `MergeCompleted` or
`MergeNeedsReboot` the file is written first; if that fails the call fails
with the files untouched and no boot-control call, otherwise the file holds
the status and the merge status `NONE` is set afterwards. -/
theorem WriteSnapshotUpdateStatus_boot_control_order (e : Env) (status : SnapshotUpdateStatus)
    (w : World) (hhal : e.useHal = true) :
    ((status.state = UpdateState.Unverified ∨ status.state = UpdateState.Merging ∨
        status.state = UpdateState.MergeFailed) →
      ((WriteSnapshotUpdateStatus e status w).1 = false ∧
        (WriteSnapshotUpdateStatus e status w).2.fs = w.fs ∧
        (WriteSnapshotUpdateStatus e status w).2.trace = w.trace ++
          [Event.setBootControlMergeStatus
            (if status.state = UpdateState.Unverified then MergeStatus.SNAPSHOTTED
             else MergeStatus.MERGING) false]) ∨
      (∃ ok, (WriteSnapshotUpdateStatus e status w).1 = ok ∧
        (ok = false → (WriteSnapshotUpdateStatus e status w).2.fs = w.fs) ∧
        (ok = true → (WriteSnapshotUpdateStatus e status w).2.fs.stateFile
          = StateFile.encoded status) ∧
        (WriteSnapshotUpdateStatus e status w).2.trace = w.trace ++
          [Event.setBootControlMergeStatus
            (if status.state = UpdateState.Unverified then MergeStatus.SNAPSHOTTED
             else MergeStatus.MERGING) true,
           Event.writeGlobal status ok])) ∧
    ((status.state = UpdateState.None ∨ status.state = UpdateState.Initiated ∨
        status.state = UpdateState.MergeCompleted ∨
        status.state = UpdateState.MergeNeedsReboot) →
      ((WriteSnapshotUpdateStatus e status w).1 = false ∧
        (WriteSnapshotUpdateStatus e status w).2.fs = w.fs ∧
        (WriteSnapshotUpdateStatus e status w).2.trace = w.trace ++
          [Event.writeGlobal status false]) ∨
      (∃ ok, (WriteSnapshotUpdateStatus e status w).1 = ok ∧
        (WriteSnapshotUpdateStatus e status w).2.fs.stateFile = StateFile.encoded status ∧
        (WriteSnapshotUpdateStatus e status w).2.trace = w.trace ++
          [Event.writeGlobal status true,
           Event.setBootControlMergeStatus MergeStatus.NONE ok])) := by
  constructor
  · intro hs
    have hms : mergeStatusOf status.state
        = (if status.state = UpdateState.Unverified then MergeStatus.SNAPSHOTTED
           else MergeStatus.MERGING) := by
      rcases hs with h | h | h <;> rw [h] <;> rfl
    have hbefore : (decide (mergeStatusOf status.state = MergeStatus.SNAPSHOTTED) ||
        decide (mergeStatusOf status.state = MergeStatus.MERGING)) = true := by
      rcases hs with h | h | h <;> rw [h] <;> rfl
    unfold WriteSnapshotUpdateStatus SetBootControlMergeStatus writeStateFile
    simp only [hhal, hbefore, if_true, World.ask, ← hms]
    by_cases h1 : e.setMergeStatusOk w.tick = true
    · right
      by_cases h2 : e.writeFileOk (w.next.log
          (Event.setBootControlMergeStatus (mergeStatusOf status.state) true)).tick = true
      · refine ⟨true, ?_, ?_, ?_, ?_⟩ <;> simp_all [World.log, World.next]
      · refine ⟨false, ?_, ?_, ?_, ?_⟩ <;> simp_all [World.log, World.next]
    · left
      simp_all [World.log, World.next]
  · intro hs
    have hms : mergeStatusOf status.state = MergeStatus.NONE := by
      rcases hs with h | h | h | h <;> rw [h] <;> rfl
    unfold WriteSnapshotUpdateStatus SetBootControlMergeStatus writeStateFile
    simp only [hhal, hms, if_true, World.ask]
    by_cases h1 : e.writeFileOk w.tick = true
    · right
      refine ⟨e.setMergeStatusOk (w.tick + 1), ?_, ?_, ?_⟩
      · simp [h1, World.log, World.next]
        cases e.setMergeStatusOk (w.tick + 1) <;> simp
      · simp [h1, World.log, World.next]
        cases e.setMergeStatusOk (w.tick + 1) <;> simp
      · simp [h1, World.log, World.next]
        cases e.setMergeStatusOk (w.tick + 1) <;> simp
    · left
      simp_all [World.log, World.next]

/-- Witness for `WriteSnapshotUpdateStatus_boot_control_order`: with the HAL,
persisting `Merging` sets `MERGING` before the file is written. -/
theorem WriteSnapshotUpdateStatus_boot_control_order_witness :
    ({ calmEnv "_b" "_a" with useHal := true } : Env).useHal = true ∧
    (WriteSnapshotUpdateStatus { calmEnv "_b" "_a" with useHal := true }
        { state := UpdateState.Merging } {}).2.trace
      = [Event.setBootControlMergeStatus MergeStatus.MERGING true,
         Event.writeGlobal { state := UpdateState.Merging } true] := by
  refine ⟨rfl, ?_⟩
  rcases (WriteSnapshotUpdateStatus_boot_control_order
    { calmEnv "_b" "_a" with useHal := true } { state := UpdateState.Merging } {} rfl).1
    (Or.inr (Or.inl rfl)) with h | ⟨ok, _, _, _, h⟩
  · exact absurd h.1 (by decide)
  · decide

/-! ## CheckTargetMergeState: the wrong-phase answer -/

theorem toInt64_of_range (x : Int) (h1 : -(2 ^ 63) ≤ x) (h2 : x < 2 ^ 63) : toInt64 x = x := by
  unfold toInt64
  rw [Int.emod_eq_of_lt (by linarith) (by linarith)]
  ring

/-- `remainingTime` when nothing overflows: the time left, or the minimum once
the deadline has passed. -/
theorem remainingTime_of_range (timeout : Int) (begin now : Nat) (h0 : timeout ≠ 0)
    (hnow : begin ≤ now) (hclock : (now : Int) < 2 ^ 63)
    (h1 : -(2 ^ 63) ≤ timeout - ((now - begin) / 1000000 : Nat))
    (h2 : timeout - ((now - begin) / 1000000 : Nat) < 2 ^ 63) :
    remainingTime timeout begin now
      = (if timeout - ((now - begin) / 1000000 : Nat) ≤ 0 then millisecondsMin
         else timeout - ((now - begin) / 1000000 : Nat)) := by
  unfold remainingTime
  rw [if_neg h0]
  have hsub : ((now : Int) - (begin : Int)) = ((now - begin : Nat) : Int) := by
    rw [Nat.cast_sub hnow]
  have hpassed : toInt64 ((now : Int) - (begin : Int)) = ((now - begin : Nat) : Int) := by
    rw [hsub]
    apply toInt64_of_range
    · have : (0 : Int) ≤ ((now - begin : Nat) : Int) := Int.natCast_nonneg _
      linarith
    · have : ((now - begin : Nat) : Int) ≤ (now : Int) := by
        exact_mod_cast Nat.sub_le now begin
      linarith
  have hdiv : Int.tdiv ((now - begin : Nat) : Int) 1000000
      = (((now - begin) / 1000000 : Nat) : Int) := by
    rw [Int.tdiv_eq_ediv (Int.natCast_nonneg _) (by norm_num), Int.natCast_div]
    rfl
  dsimp only
  rw [hpassed, hdiv, toInt64_of_range _ h1 h2]

/-- C28: `GetRemainingTime(timeout, begin)`, all counts being 64-bit and no
subtraction overflowing, with `elapsed` the whole milliseconds between `begin`
and the clock reading: it returns 0 for a timeout of 0; for a non-zero timeout
it returns `timeout - elapsed` when that is positive and
`milliseconds::min()`, a negative value, otherwise, hence never 0; the result
is negative exactly when the timeout is non-zero and used up; and the caller's
check (`MapPartitionWithSnapshot`, before it waits for the base device) fails
the operation exactly then, going on to wait for the device otherwise. -/
theorem GetRemainingTime_deadline (e : Env) (timeout : Int) (begin : Nat) (base_path : String)
    (w : World) (hnow : begin ≤ e.steadyClockNow w.tick)
    (hclock : (e.steadyClockNow w.tick : Int) < 2 ^ 63)
    (h1 : -(2 ^ 63) ≤ timeout - ((e.steadyClockNow w.tick - begin) / 1000000 : Nat))
    (h2 : timeout - ((e.steadyClockNow w.tick - begin) / 1000000 : Nat) < 2 ^ 63) :
    (timeout = 0 → (GetRemainingTime e timeout begin w).1 = 0) ∧
    (timeout ≠ 0 → 0 < timeout - ((e.steadyClockNow w.tick - begin) / 1000000 : Nat) →
      (GetRemainingTime e timeout begin w).1
        = timeout - ((e.steadyClockNow w.tick - begin) / 1000000 : Nat)) ∧
    (timeout ≠ 0 → timeout - ((e.steadyClockNow w.tick - begin) / 1000000 : Nat) ≤ 0 →
      (GetRemainingTime e timeout begin w).1 = millisecondsMin) ∧
    millisecondsMin < 0 ∧
    (timeout ≠ 0 → (GetRemainingTime e timeout begin w).1 ≠ 0) ∧
    ((GetRemainingTime e timeout begin w).1 < 0 ↔
      timeout ≠ 0 ∧ timeout ≤ ((e.steadyClockNow w.tick - begin) / 1000000 : Nat)) ∧
    ((awaitBaseDevice e timeout begin base_path w).1 = false ↔
      (timeout ≠ 0 ∧ timeout ≤ ((e.steadyClockNow w.tick - begin) / 1000000 : Nat)) ∨
      e.waitForDevice (GetRemainingTime e timeout begin w).2.tick base_path = false) := by
  have hmin : millisecondsMin < 0 := by unfold millisecondsMin; norm_num
  have hzero : timeout = 0 → (GetRemainingTime e timeout begin w).1 = 0 := by
    intro h
    unfold GetRemainingTime
    rw [if_pos h]
  have hval : timeout ≠ 0 → (GetRemainingTime e timeout begin w).1
      = (if timeout - ((e.steadyClockNow w.tick - begin) / 1000000 : Nat) ≤ 0 then
           millisecondsMin
         else timeout - ((e.steadyClockNow w.tick - begin) / 1000000 : Nat)) := by
    intro h
    unfold GetRemainingTime
    rw [if_neg h]
    exact remainingTime_of_range timeout begin _ h hnow hclock h1 h2
  have hneg : (GetRemainingTime e timeout begin w).1 < 0 ↔
      timeout ≠ 0 ∧ timeout ≤ ((e.steadyClockNow w.tick - begin) / 1000000 : Nat) := by
    by_cases h0 : timeout = 0
    · rw [hzero h0]
      simp [h0]
    · rw [hval h0]
      by_cases hle : timeout - ((e.steadyClockNow w.tick - begin) / 1000000 : Nat) ≤ 0
      · rw [if_pos hle]
        exact ⟨fun _ => ⟨h0, by linarith⟩, fun _ => hmin⟩
      · rw [if_neg hle]
        constructor
        · intro h
          exact absurd (le_of_lt h) hle
        · rintro ⟨_, h⟩
          exact absurd (by linarith) hle
  refine ⟨hzero, ?_, ?_, hmin, ?_, hneg, ?_⟩
  · intro h0 hpos
    rw [hval h0, if_neg (not_le.mpr hpos)]
  · intro h0 hle
    rw [hval h0, if_pos hle]
  · intro h0
    rw [hval h0]
    split
    · exact ne_of_lt hmin
    · rename_i hle
      exact fun h => hle (le_of_eq h)
  · unfold awaitBaseDevice
    dsimp only
    by_cases hlt : (GetRemainingTime e timeout begin w).1 < 0
    · rw [if_pos hlt]
      exact ⟨fun _ => Or.inl (hneg.mp hlt), fun _ => rfl⟩
    · rw [if_neg hlt]
      constructor
      · intro h
        exact Or.inr h
      · rintro (h | h)
        · exact absurd (hneg.mpr h) hlt
        · exact h

/-- Witness for `GetRemainingTime_deadline`: five seconds into a timeout of
twenty seconds, fifteen seconds remain. -/
theorem GetRemainingTime_deadline_witness :
    (GetRemainingTime fiveSecondsEnv 20000 0 {}).1 = 20000 - ((5000000000 - 0) / 1000000 : Nat) :=
  (GetRemainingTime_deadline fiveSecondsEnv 20000 0 "/dev/block/mapper/system_b" {}
    (by decide) (by norm_num [fiveSecondsEnv]) (by norm_num [fiveSecondsEnv])
    (by norm_num [fiveSecondsEnv])).2.1 (by decide) (by norm_num [fiveSecondsEnv])

/-! ## NeedSnapshotsInFirstStageMount -/

/-- What `noteRollback` does: one attempted write of the rollback indicator,
which is there afterwards when the write went through. -/
theorem noteRollback_effect (e : Env) (w : World) :
    (noteRollback e w).trace = w.trace ++ [Event.writeRollbackIndicator (e.writeFileOk w.tick)] ∧
    (noteRollback e w).fs
      = (if e.writeFileOk w.tick = true then { w.fs with rollbackIndicator := true }
         else w.fs) := by
  unfold noteRollback
  dsimp only [World.ask]
  cases h : e.writeFileOk w.tick
  · simp [World.log, World.next]
  · cases e.isTempMetadata <;> simp [World.log, World.next]

/-- C21: `NeedSnapshotsInFirstStageMount`, the lock being obtainable, answers
`true` exactly when the without-slot-switch marker exists and the current
slot is `Source`, or the marker is absent, the current slot is `Target` and
the persisted state is `Unverified`, `Merging` or `MergeFailed`.  With the
marker absent and the current slot `Source` it answers `false` and makes one
write of the rollback indicator, which exists afterwards when the write went
through; in every other case it writes nothing and changes no file. -/
theorem NeedSnapshotsInFirstStageMount_decides (e : Env) (w : World)
    (hlock : e.lockOk w.tick = true) :
    ((NeedSnapshotsInFirstStageMount e w).1 = true ↔
      (IsSnapshotWithoutSlotSwitch w = true ∧ GetCurrentSlot e w = Slot.Source) ∨
      (IsSnapshotWithoutSlotSwitch w = false ∧ GetCurrentSlot e w = Slot.Target ∧
        (ReadUpdateState w = UpdateState.Unverified ∨ ReadUpdateState w = UpdateState.Merging ∨
          ReadUpdateState w = UpdateState.MergeFailed))) ∧
    (IsSnapshotWithoutSlotSwitch w = false ∧ GetCurrentSlot e w = Slot.Source →
      (NeedSnapshotsInFirstStageMount e w).1 = false ∧
      (NeedSnapshotsInFirstStageMount e w).2.trace
        = w.trace ++ [Event.writeRollbackIndicator (e.writeFileOk w.tick)] ∧
      (NeedSnapshotsInFirstStageMount e w).2.fs
        = (if e.writeFileOk w.tick = true then { w.fs with rollbackIndicator := true }
           else w.fs)) ∧
    (¬ (IsSnapshotWithoutSlotSwitch w = false ∧ GetCurrentSlot e w = Slot.Source) →
      (NeedSnapshotsInFirstStageMount e w).2.trace = w.trace ∧
      (NeedSnapshotsInFirstStageMount e w).2.fs = w.fs) := by
  have hst : ReadUpdateState (w.ask e.lockOk).2 = ReadUpdateState w :=
    ReadUpdateState_congr (by simp)
  have hroll := noteRollback_effect e w
  unfold NeedSnapshotsInFirstStageMount
  cases hm : IsSnapshotWithoutSlotSwitch w
  · cases hs : GetCurrentSlot e w
    · simp
    · simp [hroll]
    · simp only [Bool.false_eq_true, if_false, World.ask_fst, hlock, hst]
      cases hu : ReadUpdateState w <;> simp
  · cases hs : GetCurrentSlot e w <;> simp

/-- Witness for `NeedSnapshotsInFirstStageMount_decides`: booting into the
original slot with an unverified update writes the rollback indicator and
mounts no snapshots. -/
theorem NeedSnapshotsInFirstStageMount_decides_witness :
    (NeedSnapshotsInFirstStageMount (calmEnv "_a" "_b") rolledBackWorld).1 = false ∧
    (NeedSnapshotsInFirstStageMount (calmEnv "_a" "_b") rolledBackWorld).2.trace
      = rolledBackWorld.trace ++
        [Event.writeRollbackIndicator ((calmEnv "_a" "_b").writeFileOk rolledBackWorld.tick)] ∧
    (NeedSnapshotsInFirstStageMount (calmEnv "_a" "_b") rolledBackWorld).2.fs
      = (if (calmEnv "_a" "_b").writeFileOk rolledBackWorld.tick = true then
           { rolledBackWorld.fs with rollbackIndicator := true }
         else rolledBackWorld.fs) :=
  (NeedSnapshotsInFirstStageMount_decides (calmEnv "_a" "_b") rolledBackWorld
    (by decide)).2.1 (by decide)

/-! ## InitiateMerge: switching the merge group -/

/-- The code `switchAll` returns: the one it was given unless that is `Ok`,
then the first failure of the calls it makes. -/
theorem switchAll_code (e : Env) (l : List String) (code : MergeFailureCode) (w : World) :
    (switchAll e l code w).1
      = (if code ≠ MergeFailureCode.Ok then code else firstFailure (switchCodes e l w)) := by
  induction l generalizing w code with
  | nil =>
    unfold switchAll switchCodes firstFailure
    by_cases h : code = MergeFailureCode.Ok <;> simp [h]
  | cons n rest ih =>
    unfold switchAll switchCodes
    dsimp only
    rw [ih]
    by_cases h : code = MergeFailureCode.Ok
    · by_cases h2 : (SwitchSnapshotToMerge e n w).1 = MergeFailureCode.Ok
      · simp [h, h2, firstFailure]
      · simp [h, h2, firstFailure]
    · by_cases h2 : (SwitchSnapshotToMerge e n w).1 = MergeFailureCode.Ok
      · simp [h, h2]
      · simp [h, h2]

/-- C24 (as stated, refuted): in the shrink scenario with a daemon that
refuses the merge request and a file system that takes no write after the one
of `Merging`, `InitiateMerge` returns `true`, the switch of `system_b` has
failed, yet the persisted state is still `Merging`: the write of `MergeFailed`
did not go through and its result is ignored. -/
theorem InitiateMerge_unrecorded_failure_counterexample :
    (InitiateMerge refusingEnv (shrinkWorld true)).1 = true ∧
    (InitiateMerge refusingEnv (shrinkWorld true)).2.trace.filterMap
        (fun ev =>
          match ev with
          | Event.switchToMerge name _ _ ok => some (name, ok)
          | _ => none)
      = [("system_b", false)] ∧
    (InitiateMerge refusingEnv (shrinkWorld true)).2.trace.filterMap
        (fun ev =>
          match ev with
          | Event.writeGlobal status ok => some (status.state, status.merge_failure_code, ok)
          | _ => none)
      = [(UpdateState.Merging, MergeFailureCode.Ok, true),
         (UpdateState.MergeFailed, MergeFailureCode.UnknownTable, false)] ∧
    ReadUpdateState (InitiateMerge refusingEnv (shrinkWorld true)).2 = UpdateState.Merging := by
  decide

/-- C24 (amended): when the checks of `InitiateMerge` pass and the write of
`Merging` goes through, `InitiateMerge` returns `true` and hands every
snapshot of the merge group to `SwitchSnapshotToMerge`, in group order,
whatever the individual outcomes.  If no switch fails (in particular for an
empty group) the state file keeps the status just written, with state
`Merging`.  If one fails, a write of `MergeFailed` with the code of the first
failing snapshot is attempted; when that write goes through the persisted
state is `MergeFailed` with that code, and otherwise (its result is ignored)
the state file keeps the status with state `Merging`. -/
theorem InitiateMerge_switches_whole_group (e : Env) (w : World)
    (snapshots : List String) (plan : MergePlan)
    (hprep : (prepareMerge e w).1 = some (snapshots, plan))
    (hwrite : (WriteSnapshotUpdateStatus e
        (initialStatus e plan (prepareMerge e w).2).1
        (initialStatus e plan (prepareMerge e w).2).2).1 = true) :
    (InitiateMerge e w).1 = true ∧
    (initialStatus e plan (prepareMerge e w).2).1.state = UpdateState.Merging ∧
    Appends
      (WriteSnapshotUpdateStatus e (initialStatus e plan (prepareMerge e w).2).1
        (initialStatus e plan (prepareMerge e w).2).2).2
      (InitiateMerge e w).2 (mergeGroup snapshots plan) ∧
    (firstFailure (switchCodes e (mergeGroup snapshots plan)
        (WriteSnapshotUpdateStatus e (initialStatus e plan (prepareMerge e w).2).1
          (initialStatus e plan (prepareMerge e w).2).2).2) = MergeFailureCode.Ok →
      ReadSnapshotUpdateStatus (InitiateMerge e w).2
        = (initialStatus e plan (prepareMerge e w).2).1) ∧
    (firstFailure (switchCodes e (mergeGroup snapshots plan)
        (WriteSnapshotUpdateStatus e (initialStatus e plan (prepareMerge e w).2).1
          (initialStatus e plan (prepareMerge e w).2).2).2) ≠ MergeFailureCode.Ok →
      (InitiateMerge e w).2
        = (WriteUpdateState e UpdateState.MergeFailed
            (firstFailure (switchCodes e (mergeGroup snapshots plan)
              (WriteSnapshotUpdateStatus e (initialStatus e plan (prepareMerge e w).2).1
                (initialStatus e plan (prepareMerge e w).2).2).2))
            (switchAll e (mergeGroup snapshots plan) MergeFailureCode.Ok
              (WriteSnapshotUpdateStatus e (initialStatus e plan (prepareMerge e w).2).1
                (initialStatus e plan (prepareMerge e w).2).2).2).2).2 ∧
      ((WriteUpdateState e UpdateState.MergeFailed
          (firstFailure (switchCodes e (mergeGroup snapshots plan)
            (WriteSnapshotUpdateStatus e (initialStatus e plan (prepareMerge e w).2).1
              (initialStatus e plan (prepareMerge e w).2).2).2))
          (switchAll e (mergeGroup snapshots plan) MergeFailureCode.Ok
            (WriteSnapshotUpdateStatus e (initialStatus e plan (prepareMerge e w).2).1
              (initialStatus e plan (prepareMerge e w).2).2).2).2).1 = true →
        (ReadSnapshotUpdateStatus (InitiateMerge e w).2).state = UpdateState.MergeFailed ∧
        (ReadSnapshotUpdateStatus (InitiateMerge e w).2).merge_failure_code
          = firstFailure (switchCodes e (mergeGroup snapshots plan)
              (WriteSnapshotUpdateStatus e (initialStatus e plan (prepareMerge e w).2).1
                (initialStatus e plan (prepareMerge e w).2).2).2))) := by
  have hpair : prepareMerge e w = (some (snapshots, plan), (prepareMerge e w).2) := by
    rw [← hprep]
  obtain ⟨_, _, hread, hgroup, _, _⟩ := prepareMerge_some e w _ snapshots plan hpair
  generalize (prepareMerge e w).2 = w1 at hpair hwrite hread hgroup ⊢
  have hq := initialStatus_quiet e plan w1
  have hst := initialStatus_state e plan w1
  generalize hwc : (WriteSnapshotUpdateStatus e (initialStatus e plan w1).1
    (initialStatus e plan w1).2).2 = wc at *
  have hfile : wc.fs.stateFile = StateFile.encoded (initialStatus e plan w1).1 := by
    rw [← hwc]
    exact WriteSnapshotUpdateStatus_stateFile e _ _ hwrite
  have hreadable : ∀ n ∈ mergeGroup snapshots plan, (ReadSnapshotStatus wc n).isSome = true := by
    intro n hn
    have hmem : n ∈ snapshots := by
      unfold mergeGroup at hn
      split at hn
      · exact hn
      · rw [hgroup] at hn
        exact List.mem_of_mem_filter hn
    have hsn : wc.fs.snapshots = w1.fs.snapshots := by
      rw [← hwc]
      exact (WriteSnapshotUpdateStatus_snapshots e _ _).trans (congrArg Files.snapshots hq.1)
    rw [@ReadSnapshotStatus_of_snapshots _ w1 hsn]
    exact hread n hmem
  have hsw := switchAll_appends e (mergeGroup snapshots plan) MergeFailureCode.Ok wc hreadable
  have hcode := switchAll_code e (mergeGroup snapshots plan) MergeFailureCode.Ok wc
  rw [if_neg (by simp)] at hcode
  have hrun : InitiateMerge e w
      = (true,
          if firstFailure (switchCodes e (mergeGroup snapshots plan) wc) ≠ MergeFailureCode.Ok
          then
            (WriteUpdateState e UpdateState.MergeFailed
              (firstFailure (switchCodes e (mergeGroup snapshots plan) wc))
              (switchAll e (mergeGroup snapshots plan) MergeFailureCode.Ok wc).2).2
          else (switchAll e (mergeGroup snapshots plan) MergeFailureCode.Ok wc).2) := by
    unfold InitiateMerge
    rw [hpair]
    dsimp only
    rw [hwc, hwrite]
    simp only [Bool.not_true, Bool.false_eq_true, if_false]
    rw [hcode]
  have hkeep : (switchAll e (mergeGroup snapshots plan) MergeFailureCode.Ok wc).2.fs.stateFile
      = wc.fs.stateFile := stateFile_of_noSnapshots (switchAll_noSnapshots e _ _ wc)
  rw [hrun]
  refine ⟨rfl, hst.1, ?_, ?_, ?_⟩
  · dsimp only
    split
    · exact Appends.nil_trans hsw (WriteUpdateState_appends e _ _ _)
    · exact hsw
  · intro hok
    dsimp only
    rw [if_neg (by simpa using hok)]
    exact ReadSnapshotUpdateStatus_encoded _ _ (hkeep.trans hfile)
  · intro hbad
    dsimp only
    rw [if_pos hbad]
    refine ⟨rfl, ?_⟩
    intro hw2
    unfold WriteUpdateState at hw2 ⊢
    rw [ReadSnapshotUpdateStatus_encoded _ _ (WriteSnapshotUpdateStatus_stateFile e _ _ hw2)]
    exact statusToWrite_MergeFailed e _ _

/-- Witness for `InitiateMerge_switches_whole_group`: in the shrink scenario
with every collaborator answering favourably no switch fails and the persisted
state stays `Merging`. -/
theorem InitiateMerge_switches_whole_group_witness :
    (InitiateMerge (calmEnv "_b" "_a") (shrinkWorld true)).1 = true ∧
    (initialStatus (calmEnv "_b" "_a")
        { using_snapuserd := true, first_merge_group := ["system_b"] }
        (prepareMerge (calmEnv "_b" "_a") (shrinkWorld true)).2).1.state
      = UpdateState.Merging :=
  have h := InitiateMerge_switches_whole_group (calmEnv "_b" "_a") (shrinkWorld true)
    ["system_b", "vendor_b"] { using_snapuserd := true, first_merge_group := ["system_b"] }
    (by decide) (by decide)
  ⟨h.1, h.2.1⟩

/-! ## MergeSecondPhaseSnapshots: the sweep -/

theorem isSecondPhase_switch (e : Env) (n m : String) (w : World) :
    isSecondPhase (SwitchSnapshotToMerge e n w).2 m = isSecondPhase w m := by
  unfold isSecondPhase
  cases h2 : ReadSnapshotStatus (SwitchSnapshotToMerge e n w).2 m with
  | none =>
    cases h1 : ReadSnapshotStatus w m with
    | none => rfl
    | some s =>
      have := SwitchSnapshotToMerge_readable e n w m (by rw [h1]; rfl)
      rw [h2] at this
      simp at this
  | some s2 =>
    obtain ⟨s, hs, hp⟩ := Keeps_switch e n w m s2 h2
    rw [hs]
    dsimp only
    rw [hp]

theorem secondPhaseGroup_switch (e : Env) (n : String) (w : World) (l : List String) :
    secondPhaseGroup e (SwitchSnapshotToMerge e n w).2 l = secondPhaseGroup e w l := by
  unfold secondPhaseGroup
  congr 1
  funext m
  rw [isSecondPhase_switch]

/-- While every snapshot with the current slot suffix can be read, the sweep
is the switching of the second-phase group. -/
theorem secondPhaseLoop_readable (e : Env) (l : List String) (result : MergeFailureCode)
    (w : World)
    (h : ∀ n ∈ l, EndsWith n e.slotSuffix = true → (ReadSnapshotStatus w n).isSome = true) :
    secondPhaseLoop e l result w = switchAll e (secondPhaseGroup e w l) result w := by
  induction l generalizing w result with
  | nil =>
    unfold secondPhaseLoop secondPhaseGroup switchAll
    rfl
  | cons n rest ih =>
    have hrest : ∀ m ∈ rest, EndsWith m e.slotSuffix = true →
        (ReadSnapshotStatus w m).isSome = true :=
      fun m hm => h m (List.mem_cons_of_mem _ hm)
    unfold secondPhaseLoop
    by_cases hsuf : EndsWith n e.slotSuffix = true
    · have hr := h n (List.mem_cons_self _ _) hsuf
      cases hst : ReadSnapshotStatus w n with
      | none => rw [hst] at hr; simp at hr
      | some st =>
        simp only [hsuf, Bool.not_true, Bool.false_eq_true, if_false]
        by_cases hp : DecideMergePhase st = MergePhase.SECOND_PHASE
        · have hin : secondPhaseGroup e w (n :: rest) = n :: secondPhaseGroup e w rest := by
            unfold secondPhaseGroup
            rw [List.filter_cons_of_pos]
            simp [hsuf, isSecondPhase, hst, hp]
          rw [hin]
          simp only [hp, ne_eq, not_true_eq_false, if_false]
          rw [ih _ _ (fun m hm hs => SwitchSnapshotToMerge_readable e n w m (hrest m hm hs)),
            secondPhaseGroup_switch]
          conv_rhs => unfold switchAll
        · have hout : secondPhaseGroup e w (n :: rest) = secondPhaseGroup e w rest := by
            unfold secondPhaseGroup
            rw [List.filter_cons_of_neg]
            simp [isSecondPhase, hst, hp]
          rw [hout]
          simp only [hp, ne_eq, not_false_eq_true, if_true]
          exact ih _ _ hrest
    · have hout : secondPhaseGroup e w (n :: rest) = secondPhaseGroup e w rest := by
        unfold secondPhaseGroup
        rw [List.filter_cons_of_neg]
        simp [hsuf]
      rw [hout]
      simp only [hsuf, Bool.not_false, if_true]
      exact ih _ _ hrest

/-- A snapshot with the current slot suffix whose status cannot be read ends
the sweep: what was switched is the second-phase group of the snapshots
listed before it, the code is `ReadStatus`. -/
theorem secondPhaseLoop_unreadable (e : Env) (pre post : List String) (bad : String)
    (result : MergeFailureCode) (w : World)
    (hsuf : EndsWith bad e.slotSuffix = true) (hbad : ReadSnapshotStatus w bad = none)
    (h : ∀ n ∈ pre, EndsWith n e.slotSuffix = true → (ReadSnapshotStatus w n).isSome = true) :
    secondPhaseLoop e (pre ++ bad :: post) result w
      = (MergeFailureCode.ReadStatus, (switchAll e (secondPhaseGroup e w pre) result w).2) := by
  induction pre generalizing w result with
  | nil =>
    unfold secondPhaseLoop secondPhaseGroup switchAll
    simp [hsuf, hbad]
  | cons n rest ih =>
    have hrest : ∀ m ∈ rest, EndsWith m e.slotSuffix = true →
        (ReadSnapshotStatus w m).isSome = true :=
      fun m hm => h m (List.mem_cons_of_mem _ hm)
    rw [List.cons_append]
    unfold secondPhaseLoop
    by_cases hs : EndsWith n e.slotSuffix = true
    · have hr := h n (List.mem_cons_self _ _) hs
      cases hst : ReadSnapshotStatus w n with
      | none => rw [hst] at hr; simp at hr
      | some st =>
        simp only [hs, Bool.not_true, Bool.false_eq_true, if_false]
        have hne : bad ≠ n := by
          intro heq
          rw [heq, hst] at hbad
          simp at hbad
        by_cases hp : DecideMergePhase st = MergePhase.SECOND_PHASE
        · have hin : secondPhaseGroup e w (n :: rest) = n :: secondPhaseGroup e w rest := by
            unfold secondPhaseGroup
            rw [List.filter_cons_of_pos]
            simp [hs, isSecondPhase, hst, hp]
          rw [hin]
          simp only [hp, ne_eq, not_true_eq_false, if_false]
          rw [ih _ _ ((SwitchSnapshotToMerge_read_other e n bad w hne).trans hbad)
            (fun m hm hs => SwitchSnapshotToMerge_readable e n w m (hrest m hm hs)),
            secondPhaseGroup_switch]
          conv_rhs => unfold switchAll
        · have hout : secondPhaseGroup e w (n :: rest) = secondPhaseGroup e w rest := by
            unfold secondPhaseGroup
            rw [List.filter_cons_of_neg]
            simp [isSecondPhase, hst, hp]
          rw [hout]
          simp only [hp, ne_eq, not_false_eq_true, if_true]
          exact ih _ _ hbad hrest
    · have hout : secondPhaseGroup e w (n :: rest) = secondPhaseGroup e w rest := by
        unfold secondPhaseGroup
        rw [List.filter_cons_of_neg]
        simp [hs]
      rw [hout]
      simp only [hs, Bool.not_false, if_true]
      exact ih _ _ hbad hrest

theorem secondPhaseGroup_readable (e : Env) (w : World) (l : List String) (n : String)
    (h : n ∈ secondPhaseGroup e w l) : (ReadSnapshotStatus w n).isSome = true := by
  unfold secondPhaseGroup at h
  have h2 := (List.mem_filter.mp h).2
  simp only [Bool.and_eq_true] at h2
  have h3 := h2.2
  unfold isSecondPhase at h3
  cases hr : ReadSnapshotStatus w n with
  | none => rw [hr] at h3; simp at h3
  | some _ => rfl

/-- C25 (as stated, refuted): with the first phase over and the status file of
`odm_b` unreadable, `MergeSecondPhaseSnapshots` persists `Merging` with
`SECOND_PHASE` and returns `ReadStatus` without having tried to switch
`vendor_b`, a second-phase snapshot with the current slot suffix that is
listed after `odm_b`. -/
theorem MergeSecondPhaseSnapshots_abort_counterexample :
    (ListSnapshots (calmEnv "_b" "_a") "" [] tornStatusWorld).1 = some ["odm_b", "vendor_b"] ∧
    EndsWith "vendor_b" (calmEnv "_b" "_a").slotSuffix = true ∧
    isSecondPhase tornStatusWorld "vendor_b" = true ∧
    (MergeSecondPhaseSnapshots (calmEnv "_b" "_a") tornStatusWorld).1
      = MergeFailureCode.ReadStatus ∧
    (ReadSnapshotUpdateStatus
      (MergeSecondPhaseSnapshots (calmEnv "_b" "_a") tornStatusWorld).2).merge_phase
      = MergePhase.SECOND_PHASE ∧
    switchedNames (MergeSecondPhaseSnapshots (calmEnv "_b" "_a") tornStatusWorld).2.trace
      = [] := by
  decide

/-- C25 (amended): when the snapshots can be listed, the persisted state is
`Merging` or `MergeFailed` with `merge_phase = FIRST_PHASE` and the status
write goes through, `MergeSecondPhaseSnapshots` first persists `state =
Merging` with `merge_phase = SECOND_PHASE`, nothing having been switched yet,
and then sweeps the list.  If the status of every listed snapshot with the
current slot suffix can be read, every second-phase snapshot with that suffix
is handed to `SwitchSnapshotToMerge`, in list order, whatever the individual
outcomes, and the code returned is that of the first switch that failed (`Ok`
if none did).  But a snapshot with the current slot suffix whose status cannot
be read ends the sweep at once: only the second-phase snapshots listed before
it were switched, and the code returned is `ReadStatus`. -/
theorem MergeSecondPhaseSnapshots_sweep (e : Env) (w : World) (snapshots : List String)
    (hlist : (ListSnapshots e "" [] w).1 = some snapshots)
    (hstate : (ReadSnapshotUpdateStatus w).state = UpdateState.Merging ∨
      (ReadSnapshotUpdateStatus w).state = UpdateState.MergeFailed)
    (hphase : (ReadSnapshotUpdateStatus w).merge_phase = MergePhase.FIRST_PHASE)
    (hwrite : (WriteSnapshotUpdateStatus e
        { ReadSnapshotUpdateStatus w with
          state := UpdateState.Merging, merge_phase := MergePhase.SECOND_PHASE }
        (ListSnapshots e "" [] w).2).1 = true) :
    ReadSnapshotUpdateStatus
        (WriteSnapshotUpdateStatus e
          { ReadSnapshotUpdateStatus w with
            state := UpdateState.Merging, merge_phase := MergePhase.SECOND_PHASE }
          (ListSnapshots e "" [] w).2).2
      = { ReadSnapshotUpdateStatus w with
          state := UpdateState.Merging, merge_phase := MergePhase.SECOND_PHASE } ∧
    Appends w
      (WriteSnapshotUpdateStatus e
        { ReadSnapshotUpdateStatus w with
          state := UpdateState.Merging, merge_phase := MergePhase.SECOND_PHASE }
        (ListSnapshots e "" [] w).2).2 [] ∧
    ((∀ n ∈ snapshots, EndsWith n e.slotSuffix = true →
        (ReadSnapshotStatus w n).isSome = true) →
      (MergeSecondPhaseSnapshots e w).1
        = firstFailure (switchCodes e (secondPhaseGroup e w snapshots)
            (WriteSnapshotUpdateStatus e
              { ReadSnapshotUpdateStatus w with
                state := UpdateState.Merging, merge_phase := MergePhase.SECOND_PHASE }
              (ListSnapshots e "" [] w).2).2) ∧
      Appends
        (WriteSnapshotUpdateStatus e
          { ReadSnapshotUpdateStatus w with
            state := UpdateState.Merging, merge_phase := MergePhase.SECOND_PHASE }
          (ListSnapshots e "" [] w).2).2
        (MergeSecondPhaseSnapshots e w).2 (secondPhaseGroup e w snapshots)) ∧
    (∀ pre bad post, snapshots = pre ++ bad :: post →
      EndsWith bad e.slotSuffix = true → ReadSnapshotStatus w bad = none →
      (∀ n ∈ pre, EndsWith n e.slotSuffix = true → (ReadSnapshotStatus w n).isSome = true) →
      (MergeSecondPhaseSnapshots e w).1 = MergeFailureCode.ReadStatus ∧
      Appends
        (WriteSnapshotUpdateStatus e
          { ReadSnapshotUpdateStatus w with
            state := UpdateState.Merging, merge_phase := MergePhase.SECOND_PHASE }
          (ListSnapshots e "" [] w).2).2
        (MergeSecondPhaseSnapshots e w).2 (secondPhaseGroup e w pre)) := by
  have hq := ListSnapshots_quiet e "" [] w
  have hus : ReadSnapshotUpdateStatus (ListSnapshots e "" [] w).2 = ReadSnapshotUpdateStatus w :=
    ReadSnapshotUpdateStatus_congr hq.1
  have hpair : ListSnapshots e "" [] w = (some snapshots, (ListSnapshots e "" [] w).2) := by
    rw [← hlist]
  generalize hw0 : (ListSnapshots e "" [] w).2 = w0 at *
  generalize hwc : (WriteSnapshotUpdateStatus e
    { ReadSnapshotUpdateStatus w with
      state := UpdateState.Merging, merge_phase := MergePhase.SECOND_PHASE } w0).2 = wc at *
  have hsn : wc.fs.snapshots = w.fs.snapshots := by
    rw [← hwc]
    exact (WriteSnapshotUpdateStatus_snapshots e _ _).trans (congrArg Files.snapshots hq.1)
  have hrd : ∀ n, ReadSnapshotStatus wc n = ReadSnapshotStatus w n :=
    fun n => ReadSnapshotStatus_of_snapshots hsn n
  have hgrp : ∀ l, secondPhaseGroup e wc l = secondPhaseGroup e w l := by
    intro l
    unfold secondPhaseGroup isSecondPhase
    congr 1
    funext n
    rw [hrd]
  have hrun : MergeSecondPhaseSnapshots e w
      = secondPhaseLoop e snapshots MergeFailureCode.Ok wc := by
    have hcond : (decide ((ReadSnapshotUpdateStatus w).state = UpdateState.Merging) ||
        decide ((ReadSnapshotUpdateStatus w).state = UpdateState.MergeFailed)) = true := by
      rcases hstate with h | h <;> simp [h]
    unfold MergeSecondPhaseSnapshots
    rw [hpair]
    dsimp only
    rw [hus, hcond]
    simp only [Bool.not_true, Bool.false_eq_true, if_false, hphase, ne_eq, not_true_eq_false]
    rw [hwc, hwrite]
    simp
  refine ⟨?_, ?_, ?_, ?_⟩
  · rw [← hwc]
    exact ReadSnapshotUpdateStatus_encoded _ _ (WriteSnapshotUpdateStatus_stateFile e _ _ hwrite)
  · rw [← hwc]
    exact Appends.trans_nil (Appends.of_eq hq.2) (WriteSnapshotUpdateStatus_appends e _ _)
  · intro hall
    rw [hrun, secondPhaseLoop_readable e snapshots _ wc
      (fun n hn hs => by rw [hrd]; exact hall n hn hs), switchAll_code, hgrp]
    refine ⟨by simp, ?_⟩
    apply switchAll_appends
    intro n hn
    rw [hrd]
    exact secondPhaseGroup_readable e w snapshots n hn
  · intro pre bad post hsplit hsuf hbad hpre
    rw [hrun, hsplit, secondPhaseLoop_unreadable e pre post bad _ wc hsuf
      ((hrd bad).trans hbad) (fun n hn hs => by rw [hrd]; exact hpre n hn hs), hgrp]
    refine ⟨rfl, ?_⟩
    apply switchAll_appends
    intro n hn
    rw [hrd]
    exact secondPhaseGroup_readable e w pre n hn

/-- Witness for `MergeSecondPhaseSnapshots_sweep`: once the first phase of the
shrink scenario is over, the sweep persists the second phase and switches
`vendor_b`. -/
theorem MergeSecondPhaseSnapshots_sweep_witness :
    Appends
      (WriteSnapshotUpdateStatus (calmEnv "_b" "_a")
        { ReadSnapshotUpdateStatus firstPhaseWorld with
          state := UpdateState.Merging, merge_phase := MergePhase.SECOND_PHASE }
        (ListSnapshots (calmEnv "_b" "_a") "" [] firstPhaseWorld).2).2
      (MergeSecondPhaseSnapshots (calmEnv "_b" "_a") firstPhaseWorld).2
      (secondPhaseGroup (calmEnv "_b" "_a") firstPhaseWorld ["system_b", "vendor_b"]) :=
  ((MergeSecondPhaseSnapshots_sweep (calmEnv "_b" "_a") firstPhaseWorld
    ["system_b", "vendor_b"] (by decide) (by decide) (by decide) (by decide)).2.2.1
    (by decide)).2

/-! ## Rollback before the merge -/

theorem RemoveAllUpdateState_some (e : Env) (f : Nat → Bool) (w : World) :
    RemoveAllUpdateState e (some f) w
      = if f w.tick = true then RemoveAllUpdateState e none w.next else (false, w.next) := by
  unfold RemoveAllUpdateState
  cases h : f w.tick <;> simp [World.ask, h]

/-- A successful `RemoveAllUpdateState` leaves the persisted state `None`. -/
theorem RemoveAllUpdateState_state (e : Env) (prolog : Option (Nat → Bool)) (w : World)
    (h : (RemoveAllUpdateState e prolog w).1 = true) :
    ReadUpdateState (RemoveAllUpdateState e prolog w).2 = UpdateState.None := by
  cases prolog with
  | none =>
    unfold ReadUpdateState
    rw [ReadSnapshotUpdateStatus_encoded _ _ (RemoveAllUpdateState_result e w h).1]
  | some f =>
    rw [RemoveAllUpdateState_some] at h ⊢
    by_cases hf : f w.tick = true
    · rw [if_pos hf] at h ⊢
      unfold ReadUpdateState
      rw [ReadSnapshotUpdateStatus_encoded _ _ (RemoveAllUpdateState_result e w.next h).1]
    · rw [if_neg hf] at h
      exact absurd h (by simp)

/-- On the source slot with the rollback indicator present,
`HandleCancelledUpdate` comes down to `RemoveAllUpdateState`. -/
theorem HandleCancelledUpdate_rollback (e : Env) (before_cancel : Option (Nat → Bool))
    (w : World) (hslot : GetCurrentSlot e w = Slot.Source)
    (hind : w.fs.rollbackIndicator = true) :
    HandleCancelledUpdate e before_cancel w
      = RemoveAllUpdateState e before_cancel (AreAllSnapshotsCancelled e w).2 := by
  have hq := AreAllSnapshotsCancelled_quiet e w
  have hs2 : GetCurrentSlot e (AreAllSnapshotsCancelled e w).2 = Slot.Source :=
    (GetCurrentSlot_congr e hq.1).trans hslot
  have hi2 : (AreAllSnapshotsCancelled e w).2.fs.rollbackIndicator = true := by
    rw [hq.1]
    exact hind
  unfold HandleCancelledUpdate
  rw [if_neg (by rw [hslot]; decide)]
  dsimp only
  cases (AreAllSnapshotsCancelled e w).1
  · simp [hs2, hi2]
  · simp

/-- The map `GetSnapshotFlashingStatus` builds holds, for every snapshot of
the list, an entry with the value computed for it. -/
theorem flashing_fold (f : String → Bool) (l : List String) (acc : List (String × Bool))
    (hacc : ∀ p ∈ acc, p.2 = f p.1) :
    (∀ p ∈ l.foldl (fun out name => emplace out name (f name)) acc, p.2 = f p.1) ∧
    (∀ p ∈ acc, p ∈ l.foldl (fun out name => emplace out name (f name)) acc) ∧
    (∀ n ∈ l, ∃ p ∈ l.foldl (fun out name => emplace out name (f name)) acc, p.1 = n) := by
  induction l generalizing acc with
  | nil => exact ⟨hacc, fun p hp => hp, fun n hn => absurd hn (List.not_mem_nil n)⟩
  | cons a rest ih =>
    have hacc2 : ∀ p ∈ emplace acc a (f a), p.2 = f p.1 := by
      intro p hp
      unfold emplace at hp
      split at hp
      · exact hacc p hp
      · rcases List.mem_append.mp hp with h | h
        · exact hacc p h
        · simp only [List.mem_singleton] at h
          rw [h]
    have hkey : ∃ p ∈ emplace acc a (f a), p.1 = a := by
      unfold emplace
      split
      · rename_i hany
        obtain ⟨p, hp, hpa⟩ := List.any_eq_true.mp hany
        exact ⟨p, hp, by simpa using hpa⟩
      · exact ⟨(a, f a), by simp, rfl⟩
    have hsub : ∀ p ∈ acc, p ∈ emplace acc a (f a) := by
      intro p hp
      unfold emplace
      split
      · exact hp
      · exact List.mem_append_left _ hp
    obtain ⟨h1, h2, h3⟩ := ih (emplace acc a (f a)) hacc2
    rw [List.foldl_cons]
    refine ⟨h1, fun p hp => h2 p (hsub p hp), ?_⟩
    intro n hn
    rcases List.mem_cons.mp hn with h | h
    · obtain ⟨p, hp, hpa⟩ := hkey
      exact ⟨p, h2 p hp, by rw [hpa, h]⟩
    · exact h3 n h

/-- When the snapshots can be listed, the target metadata can be read and a
listed snapshot is still marked updated there, not all snapshots count as
cancelled. -/
theorem AreAllSnapshotsCancelled_updated (e : Env) (w : World) (md : LpMetadata) (n : String)
    (hopen : e.opendirOk w.tick = true)
    (hsrc : ReadUpdateSourceSlotSuffix w ≠ "")
    (hmd : e.readMetadata (w.tick + 1)
      (if e.slotNumberForSlotSuffix (ReadUpdateSourceSlotSuffix w) = 0 then 1 else 0) = some md)
    (hn : n ∈ listLoop "" w.fs.snapshots [])
    (hupd : GetMetadataPartitionState md n = MetadataPartitionState.Updated) :
    (AreAllSnapshotsCancelled e w).1 = false := by
  have hfold := flashing_fold
    (fun name => decide (GetMetadataPartitionState md name ≠ MetadataPartitionState.Updated))
    (listLoop "" w.fs.snapshots []) [] (fun p hp => absurd hp (List.not_mem_nil p))
  obtain ⟨p, hp, hpn⟩ := hfold.2.2 n hn
  have hval := hfold.1 p hp
  have hfalse : p.2 = false := by
    rw [hval, hpn]
    simp [hupd]
  unfold AreAllSnapshotsCancelled ListSnapshots GetSnapshotFlashingStatus
  simp only [World.ask, hopen, Bool.not_true, Bool.false_eq_true, if_false]
  have hsrc2 : ReadUpdateSourceSlotSuffix w.next = ReadUpdateSourceSlotSuffix w := rfl
  rw [hsrc2, if_neg hsrc]
  have htick : w.next.tick = w.tick + 1 := rfl
  simp only [htick, hmd]
  have hsn : w.next.fs.snapshots = w.fs.snapshots := rfl
  rw [hsn]
  apply Bool.eq_false_iff.mpr
  intro hall
  have := List.all_eq_true.mp hall p hp
  rw [hfalse] at this
  exact absurd this (by simp)

/-- A round of `ProcessUpdateState` whose check answers neither `Merging` nor
`MergeFailed` nor `MergeCompleted` ends the call with that answer. -/
theorem ProcessUpdateState_settled (e : Env) (callback before_cancel : Option (Nat → Bool))
    (rounds : Nat) (w : World) (state : UpdateState)
    (h : (CheckMergeStateLocking e before_cancel w).1.state = state)
    (h1 : state ≠ UpdateState.Merging) (h2 : state ≠ UpdateState.MergeFailed)
    (h3 : state ≠ UpdateState.MergeCompleted) :
    ProcessUpdateState e callback before_cancel (rounds + 1) w
      = (Run.returned state, (CheckMergeStateLocking e before_cancel w).2) := by
  unfold ProcessUpdateState processRound
  dsimp only
  rw [h]
  simp [h1, h2, h3]

/-- With the lock taken and the persisted state `Unverified`, the locking
`CheckMergeState` answers as `HandleCancelledUpdate` decides. -/
theorem CheckMergeStateLocking_unverified (e : Env) (before_cancel : Option (Nat → Bool))
    (w : World) (hstate : ReadUpdateState w = UpdateState.Unverified)
    (hlock : e.lockOk w.tick = true) :
    CheckMergeStateLocking e before_cancel w
      = (if (HandleCancelledUpdate e before_cancel w.next).1 = true then
          ({ state := UpdateState.Cancelled },
            if e.isRecovery = true then (HandleCancelledUpdate e before_cancel w.next).2
            else (RemoveAllUpdateState e before_cancel
              (HandleCancelledUpdate e before_cancel w.next).2).2)
        else ({ state := UpdateState.Unverified },
          (HandleCancelledUpdate e before_cancel w.next).2)) := by
  have hst : (ReadSnapshotUpdateStatus w.next).state = UpdateState.Unverified := hstate
  have hinner : CheckMergeState e before_cancel w.next
      = (if (HandleCancelledUpdate e before_cancel w.next).1 = true then
          (({ state := UpdateState.Cancelled } : MergeResult),
            (HandleCancelledUpdate e before_cancel w.next).2)
        else ({ state := UpdateState.Unverified },
          (HandleCancelledUpdate e before_cancel w.next).2)) := by
    unfold CheckMergeState
    simp only [hst]
  unfold CheckMergeStateLocking
  simp only [World.ask, hlock, Bool.not_true, Bool.false_eq_true, if_false]
  rw [hinner]
  cases (HandleCancelledUpdate e before_cancel w.next).1
  · simp
  · cases e.isRecovery <;> simp

/-- A prolog that says no keeps `RemoveAllUpdateState` from doing anything. -/
theorem RemoveAllUpdateState_vetoed (e : Env) (f : Nat → Bool) (w : World)
    (h : f w.tick = false) : RemoveAllUpdateState e (some f) w = (false, w.next) := by
  rw [RemoveAllUpdateState_some, if_neg (by rw [h]; simp)]

/-- C23 (as stated, refuted): the persisted state is `Unverified`, the device
runs the source slot and the rollback indicator is present.  When
`before_cancel` says no, and also, with no callback at all, when the image
manager cannot remove the images, `CheckMergeState` answers `Unverified`, not
`Cancelled`, `ProcessUpdateState` returns `Unverified`, and the persisted
state is still `Unverified`. -/
theorem CheckMergeState_rollback_refused_counterexample :
    ReadUpdateState fellBackWorld = UpdateState.Unverified ∧
    GetCurrentSlot (calmEnv "_a" "_b") fellBackWorld = Slot.Source ∧
    fellBackWorld.fs.rollbackIndicator = true ∧
    (CheckMergeStateLocking (calmEnv "_a" "_b") (some (fun _ => false)) fellBackWorld).1.state
      = UpdateState.Unverified ∧
    (ProcessUpdateState (calmEnv "_a" "_b") none (some (fun _ => false)) 1 fellBackWorld).1
      = Run.returned UpdateState.Unverified ∧
    (ProcessUpdateState (calmEnv "_a" "_b") none (some (fun _ => false)) 1 fellBackWorld).2.fs
      = fellBackWorld.fs ∧
    (CheckMergeStateLocking stuckImagesEnv none fellBackWorld).1.state
      = UpdateState.Unverified ∧
    (ProcessUpdateState stuckImagesEnv none none 1 fellBackWorld).1
      = Run.returned UpdateState.Unverified ∧
    ReadUpdateState (ProcessUpdateState stuckImagesEnv none none 1 fellBackWorld).2
      = UpdateState.Unverified := by
  decide

/-- C23 (amended): with the persisted state `Unverified` and the lock taken,
(a) on the source slot with the rollback indicator present, the answer follows
`RemoveAllUpdateState`: when it succeeds, `CheckMergeState` answers
`Cancelled`, the persisted state is `None` afterwards, and
`ProcessUpdateState` returns `Cancelled` after this one check; when it fails,
`CheckMergeState` answers `Unverified`, `ProcessUpdateState` returns
`Unverified`, the world is the one the failed removal left, and the persisted
state is `Unverified` or `None`; when `before_cancel` says no, no file has
changed and nothing was recorded;
(b) on the source slot without the rollback indicator, when the snapshots can
be listed, the metadata of the target slot can be read and a listed snapshot
is still marked updated there, `CheckMergeState` answers `Unverified`, no file
has changed and nothing was recorded, and `ProcessUpdateState` returns
`Unverified`;
(c) with an unknown slot likewise. -/
theorem CheckMergeState_rollback_before_merge (e : Env)
    (callback before_cancel : Option (Nat → Bool)) (rounds : Nat) (w : World)
    (hstate : ReadUpdateState w = UpdateState.Unverified) (hlock : e.lockOk w.tick = true) :
    (GetCurrentSlot e w = Slot.Source → w.fs.rollbackIndicator = true →
      ((RemoveAllUpdateState e before_cancel (AreAllSnapshotsCancelled e w.next).2).1 = true →
        (CheckMergeStateLocking e before_cancel w).1.state = UpdateState.Cancelled ∧
        ReadUpdateState (CheckMergeStateLocking e before_cancel w).2 = UpdateState.None ∧
        ProcessUpdateState e callback before_cancel (rounds + 1) w
          = (Run.returned UpdateState.Cancelled,
              (CheckMergeStateLocking e before_cancel w).2)) ∧
      ((RemoveAllUpdateState e before_cancel (AreAllSnapshotsCancelled e w.next).2).1 = false →
        (CheckMergeStateLocking e before_cancel w).1.state = UpdateState.Unverified ∧
        (CheckMergeStateLocking e before_cancel w).2
          = (RemoveAllUpdateState e before_cancel (AreAllSnapshotsCancelled e w.next).2).2 ∧
        (ReadUpdateState (CheckMergeStateLocking e before_cancel w).2 = UpdateState.Unverified ∨
          ReadUpdateState (CheckMergeStateLocking e before_cancel w).2 = UpdateState.None) ∧
        ProcessUpdateState e callback before_cancel (rounds + 1) w
          = (Run.returned UpdateState.Unverified,
              (CheckMergeStateLocking e before_cancel w).2)) ∧
      (∀ f, before_cancel = some f → f (AreAllSnapshotsCancelled e w.next).2.tick = false →
        (CheckMergeStateLocking e before_cancel w).1.state = UpdateState.Unverified ∧
        (CheckMergeStateLocking e before_cancel w).2.fs = w.fs ∧
        (CheckMergeStateLocking e before_cancel w).2.trace = w.trace)) ∧
    (GetCurrentSlot e w = Slot.Source → w.fs.rollbackIndicator = false →
      ∀ md n, e.opendirOk (w.tick + 1) = true →
        e.readMetadata (w.tick + 2)
          (if e.slotNumberForSlotSuffix (ReadUpdateSourceSlotSuffix w) = 0 then 1 else 0)
          = some md →
        n ∈ listLoop "" w.fs.snapshots [] →
        GetMetadataPartitionState md n = MetadataPartitionState.Updated →
        (CheckMergeStateLocking e before_cancel w).1.state = UpdateState.Unverified ∧
        (CheckMergeStateLocking e before_cancel w).2.fs = w.fs ∧
        (CheckMergeStateLocking e before_cancel w).2.trace = w.trace ∧
        ProcessUpdateState e callback before_cancel (rounds + 1) w
          = (Run.returned UpdateState.Unverified,
              (CheckMergeStateLocking e before_cancel w).2)) ∧
    (GetCurrentSlot e w = Slot.Unknown →
      (CheckMergeStateLocking e before_cancel w).1.state = UpdateState.Unverified ∧
      (CheckMergeStateLocking e before_cancel w).2.fs = w.fs ∧
      (CheckMergeStateLocking e before_cancel w).2.trace = w.trace ∧
      ProcessUpdateState e callback before_cancel (rounds + 1) w
        = (Run.returned UpdateState.Unverified,
            (CheckMergeStateLocking e before_cancel w).2)) := by
  have hrun := CheckMergeStateLocking_unverified e before_cancel w hstate hlock
  refine ⟨?_, ?_, ?_⟩
  · intro hslot hind
    have hh := HandleCancelledUpdate_rollback e before_cancel w.next hslot hind
    have hq := AreAllSnapshotsCancelled_quiet e w.next
    have hfail : (RemoveAllUpdateState e before_cancel (AreAllSnapshotsCancelled e w.next).2).1
        = false →
        CheckMergeStateLocking e before_cancel w
          = ({ state := UpdateState.Unverified },
              (RemoveAllUpdateState e before_cancel (AreAllSnapshotsCancelled e w.next).2).2) := by
      intro hrem
      rw [hrun, hh, if_neg (by rw [hrem]; simp)]
    refine ⟨?_, ?_, ?_⟩
    · intro hrem
      have hstate2 := RemoveAllUpdateState_state e before_cancel _ hrem
      rw [← hh] at hrem hstate2
      have hres : (CheckMergeStateLocking e before_cancel w).1.state
          = UpdateState.Cancelled := by
        rw [hrun, if_pos hrem]
      refine ⟨hres, ?_, ProcessUpdateState_settled e callback before_cancel rounds w _ hres
        (by decide) (by decide) (by decide)⟩
      rw [hrun, if_pos hrem]
      dsimp only
      split
      · exact hstate2
      · rcases (RemoveAllUpdateState_tame e before_cancel
          (HandleCancelledUpdate e before_cancel w.next).2).2 with h | h
        · rw [h]
          exact hstate2
        · exact h
    · intro hrem
      have hres := hfail hrem
      have hst : (CheckMergeStateLocking e before_cancel w).1.state
          = UpdateState.Unverified := by
        rw [hres]
      refine ⟨hst, by rw [hres], ?_, ProcessUpdateState_settled e callback before_cancel rounds
        w _ hst (by decide) (by decide) (by decide)⟩
      rw [hres]
      dsimp only
      have hbefore : ReadUpdateState (AreAllSnapshotsCancelled e w.next).2
          = UpdateState.Unverified := by
        rw [ReadUpdateState_congr hq.1]
        exact hstate
      rcases (RemoveAllUpdateState_tame e before_cancel
        (AreAllSnapshotsCancelled e w.next).2).2 with h | h
      · left
        rw [h]
        exact hbefore
      · right
        exact h
    · intro f hf hveto
      subst hf
      have hv := RemoveAllUpdateState_vetoed e f (AreAllSnapshotsCancelled e w.next).2 hveto
      have hres := hfail (by rw [hv])
      rw [hv] at hres
      rw [hres]
      exact ⟨rfl, hq.1, hq.2⟩
  · intro hslot hind md n hopen hmd hn hupd
    have hall : (AreAllSnapshotsCancelled e w.next).1 = false :=
      AreAllSnapshotsCancelled_updated e w.next md n hopen
        (by
          intro h
          unfold GetCurrentSlot at hslot
          have h2 : ReadUpdateSourceSlotSuffix w = "" := h
          rw [if_pos h2] at hslot
          exact absurd hslot (by decide))
        hmd hn hupd
    have hq := AreAllSnapshotsCancelled_quiet e w.next
    have hh : HandleCancelledUpdate e before_cancel w.next
        = (false, (AreAllSnapshotsCancelled e w.next).2) := by
      have hs2 : GetCurrentSlot e (AreAllSnapshotsCancelled e w.next).2 = Slot.Source :=
        (GetCurrentSlot_congr e hq.1).trans hslot
      have hi2 : (AreAllSnapshotsCancelled e w.next).2.fs.rollbackIndicator = false := by
        rw [hq.1]
        exact hind
      unfold HandleCancelledUpdate
      rw [if_neg (by
        have h3 : GetCurrentSlot e w.next = Slot.Source := hslot
        rw [h3]
        decide)]
      dsimp only
      rw [hall]
      simp [hs2, hi2]
    have hres : CheckMergeStateLocking e before_cancel w
        = ({ state := UpdateState.Unverified }, (AreAllSnapshotsCancelled e w.next).2) := by
      rw [hrun, hh]
      simp
    have hst : (CheckMergeStateLocking e before_cancel w).1.state = UpdateState.Unverified := by
      rw [hres]
    refine ⟨hst, ?_, ?_, ProcessUpdateState_settled e callback before_cancel rounds w _ hst
      (by decide) (by decide) (by decide)⟩
    · rw [hres]
      exact hq.1
    · rw [hres]
      exact hq.2
  · intro hslot
    have hh : HandleCancelledUpdate e before_cancel w.next = (false, w.next) := by
      unfold HandleCancelledUpdate
      have h3 : GetCurrentSlot e w.next = Slot.Unknown := hslot
      rw [if_pos h3]
    have hres : CheckMergeStateLocking e before_cancel w
        = ({ state := UpdateState.Unverified }, w.next) := by
      rw [hrun, hh]
      simp
    have hst : (CheckMergeStateLocking e before_cancel w).1.state = UpdateState.Unverified := by
      rw [hres]
    refine ⟨hst, ?_, ?_, ProcessUpdateState_settled e callback before_cancel rounds w _ hst
      (by decide) (by decide) (by decide)⟩
    · rw [hres]
      rfl
    · rw [hres]
      rfl

/-- Witness for `CheckMergeState_rollback_before_merge`: after the fall-back
to the original slot the check cancels the update and the persisted state is
`None`; when `before_cancel` says no it answers `Unverified` and no file
changes; before the reboot, with `system_b` marked updated in the target
metadata, it answers `Unverified`. -/
theorem CheckMergeState_rollback_before_merge_witness :
    ((CheckMergeStateLocking (calmEnv "_a" "_b") none fellBackWorld).1.state
        = UpdateState.Cancelled ∧
      ReadUpdateState (CheckMergeStateLocking (calmEnv "_a" "_b") none fellBackWorld).2
        = UpdateState.None) ∧
    ((CheckMergeStateLocking (calmEnv "_a" "_b") (some (fun _ => false)) fellBackWorld).1.state
        = UpdateState.Unverified ∧
      (CheckMergeStateLocking (calmEnv "_a" "_b") (some (fun _ => false)) fellBackWorld).2.fs
        = fellBackWorld.fs) ∧
    (CheckMergeStateLocking (calmEnv "_a" "_b") none beforeRebootWorld).1.state
      = UpdateState.Unverified :=
  have h := ((CheckMergeState_rollback_before_merge (calmEnv "_a" "_b") none none 0
    fellBackWorld (by decide) (by decide)).1 (by decide) (by decide)).1 (by decide)
  have h1 := ((CheckMergeState_rollback_before_merge (calmEnv "_a" "_b") none
    (some (fun _ => false)) 0 fellBackWorld (by decide) (by decide)).1
    (by decide) (by decide)).2.2 (fun _ => false) rfl rfl
  have h2 := (CheckMergeState_rollback_before_merge (calmEnv "_a" "_b") none none 0
    beforeRebootWorld (by decide) (by decide)).2.1 (by decide) (by decide)
    [("system_b", true), ("vendor_b", true)] "system_b"
    (by decide) (by decide) (by decide) (by decide)
  ⟨⟨h.1, h.2.1⟩, ⟨h1.1, h1.2.1⟩, h2.1⟩

/-! ## MapPartitionWithSnapshot: the live-snapshot optional -/

/-- The block that determines `live_snapshot_status` dereferences an empty
optional exactly when the status read says `MERGE_COMPLETED`: for a partition
that is looked up (it is marked updated, or snapshots are applied without a
slot switch) and whose status file is there and can be read. -/
theorem liveSnapshotStatus_undefined_iff (e : Env) (params : CreateLogicalPartitionParams)
    (w : World) (status : SnapshotStatus)
    (hlook : IsSnapshotWithoutSlotSwitch w = true ∨ params.updated = true)
    (haccess : e.accessError w.tick = false)
    (hread : ReadSnapshotStatus w params.partition_name = some status) :
    ((liveSnapshotStatus e params w).1 = LiveStatus.undefined ↔
      status.state = SnapshotState.MERGE_COMPLETED) := by
  have hfind : (findEnt w.next.fs.snapshots params.partition_name).isNone = false := by
    have h2 : w.next.fs.snapshots = w.fs.snapshots := rfl
    rw [h2]
    unfold ReadSnapshotStatus readStatusFile at hread
    cases hf : findEnt w.fs.snapshots params.partition_name with
    | none => rw [hf] at hread; simp at hread
    | some _ => rfl
  have hread2 : ReadSnapshotStatus w.next params.partition_name = some status := hread
  have hcond : (!IsSnapshotWithoutSlotSwitch w && !params.updated) = false := by
    rcases hlook with h | h <;> simp [h]
  unfold liveSnapshotStatus
  simp only [hcond, Bool.false_eq_true, if_false, World.ask, haccess, hfind, hread2]
  by_cases hc : status.state = SnapshotState.MERGE_COMPLETED
  · simp [hc]
  · simp only [hc, if_false]
    constructor
    · intro h
      split at h <;> simp at h
    · intro h
      exact absurd h (by simp)

/-- C29 (the code at the failing input): in the partly merged world the
partition `vendor_b` is marked updated and its status file says
`MERGE_COMPLETED`; `MapPartitionWithSnapshot` resets the optional and
dereferences it, so the first-stage mount, which wants the snapshots there,
runs into undefined behaviour instead of mapping `vendor_b` as a plain
device. -/
theorem MapPartitionWithSnapshot_completed_undefined :
    (NeedSnapshotsInFirstStageMount firstStageEnv partlyMergedWorld).1 = true ∧
    (liveSnapshotStatus firstStageEnv { partition_name := "vendor_b", updated := true }
      partlyMergedWorld).1 = LiveStatus.undefined ∧
    (MapPartitionWithSnapshot firstStageEnv
      { partition_name := "vendor_b", updated := true } SnapshotContext.Mount
      partlyMergedWorld).1 = Run.undefined ∧
    (MapPartitionWithSnapshot firstStageEnv
      { partition_name := "system_b", updated := true } SnapshotContext.Mount
      partlyMergedWorld).1 = Run.returned true ∧
    (CreateLogicalAndSnapshotPartitions firstStageEnv 0 partlyMergedWorld).1
      = Run.undefined := by
  decide

/-! ## HandleImminentDataWipe -/

/-- The events `WriteSnapshotUpdateStatus` records are writes of the state
file and boot-control calls. -/
theorem WriteSnapshotUpdateStatus_events (e : Env) (status : SnapshotUpdateStatus)
    (w : World) :
    ∃ post, (WriteSnapshotUpdateStatus e status w).2.trace = w.trace ++ post ∧
      ∀ ev ∈ post, (∃ st ok, ev = Event.writeGlobal st ok) ∨
        (∃ ms ok, ev = Event.setBootControlMergeStatus ms ok) := by
  unfold WriteSnapshotUpdateStatus SetBootControlMergeStatus
  dsimp only
  repeat' split
  all_goals simp only [World.ask_fst, World.ask_snd, World.log_trace, World.next_trace,
    writeStateFile_switched, List.append_assoc]
  all_goals refine ⟨_, rfl, ?_⟩
  all_goals
    intro ev hev
    simp only [List.mem_cons, List.mem_singleton, List.not_mem_nil, or_false,
      List.mem_append] at hev
    first
      | (rcases hev with h | h <;> rw [h] <;>
          first
            | exact Or.inl ⟨_, _, rfl⟩
            | exact Or.inr ⟨_, _, rfl⟩)
      | (rw [hev]
         first
           | exact Or.inl ⟨_, _, rfl⟩
           | exact Or.inr ⟨_, _, rfl⟩)

/-- Writing state `None`: afterwards the state file holds it, or the last
event is the failed write of the file. -/
theorem WriteUpdateState_None_cases (e : Env) (w : World) :
    ReadUpdateState (WriteUpdateState e UpdateState.None MergeFailureCode.Ok w).2
      = UpdateState.None ∨
    (WriteUpdateState e UpdateState.None MergeFailureCode.Ok w).2.trace
      = w.trace ++ [Event.writeGlobal { state := UpdateState.None } false] := by
  rw [WriteUpdateState_None]
  unfold WriteSnapshotUpdateStatus SetBootControlMergeStatus writeStateFile ReadUpdateState
    ReadSnapshotUpdateStatus
  have hms : mergeStatusOf ({ state := UpdateState.None } : SnapshotUpdateStatus).state
      = MergeStatus.NONE := rfl
  simp only [hms, World.ask]
  cases e.useHal <;> cases hw : e.writeFileOk w.tick <;>
    simp [World.log, World.next, hw]
  all_goals cases e.setMergeStatusOk (w.tick + 1) <;> simp

theorem zapUpdateState_none (e : Env) (w : World) :
    zapUpdateState e UpdateState.None w = (true, w) := by
  unfold zapUpdateState
  simp

theorem zapUpdateState_locked (e : Env) (state : UpdateState) (w : World)
    (hs : state ≠ UpdateState.None) (hlock : e.lockOk w.tick = true) :
    zapUpdateState e state w
      = (true, (WriteUpdateState e UpdateState.None MergeFailureCode.Ok w.next).2) := by
  unfold zapUpdateState
  simp [hs, World.ask, hlock]

/-- When the zapping of the update state lets the wipe go on, the persisted
state is `None` afterwards (as it was, or as written), or the last event is
the failed write of it. -/
theorem zapUpdateState_cases (e : Env) (state : UpdateState) (w : World)
    (hw : state = UpdateState.None → ReadUpdateState w = UpdateState.None)
    (hok : (zapUpdateState e state w).1 = true) :
    ReadUpdateState (zapUpdateState e state w).2 = UpdateState.None ∨
    (zapUpdateState e state w).2.trace.getLast?
      = some (Event.writeGlobal { state := UpdateState.None } false) := by
  by_cases hs : state = UpdateState.None
  · left
    rw [hs, zapUpdateState_none]
    exact hw hs
  · unfold zapUpdateState at hok ⊢
    rw [if_pos hs] at hok ⊢
    dsimp only at hok ⊢
    by_cases hl : (w.ask e.lockOk).1 = true
    · simp only [hl, Bool.not_true, Bool.false_eq_true, if_false]
      rcases WriteUpdateState_None_cases e (w.ask e.lockOk).2 with h | h
      · exact Or.inl h
      · right
        rw [h]
        simp
    · have hl2 : (!(w.ask e.lockOk).1) = true := by simpa using hl
      rw [if_pos hl2] at hok
      exact absurd hok (by simp)

theorem concludeMerge_not_none (e : Env) (flags : PollFlags) (w : World) :
    (concludeMerge e flags w).1.state ≠ UpdateState.None := by
  unfold concludeMerge
  dsimp only
  repeat' split
  all_goals simp

/-- `CheckMergeState` answers `None` only when that is the persisted state,
and then it does nothing. -/
theorem CheckMergeState_none (e : Env) (before_cancel : Option (Nat → Bool)) (w : World)
    (h : (CheckMergeState e before_cancel w).1.state = UpdateState.None) :
    ReadUpdateState w = UpdateState.None ∧ (CheckMergeState e before_cancel w).2 = w := by
  have hpoll : ∀ w0 : World, (match ListSnapshots e "" [] w0 with
      | (listed, w1) =>
        match listed with
        | none => (({ state := UpdateState.MergeFailed,
                      failure_code := MergeFailureCode.ListSnapshots } : MergeResult), w1)
        | some snapshots =>
          match pollLoop e (ReadSnapshotUpdateStatus w) snapshots {} w1 with
          | (out, w2) => concludeMerge e out.1 w2).1.state ≠ UpdateState.None := by
    intro w0
    split
    split
    · simp
    · exact concludeMerge_not_none e _ _
  unfold CheckMergeState at h ⊢
  unfold ReadUpdateState
  cases hs : (ReadSnapshotUpdateStatus w).state
  all_goals simp only [hs] at h ⊢
  all_goals first
    | exact ⟨trivial, trivial⟩
    | exact absurd h (hpoll w)
    | (split at h <;> simp at h)
    | simp at h

theorem CheckMergeStateLocking_none (e : Env) (before_cancel : Option (Nat → Bool))
    (w : World) (h : (CheckMergeStateLocking e before_cancel w).1.state = UpdateState.None) :
    ReadUpdateState (CheckMergeStateLocking e before_cancel w).2 = UpdateState.None := by
  unfold CheckMergeStateLocking at h ⊢
  dsimp only at h ⊢
  by_cases hl : (!(w.ask e.lockOk).1) = true
  · rw [if_pos hl] at h
    simp at h
  · rw [if_neg hl] at h ⊢
    by_cases h1 : (CheckMergeState e before_cancel (w.ask e.lockOk).2).1.state
        = UpdateState.MergeCompleted
    · rw [if_pos h1] at h
      rw [h1] at h
      exact absurd h (by decide)
    · rw [if_neg h1] at h ⊢
      by_cases h2 : (CheckMergeState e before_cancel (w.ask e.lockOk).2).1.state
          = UpdateState.Cancelled
      · rw [if_pos h2] at h
        split at h
        all_goals rw [h2] at h
        all_goals exact absurd h (by decide)
      · rw [if_neg h2] at h ⊢
        obtain ⟨hst, hw⟩ := CheckMergeState_none e before_cancel _ h
        rw [hw]
        exact hst

theorem processRound_none (e : Env) (before_cancel : Option (Nat → Bool)) (w : World)
    (h : (processRound e before_cancel w).1.state = UpdateState.None) :
    ReadUpdateState (processRound e before_cancel w).2 = UpdateState.None := by
  unfold processRound at h ⊢
  dsimp only at h ⊢
  rw [if_neg (by rw [h]; decide), if_neg (by rw [h]; decide)]
  exact CheckMergeStateLocking_none e before_cancel w h

/-- When `ProcessUpdateState` returns `None`, that is the persisted state. -/
theorem ProcessUpdateState_none (e : Env) (callback before_cancel : Option (Nat → Bool))
    (rounds : Nat) (w w2 : World)
    (h : ProcessUpdateState e callback before_cancel rounds w
      = (Run.returned UpdateState.None, w2)) :
    ReadUpdateState w2 = UpdateState.None := by
  induction rounds generalizing w with
  | zero =>
    unfold ProcessUpdateState at h
    simp at h
  | succ n ih =>
    unfold ProcessUpdateState at h
    dsimp only at h
    by_cases hm : (processRound e before_cancel w).1.state ≠ UpdateState.Merging
    · rw [if_pos hm] at h
      simp only [Prod.mk.injEq, Run.returned.injEq] at h
      rw [← h.2]
      exact processRound_none e before_cancel w h.1
    · rw [if_neg hm] at h
      cases callback with
      | none => exact ih _ h
      | some f =>
        dsimp only at h
        by_cases hg : (!((processRound e before_cancel w).2.ask f).1) = true
        · rw [if_pos hg] at h
          simp only [Prod.mk.injEq, Run.returned.injEq] at h
          rw [h.1] at hm
          exact absurd (by decide) hm
        · rw [if_neg hg] at h
          exact ih _ h

/-- When `ProcessUpdateStateOnDataWipe` returns `None`, that is the persisted
state. -/
theorem ProcessUpdateStateOnDataWipe_none (e : Env) (callback : Option (Nat → Bool))
    (rounds left : Nat) (w w2 : World)
    (h : ProcessUpdateStateOnDataWipe e callback rounds left w
      = (Run.returned UpdateState.None, w2)) :
    ReadUpdateState w2 = UpdateState.None := by
  induction left generalizing w with
  | zero =>
    unfold ProcessUpdateStateOnDataWipe at h
    simp at h
  | succ n ih =>
    unfold ProcessUpdateStateOnDataWipe at h
    obtain ⟨r, w1, hr⟩ : ∃ r w1, ProcessUpdateState e callback none rounds w = (r, w1) :=
      ⟨_, _, rfl⟩
    rw [hr] at h
    cases r with
    | undefined => simp at h
    | unfinished => simp at h
    | returned state =>
      cases state
      case None =>
        simp only [Prod.mk.injEq, Run.returned.injEq, true_and] at h
        rw [← h]
        exact ProcessUpdateState_none e callback none rounds w w1 hr
      case Unverified =>
        dsimp only at h
        split at h
        · simp at h
        · exact ih _ h
      all_goals simp at h

theorem unmapAllLoop_quiet (e : Env) (l : LpMetadata) (ok : Bool) (w : World) :
    Quiet w (unmapAllLoop e l ok w).2 := by
  induction l generalizing w ok with
  | nil => exact ⟨rfl, rfl⟩
  | cons p rest ih =>
    unfold unmapAllLoop
    dsimp only
    have h1 := UnmapPartitionWithSnapshot_quiet e p.1 w
    have h2 := ih (ok && (UnmapPartitionWithSnapshot e p.1 w).1)
      (UnmapPartitionWithSnapshot e p.1 w).2
    exact ⟨h2.1.trans h1.1, h2.2.trans h1.2⟩

theorem UnmapAllPartitionsInRecovery_quiet (e : Env) (w : World) :
    Quiet w (UnmapAllPartitionsInRecovery e w).2 := by
  unfold UnmapAllPartitionsInRecovery ReadCurrentMetadata
  dsimp only
  split
  · exact ⟨rfl, rfl⟩
  · split
    · exact ⟨rfl, rfl⟩
    · rename_i md _
      have h := unmapAllLoop_quiet e md true
        ((w.ask e.lockOk).2.ask
          (fun t => e.readMetadata t (e.slotNumberForSlotSuffix e.slotSuffix))).2
      exact ⟨h.1, h.2⟩

theorem decideWipe_merge (e : Env) (w w0 : World) (hfs : w0.fs = w.fs) :
    (wantsMergeBeforeWipe e w → decideWipe e (ReadUpdateState w) w0 = (true, w0)) ∧
    (¬ wantsMergeBeforeWipe e w → (decideWipe e (ReadUpdateState w) w0).1 = false) := by
  have hslot : GetCurrentSlot e w0 = GetCurrentSlot e w := GetCurrentSlot_congr e hfs
  unfold wantsMergeBeforeWipe decideWipe
  cases hs : ReadUpdateState w
  all_goals simp only [hslot, hfs]
  all_goals simp
  · by_cases h1 : GetCurrentSlot e w = Slot.Target
    · cases h2 : w.fs.forwardMergeIndicator <;> simp [h1, h2]
    · simp [h1]

theorem decideWipe_plain (e : Env) (state : UpdateState) (w0 : World)
    (h : state = UpdateState.None ∨ state = UpdateState.Initiated ∨
      state = UpdateState.Cancelled ∨ state = UpdateState.MergeNeedsReboot) :
    decideWipe e state w0 = (false, w0) := by
  rcases h with h | h | h | h <;> rw [h] <;> rfl

theorem decideWipe_events (e : Env) (state : UpdateState) (w0 : World) :
    (decideWipe e state w0).2.fs = w0.fs ∧
    ((decideWipe e state w0).2.trace = w0.trace ∨
      (state = UpdateState.Unverified ∧ GetCurrentSlot e w0 = Slot.Target ∧
        w0.fs.forwardMergeIndicator = false ∧
        (decideWipe e state w0).2.trace = w0.trace ++
          [Event.setSlotAsUnbootable (e.slotNumberForSlotSuffix e.slotSuffix),
           Event.setActiveBootSlot (e.slotNumberForSlotSuffix e.otherSlotSuffix)])) := by
  unfold decideWipe
  cases state
  all_goals simp
  · by_cases h1 : GetCurrentSlot e w0 = Slot.Target
    · cases h2 : w0.fs.forwardMergeIndicator <;> simp [h1, h2, World.ask, World.log, World.next]
    · simp [h1]

/-- In recovery with the metadata mounted and the lock obtainable,
`HandleImminentDataWipe` reads the state and either maps and merges or zaps
the update state. -/
theorem HandleImminentDataWipe_run (e : Env) (rounds : Nat) (w : World)
    (hrec : e.isRecovery = true) (hmount : e.mountMetadata w.tick = true)
    (hlock : ∀ t, e.lockOk t = true) :
    HandleImminentDataWipe e rounds w
      = (if (decideWipe e (ReadUpdateState w) w.next.next.next).1 = true then
          mapAndMerge e rounds (decideWipe e (ReadUpdateState w) w.next.next.next).2
        else
          (Run.returned (zapUpdateState e (ReadUpdateState w)
              (decideWipe e (ReadUpdateState w) w.next.next.next).2).1,
            (zapUpdateState e (ReadUpdateState w)
              (decideWipe e (ReadUpdateState w) w.next.next.next).2).2)) := by
  have hst : ReadUpdateState w.next.next.next = ReadUpdateState w := rfl
  unfold HandleImminentDataWipe EnsureMetadataMounted
  simp only [hrec, Bool.not_true, Bool.false_eq_true, if_false, World.ask, hmount, hlock,
    ne_eq, not_true_eq_false, hst]

theorem zapUpdateState_events (e : Env) (state : UpdateState) (w : World)
    (hlock : ∀ t, e.lockOk t = true) :
    (zapUpdateState e state w).1 = true ∧
    (state = UpdateState.None → (zapUpdateState e state w).2 = w) ∧
    ∃ post, (zapUpdateState e state w).2.trace = w.trace ++ post ∧
      ∀ ev ∈ post, isStateWrite ev := by
  by_cases hs : state = UpdateState.None
  · rw [hs, zapUpdateState_none]
    exact ⟨rfl, fun _ => rfl, [], by simp, by simp⟩
  · rw [zapUpdateState_locked e state w hs (hlock _)]
    refine ⟨rfl, fun h => absurd h hs, ?_⟩
    rw [WriteUpdateState_None]
    obtain ⟨post, hp, hev⟩ := WriteSnapshotUpdateStatus_events e { state := UpdateState.None }
      w.next
    refine ⟨post, hp, ?_⟩
    intro ev hmem
    rcases hev ev hmem with ⟨st, ok, h⟩ | ⟨ms, ok, h⟩ <;> rw [h] <;> trivial

/-- When the merge before a wipe lets the wipe go on, the persisted state is
`None` afterwards, or the last event is the failed write of it. -/
theorem mergeBeforeWipe_final (e : Env) (rounds : Nat) (w : World)
    (h : (mergeBeforeWipe e rounds w).1 = Run.returned true) :
    ReadUpdateState (mergeBeforeWipe e rounds w).2 = UpdateState.None ∨
    (mergeBeforeWipe e rounds w).2.trace.getLast?
      = some (Event.writeGlobal { state := UpdateState.None } false) := by
  unfold mergeBeforeWipe at h ⊢
  obtain ⟨r, w1, hr⟩ : ∃ r w1,
      ProcessUpdateStateOnDataWipe e (some fun _ => true) rounds rounds w = (r, w1) :=
    ⟨_, _, rfl⟩
  rw [hr] at h ⊢
  cases r with
  | undefined => simp at h
  | unfinished => simp at h
  | returned state =>
    dsimp only at h ⊢
    by_cases hf : state = UpdateState.MergeFailed
    · rw [if_pos hf] at h
      simp at h
    · rw [if_neg hf] at h ⊢
      dsimp only at h ⊢
      apply zapUpdateState_cases
      · intro hnone
        rw [hnone] at hr
        have h1 := ProcessUpdateStateOnDataWipe_none e _ rounds rounds w w1 hr
        rw [ReadUpdateState_congr (UnmapAllPartitionsInRecovery_quiet e w1).1]
        exact h1
      · simpa using h

theorem mapAndMerge_final (e : Env) (rounds : Nat) (w : World)
    (h : (mapAndMerge e rounds w).1 = Run.returned true) :
    ReadUpdateState (mapAndMerge e rounds w).2 = UpdateState.None ∨
    (mapAndMerge e rounds w).2.trace.getLast?
      = some (Event.writeGlobal { state := UpdateState.None } false) := by
  unfold mapAndMerge at h ⊢
  obtain ⟨r, w1, hr⟩ : ∃ r w1, CreateLogicalAndSnapshotPartitions e 20000 w = (r, w1) :=
    ⟨_, _, rfl⟩
  rw [hr] at h ⊢
  cases r with
  | undefined => simp at h
  | unfinished => simp at h
  | returned ok =>
    cases ok
    · simp at h
    · exact mergeBeforeWipe_final e rounds w1 h

/-- C22 (as stated, refuted): in recovery, with the metadata mounted, the lock
obtainable and the persisted state `Initiated`, on a file system that takes no
write, `HandleImminentDataWipe` allows the wipe, yet the persisted state is
still `Initiated`: the write of `None` failed and its result is ignored. -/
theorem HandleImminentDataWipe_unzapped_counterexample :
    (HandleImminentDataWipe readOnlyRecoveryEnv 1 (worldWithState UpdateState.Initiated)).1
      = Run.returned true ∧
    (HandleImminentDataWipe readOnlyRecoveryEnv 1 (worldWithState UpdateState.Initiated)).2.trace
      = [Event.writeGlobal { state := UpdateState.None } false] ∧
    ReadUpdateState
      (HandleImminentDataWipe readOnlyRecoveryEnv 1 (worldWithState UpdateState.Initiated)).2
      = UpdateState.Initiated := by
  decide

/-- C22 (amended): in recovery, with the metadata mounted and the lock
obtainable,
(a) if the persisted state is `Merging` or `MergeFailed`, or `Unverified` on
the target slot with the forward-merge indicator present, then
`HandleImminentDataWipe` maps the partitions with their snapshots; it refuses
the wipe when that fails and otherwise goes on to process the update, unmap
and zap the state;
(b) in every other case it allows the wipe and records nothing but writes of
the state file, boot-control merge statuses and changes of the boot slots: no
device is mapped;
(c) for `None`, `Initiated`, `Cancelled` and `MergeNeedsReboot` it records
nothing but the write of the state (nothing at all, leaving the world but for
the tick untouched, for `None`);
(d) for `Unverified` on the target slot without the indicator it first marks
the current slot unbootable and activates the other slot;
(e) whenever it allows the wipe, the persisted state is `None` afterwards, or
the last thing that happened is the failed write of state `None`, whose
result is ignored. -/
theorem HandleImminentDataWipe_decides (e : Env) (rounds : Nat) (w : World)
    (hrec : e.isRecovery = true) (hmount : e.mountMetadata w.tick = true)
    (hlock : ∀ t, e.lockOk t = true) :
    (wantsMergeBeforeWipe e w →
      HandleImminentDataWipe e rounds w = mapAndMerge e rounds w.next.next.next ∧
      ((CreateLogicalAndSnapshotPartitions e 20000 w.next.next.next).1 = Run.returned false →
        (HandleImminentDataWipe e rounds w).1 = Run.returned false) ∧
      ((CreateLogicalAndSnapshotPartitions e 20000 w.next.next.next).1 = Run.returned true →
        HandleImminentDataWipe e rounds w
          = mergeBeforeWipe e rounds
              (CreateLogicalAndSnapshotPartitions e 20000 w.next.next.next).2)) ∧
    (¬ wantsMergeBeforeWipe e w →
      (HandleImminentDataWipe e rounds w).1 = Run.returned true ∧
      ∃ post, (HandleImminentDataWipe e rounds w).2.trace = w.trace ++ post ∧
        ∀ ev ∈ post, isWipeBookkeeping ev) ∧
    ((ReadUpdateState w = UpdateState.None ∨ ReadUpdateState w = UpdateState.Initiated ∨
        ReadUpdateState w = UpdateState.Cancelled ∨
        ReadUpdateState w = UpdateState.MergeNeedsReboot) →
      (HandleImminentDataWipe e rounds w).1 = Run.returned true ∧
      (ReadUpdateState w = UpdateState.None →
        (HandleImminentDataWipe e rounds w).2 = w.next.next.next) ∧
      ∃ post, (HandleImminentDataWipe e rounds w).2.trace = w.trace ++ post ∧
        ∀ ev ∈ post, isStateWrite ev) ∧
    (ReadUpdateState w = UpdateState.Unverified → GetCurrentSlot e w = Slot.Target →
      w.fs.forwardMergeIndicator = false →
      (HandleImminentDataWipe e rounds w).1 = Run.returned true ∧
      ∃ post, (HandleImminentDataWipe e rounds w).2.trace = w.trace ++
          Event.setSlotAsUnbootable (e.slotNumberForSlotSuffix e.slotSuffix) ::
          Event.setActiveBootSlot (e.slotNumberForSlotSuffix e.otherSlotSuffix) :: post ∧
        ∀ ev ∈ post, isStateWrite ev) ∧
    ((HandleImminentDataWipe e rounds w).1 = Run.returned true →
      ReadUpdateState (HandleImminentDataWipe e rounds w).2 = UpdateState.None ∨
      (HandleImminentDataWipe e rounds w).2.trace.getLast?
        = some (Event.writeGlobal { state := UpdateState.None } false)) := by
  have hrun := HandleImminentDataWipe_run e rounds w hrec hmount hlock
  have hd := decideWipe_merge e w w.next.next.next rfl
  have hev := decideWipe_events e (ReadUpdateState w) w.next.next.next
  have hz := zapUpdateState_events e (ReadUpdateState w)
    (decideWipe e (ReadUpdateState w) w.next.next.next).2 hlock
  have hplain : ¬ wantsMergeBeforeWipe e w →
      HandleImminentDataWipe e rounds w
        = (Run.returned true, (zapUpdateState e (ReadUpdateState w)
            (decideWipe e (ReadUpdateState w) w.next.next.next).2).2) := by
    intro hc
    rw [hrun, if_neg (by rw [hd.2 hc]; simp), hz.1]
  have hmerge : wantsMergeBeforeWipe e w →
      HandleImminentDataWipe e rounds w = mapAndMerge e rounds w.next.next.next := by
    intro hc
    rw [hrun, hd.1 hc]
    simp
  refine ⟨?_, ?_, ?_, ?_, ?_⟩
  · intro hc
    refine ⟨hmerge hc, ?_, ?_⟩
    · intro hm
      rw [hmerge hc]
      unfold mapAndMerge
      obtain ⟨r, w1, hr⟩ : ∃ r w1,
          CreateLogicalAndSnapshotPartitions e 20000 w.next.next.next = (r, w1) := ⟨_, _, rfl⟩
      rw [hr] at hm ⊢
      dsimp only at hm
      rw [hm]
    · intro hm
      rw [hmerge hc]
      unfold mapAndMerge
      obtain ⟨r, w1, hr⟩ : ∃ r w1,
          CreateLogicalAndSnapshotPartitions e 20000 w.next.next.next = (r, w1) := ⟨_, _, rfl⟩
      rw [hr] at hm ⊢
      dsimp only at hm
      rw [hm]
  · intro hc
    rw [hplain hc]
    refine ⟨rfl, ?_⟩
    obtain ⟨_, _, post, hp, hpost⟩ := hz
    rcases hev.2 with h | ⟨_, _, _, h⟩
    · refine ⟨post, ?_, ?_⟩
      · rw [hp, h]
        rfl
      · intro ev hmem
        have := hpost ev hmem
        cases ev <;> trivial
    · refine ⟨[Event.setSlotAsUnbootable (e.slotNumberForSlotSuffix e.slotSuffix),
          Event.setActiveBootSlot (e.slotNumberForSlotSuffix e.otherSlotSuffix)] ++ post,
        ?_, ?_⟩
      · rw [hp, h]
        simp only [List.append_assoc]
        rfl
      · intro ev hmem
        rcases List.mem_append.mp hmem with h1 | h1
        · simp only [List.mem_cons, List.mem_singleton, List.not_mem_nil, or_false] at h1
          rcases h1 with h1 | h1 <;> rw [h1] <;> trivial
        · have := hpost ev h1
          cases ev <;> trivial
  · intro hs
    have hc : ¬ wantsMergeBeforeWipe e w := by
      unfold wantsMergeBeforeWipe
      rcases hs with h | h | h | h <;> rw [h] <;> simp
    have hdp := decideWipe_plain e (ReadUpdateState w) w.next.next.next hs
    rw [hplain hc, hdp]
    rw [hdp] at hz
    obtain ⟨_, hnone, post, hp, hpost⟩ := hz
    exact ⟨rfl, hnone, post, hp, hpost⟩
  · intro hs hslot hind
    have hc : ¬ wantsMergeBeforeWipe e w := by
      unfold wantsMergeBeforeWipe
      rw [hs, hind]
      simp
    have htr : (decideWipe e (ReadUpdateState w) w.next.next.next).2.trace
        = w.trace ++ [Event.setSlotAsUnbootable (e.slotNumberForSlotSuffix e.slotSuffix),
            Event.setActiveBootSlot (e.slotNumberForSlotSuffix e.otherSlotSuffix)] := by
      rw [hs]
      have hslot2 : GetCurrentSlot e w.next.next.next = Slot.Target := hslot
      have hind2 : w.next.next.next.fs.forwardMergeIndicator = false := hind
      unfold decideWipe
      dsimp only
      rw [if_neg (by rw [hslot2]; simp), if_pos (by rw [hind2]; rfl)]
      simp [World.ask, World.log, World.next]
    rw [hplain hc]
    obtain ⟨_, _, post, hp, hpost⟩ := hz
    refine ⟨rfl, post, ?_, hpost⟩
    dsimp only
    rw [hp, htr]
    simp
  · intro hok
    by_cases hc : wantsMergeBeforeWipe e w
    · rw [hmerge hc] at hok ⊢
      exact mapAndMerge_final e rounds _ hok
    · rw [hplain hc]
      dsimp only
      apply zapUpdateState_cases
      · intro hnone
        rw [ReadUpdateState_congr hev.1]
        exact hnone
      · exact hz.1

/-- Witness for `HandleImminentDataWipe_decides`: an `Unverified` update on
the target slot without the forward-merge indicator is rolled back through
the boot control and the wipe is allowed. -/
theorem HandleImminentDataWipe_decides_witness :
    (HandleImminentDataWipe recoveryEnv 1 unverifiedOnTargetWorld).1 = Run.returned true :=
  ((HandleImminentDataWipe_decides recoveryEnv 1 unverifiedOnTargetWorld
    (by decide) (by decide) (fun _ => rfl)).2.2.2.1 (by decide) (by decide) (by decide)).1

/-! ## Merge monotonicity: a completed status that is rewritten -/

/-- `SwitchSnapshotToMerge` does not look at the state it read.  Whatever
that was: when the backend does not switch, no file changes; when it switches,
the status of `n` afterwards has state `MERGING` or, the write having failed
(its result is ignored), reads as before; when it switches and the write goes
through, the status is the one read with state `MERGING` (and, with the kernel
driver, refreshed sector counts). -/
theorem SwitchSnapshotToMerge_overwrites (e : Env) (n : String) (w : World)
    (st : SnapshotStatus) (hread : ReadSnapshotStatus w n = some st) :
    ((SwitchSnapshotToMerge e n w).1 ≠ MergeFailureCode.Ok →
      (SwitchSnapshotToMerge e n w).2.fs = w.fs) ∧
    ((SwitchSnapshotToMerge e n w).1 = MergeFailureCode.Ok →
      (∃ s, ReadSnapshotStatus (SwitchSnapshotToMerge e n w).2 n = some s ∧
        s.state = SnapshotState.MERGING) ∨
      ReadSnapshotStatus (SwitchSnapshotToMerge e n w).2 n = some st) ∧
    ((SwitchSnapshotToMerge e n w).1 = MergeFailureCode.Ok → n ≠ "" →
      (∀ t, e.writeFileOk t = true) →
      ∃ s, ReadSnapshotStatus (SwitchSnapshotToMerge e n w).2 n = some s ∧
        s.state = SnapshotState.MERGING) := by
  have hname := ReadSnapshotStatus_name w n st hread
  obtain ⟨code, w1, hb⟩ : ∃ code w1, switchBackend e n w = (code, w1) := ⟨_, _, rfl⟩
  have hfs1 : w1.fs = w.fs := by
    have := switchBackend_fs e n w
    rw [hb] at this
    exact this
  obtain ⟨s2, w2, hr⟩ : ∃ s2 w2, refreshSectors e n { st with state := SnapshotState.MERGING }
      (w1.log (Event.switchToMerge n st w.fs.snapshots (decide (code = MergeFailureCode.Ok))))
      = (s2, w2) := ⟨_, _, rfl⟩
  have hs2 := refreshSectors_status e n { st with state := SnapshotState.MERGING }
    (w1.log (Event.switchToMerge n st w.fs.snapshots (decide (code = MergeFailureCode.Ok))))
  have hfs2 := refreshSectors_fs e n { st with state := SnapshotState.MERGING }
    (w1.log (Event.switchToMerge n st w.fs.snapshots (decide (code = MergeFailureCode.Ok))))
  rw [hr] at hs2 hfs2
  have hfs2b : w2.fs = w.fs := by
    rw [hfs2]
    exact hfs1
  have hs2name : s2.name = n := by
    rw [hs2.1]
    exact hname
  have hs2state : s2.state = SnapshotState.MERGING := hs2.2.1
  have hcall : SwitchSnapshotToMerge e n w
      = if code ≠ MergeFailureCode.Ok then
          (code, w1.log (Event.switchToMerge n st w.fs.snapshots
            (decide (code = MergeFailureCode.Ok))))
        else (MergeFailureCode.Ok, (WriteSnapshotStatus e s2 w2).2) := by
    unfold SwitchSnapshotToMerge
    rw [hread]
    dsimp only
    rw [hb]
    dsimp only
    rw [hr]
  rw [hcall]
  by_cases hc : code = MergeFailureCode.Ok
  · rw [if_neg (by simp [hc])]
    dsimp only
    have hreadback : (WriteSnapshotStatus e s2 w2).1 = true →
        ReadSnapshotStatus (WriteSnapshotStatus e s2 w2).2 n = some s2 := by
      intro hok
      have := ReadSnapshotStatus_after_write e s2 w2 hok
      rw [hs2name] at this
      exact this
    refine ⟨fun h => absurd rfl h, fun _ => ?_, fun _ hne hw => ?_⟩
    · cases hok : (WriteSnapshotStatus e s2 w2).1 with
      | true => exact Or.inl ⟨s2, hreadback hok, hs2state⟩
      | false =>
        right
        unfold ReadSnapshotStatus
        rw [WriteSnapshotStatus_snapshots, hok]
        simp only [Bool.false_eq_true, if_false]
        rw [hfs2b]
        exact hread
    · have hok : (WriteSnapshotStatus e s2 w2).1 = true := by
        unfold WriteSnapshotStatus
        rw [if_neg (by rw [hs2name]; exact hne)]
        simp [World.ask, hw]
      exact ⟨s2, hreadback hok, hs2state⟩
  · rw [if_pos hc]
    dsimp only
    refine ⟨fun _ => hfs1, fun h => absurd h hc, fun h => absurd h hc⟩

end Snapshot
